import Mathlib

/-!
# Triflight output mixer: shallow embedding of `src/main/flight/mixer.c`

Conventions of the embedding.

* C integers are `Int`; every store into an `int16_t` / `uint16_t` object goes
  through `toInt16` / `toUInt16` (two's complement wrap-around).  Arithmetic
  in C `int` (32 bit) is done on unbounded `Int`: the operands are 16-bit
  values, whose sums and pairwise products stay inside 32 bits.  The triple
  products of the tail conversions can leave 32 bits for servo values far
  outside the calibrated range; the model does not follow the program there.
* C `float` values are rationals (`ℚ`).  The single-precision rounding of the
  airmode scaling (the quotient `mixReduction`, its products with the mix
  values and the saturation limit, source lines 902-908) is modelled by
  `roundF32`.  The other `float` expressions are evaluated exactly: for the
  integer-valued geometry tables (for instance `mixerQuadX`) and 16-bit
  inputs, single-precision arithmetic is exact, so the model coincides with
  the program there.
* A conversion of a `float` to an integer type truncates toward zero
  (`truncf`); `lrintf` rounds to nearest, ties to even.
* Arrays are total functions on `Nat`; the program only ever touches the
  indexes below the array size.
* C integer division truncates toward zero (`Int.tdiv`).  A division by zero
  has no result: the functions whose divisor is not a constant have a checked
  form (`getServoAngleInDeciDegreesChecked` ... `mixTableChecked`) that
  returns `none` in that case; the unchecked form is the value when every
  divisor is different from 0.
* The build modelled has `USE_SERVOS` defined and `USE_QUAD_MIXER_ONLY`
  undefined.
-/

namespace Mixer

/-! ## Machine arithmetic -/

/-- Store into an `int16_t` object: wrap-around modulo `2^16`. -/
def toInt16 (x : Int) : Int := (x + 32768) % 65536 - 32768

/-- Store into a `uint16_t` object: wrap-around modulo `2^16`. -/
def toUInt16 (x : Int) : Int := x % 65536

/-- Store into an `int8_t` object. -/
def toInt8 (x : Int) : Int := (x + 128) % 256 - 128

/-- Largest value of an `int16_t`. -/
def INT16_MAX : Int := 32767

/-- Smallest value of an `int16_t`. -/
def INT16_MIN : Int := -32768

/-- Conversion of a `float` to an integer type: truncation toward zero. -/
def truncf (q : ℚ) : Int := Int.tdiv q.num q.den

/-- Rounding of a `float` to the nearest integer, ties to even (`lrintf` in
the default rounding mode). -/
def lrintf (q : ℚ) : Int :=
  if q - (Int.floor q : ℚ) < 1 / 2 then Int.floor q
  else if 1 / 2 < q - (Int.floor q : ℚ) then Int.floor q + 1
  else if Int.floor q % 2 = 0 then Int.floor q
  else Int.floor q + 1

/-- The power `2^e` for an integer exponent. -/
def pow2 (e : Int) : ℚ :=
  if 0 ≤ e then ((2 ^ e.toNat : Nat) : ℚ) else 1 / ((2 ^ (-e).toNat : Nat) : ℚ)

/-- Position of the leading binary digit of `n`, by repeated halving; `fuel`
bounds the number of steps. -/
def leadingBit : Nat → Nat → Nat
  | 0, _ => 0
  | fuel + 1, n => if n < 2 then 0 else leadingBit fuel (n / 2) + 1

/-- The binary exponent of a non-zero rational: the `e` with
`2^e ≤ |q| < 2^(e+1)`. -/
def binade (q : ℚ) : Int :=
  let e0 : Int := (leadingBit q.num.natAbs q.num.natAbs : Int) - (leadingBit q.den q.den : Int)
  if pow2 e0 ≤ |q| then e0 else e0 - 1

/-- The result of a single-precision (`float`, IEEE 754 binary32) operation
whose exact result is `q`: the nearest number with a 24-bit significand, ties
to even, with the spacing `2^-149` of the subnormal numbers below `2^-126`.
Results beyond the largest finite `float` are not modelled. -/
def roundF32 (q : ℚ) : ℚ :=
  if q = 0 then 0
  else (lrintf (q / pow2 (max (binade q - 23) (-149))) : ℚ) * pow2 (max (binade q - 23) (-149))

/-- Modelled from the spec: `constrain` of `common/maths.h` (not under
`src/`), the clamp of `amt` to `[low, high]`, tested low bound first. -/
def constrain (amt low high : Int) : Int :=
  if amt < low then low else if amt > high then high else amt

/-- Modelled from the spec: `constrainf` of `common/maths.h`, the clamp on
`float`. -/
def constrainf (amt low high : ℚ) : ℚ :=
  if amt < low then low else if amt > high then high else amt

/-- The `ABS` macro on integers. -/
def ABS (x : Int) : Int := if x > 0 then x else -x

/-- The `ABS` macro on floats. -/
def ABSf (x : ℚ) : ℚ := if x > 0 then x else -x

/-- Modelled from the spec: `scaleRange` of `common/maths.c` (not under
`src/`), the linear map of `[srcMin, srcMax]` onto `[destMin, destMax]` in
integer arithmetic. -/
def scaleRange (x srcMin srcMax destMin destMax : Int) : Int :=
  (Int.tdiv ((destMax - destMin) * (x - srcMin)) (srcMax - srcMin) - (destMax - destMin)) + destMax

/-! ## Constants of the headers -/

/-- Modelled from the spec: `MAX_SUPPORTED_MOTORS` (`MAX_MOTORS`, 8). -/
def MAX_SUPPORTED_MOTORS : Nat := 8

/-- Modelled from the spec: `MAX_SUPPORTED_SERVOS` (`MAX_SERVOS`, 8). -/
def MAX_SUPPORTED_SERVOS : Nat := 8

/-- Source line 57. -/
def INT_PRECISION : Int := 1024

/-- Source line 60. -/
def TRI_TAIL_SERVO_ANGLE_MID_DD : Int := 900

/-- Source line 61. -/
def TRI_YAW_FORCE_CURVE_SIZE : Nat := 100

/-- Source line 62. -/
def TRI_TAIL_SERVO_MAX_ANGLE_DD : Int := 500

/-- Source line 65. -/
def TRI_TAIL_MOTOR_CURVE_MAX_PHASE_SHIFT_DEGREES : ℚ := 15

/-- Modelled from the spec: the `HIGH_SENTINEL` of yaw jump prevention,
`YAW_JUMP_PREVENTION_LIMIT_HIGH` of `flight/mixer.h`. -/
def YAW_JUMP_PREVENTION_LIMIT_HIGH : Int := 500

/-- Modelled from the spec: `CHANNEL_FORWARDING_DISABLED`, `0xFF`. -/
def CHANNEL_FORWARDING_DISABLED : Nat := 255

/-- Axis index `ROLL` of `common/axis.h` and `rx/rx.h`. -/
def ROLL : Nat := 0

/-- Axis index `PITCH`. -/
def PITCH : Nat := 1

/-- Axis index `YAW`. -/
def YAW : Nat := 2

/-- Channel index `THROTTLE`. -/
def THROTTLE : Nat := 3

/-- Channel index `AUX1`. -/
def AUX1 : Nat := 4

/-- Channel index `AUX2`. -/
def AUX2 : Nat := 5

/-- Channel index `AUX3`. -/
def AUX3 : Nat := 6

/-- Channel index `AUX4`. -/
def AUX4 : Nat := 7

/-- Modelled from the spec: `MAX_AUX_CHANNEL_COUNT` of `rx/rx.h`. -/
def MAX_AUX_CHANNEL_COUNT : Nat := 14

/-- Modelled from the spec: `MAX_SUPPORTED_RC_CHANNEL_COUNT` of `rx/rx.h`. -/
def MAX_SUPPORTED_RC_CHANNEL_COUNT : Nat := 18

/-! Servo mixer input sources (`inputSource_e` of `flight/mixer.h`). -/

/-- Input source of the stabilised roll. -/
def INPUT_STABILIZED_ROLL : Nat := 0

/-- Input source of the stabilised pitch. -/
def INPUT_STABILIZED_PITCH : Nat := 1

/-- Input source of the stabilised yaw. -/
def INPUT_STABILIZED_YAW : Nat := 2

/-- Input source of the stabilised throttle. -/
def INPUT_STABILIZED_THROTTLE : Nat := 3

/-- Input source of the raw roll channel. -/
def INPUT_RC_ROLL : Nat := 4

/-- Input source of the raw pitch channel. -/
def INPUT_RC_PITCH : Nat := 5

/-- Input source of the raw yaw channel. -/
def INPUT_RC_YAW : Nat := 6

/-- Input source of the raw throttle channel. -/
def INPUT_RC_THROTTLE : Nat := 7

/-- Input source of AUX1. -/
def INPUT_RC_AUX1 : Nat := 8

/-- Input source of AUX2. -/
def INPUT_RC_AUX2 : Nat := 9

/-- Input source of AUX3. -/
def INPUT_RC_AUX3 : Nat := 10

/-- Input source of AUX4. -/
def INPUT_RC_AUX4 : Nat := 11

/-- Input source of the gimbal pitch angle. -/
def INPUT_GIMBAL_PITCH : Nat := 12

/-- Input source of the gimbal roll angle. -/
def INPUT_GIMBAL_ROLL : Nat := 13

/-! Servo channels (`servoIndex_e` of `flight/mixer.h`). -/

/-- Servo channel of the gimbal pitch servo. -/
def SERVO_GIMBAL_PITCH : Nat := 0

/-- Servo channel of the gimbal roll servo. -/
def SERVO_GIMBAL_ROLL : Nat := 1

/-- Servo channel of the flaps. -/
def SERVO_FLAPS : Nat := 2

/-- Servo channel of the first flapperon. -/
def SERVO_FLAPPERON_1 : Nat := 3

/-- Servo channel of the second flapperon. -/
def SERVO_FLAPPERON_2 : Nat := 4

/-- Servo channel of the rudder (the tricopter tail servo). -/
def SERVO_RUDDER : Nat := 5

/-- Servo channel of the elevator. -/
def SERVO_ELEVATOR : Nat := 6

/-- Servo channel of the throttle servo. -/
def SERVO_THROTTLE : Nat := 7

/-- Servo channel of the left bicopter servo. -/
def SERVO_BICOPTER_LEFT : Nat := 4

/-- Servo channel of the right bicopter servo. -/
def SERVO_BICOPTER_RIGHT : Nat := 5

/-- Servo channel of the left dualcopter servo. -/
def SERVO_DUALCOPTER_LEFT : Nat := 4

/-- Servo channel of the right dualcopter servo. -/
def SERVO_DUALCOPTER_RIGHT : Nat := 5

/-- First singlecopter servo channel. -/
def SERVO_SINGLECOPTER_INDEX_MIN : Nat := 3

/-- Last singlecopter servo channel. -/
def SERVO_SINGLECOPTER_INDEX_MAX : Nat := 6

/-- Modelled from the spec: first servo channel emitted for an airplane
(section 6 lists FLAPPERON_1 .. THROTTLE). -/
def SERVO_PLANE_INDEX_MIN : Nat := 3

/-- Last servo channel emitted for an airplane. -/
def SERVO_PLANE_INDEX_MAX : Nat := 7

/-- Value `GIMBAL_MODE_MIXTILT` of `io/gimbal.h`. -/
def GIMBAL_MODE_MIXTILT : Nat := 1

/-! ## Data model -/

/-- The airframe kinds, in the order of the table `mixers` (source lines
223-251). -/
inductive mixerMode_e where
  | MIXER_NONE
  | MIXER_TRI
  | MIXER_QUADP
  | MIXER_QUADX
  | MIXER_BICOPTER
  | MIXER_GIMBAL
  | MIXER_Y6
  | MIXER_HEX6
  | MIXER_FLYING_WING
  | MIXER_Y4
  | MIXER_HEX6X
  | MIXER_OCTOX8
  | MIXER_OCTOFLATP
  | MIXER_OCTOFLATX
  | MIXER_AIRPLANE
  | MIXER_HELI_120_CCPM
  | MIXER_HELI_90_DEG
  | MIXER_VTAIL4
  | MIXER_HEX6H
  | MIXER_PPM_TO_SERVO
  | MIXER_DUALCOPTER
  | MIXER_SINGLECOPTER
  | MIXER_ATAIL4
  | MIXER_CUSTOM
  | MIXER_CUSTOM_AIRPLANE
  | MIXER_CUSTOM_TRI
  deriving DecidableEq, Repr

open mixerMode_e

/-- One row of the motor mixing matrix (`motorMixer_t`, four floats). -/
structure motorMixer_t where
  throttle : ℚ
  roll : ℚ
  pitch : ℚ
  yaw : ℚ
  deriving DecidableEq

/-- One servo mixing rule (`servoMixer_t`). -/
structure servoMixer_t where
  targetChannel : Nat
  inputSource : Nat
  rate : Int
  speed : Nat
  min : Int
  max : Int
  box : Nat
  deriving DecidableEq

/-- Per-servo calibration (`servoParam_t`). -/
structure servoParam_t where
  min : Int
  max : Int
  middle : Int
  rate : Int
  forwardFromChannel : Nat
  reversedSources : Nat

/-- ESC command range (`escAndServoConfig_t`, `motorConfig_t`). -/
structure escAndServoConfig_t where
  minthrottle : Int
  maxthrottle : Int
  mincommand : Int

/-- Bidirectional throttle configuration (`flight3DConfig_t`). -/
structure flight3DConfig_t where
  deadband3d_low : Int
  deadband3d_high : Int
  neutral3d : Int
  deadband3d_throttle : Int

/-- Behavioural knobs of the mixer (`mixerConfig_t`). -/
structure mixerConfig_t where
  pid_at_min_throttle : Nat
  yaw_motor_direction : Int
  yaw_jump_prevention_limit : Int
  tri_unarmed_servo : Nat
  airmode_saturation_limit : Nat
  tri_tail_motor_thrustfactor : Int
  tri_tail_servo_speed : Int
  tri_servo_angle_at_max : Int

/-- The receiver configuration fields the mixer reads (`rxConfig_t`). -/
structure rxConfig_t where
  midrc : Int
  mincheck : Int

/-- Everything `mixTable` and `writeServos` read but do not write: the
configuration, the inputs of the cycle and the flag accessors.  The
trigonometric functions are parameters; `cosf` and `sinf` are only used by
`initTailServoSymmetry`. -/
structure Env where
  escAndServoConfig : escAndServoConfig_t
  flight3DConfig : flight3DConfig_t
  mixerConfig : mixerConfig_t
  rxConfig : rxConfig_t
  servoConf : Nat → servoParam_t
  gimbalMode : Nat
  rcCommand : Nat → Int
  rcData : Nat → Int
  attitudePitch : Int
  attitudeRoll : Int
  armed : Bool
  failsafeIsActive : Bool
  airmode : Bool
  camstab : Bool
  passthru : Bool
  servoBox : Nat → Bool
  feature3D : Bool
  featureMotorStop : Bool
  featureServoTilt : Bool
  featureChannelForwarding : Bool
  channelCount : Nat
  dT : ℚ
  sin_approx : ℚ → ℚ
  cos_approx : ℚ → ℚ
  DEGREES_TO_RADIANS : ℚ → ℚ
  cosf : ℚ → ℚ := fun x => x
  sinf : ℚ → ℚ := fun x => x

/-- The file-scope and function-static variables of `mixer.c`, together with
the global `axisPID`, which `mixTable` overwrites.  The last five fields are
only used by the initialisation: the arrays behind the pointers
`customMixers` and `customServoMixers`, `useServo`, `servoCount` and the
state flag FIXED_WING. -/
structure State where
  motorCount : Nat
  motor : Nat → Int
  motor_disarmed : Nat → Int
  motorLimitReached : Bool
  currentMixerMode : mixerMode_e
  currentMixer : Nat → motorMixer_t
  axisPID : Nat → Int
  throttlePrevious : Int
  servoRuleCount : Nat
  currentServoMixer : Nat → servoMixer_t
  servo : Nat → Int
  currentOutput : Nat → Int
  curveIndex : Int
  counter : Int
  tailServoMaxYawForce : Int
  tailServoThrustFactor : ℚ
  tailServoMaxAngle_DD : Int
  virtualServoAngle_D : ℚ
  yawForceCurve : Nat → Int
  customMixers : Nat → motorMixer_t := fun _ => { throttle := 0, roll := 0, pitch := 0, yaw := 0 }
  customServoMixers : Nat → servoMixer_t := fun _ =>
    { targetChannel := 0, inputSource := 0, rate := 0, speed := 0, min := 0, max := 0, box := 0 }
  useServo : Bool := false
  servoCount : Nat := 0
  fixedWing : Bool := false

/-- The geometry table `mixerQuadX` (source lines 98-103): REAR_R, FRONT_R,
REAR_L, FRONT_L. -/
def mixerQuadX : List motorMixer_t :=
  [ { throttle := 1, roll := -1, pitch := 1, yaw := -1 },
    { throttle := 1, roll := -1, pitch := -1, yaw := 1 },
    { throttle := 1, roll := 1, pitch := 1, yaw := 1 },
    { throttle := 1, roll := 1, pitch := -1, yaw := -1 } ]

/-- The all-zero row a zero-initialised `currentMixer` entry holds. -/
def motorMixerZero : motorMixer_t := { throttle := 0, roll := 0, pitch := 0, yaw := 0 }

/-- A motor table read as the array the program indexes. -/
def tableRow (t : List motorMixer_t) (i : Nat) : motorMixer_t := t.getD i motorMixerZero

/-! ## Initialisation of the disarmed values -/

/-- Function `mixerResetDisarmedMotors` (source lines 585-591). -/
def mixerResetDisarmedMotors (env : Env) (st : State) : State :=
  { st with
    motor_disarmed := fun i =>
      if i < MAX_SUPPORTED_MOTORS then
        toInt16 (if env.feature3D then env.flight3DConfig.neutral3d
                 else env.escAndServoConfig.mincommand)
      else st.motor_disarmed i }

/-! ## Tricopter tail helpers used by `mixTable` -/

/-- Function `getServoAngleInDeciDegrees` (source lines 1189-1196).  The
argument is converted to the `uint16_t` parameter; the locals are
`int16_t`.  This is the value returned when the divisor `endValue - midValue`
is not 0; `getServoAngleInDeciDegreesChecked` makes the division by zero
explicit. -/
def getServoAngleInDeciDegrees (st : State) (servoConf : servoParam_t) (servoValueArg : Int) : Int :=
  let servoValue := toUInt16 servoValueArg
  let midValue := toInt16 servoConf.middle
  let endValue := toInt16 (if servoValue < midValue then servoConf.min else servoConf.max)
  let endAngle := toInt16 (if servoValue < midValue
    then TRI_TAIL_SERVO_ANGLE_MID_DD - st.tailServoMaxAngle_DD
    else TRI_TAIL_SERVO_ANGLE_MID_DD + st.tailServoMaxAngle_DD)
  let servoAngle := toInt16
    (Int.tdiv (Int.tdiv ((endAngle - TRI_TAIL_SERVO_ANGLE_MID_DD) * (servoValue - midValue) * INT_PRECISION)
        (endValue - midValue)) INT_PRECISION + TRI_TAIL_SERVO_ANGLE_MID_DD)
  toUInt16 servoAngle

/-- Function `getPitchCorrectionAtTailAngle` (source lines 1146-1149);
`sin_approx`, `cos_approx` and `DEGREES_TO_RADIANS` are parameters. -/
def getPitchCorrectionAtTailAngle (env : Env) (st : State) (angle : ℚ) : ℚ :=
  1 / (env.sin_approx (env.DEGREES_TO_RADIANS angle)
        - env.cos_approx (env.DEGREES_TO_RADIANS angle) / st.tailServoThrustFactor)

/-- Function `getVirtualServoAngleInDegrees` (source lines 1217-1220). -/
def getVirtualServoAngleInDegrees (st : State) : ℚ := st.virtualServoAngle_D

/-! ## `mixTable`, motor part (source lines 821-1002) -/

/-- Function `mixConstrainMotorForFailsafeCondition` (source lines 816-819),
on the motor array it reads; the result type is `uint16_t`. -/
def mixConstrainMotorForFailsafeCondition (env : Env) (motor : Nat → Int) (motorIndex : Nat) : Int :=
  toUInt16 (constrain (motor motorIndex) env.escAndServoConfig.mincommand env.escAndServoConfig.maxthrottle)

/-- Yaw jump prevention (source lines 827-830). -/
def yawJumpPrevention (env : Env) (st : State) : State :=
  if st.motorCount ≥ 4 ∧ env.mixerConfig.yaw_jump_prevention_limit < YAW_JUMP_PREVENTION_LIMIT_HIGH then
    { st with
      axisPID := fun a =>
        if a = YAW then
          toInt16 (constrain (st.axisPID YAW)
            (-env.mixerConfig.yaw_jump_prevention_limit - ABS (env.rcCommand YAW))
            (env.mixerConfig.yaw_jump_prevention_limit + ABS (env.rcCommand YAW)))
        else st.axisPID a }
  else st

/-- Tricopter pre-hook (source lines 832-848): the throttle coefficient of
motor 0 follows the predicted tail angle. -/
def triPreHook (env : Env) (st : State) : State :=
  if st.currentMixerMode = MIXER_TRI then
    let servoAngle_D := getVirtualServoAngleInDegrees st
    let servoSetpointAngle_D : ℚ :=
      (getServoAngleInDeciDegrees st (env.servoConf 0) (st.servo SERVO_RUDDER) : ℚ) / 10
    let angleDiff0 := servoSetpointAngle_D - servoAngle_D
    let angleDiff_D :=
      if ABSf angleDiff0 > TRI_TAIL_MOTOR_CURVE_MAX_PHASE_SHIFT_DEGREES then
        TRI_TAIL_MOTOR_CURVE_MAX_PHASE_SHIFT_DEGREES * angleDiff0 / ABSf angleDiff0
      else angleDiff0
    let futureServoAngle := constrainf (servoAngle_D + angleDiff_D)
      ((TRI_TAIL_SERVO_ANGLE_MID_DD - st.tailServoMaxAngle_DD : Int) : ℚ)
      ((TRI_TAIL_SERVO_ANGLE_MID_DD + st.tailServoMaxAngle_DD : Int) : ℚ)
    { st with
      currentMixer := fun i =>
        if i = 0 then
          { st.currentMixer 0 with throttle := getPitchCorrectionAtTailAngle env st futureServoAngle }
        else st.currentMixer i }
  else st

/-! ### Airmode branch (source lines 850-930) -/

/-- Roll/pitch/yaw part of motor `i` (source lines 858-861), an `int16_t`. -/
def rollPitchYawMix (env : Env) (st : State) (i : Nat) : Int :=
  toInt16 (truncf
    ((st.axisPID PITCH : ℚ) * (st.currentMixer i).pitch
      + (st.axisPID ROLL : ℚ) * (st.currentMixer i).roll
      + ((-env.mixerConfig.yaw_motor_direction * st.axisPID YAW : Int) : ℚ) * (st.currentMixer i).yaw))

/-- Running maximum `rollPitchYawMixMax` (source lines 853, 863), started
at 0. -/
def rollPitchYawMixMax (env : Env) (st : State) : Int :=
  (List.range st.motorCount).foldl
    (fun acc i => if rollPitchYawMix env st i > acc then rollPitchYawMix env st i else acc) 0

/-- Running minimum `rollPitchYawMixMin` (source lines 854, 864), started
at 0. -/
def rollPitchYawMixMin (env : Env) (st : State) : Int :=
  (List.range st.motorCount).foldl
    (fun acc i => if rollPitchYawMix env st i < acc then rollPitchYawMix env st i else acc) 0

/-- Variable `rollPitchYawMixRange` (source line 868), an `int16_t`. -/
def rollPitchYawMixRange (env : Env) (st : State) : Int :=
  toInt16 (rollPitchYawMixMax env st - rollPitchYawMixMin env st)

/-- The locals `throttle`, `throttleMin`, `throttleMax` and the static
`throttlePrevious` after source lines 874-896. -/
structure throttleBand where
  throttle : Int
  throttleMin : Int
  throttleMax : Int
  throttlePrevious : Int

/-- Resolution of the throttle band (source lines 874-896). -/
def airmodeBand (env : Env) (st : State) : throttleBand :=
  if env.feature3D then
    let prev := if !env.armed then toInt16 env.rxConfig.midrc else st.throttlePrevious
    if env.rcData THROTTLE ≤ env.rxConfig.midrc - env.flight3DConfig.deadband3d_throttle then
      { throttleMax := toInt16 env.flight3DConfig.deadband3d_low
        throttleMin := toInt16 env.escAndServoConfig.minthrottle
        throttle := toInt16 (env.rcData THROTTLE)
        throttlePrevious := toInt16 (env.rcData THROTTLE) }
    else if env.rcData THROTTLE ≥ env.rxConfig.midrc + env.flight3DConfig.deadband3d_throttle then
      { throttleMax := toInt16 env.escAndServoConfig.maxthrottle
        throttleMin := toInt16 env.flight3DConfig.deadband3d_high
        throttle := toInt16 (env.rcData THROTTLE)
        throttlePrevious := toInt16 (env.rcData THROTTLE) }
    else if prev ≤ env.rxConfig.midrc - env.flight3DConfig.deadband3d_throttle then
      { throttleMax := toInt16 env.flight3DConfig.deadband3d_low
        throttle := toInt16 env.flight3DConfig.deadband3d_low
        throttleMin := toInt16 env.escAndServoConfig.minthrottle
        throttlePrevious := prev }
    else
      { throttleMax := toInt16 env.escAndServoConfig.maxthrottle
        throttleMin := toInt16 env.flight3DConfig.deadband3d_high
        throttle := toInt16 env.flight3DConfig.deadband3d_high
        throttlePrevious := prev }
  else
    { throttle := toInt16 (env.rcCommand THROTTLE)
      throttleMin := toInt16 env.escAndServoConfig.minthrottle
      throttleMax := toInt16 env.escAndServoConfig.maxthrottle
      throttlePrevious := st.throttlePrevious }

/-- Variable `throttleRange` (source line 898), an `int16_t`. -/
def throttleRange (env : Env) (st : State) : Int :=
  toInt16 ((airmodeBand env st).throttleMax - (airmodeBand env st).throttleMin)

/-- Test of source line 900: the roll/pitch/yaw demand does not fit the
throttle band. -/
def airmodeSaturated (env : Env) (st : State) : Bool :=
  decide (rollPitchYawMixRange env st > throttleRange env st)

/-- Variable `mixReduction` (source line 902): the quotient of the two
`int16_t` values in single precision. -/
def mixReduction (env : Env) (st : State) : ℚ :=
  roundF32 ((throttleRange env st : ℚ) / (rollPitchYawMixRange env st : ℚ))

/-- Array `rollPitchYawMix` after source lines 900-912: when saturated the
single-precision product with `mixReduction`, rounded by `lrintf`; unchanged
otherwise. -/
def rollPitchYawMixScaled (env : Env) (st : State) (i : Nat) : Int :=
  if airmodeSaturated env st then
    toInt16 (lrintf (roundF32 ((rollPitchYawMix env st i : ℚ) * mixReduction env st)))
  else rollPitchYawMix env st i

/-- Variable `throttleMin` after source lines 900-912. -/
def airmodeThrottleMin (env : Env) (st : State) : Int :=
  if airmodeSaturated env st then
    if mixReduction env st > roundF32 ((env.mixerConfig.airmode_saturation_limit : ℚ) / 100) then
      toInt16 ((airmodeBand env st).throttleMin + Int.tdiv (throttleRange env st) 2)
    else (airmodeBand env st).throttleMin
  else
    toInt16 ((airmodeBand env st).throttleMin + Int.tdiv (rollPitchYawMixRange env st) 2)

/-- Variable `throttleMax` after source lines 900-912. -/
def airmodeThrottleMax (env : Env) (st : State) : Int :=
  if airmodeSaturated env st then
    if mixReduction env st > roundF32 ((env.mixerConfig.airmode_saturation_limit : ℚ) / 100) then
      toInt16 ((airmodeBand env st).throttleMin + Int.tdiv (throttleRange env st) 2)
    else (airmodeBand env st).throttleMax
  else
    toInt16 ((airmodeBand env st).throttleMax - Int.tdiv (rollPitchYawMixRange env st) 2)

/-- Value stored in `motor[i]` by source line 917. -/
def airmodeMix (env : Env) (st : State) (i : Nat) : Int :=
  toInt16 (rollPitchYawMixScaled env st i
    + constrain (truncf (((airmodeBand env st).throttle : ℚ) * (st.currentMixer i).throttle))
        (airmodeThrottleMin env st) (airmodeThrottleMax env st))

/-- Value of `motor[i]` after the regime clamp of source lines 919-929. -/
def airmodeMotor (env : Env) (st : State) (i : Nat) : Int :=
  if env.failsafeIsActive then
    toInt16 (mixConstrainMotorForFailsafeCondition env (airmodeMix env st) i)
  else if env.feature3D then
    if (airmodeBand env st).throttlePrevious
        ≤ env.rxConfig.midrc - env.flight3DConfig.deadband3d_throttle then
      toInt16 (constrain (airmodeMix env st i)
        env.escAndServoConfig.minthrottle env.flight3DConfig.deadband3d_low)
    else
      toInt16 (constrain (airmodeMix env st i)
        env.flight3DConfig.deadband3d_high env.escAndServoConfig.maxthrottle)
  else
    toInt16 (constrain (airmodeMix env st i)
      env.escAndServoConfig.minthrottle env.escAndServoConfig.maxthrottle)

/-- The airmode branch of `mixTable` (source lines 850-930). -/
def mixTableAirmode (env : Env) (st : State) : State :=
  { st with
    throttlePrevious := (airmodeBand env st).throttlePrevious
    motorLimitReached := airmodeSaturated env st
    motor := fun i => if i < st.motorCount then airmodeMotor env st i else st.motor i }

/-! ### Classic branch (source lines 931-994) -/

/-- Value stored in `motor[i]` by source lines 934-938, an `int16_t`. -/
def classicMix (env : Env) (st : State) (i : Nat) : Int :=
  toInt16 (truncf
    ((env.rcCommand THROTTLE : ℚ) * (st.currentMixer i).throttle
      + (st.axisPID PITCH : ℚ) * (st.currentMixer i).pitch
      + (st.axisPID ROLL : ℚ) * (st.currentMixer i).roll
      + ((-env.mixerConfig.yaw_motor_direction * st.axisPID YAW : Int) : ℚ) * (st.currentMixer i).yaw))

/-- Array `motor` after the loop of source lines 933-939. -/
def classicMotorArray (env : Env) (st : State) (i : Nat) : Int :=
  if i < st.motorCount then classicMix env st i else st.motor i

/-- Variable `maxMotor` (source lines 942-950): starts at `motor[0]`, then
scans the indexes `1 .. motorCount - 1`. -/
def maxMotor (env : Env) (st : State) : Int :=
  (List.range' 1 (st.motorCount - 1)).foldl
    (fun acc i => if classicMotorArray env st i > acc then classicMotorArray env st i else acc)
    (classicMotorArray env st 0)

/-- Variable `maxThrottleDifference` (source lines 952-955), an `int16_t`. -/
def maxThrottleDifference (env : Env) (st : State) : Int :=
  if maxMotor env st > env.escAndServoConfig.maxthrottle then
    toInt16 (maxMotor env st - env.escAndServoConfig.maxthrottle)
  else 0

/-- Value of `motor[i]` after source line 959. -/
def classicRebalanced (env : Env) (st : State) (i : Nat) : Int :=
  toInt16 (classicMotorArray env st i - maxThrottleDifference env st)

/-- Value of `motor[i]` after the regime handling of source lines 961-992. -/
def classicMotor (env : Env) (st : State) (i : Nat) : Int :=
  if env.feature3D then
    if env.mixerConfig.pid_at_min_throttle ≠ 0
        ∨ env.rcData THROTTLE ≤ env.rxConfig.midrc - env.flight3DConfig.deadband3d_throttle
        ∨ env.rcData THROTTLE ≥ env.rxConfig.midrc + env.flight3DConfig.deadband3d_throttle then
      if env.rcData THROTTLE > env.rxConfig.midrc then
        toInt16 (constrain (classicRebalanced env st i)
          env.flight3DConfig.deadband3d_high env.escAndServoConfig.maxthrottle)
      else
        toInt16 (constrain (classicRebalanced env st i)
          env.escAndServoConfig.mincommand env.flight3DConfig.deadband3d_low)
    else
      if env.rcData THROTTLE > env.rxConfig.midrc then
        toInt16 env.flight3DConfig.deadband3d_high
      else
        toInt16 env.flight3DConfig.deadband3d_low
  else
    if env.failsafeIsActive then
      toInt16 (mixConstrainMotorForFailsafeCondition env (classicRebalanced env st) i)
    else
      let constrained := toInt16 (constrain (classicRebalanced env st i)
        env.escAndServoConfig.minthrottle env.escAndServoConfig.maxthrottle)
      if env.rcData THROTTLE < env.rxConfig.mincheck then
        if env.featureMotorStop then
          toInt16 env.escAndServoConfig.mincommand
        else if env.mixerConfig.pid_at_min_throttle = 0 then
          toInt16 env.escAndServoConfig.minthrottle
        else constrained
      else constrained

/-- The classic branch of `mixTable` (source lines 931-994). -/
def mixTableClassic (env : Env) (st : State) : State :=
  { st with motor := fun i => if i < st.motorCount then classicMotor env st i else st.motor i }

/-- The disarm overwrite (source lines 997-1002). -/
def disarmMotors (env : Env) (st : State) : State :=
  if !env.armed then
    { st with motor := fun i => if i < st.motorCount then st.motor_disarmed i else st.motor i }
  else st

/-- The state in which the two branches of `mixTable` run: after yaw jump
prevention and the tricopter pre-hook (source lines 827-848). -/
def preMix (env : Env) (st : State) : State := triPreHook env (yawJumpPrevention env st)

/-- The motor part of `mixTable` (source lines 821-1002). -/
def mixTableMotors (env : Env) (st : State) : State :=
  disarmMotors env
    (if env.airmode then mixTableAirmode env (preMix env st) else mixTableClassic env (preMix env st))

/-! ## Servo mixer (source lines 395-414 and 714-812) -/

/-- Function `determineServoMiddleOrForwardFromChannel` (source lines
395-404); the result type is `int16_t`. -/
def determineServoMiddleOrForwardFromChannel (env : Env) (servoIndex : Nat) : Int :=
  let channelToForwardFrom := (env.servoConf servoIndex).forwardFromChannel
  if channelToForwardFrom ≠ CHANNEL_FORWARDING_DISABLED ∧ channelToForwardFrom < env.channelCount then
    toInt16 (env.rcData channelToForwardFrom)
  else
    toInt16 (env.servoConf servoIndex).middle

/-- Function `servoDirection` (source lines 407-414). -/
def servoDirection (env : Env) (servoIndex inputSource : Nat) : Int :=
  if (env.servoConf servoIndex).reversedSources &&& (1 <<< inputSource) ≠ 0 then -1 else 1

/-- The local array `input` of `servoMixer` (source lines 720-755). -/
def servoInput (env : Env) (st : State) (s : Nat) : Int :=
  if s = INPUT_STABILIZED_ROLL then
    if env.passthru then toInt16 (env.rcCommand ROLL) else toInt16 (st.axisPID ROLL)
  else if s = INPUT_STABILIZED_PITCH then
    if env.passthru then toInt16 (env.rcCommand PITCH) else toInt16 (st.axisPID PITCH)
  else if s = INPUT_STABILIZED_YAW then
    if env.passthru then toInt16 (env.rcCommand YAW)
    else if env.feature3D ∧ env.rcData THROTTLE < env.rxConfig.midrc then
      toInt16 (toInt16 (st.axisPID YAW) * -1)
    else toInt16 (st.axisPID YAW)
  else if s = INPUT_GIMBAL_PITCH then toInt16 (scaleRange env.attitudePitch (-1800) 1800 (-500) 500)
  else if s = INPUT_GIMBAL_ROLL then toInt16 (scaleRange env.attitudeRoll (-1800) 1800 (-500) 500)
  else if s = INPUT_STABILIZED_THROTTLE then toInt16 (st.motor 0 - 1000 - 500)
  else if s = INPUT_RC_ROLL then toInt16 (env.rcData ROLL - env.rxConfig.midrc)
  else if s = INPUT_RC_PITCH then toInt16 (env.rcData PITCH - env.rxConfig.midrc)
  else if s = INPUT_RC_YAW then toInt16 (env.rcData YAW - env.rxConfig.midrc)
  else if s = INPUT_RC_THROTTLE then toInt16 (env.rcData THROTTLE - env.rxConfig.midrc)
  else if s = INPUT_RC_AUX1 then toInt16 (env.rcData AUX1 - env.rxConfig.midrc)
  else if s = INPUT_RC_AUX2 then toInt16 (env.rcData AUX2 - env.rxConfig.midrc)
  else if s = INPUT_RC_AUX3 then toInt16 (env.rcData AUX3 - env.rxConfig.midrc)
  else if s = INPUT_RC_AUX4 then toInt16 (env.rcData AUX4 - env.rxConfig.midrc)
  else 0

/-- The two arrays the rule loop of `servoMixer` writes. -/
structure servoAcc where
  servo : Nat → Int
  currentOutput : Nat → Int

/-- New value of the slew memory of an active rule (source lines 770-777). -/
def slewStep (speed : Nat) (current input : Int) : Int :=
  if speed = 0 then input
  else if current < input then toInt16 (constrain (current + speed) current input)
  else if current > input then toInt16 (constrain (current - speed) input current)
  else current

/-- One iteration of the rule loop of `servoMixer` (source lines 761-783). -/
def servoMixerRule (env : Env) (rules : Nat → servoMixer_t) (input : Nat → Int)
    (acc : servoAcc) (i : Nat) : servoAcc :=
  if (rules i).box = 0 ∨ env.servoBox (rules i).box then
    let target := (rules i).targetChannel
    let source := (rules i).inputSource
    let servo_width := toUInt16 ((env.servoConf target).max - (env.servoConf target).min)
    let min := toInt16 (Int.tdiv ((rules i).min * servo_width) 100 - Int.tdiv servo_width 2)
    let max := toInt16 (Int.tdiv ((rules i).max * servo_width) 100 - Int.tdiv servo_width 2)
    let out := slewStep (rules i).speed (acc.currentOutput i) (input source)
    { servo := fun j =>
        if j = target then
          toInt16 (acc.servo target
            + servoDirection env target source * constrain (Int.tdiv (out * (rules i).rate) 100) min max)
        else acc.servo j
      currentOutput := fun k => if k = i then out else acc.currentOutput k }
  else
    { acc with currentOutput := fun k => if k = i then 0 else acc.currentOutput k }

/-- The loop of the binary search of `getAngleFromYawCurveAtForce` (source
lines 1163-1174); `fuel` bounds the number of iterations. -/
def yawCurveSearch (curve : Nat → Int) (force : Int) : Nat → Nat → Nat → Nat × Nat
  | 0, lower, higher => (lower, higher)
  | fuel + 1, lower, higher =>
    if higher > lower + 1 then
      if curve ((lower + higher) / 2) > force then
        yawCurveSearch curve force fuel lower ((lower + higher) / 2)
      else
        yawCurveSearch curve force fuel ((lower + higher) / 2) higher
    else (lower, higher)

/-- Function `getAngleFromYawCurveAtForce` (source lines 1151-1177); the
argument is converted to the `int16_t` parameter, the result to
`uint16_t`.  The division is checked in
`getAngleFromYawCurveAtForceChecked`. -/
def getAngleFromYawCurveAtForce (st : State) (forceArg : Int) : Int :=
  let force := toInt16 forceArg
  if force < st.yawForceCurve 0 then
    toUInt16 (TRI_TAIL_SERVO_ANGLE_MID_DD - TRI_TAIL_SERVO_MAX_ANGLE_DD)
  else if ¬ (force < st.yawForceCurve (TRI_YAW_FORCE_CURVE_SIZE - 1)) then
    toUInt16 (TRI_TAIL_SERVO_ANGLE_MID_DD + TRI_TAIL_SERVO_MAX_ANGLE_DD)
  else
    let lh := yawCurveSearch st.yawForceCurve force TRI_YAW_FORCE_CURVE_SIZE 0 (TRI_YAW_FORCE_CURVE_SIZE - 1)
    toUInt16 (TRI_TAIL_SERVO_ANGLE_MID_DD - TRI_TAIL_SERVO_MAX_ANGLE_DD + (lh.1 : Int) * 10
      + Int.tdiv (Int.tdiv ((force - st.yawForceCurve lh.1) * 1000)
          (st.yawForceCurve lh.2 - st.yawForceCurve lh.1)) 100)

/-- Function `getServoValueAtAngle` (source lines 1117-1144): the value
returned when the divisor is not 0; the divisions are checked in
`getServoValueAtAngleChecked`. -/
def getServoValueAtAngle (st : State) (servoConf : servoParam_t) (angleArg : Int) : Int :=
  let angle_DD := toUInt16 angleArg
  let servoMid := toInt16 servoConf.middle
  if angle_DD < TRI_TAIL_SERVO_ANGLE_MID_DD then
    let servoMin := toInt16 servoConf.min
    let servoValue := toUInt16
      (Int.tdiv (Int.tdiv ((angle_DD - st.tailServoMaxAngle_DD) * INT_PRECISION)
          (TRI_TAIL_SERVO_ANGLE_MID_DD - st.tailServoMaxAngle_DD) * (servoMid - servoMin)) INT_PRECISION)
    toUInt16 (servoValue + servoMin)
  else if angle_DD > TRI_TAIL_SERVO_ANGLE_MID_DD then
    let servoMax := toInt16 servoConf.max
    let servoValue := toUInt16
      (Int.tdiv (Int.tdiv ((angle_DD - TRI_TAIL_SERVO_ANGLE_MID_DD) * INT_PRECISION)
          st.tailServoMaxAngle_DD * (servoMax - servoMid)) INT_PRECISION)
    toUInt16 (servoValue + servoMid)
  else
    toUInt16 servoMid

/-- Function `getLinearServoValue` (source lines 1179-1187): the value
returned when `range` and the divisors of the two calls are not 0; the
divisions are checked in `getLinearServoValueChecked`. -/
def getLinearServoValue (st : State) (servoConf : servoParam_t) (servoValueArg : Int) : Int :=
  let servoValue := toUInt16 servoValueArg
  let servoMid := toInt16 servoConf.middle
  let range := if servoValue < servoMid then servoMid - servoConf.min else servoConf.max - servoMid
  let linearYawForceAtValue :=
    Int.tdiv (Int.tdiv ((servoValue - servoMid) * INT_PRECISION) range * st.tailServoMaxYawForce) INT_PRECISION
  let correctedAngle_DD := toInt16 (getAngleFromYawCurveAtForce st linearYawForceAtValue)
  getServoValueAtAngle st servoConf correctedAngle_DD

/-- Function `virtualServoStep` (source lines 1198-1215). -/
def virtualServoStep (env : Env) (st : State) (servoConf : servoParam_t) (servoValue : Int) : State :=
  let angleSetPoint : ℚ := (getServoAngleInDeciDegrees st servoConf servoValue : ℚ) / 10
  let dA : ℚ := env.dT * (env.mixerConfig.tri_tail_servo_speed : ℚ)
  if ABSf (st.virtualServoAngle_D - angleSetPoint) < dA then
    { st with virtualServoAngle_D := angleSetPoint }
  else if st.virtualServoAngle_D < angleSetPoint then
    { st with virtualServoAngle_D := st.virtualServoAngle_D + dA }
  else
    { st with virtualServoAngle_D := st.virtualServoAngle_D - dA }

/-- The rule loop of `servoMixer` (source lines 757-783), from zeroed
servo accumulators. -/
def servoMixerRules (env : Env) (st : State) : servoAcc :=
  (List.range st.servoRuleCount).foldl
    (servoMixerRule env st.currentServoMixer (servoInput env st))
    { servo := fun j => if j < MAX_SUPPORTED_SERVOS then 0 else st.servo j
      currentOutput := st.currentOutput }

/-- Post-scale and centre of servo `i` (source lines 785-789). -/
def servoPostScale (env : Env) (acc : Int) (i : Nat) : Int :=
  toInt16 (toInt16 (Int.tdiv ((env.servoConf i).rate * acc) 100)
    + determineServoMiddleOrForwardFromChannel env i)

/-- Function `servoMixer` (source lines 714-812). -/
def servoMixer (env : Env) (st : State) : State :=
  let acc := servoMixerRules env st
  let st1 : State :=
    { st with
      servo := fun j => if j < MAX_SUPPORTED_SERVOS then servoPostScale env (acc.servo j) j else acc.servo j
      currentOutput := acc.currentOutput
      curveIndex := if st.counter > 19 then
          toInt16 (Int.tmod (st.curveIndex + 1) TRI_YAW_FORCE_CURVE_SIZE) else st.curveIndex
      counter := if st.counter > 19 then 0 else toInt8 (st.counter + 1) }
  if st1.currentMixerMode = MIXER_TRI then
    let st2 : State :=
      if env.armed then
        { st1 with
          servo := fun j =>
            if j = SERVO_RUDDER then
              toInt16 (getLinearServoValue st1 (env.servoConf 0) (st1.servo SERVO_RUDDER))
            else st1.servo j }
      else st1
    virtualServoStep env st2 (env.servoConf 0) (st2.servo SERVO_RUDDER)
  else st1

/-! ## `mixTable`, servo part (source lines 1004-1055) -/

/-- The airframes for which `mixTable` runs `servoMixer` (source lines
1009-1031). -/
def usesServoMixer (m : mixerMode_e) : Bool :=
  match m with
  | MIXER_CUSTOM_AIRPLANE => true
  | MIXER_FLYING_WING => true
  | MIXER_AIRPLANE => true
  | MIXER_BICOPTER => true
  | MIXER_CUSTOM_TRI => true
  | MIXER_TRI => true
  | MIXER_DUALCOPTER => true
  | MIXER_SINGLECOPTER => true
  | MIXER_GIMBAL => true
  | _ => false

/-- Camera stabilisation overlay (source lines 1033-1048). -/
def camstabOverlay (env : Env) (st : State) : State :=
  if env.featureServoTilt then
    let pitch0 := determineServoMiddleOrForwardFromChannel env SERVO_GIMBAL_PITCH
    let roll0 := determineServoMiddleOrForwardFromChannel env SERVO_GIMBAL_ROLL
    let ratePitch := (env.servoConf SERVO_GIMBAL_PITCH).rate
    let rateRoll := (env.servoConf SERVO_GIMBAL_ROLL).rate
    let pitch1 :=
      if env.camstab then
        if env.gimbalMode = GIMBAL_MODE_MIXTILT then
          toInt16 (pitch0 - (Int.tdiv (-ratePitch * env.attitudePitch) 50
            - Int.tdiv (rateRoll * env.attitudeRoll) 50))
        else
          toInt16 (pitch0 + Int.tdiv (ratePitch * env.attitudePitch) 50)
      else pitch0
    let roll1 :=
      if env.camstab then
        if env.gimbalMode = GIMBAL_MODE_MIXTILT then
          toInt16 (roll0 + (Int.tdiv (-ratePitch * env.attitudePitch) 50
            + Int.tdiv (rateRoll * env.attitudeRoll) 50))
        else
          toInt16 (roll0 + Int.tdiv (rateRoll * env.attitudeRoll) 50)
      else roll0
    { st with
      servo := fun j =>
        if j = SERVO_GIMBAL_ROLL then roll1
        else if j = SERVO_GIMBAL_PITCH then pitch1
        else st.servo j }
  else st

/-- Final servo clamp (source lines 1050-1053). -/
def constrainServos (env : Env) (st : State) : State :=
  { st with
    servo := fun j =>
      if j < MAX_SUPPORTED_SERVOS then
        toInt16 (constrain (st.servo j) (env.servoConf j).min (env.servoConf j).max)
      else st.servo j }

/-- The servo part of `mixTable` (source lines 1004-1055). -/
def mixTableServos (env : Env) (st : State) : State :=
  constrainServos env
    (camstabOverlay env (if usesServoMixer st.currentMixerMode then servoMixer env st else st))

/-- Function `mixTable` (source lines 821-1055). -/
def mixTable (env : Env) (st : State) : State :=
  mixTableServos env (mixTableMotors env st)

/-! ## Integer division by zero in the tail conversions

An integer division by zero has no result.  The functions of this section are
the tail conversions, `servoMixer` and `mixTable` with every division by a
quantity that is not a constant checked: the result is `none` when a divisor
is 0, and the value of the function above otherwise. -/

/-- Function `getServoAngleInDeciDegrees` (source lines 1189-1196) with the
division of line 1194 checked: no result when `endValue - midValue` is 0. -/
def getServoAngleInDeciDegreesChecked (st : State) (servoConf : servoParam_t)
    (servoValueArg : Int) : Option Int :=
  let servoValue := toUInt16 servoValueArg
  let midValue := toInt16 servoConf.middle
  let endValue := toInt16 (if servoValue < midValue then servoConf.min else servoConf.max)
  if endValue - midValue = 0 then none
  else some (getServoAngleInDeciDegrees st servoConf servoValueArg)

/-- Function `getAngleFromYawCurveAtForce` (source lines 1151-1177) with the
division of line 1176 checked: no result when the search ends on
`yawForceCurve[higher] - yawForceCurve[lower] = 0`. -/
def getAngleFromYawCurveAtForceChecked (st : State) (forceArg : Int) : Option Int :=
  let force := toInt16 forceArg
  if force < st.yawForceCurve 0 then
    some (getAngleFromYawCurveAtForce st forceArg)
  else if ¬ (force < st.yawForceCurve (TRI_YAW_FORCE_CURVE_SIZE - 1)) then
    some (getAngleFromYawCurveAtForce st forceArg)
  else
    let lh := yawCurveSearch st.yawForceCurve force TRI_YAW_FORCE_CURVE_SIZE 0 (TRI_YAW_FORCE_CURVE_SIZE - 1)
    if st.yawForceCurve lh.2 - st.yawForceCurve lh.1 = 0 then none
    else some (getAngleFromYawCurveAtForce st forceArg)

/-- Function `getServoValueAtAngle` (source lines 1117-1144) with its
divisions checked: below the middle angle the divisor is
`TRI_TAIL_SERVO_ANGLE_MID_DD - tailServoMaxAngle_DD` (line 1126), above it
`tailServoMaxAngle_DD` (line 1134). -/
def getServoValueAtAngleChecked (st : State) (servoConf : servoParam_t) (angleArg : Int) :
    Option Int :=
  let angle_DD := toUInt16 angleArg
  if angle_DD < TRI_TAIL_SERVO_ANGLE_MID_DD then
    if TRI_TAIL_SERVO_ANGLE_MID_DD - st.tailServoMaxAngle_DD = 0 then none
    else some (getServoValueAtAngle st servoConf angleArg)
  else if angle_DD > TRI_TAIL_SERVO_ANGLE_MID_DD then
    if st.tailServoMaxAngle_DD = 0 then none
    else some (getServoValueAtAngle st servoConf angleArg)
  else
    some (getServoValueAtAngle st servoConf angleArg)

/-- Function `getLinearServoValue` (source lines 1179-1187) with the division
by `range` of line 1184 and the divisions of its two calls checked. -/
def getLinearServoValueChecked (st : State) (servoConf : servoParam_t) (servoValueArg : Int) :
    Option Int :=
  let servoValue := toUInt16 servoValueArg
  let servoMid := toInt16 servoConf.middle
  let range := if servoValue < servoMid then servoMid - servoConf.min else servoConf.max - servoMid
  if range = 0 then none
  else
    let linearYawForceAtValue :=
      Int.tdiv (Int.tdiv ((servoValue - servoMid) * INT_PRECISION) range * st.tailServoMaxYawForce) INT_PRECISION
    match getAngleFromYawCurveAtForceChecked st linearYawForceAtValue with
    | none => none
    | some correctedAngle => getServoValueAtAngleChecked st servoConf (toInt16 correctedAngle)

/-- Function `virtualServoStep` (source lines 1198-1215) with the division of
its call of `getServoAngleInDeciDegrees` checked. -/
def virtualServoStepChecked (env : Env) (st : State) (servoConf : servoParam_t) (servoValue : Int) :
    Option State :=
  match getServoAngleInDeciDegreesChecked st servoConf servoValue with
  | none => none
  | some _ => some (virtualServoStep env st servoConf servoValue)

/-- Tricopter pre-hook (source lines 832-848) with the division of its call of
`getServoAngleInDeciDegrees` (line 838) checked. -/
def triPreHookChecked (env : Env) (st : State) : Option State :=
  if st.currentMixerMode = MIXER_TRI then
    match getServoAngleInDeciDegreesChecked st (env.servoConf 0) (st.servo SERVO_RUDDER) with
    | none => none
    | some _ => some (triPreHook env st)
  else some st

/-- The state of `servoMixer` before its tricopter block (source lines
714-799): rule loop, post-scale and curve counters. -/
def servoMixerScaled (env : Env) (st : State) : State :=
  let acc := servoMixerRules env st
  { st with
    servo := fun j => if j < MAX_SUPPORTED_SERVOS then servoPostScale env (acc.servo j) j else acc.servo j
    currentOutput := acc.currentOutput
    curveIndex := if st.counter > 19 then
        toInt16 (Int.tmod (st.curveIndex + 1) TRI_YAW_FORCE_CURVE_SIZE) else st.curveIndex
    counter := if st.counter > 19 then 0 else toInt8 (st.counter + 1) }

/-- Function `servoMixer` (source lines 714-812) with the divisions of its
tricopter block (lines 801-811) checked. -/
def servoMixerChecked (env : Env) (st : State) : Option State :=
  let st1 := servoMixerScaled env st
  if st1.currentMixerMode = MIXER_TRI then
    if env.armed then
      match getLinearServoValueChecked st1 (env.servoConf 0) (st1.servo SERVO_RUDDER) with
      | none => none
      | some linear =>
        virtualServoStepChecked env
          { st1 with servo := fun j => if j = SERVO_RUDDER then toInt16 linear else st1.servo j }
          (env.servoConf 0) (toInt16 linear)
    else virtualServoStepChecked env st1 (env.servoConf 0) (st1.servo SERVO_RUDDER)
  else some st1

/-- Function `mixTable` (source lines 821-1055) with the divisions of the
tricopter pre-hook and of `servoMixer` checked: `none` when the run divides
by zero, the state `mixTable` leaves otherwise. -/
def mixTableChecked (env : Env) (st : State) : Option State :=
  match triPreHookChecked env (yawJumpPrevention env st) with
  | none => none
  | some s1 =>
    let s2 := disarmMotors env
      (if env.airmode then mixTableAirmode env s1 else mixTableClassic env s1)
    match (if usesServoMixer s2.currentMixerMode then servoMixerChecked env s2 else some s2) with
    | none => none
    | some s3 => some (constrainServos env (camstabOverlay env s3))

/-! ## `writeServos` (source lines 595-675) -/

/-- The argument expressions `writeServos` hands to `pwmWriteServo`: a
servo channel `servo[j]`, a literal, or a raw channel `rcData[c]`. -/
inductive servoArg where
  | servoCh (j : Nat)
  | literal (v : Int)
  | rc (c : Nat)
  deriving DecidableEq, Repr

/-- One call `pwmWriteServo(index, arg)`. -/
structure pwmWrite where
  index : Nat
  arg : servoArg
  deriving DecidableEq, Repr

/-- The value of an argument expression in a state. -/
def servoArg.value (env : Env) (st : State) : servoArg → Int
  | servoArg.servoCh j => st.servo j
  | servoArg.literal v => v
  | servoArg.rc c => env.rcData c

/-- The calls of the airframe switch of `writeServos` (source lines
616-661), output indexes counted from 0. -/
def writeMixerServos (env : Env) (st : State) : List pwmWrite :=
  match st.currentMixerMode with
  | MIXER_BICOPTER =>
    [⟨0, servoArg.servoCh SERVO_BICOPTER_LEFT⟩, ⟨1, servoArg.servoCh SERVO_BICOPTER_RIGHT⟩]
  | MIXER_TRI | MIXER_CUSTOM_TRI =>
    if env.mixerConfig.tri_unarmed_servo ≠ 0 then
      [⟨0, servoArg.servoCh SERVO_RUDDER⟩]
    else if env.armed then
      [⟨0, servoArg.servoCh SERVO_RUDDER⟩]
    else
      [⟨0, servoArg.literal 0⟩]
  | MIXER_FLYING_WING =>
    [⟨0, servoArg.servoCh SERVO_FLAPPERON_1⟩, ⟨1, servoArg.servoCh SERVO_FLAPPERON_2⟩]
  | MIXER_DUALCOPTER =>
    [⟨0, servoArg.servoCh SERVO_DUALCOPTER_LEFT⟩, ⟨1, servoArg.servoCh SERVO_DUALCOPTER_RIGHT⟩]
  | MIXER_CUSTOM_AIRPLANE | MIXER_AIRPLANE =>
    (List.range (SERVO_PLANE_INDEX_MAX + 1 - SERVO_PLANE_INDEX_MIN)).map
      (fun k => ⟨k, servoArg.servoCh (SERVO_PLANE_INDEX_MIN + k)⟩)
  | MIXER_SINGLECOPTER =>
    (List.range (SERVO_SINGLECOPTER_INDEX_MAX + 1 - SERVO_SINGLECOPTER_INDEX_MIN)).map
      (fun k => ⟨k, servoArg.servoCh (SERVO_SINGLECOPTER_INDEX_MIN + k)⟩)
  | _ => []

/-- Function `updateGimbalServos` (source lines 606-610). -/
def updateGimbalServos (firstServoIndex : Nat) : List pwmWrite :=
  [⟨firstServoIndex + 0, servoArg.servoCh SERVO_GIMBAL_PITCH⟩,
   ⟨firstServoIndex + 1, servoArg.servoCh SERVO_GIMBAL_ROLL⟩]

/-- Function `forwardAuxChannelsToServos` (source lines 595-604). -/
def forwardAuxChannelsToServos (firstServoIndex : Nat) : List pwmWrite :=
  ((List.range MAX_AUX_CHANNEL_COUNT).filter
      (fun servoOffset => AUX1 + servoOffset < MAX_SUPPORTED_RC_CHANNEL_COUNT)).map
    (fun servoOffset => ⟨firstServoIndex + servoOffset, servoArg.rc (AUX1 + servoOffset)⟩)

/-- The calls `writeServos` makes for the servos of the mixer: the airframe
switch and the gimbal servos (source lines 616-667). -/
def writeServosMixer (env : Env) (st : State) : List pwmWrite :=
  writeMixerServos env st
    ++ (if env.featureServoTilt ∨ st.currentMixerMode = MIXER_GIMBAL then
          updateGimbalServos (writeMixerServos env st).length
        else [])

/-- Function `writeServos` (source lines 612-674): all calls of
`pwmWriteServo`, in order. -/
def writeServos (env : Env) (st : State) : List pwmWrite :=
  writeServosMixer env st
    ++ (if env.featureChannelForwarding then
          forwardAuxChannelsToServos (writeServosMixer env st).length
        else [])

/-! ## Geometry and rule tables (source lines 98-334) -/

/-- The geometry table `mixerTricopter` (source lines 105-109). -/
def mixerTricopter : List motorMixer_t :=
  [ { throttle := 1, roll := 0, pitch := 1333333 / 1000000, yaw := 0 },
    { throttle := 1, roll := -1, pitch := -666667 / 1000000, yaw := 0 },
    { throttle := 1, roll := 1, pitch := -666667 / 1000000, yaw := 0 } ]

/-- The geometry table `mixerQuadP` (source lines 111-116);
decimal literals are read as exact rationals. -/
def mixerQuadP : List motorMixer_t :=
  [ { throttle := 1, roll := 0, pitch := 1, yaw := -1 },
    { throttle := 1, roll := -1, pitch := 0, yaw := 1 },
    { throttle := 1, roll := 1, pitch := 0, yaw := 1 },
    { throttle := 1, roll := 0, pitch := -1, yaw := -1 } ]

/-- The geometry table `mixerBicopter` (source lines 118-121);
decimal literals are read as exact rationals. -/
def mixerBicopter : List motorMixer_t :=
  [ { throttle := 1, roll := 1, pitch := 0, yaw := 0 },
    { throttle := 1, roll := -1, pitch := 0, yaw := 0 } ]

/-- The geometry table `mixerY6` (source lines 123-130);
decimal literals are read as exact rationals. -/
def mixerY6 : List motorMixer_t :=
  [ { throttle := 1, roll := 0, pitch := 1333333 / 1000000, yaw := 1 },
    { throttle := 1, roll := -1, pitch := -666667 / 1000000, yaw := -1 },
    { throttle := 1, roll := 1, pitch := -666667 / 1000000, yaw := -1 },
    { throttle := 1, roll := 0, pitch := 1333333 / 1000000, yaw := -1 },
    { throttle := 1, roll := -1, pitch := -666667 / 1000000, yaw := 1 },
    { throttle := 1, roll := 1, pitch := -666667 / 1000000, yaw := 1 } ]

/-- The geometry table `mixerHex6P` (source lines 132-139);
decimal literals are read as exact rationals. -/
def mixerHex6P : List motorMixer_t :=
  [ { throttle := 1, roll := -866025 / 1000000, pitch := 5 / 10, yaw := 1 },
    { throttle := 1, roll := -866025 / 1000000, pitch := -5 / 10, yaw := -1 },
    { throttle := 1, roll := 866025 / 1000000, pitch := 5 / 10, yaw := 1 },
    { throttle := 1, roll := 866025 / 1000000, pitch := -5 / 10, yaw := -1 },
    { throttle := 1, roll := 0, pitch := -1, yaw := 1 },
    { throttle := 1, roll := 0, pitch := 1, yaw := -1 } ]

/-- The geometry table `mixerY4` (source lines 141-146);
decimal literals are read as exact rationals. -/
def mixerY4 : List motorMixer_t :=
  [ { throttle := 1, roll := 0, pitch := 1, yaw := -1 },
    { throttle := 1, roll := -1, pitch := -1, yaw := 0 },
    { throttle := 1, roll := 0, pitch := 1, yaw := 1 },
    { throttle := 1, roll := 1, pitch := -1, yaw := 0 } ]

/-- The geometry table `mixerHex6X` (source lines 148-155);
decimal literals are read as exact rationals. -/
def mixerHex6X : List motorMixer_t :=
  [ { throttle := 1, roll := -5 / 10, pitch := 866025 / 1000000, yaw := 1 },
    { throttle := 1, roll := -5 / 10, pitch := -866025 / 1000000, yaw := 1 },
    { throttle := 1, roll := 5 / 10, pitch := 866025 / 1000000, yaw := -1 },
    { throttle := 1, roll := 5 / 10, pitch := -866025 / 1000000, yaw := -1 },
    { throttle := 1, roll := -1, pitch := 0, yaw := -1 },
    { throttle := 1, roll := 1, pitch := 0, yaw := 1 } ]

/-- The geometry table `mixerOctoX8` (source lines 157-166);
decimal literals are read as exact rationals. -/
def mixerOctoX8 : List motorMixer_t :=
  [ { throttle := 1, roll := -1, pitch := 1, yaw := -1 },
    { throttle := 1, roll := -1, pitch := -1, yaw := 1 },
    { throttle := 1, roll := 1, pitch := 1, yaw := 1 },
    { throttle := 1, roll := 1, pitch := -1, yaw := -1 },
    { throttle := 1, roll := -1, pitch := 1, yaw := 1 },
    { throttle := 1, roll := -1, pitch := -1, yaw := -1 },
    { throttle := 1, roll := 1, pitch := 1, yaw := -1 },
    { throttle := 1, roll := 1, pitch := -1, yaw := 1 } ]

/-- The geometry table `mixerOctoFlatP` (source lines 168-177);
decimal literals are read as exact rationals. -/
def mixerOctoFlatP : List motorMixer_t :=
  [ { throttle := 1, roll := 707107 / 1000000, pitch := -707107 / 1000000, yaw := 1 },
    { throttle := 1, roll := -707107 / 1000000, pitch := -707107 / 1000000, yaw := 1 },
    { throttle := 1, roll := -707107 / 1000000, pitch := 707107 / 1000000, yaw := 1 },
    { throttle := 1, roll := 707107 / 1000000, pitch := 707107 / 1000000, yaw := 1 },
    { throttle := 1, roll := 0, pitch := -1, yaw := -1 },
    { throttle := 1, roll := -1, pitch := 0, yaw := -1 },
    { throttle := 1, roll := 0, pitch := 1, yaw := -1 },
    { throttle := 1, roll := 1, pitch := 0, yaw := -1 } ]

/-- The geometry table `mixerOctoFlatX` (source lines 179-188);
decimal literals are read as exact rationals. -/
def mixerOctoFlatX : List motorMixer_t :=
  [ { throttle := 1, roll := 1, pitch := -414178 / 1000000, yaw := 1 },
    { throttle := 1, roll := -414178 / 1000000, pitch := -1, yaw := 1 },
    { throttle := 1, roll := -1, pitch := 414178 / 1000000, yaw := 1 },
    { throttle := 1, roll := 414178 / 1000000, pitch := 1, yaw := 1 },
    { throttle := 1, roll := 414178 / 1000000, pitch := -1, yaw := -1 },
    { throttle := 1, roll := -1, pitch := -414178 / 1000000, yaw := -1 },
    { throttle := 1, roll := -414178 / 1000000, pitch := 1, yaw := -1 },
    { throttle := 1, roll := 1, pitch := 414178 / 1000000, yaw := -1 } ]

/-- The geometry table `mixerVtail4` (source lines 190-195);
decimal literals are read as exact rationals. -/
def mixerVtail4 : List motorMixer_t :=
  [ { throttle := 1, roll := -58 / 100, pitch := 58 / 100, yaw := 1 },
    { throttle := 1, roll := -46 / 100, pitch := -39 / 100, yaw := -5 / 10 },
    { throttle := 1, roll := 58 / 100, pitch := 58 / 100, yaw := -1 },
    { throttle := 1, roll := 46 / 100, pitch := -39 / 100, yaw := 5 / 10 } ]

/-- The geometry table `mixerAtail4` (source lines 197-202);
decimal literals are read as exact rationals. -/
def mixerAtail4 : List motorMixer_t :=
  [ { throttle := 1, roll := 0, pitch := 1, yaw := 1 },
    { throttle := 1, roll := -1, pitch := -1, yaw := 0 },
    { throttle := 1, roll := 0, pitch := 1, yaw := -1 },
    { throttle := 1, roll := 1, pitch := -1, yaw := 0 } ]

/-- The geometry table `mixerHex6H` (source lines 204-211);
decimal literals are read as exact rationals. -/
def mixerHex6H : List motorMixer_t :=
  [ { throttle := 1, roll := -1, pitch := 1, yaw := -1 },
    { throttle := 1, roll := -1, pitch := -1, yaw := 1 },
    { throttle := 1, roll := 1, pitch := 1, yaw := 1 },
    { throttle := 1, roll := 1, pitch := -1, yaw := -1 },
    { throttle := 1, roll := 0, pitch := 0, yaw := 0 },
    { throttle := 1, roll := 0, pitch := 0, yaw := 0 } ]

/-- The geometry table `mixerDualcopter` (source lines 213-216);
decimal literals are read as exact rationals. -/
def mixerDualcopter : List motorMixer_t :=
  [ { throttle := 1, roll := 0, pitch := 0, yaw := -1 },
    { throttle := 1, roll := 0, pitch := 0, yaw := 1 } ]

/-- The geometry table `mixerSingleProp` (source lines 218-220);
decimal literals are read as exact rationals. -/
def mixerSingleProp : List motorMixer_t :=
  [ { throttle := 1, roll := 0, pitch := 0, yaw := 0 } ]

/-- One entry of the table `mixers` (`mixer_t`): motor count, servo use and the
motor table, `none` for `NULL`. -/
structure mixer_t where
  motorCount : Nat
  useServo : Bool
  motor : Option (List motorMixer_t)

/-- The table `mixers` (source lines 223-251), indexed by `mixerMode_e`. -/
def mixers : List mixer_t :=
  [ ⟨0, false, none⟩,
    ⟨3, true, some mixerTricopter⟩,
    ⟨4, false, some mixerQuadP⟩,
    ⟨4, false, some mixerQuadX⟩,
    ⟨2, true, some mixerBicopter⟩,
    ⟨0, true, none⟩,
    ⟨6, false, some mixerY6⟩,
    ⟨6, false, some mixerHex6P⟩,
    ⟨1, true, some mixerSingleProp⟩,
    ⟨4, false, some mixerY4⟩,
    ⟨6, false, some mixerHex6X⟩,
    ⟨8, false, some mixerOctoX8⟩,
    ⟨8, false, some mixerOctoFlatP⟩,
    ⟨8, false, some mixerOctoFlatX⟩,
    ⟨1, true, some mixerSingleProp⟩,
    ⟨0, true, none⟩,
    ⟨0, true, none⟩,
    ⟨4, false, some mixerVtail4⟩,
    ⟨6, false, some mixerHex6H⟩,
    ⟨0, true, none⟩,
    ⟨2, true, some mixerDualcopter⟩,
    ⟨1, true, none⟩,
    ⟨4, false, some mixerAtail4⟩,
    ⟨0, false, none⟩,
    ⟨2, true, none⟩,
    ⟨3, true, none⟩ ]

/-- The rule table `servoMixerAirplane` (source lines 258-264). -/
def servoMixerAirplane : List servoMixer_t :=
  [ { targetChannel := SERVO_FLAPPERON_1, inputSource := INPUT_STABILIZED_ROLL, rate := 100, speed := 0,
      min := 0, max := 100, box := 0 },
    { targetChannel := SERVO_FLAPPERON_2, inputSource := INPUT_STABILIZED_ROLL, rate := 100, speed := 0,
      min := 0, max := 100, box := 0 },
    { targetChannel := SERVO_RUDDER, inputSource := INPUT_STABILIZED_YAW, rate := 100, speed := 0,
      min := 0, max := 100, box := 0 },
    { targetChannel := SERVO_ELEVATOR, inputSource := INPUT_STABILIZED_PITCH, rate := 100, speed := 0,
      min := 0, max := 100, box := 0 },
    { targetChannel := SERVO_THROTTLE, inputSource := INPUT_STABILIZED_THROTTLE, rate := 100, speed := 0,
      min := 0, max := 100, box := 0 } ]

/-- The rule table `servoMixerFlyingWing` (source lines 266-272). -/
def servoMixerFlyingWing : List servoMixer_t :=
  [ { targetChannel := SERVO_FLAPPERON_1, inputSource := INPUT_STABILIZED_ROLL, rate := 100, speed := 0,
      min := 0, max := 100, box := 0 },
    { targetChannel := SERVO_FLAPPERON_1, inputSource := INPUT_STABILIZED_PITCH, rate := 100, speed := 0,
      min := 0, max := 100, box := 0 },
    { targetChannel := SERVO_FLAPPERON_2, inputSource := INPUT_STABILIZED_ROLL, rate := -100, speed := 0,
      min := 0, max := 100, box := 0 },
    { targetChannel := SERVO_FLAPPERON_2, inputSource := INPUT_STABILIZED_PITCH, rate := 100, speed := 0,
      min := 0, max := 100, box := 0 },
    { targetChannel := SERVO_THROTTLE, inputSource := INPUT_STABILIZED_THROTTLE, rate := 100, speed := 0,
      min := 0, max := 100, box := 0 } ]

/-- The rule table `servoMixerBI` (source lines 274-279). -/
def servoMixerBI : List servoMixer_t :=
  [ { targetChannel := SERVO_BICOPTER_LEFT, inputSource := INPUT_STABILIZED_YAW, rate := 100, speed := 0,
      min := 0, max := 100, box := 0 },
    { targetChannel := SERVO_BICOPTER_LEFT, inputSource := INPUT_STABILIZED_PITCH, rate := 100, speed := 0,
      min := 0, max := 100, box := 0 },
    { targetChannel := SERVO_BICOPTER_RIGHT, inputSource := INPUT_STABILIZED_YAW, rate := 100, speed := 0,
      min := 0, max := 100, box := 0 },
    { targetChannel := SERVO_BICOPTER_RIGHT, inputSource := INPUT_STABILIZED_PITCH, rate := 100, speed := 0,
      min := 0, max := 100, box := 0 } ]

/-- The rule table `servoMixerTri` (source lines 281-283). -/
def servoMixerTri : List servoMixer_t :=
  [ { targetChannel := SERVO_RUDDER, inputSource := INPUT_STABILIZED_YAW, rate := 100, speed := 0,
      min := 0, max := 100, box := 0 } ]

/-- The rule table `servoMixerDual` (source lines 285-288). -/
def servoMixerDual : List servoMixer_t :=
  [ { targetChannel := SERVO_DUALCOPTER_LEFT, inputSource := INPUT_STABILIZED_PITCH, rate := 100, speed := 0,
      min := 0, max := 100, box := 0 },
    { targetChannel := SERVO_DUALCOPTER_RIGHT, inputSource := INPUT_STABILIZED_ROLL, rate := 100, speed := 0,
      min := 0, max := 100, box := 0 } ]

/-- The rule table `servoMixerSingle` (source lines 290-299). -/
def servoMixerSingle : List servoMixer_t :=
  [ { targetChannel := SERVO_SINGLECOPTER_INDEX_MIN, inputSource := INPUT_STABILIZED_YAW, rate := 100, speed := 0,
      min := 0, max := 100, box := 0 },
    { targetChannel := SERVO_SINGLECOPTER_INDEX_MIN, inputSource := INPUT_STABILIZED_PITCH, rate := 100, speed := 0,
      min := 0, max := 100, box := 0 },
    { targetChannel := (SERVO_SINGLECOPTER_INDEX_MIN + 1), inputSource := INPUT_STABILIZED_YAW, rate := 100, speed := 0,
      min := 0, max := 100, box := 0 },
    { targetChannel := (SERVO_SINGLECOPTER_INDEX_MIN + 1), inputSource := INPUT_STABILIZED_PITCH, rate := 100, speed := 0,
      min := 0, max := 100, box := 0 },
    { targetChannel := (SERVO_SINGLECOPTER_INDEX_MIN + 2), inputSource := INPUT_STABILIZED_YAW, rate := 100, speed := 0,
      min := 0, max := 100, box := 0 },
    { targetChannel := (SERVO_SINGLECOPTER_INDEX_MIN + 2), inputSource := INPUT_STABILIZED_ROLL, rate := 100, speed := 0,
      min := 0, max := 100, box := 0 },
    { targetChannel := SERVO_SINGLECOPTER_INDEX_MAX, inputSource := INPUT_STABILIZED_YAW, rate := 100, speed := 0,
      min := 0, max := 100, box := 0 },
    { targetChannel := SERVO_SINGLECOPTER_INDEX_MAX, inputSource := INPUT_STABILIZED_ROLL, rate := 100, speed := 0,
      min := 0, max := 100, box := 0 } ]

/-- The rule table `servoMixerGimbal` (source lines 301-304). -/
def servoMixerGimbal : List servoMixer_t :=
  [ { targetChannel := SERVO_GIMBAL_PITCH, inputSource := INPUT_GIMBAL_PITCH, rate := 125, speed := 0,
      min := 0, max := 100, box := 0 },
    { targetChannel := SERVO_GIMBAL_ROLL, inputSource := INPUT_GIMBAL_ROLL, rate := 125, speed := 0,
      min := 0, max := 100, box := 0 } ]

/-- One entry of the table `servoMixers` (`mixerRules_t`): rule count and the
rule table, `none` for `NULL`. -/
structure mixerRules_t where
  servoRuleCount : Nat
  rule : Option (List servoMixer_t)

/-- The table `servoMixers` (source lines 307-334), indexed by
`mixerMode_e`. -/
def servoMixers : List mixerRules_t :=
  [ ⟨0, none⟩,
    ⟨servoMixerTri.length, some servoMixerTri⟩,
    ⟨0, none⟩,
    ⟨0, none⟩,
    ⟨servoMixerBI.length, some servoMixerBI⟩,
    ⟨servoMixerGimbal.length, some servoMixerGimbal⟩,
    ⟨0, none⟩,
    ⟨0, none⟩,
    ⟨servoMixerFlyingWing.length, some servoMixerFlyingWing⟩,
    ⟨0, none⟩,
    ⟨0, none⟩,
    ⟨0, none⟩,
    ⟨0, none⟩,
    ⟨0, none⟩,
    ⟨servoMixerAirplane.length, some servoMixerAirplane⟩,
    ⟨0, none⟩,
    ⟨0, none⟩,
    ⟨0, none⟩,
    ⟨0, none⟩,
    ⟨0, none⟩,
    ⟨servoMixerDual.length, some servoMixerDual⟩,
    ⟨servoMixerSingle.length, some servoMixerSingle⟩,
    ⟨0, none⟩,
    ⟨0, none⟩,
    ⟨0, none⟩,
    ⟨0, none⟩ ]

/-- The value of an airframe kind as an array index. -/
def mixerMode_e.index (m : mixerMode_e) : Nat := m.toCtorIdx

/-- The entry `mixers[k]`. -/
def mixersAt (k : Nat) : mixer_t := mixers.getD k ⟨0, false, none⟩

/-- The entry `servoMixers[k]`. -/
def servoMixersAt (k : Nat) : mixerRules_t := servoMixers.getD k ⟨0, none⟩

/-- The all-zero rule a cleared `currentServoMixer` entry holds. -/
def servoMixerZero : servoMixer_t :=
  { targetChannel := 0, inputSource := 0, rate := 0, speed := 0, min := 0, max := 0, box := 0 }

/-- A rule table read as the array the program indexes. -/
def ruleRow (t : List servoMixer_t) (i : Nat) : servoMixer_t := t.getD i servoMixerZero

/-- Modelled from the spec: `MAX_SERVO_RULES` of `flight/mixer.h` (section 3:
"typically 36"). -/
def MAX_SERVO_RULES : Nat := 36

/-! ## Initialisation (source lines 448-548) -/

/-- The custom airframe kinds tested at source line 455. -/
def isCustomMixer (m : mixerMode_e) : Bool :=
  m = MIXER_CUSTOM ∨ m = MIXER_CUSTOM_TRI ∨ m = MIXER_CUSTOM_AIRPLANE

/-- The loop of source lines 457-463, from index `i` with `fuel` iterations
left: the pair is `currentMixer` and `motorCount`. -/
def loadCustomMixer (custom : Nat → motorMixer_t) :
    Nat → Nat → (Nat → motorMixer_t) × Nat → (Nat → motorMixer_t) × Nat
  | 0, _, acc => acc
  | fuel + 1, i, acc =>
    if (custom i).throttle = 0 then acc
    else loadCustomMixer custom fuel (i + 1)
      (fun j => if j = i then custom i else acc.1 j, acc.2 + 1)

/-- The loop of source lines 540-547, from index `i` with `fuel` iterations
left: the pair is `currentServoMixer` and `servoRuleCount`. -/
def loadCustomRules (custom : Nat → servoMixer_t) :
    Nat → Nat → (Nat → servoMixer_t) × Nat → (Nat → servoMixer_t) × Nat
  | 0, _, acc => acc
  | fuel + 1, i, acc =>
    if (custom i).rate = 0 then acc
    else loadCustomRules custom fuel (i + 1)
      (fun j => if j = i then custom i else acc.1 j, acc.2 + 1)

/-- Function `loadCustomServoMixer` (source lines 531-548): the `memset`
clears the `MAX_SERVO_RULES` entries of `currentServoMixer`. -/
def loadCustomServoMixer (st : State) : State :=
  let r := loadCustomRules st.customServoMixers MAX_SERVO_RULES 0
    (fun j => if j < MAX_SERVO_RULES then servoMixerZero else st.currentServoMixer j, 0)
  { st with currentServoMixer := r.1, servoRuleCount := r.2 }

/-- Motor count and `currentMixer` after source lines 452-471. -/
def loadMotorMixer (st : State) : (Nat → motorMixer_t) × Nat :=
  if isCustomMixer st.currentMixerMode then
    loadCustomMixer st.customMixers MAX_SUPPORTED_MOTORS 0 (st.currentMixer, 0)
  else
    match (mixersAt st.currentMixerMode.index).motor with
    | some t =>
      (fun i => if i < (mixersAt st.currentMixerMode.index).motorCount then tableRow t i
                else st.currentMixer i,
       (mixersAt st.currentMixerMode.index).motorCount)
    | none => (st.currentMixer, (mixersAt st.currentMixerMode.index).motorCount)

/-- Rule count and `currentServoMixer` after source lines 473-479. -/
def loadServoRules (st : State) : (Nat → servoMixer_t) × Nat :=
  if st.useServo then
    match (servoMixersAt st.currentMixerMode.index).rule with
    | some t =>
      (fun i => if i < (servoMixersAt st.currentMixerMode.index).servoRuleCount then ruleRow t i
                else st.currentServoMixer i,
       (servoMixersAt st.currentMixerMode.index).servoRuleCount)
    | none => (st.currentServoMixer, (servoMixersAt st.currentMixerMode.index).servoRuleCount)
  else (st.currentServoMixer, st.servoRuleCount)

/-- The 3D gain halving of source lines 481-490 on a loaded mixer. -/
def halveGain3D (env : Env) (m : (Nat → motorMixer_t) × Nat) : Nat → motorMixer_t :=
  if env.feature3D then
    if m.2 > 1 then
      fun i =>
        if i < m.2 then
          { throttle := (m.1 i).throttle
            roll := (m.1 i).roll * (1 / 2)
            pitch := (m.1 i).pitch * (1 / 2)
            yaw := (m.1 i).yaw * (1 / 2) }
        else m.1 i
    else m.1
  else m.1

/-- Function `mixerUsePWMIOConfiguration` (source lines 448-511);
`pwmServoCount` is `pwmIOConfiguration->servoCount`. -/
def mixerUsePWMIOConfiguration (env : Env) (pwmServoCount : Nat) (st : State) : State :=
  let st1 : State :=
    { st with
      motorCount := (loadMotorMixer st).2
      servoCount := pwmServoCount
      currentMixer := halveGain3D env (loadMotorMixer st)
      currentServoMixer := (loadServoRules st).1
      servoRuleCount := (loadServoRules st).2 }
  let st2 : State :=
    if st1.currentMixerMode = MIXER_FLYING_WING ∨ st1.currentMixerMode = MIXER_AIRPLANE
        ∨ st1.currentMixerMode = MIXER_CUSTOM_AIRPLANE then
      if st1.currentMixerMode = MIXER_CUSTOM_AIRPLANE then
        loadCustomServoMixer { st1 with fixedWing := true }
      else { st1 with fixedWing := true }
    else
      if st1.currentMixerMode = MIXER_CUSTOM_TRI then
        loadCustomServoMixer { st1 with fixedWing := false }
      else { st1 with fixedWing := false }
  mixerResetDisarmedMotors env st2

/-! ## Concrete scenario (section 8 of the specification) -/

/-- The default ESC command range of `motors.c`. -/
def defaultEscAndServoConfig : escAndServoConfig_t :=
  { minthrottle := 1100, maxthrottle := 2000, mincommand := 1000 }

/-- A 3D configuration ordered inside the default command range. -/
def scenarioFlight3DConfig : flight3DConfig_t :=
  { deadband3d_low := 1406, deadband3d_high := 1514, neutral3d := 1460, deadband3d_throttle := 50 }

/-- Mixer knobs of the scenarios: `yaw_dir = +1`. -/
def scenarioMixerConfig : mixerConfig_t :=
  { pid_at_min_throttle := 1, yaw_motor_direction := 1, yaw_jump_prevention_limit := 200,
    tri_unarmed_servo := 0, airmode_saturation_limit := 50, tri_tail_motor_thrustfactor := 138,
    tri_tail_servo_speed := 300, tri_servo_angle_at_max := 400 }

/-- A servo calibrated to 1000 .. 1500 .. 2000 µs. -/
def scenarioServoParam : servoParam_t :=
  { min := 1000, max := 2000, middle := 1500, rate := 100,
    forwardFromChannel := CHANNEL_FORWARDING_DISABLED, reversedSources := 0 }

/-- The environment of the scenarios: default configuration, sticks centred
except the throttle, which is given both as `rcCommand[THROTTLE]` and as
`rcData[THROTTLE]`. -/
def scenarioEnv (armed failsafe airmode feature3D motorStop : Bool) (throttle rcThrottle : Int) : Env :=
  { escAndServoConfig := defaultEscAndServoConfig
    flight3DConfig := scenarioFlight3DConfig
    mixerConfig := scenarioMixerConfig
    rxConfig := { midrc := 1500, mincheck := 1100 }
    servoConf := fun _ => scenarioServoParam
    gimbalMode := 0
    rcCommand := fun c => if c = THROTTLE then throttle else 0
    rcData := fun c => if c = THROTTLE then rcThrottle else 1500
    attitudePitch := 0
    attitudeRoll := 0
    armed := armed
    failsafeIsActive := failsafe
    airmode := airmode
    camstab := false
    passthru := false
    servoBox := fun _ => false
    feature3D := feature3D
    featureMotorStop := motorStop
    featureServoTilt := false
    featureChannelForwarding := false
    channelCount := 8
    dT := 1 / 1000
    sin_approx := fun x => x
    cos_approx := fun x => x
    DEGREES_TO_RADIANS := fun x => x }

/-- A state with the given airframe, motor count, motor matrix and axis
demands; the disarmed values are `disarmed`, everything else is zero. -/
def scenarioState (mode : mixerMode_e) (motorCount : Nat) (mixer : List motorMixer_t)
    (roll pitch yaw disarmed : Int) : State :=
  { motorCount := motorCount
    motor := fun _ => 0
    motor_disarmed := fun _ => disarmed
    motorLimitReached := false
    currentMixerMode := mode
    currentMixer := tableRow mixer
    axisPID := fun a => if a = ROLL then roll else if a = PITCH then pitch else if a = YAW then yaw else 0
    throttlePrevious := 0
    servoRuleCount := 0
    currentServoMixer := fun _ =>
      { targetChannel := 0, inputSource := 0, rate := 0, speed := 0, min := 0, max := 0, box := 0 }
    servo := fun _ => 1500
    currentOutput := fun _ => 0
    curveIndex := 0
    counter := 0
    tailServoMaxYawForce := 0
    tailServoThrustFactor := 138 / 10
    tailServoMaxAngle_DD := 400
    virtualServoAngle_D := 90
    yawForceCurve := fun _ => 0 }

/-- A QuadX state with the given axis demands, disarmed values 1000. -/
def quadXState (roll pitch yaw : Int) : State :=
  scenarioState MIXER_QUADX 4 mixerQuadX roll pitch yaw 1000

/-- A tricopter state: rule table `servoMixerTri` (source lines 281-283), tail
servo at its middle. -/
def triState (yaw : Int) : State :=
  { scenarioState MIXER_TRI 3 mixerTricopter 0 0 yaw 1000 with
    servoRuleCount := 1
    currentServoMixer := fun _ =>
      { targetChannel := SERVO_RUDDER, inputSource := INPUT_STABILIZED_YAW, rate := 100,
        speed := 0, min := 0, max := 100, box := 0 } }

/-- The linear mix of motor `i` as the specification writes it:
`throttle·f.throttle + pitch·f.pitch + roll·f.roll − yaw_motor_direction·y·f.yaw`,
for a yaw demand `y`. -/
def specLinearMix (env : Env) (st : State) (y : Int) (i : Nat) : ℚ :=
  (env.rcCommand THROTTLE : ℚ) * (st.currentMixer i).throttle
    + (st.axisPID PITCH : ℚ) * (st.currentMixer i).pitch
    + (st.axisPID ROLL : ℚ) * (st.currentMixer i).roll
    - (env.mixerConfig.yaw_motor_direction : ℚ) * (y : ℚ) * (st.currentMixer i).yaw

/-- The spread of the scaled roll/pitch/yaw values over the motors equals
`throttleRange` up to 1: no two differ by more than `throttleRange + 1`, and
two of them differ by at least `throttleRange − 1`. -/
def scaledSpreadMatches (env : Env) (st : State) : Prop :=
  (∀ i, i < st.motorCount → ∀ j, j < st.motorCount →
      rollPitchYawMixScaled env st i - rollPitchYawMixScaled env st j ≤ throttleRange env st + 1)
  ∧ (∃ i, i < st.motorCount ∧ ∃ j, j < st.motorCount ∧
      throttleRange env st - 1 ≤ rollPitchYawMixScaled env st i - rollPitchYawMixScaled env st j)

instance (env : Env) (st : State) : Decidable (scaledSpreadMatches env st) := by
  unfold scaledSpreadMatches
  infer_instance

/-- A custom single-motor matrix with roll coefficient 1. -/
def customSingleRoll : List motorMixer_t :=
  [ { throttle := 1, roll := 1, pitch := 0, yaw := 0 } ]

/-! ## Quantities of the servo rule loop -/

/-- Whether `servoMixer` considers rule `i` (source line 763): no box assigned
or the box active. -/
def ruleActive (env : Env) (rules : Nat → servoMixer_t) (i : Nat) : Prop :=
  (rules i).box = 0 ∨ env.servoBox (rules i).box

instance (env : Env) (rules : Nat → servoMixer_t) (i : Nat) : Decidable (ruleActive env rules i) := by
  unfold ruleActive
  infer_instance

/-- The amount an active rule `r` adds to `servo[r.targetChannel]` (source
lines 764-768 and 779) when its slew memory holds `out`. -/
def servoRuleContribution (env : Env) (r : servoMixer_t) (out : Int) : Int :=
  servoDirection env r.targetChannel r.inputSource
    * constrain (Int.tdiv (out * r.rate) 100)
        (toInt16 (Int.tdiv (r.min
            * toUInt16 ((env.servoConf r.targetChannel).max - (env.servoConf r.targetChannel).min)) 100
          - Int.tdiv (toUInt16 ((env.servoConf r.targetChannel).max
              - (env.servoConf r.targetChannel).min)) 2))
        (toInt16 (Int.tdiv (r.max
            * toUInt16 ((env.servoConf r.targetChannel).max - (env.servoConf r.targetChannel).min)) 100
          - Int.tdiv (toUInt16 ((env.servoConf r.targetChannel).max
              - (env.servoConf r.targetChannel).min)) 2))

/-- The slew memory of rule `k` after a cycle in which it is active. -/
def ruleOut (env : Env) (st : State) (k : Nat) : Int :=
  slewStep (st.currentServoMixer k).speed (st.currentOutput k)
    (servoInput env st (st.currentServoMixer k).inputSource)

/-- What rule `k` adds to servo `j` in one cycle: its contribution when it is
active and targets `j`, nothing otherwise. -/
def ruleAmount (env : Env) (st : State) (j k : Nat) : Int :=
  if ruleActive env st.currentServoMixer k ∧ (st.currentServoMixer k).targetChannel = j then
    servoRuleContribution env (st.currentServoMixer k) (ruleOut env st k)
  else 0

/-- The sum of the contributions of the active rules targeting servo `j`. -/
def servoRuleSum (env : Env) (st : State) (j : Nat) : Int :=
  ((List.range st.servoRuleCount).map (ruleAmount env st j)).sum

/-- The rule loop of `servoMixer` over the first `n` rules. -/
def servoMixerRulesUpTo (env : Env) (st : State) (n : Nat) : servoAcc :=
  (List.range n).foldl
    (servoMixerRule env st.currentServoMixer (servoInput env st))
    { servo := fun j => if j < MAX_SUPPORTED_SERVOS then 0 else st.servo j
      currentOutput := st.currentOutput }

/-! ## Definitions for the servo and initialisation claims -/

/-- The scenario environment with every servo box switched on or off and the
roll channel at `rcRoll`. -/
def slewEnv (boxOn : Bool) (rcRoll : Int) : Env :=
  { scenarioEnv true false false false false 1500 1500 with
    servoBox := fun _ => boxOn
    rcData := fun c => if c = ROLL then rcRoll else 1500 }

/-- A flying-wing state with the single rule `{target 0, input RC_ROLL, rate
100, speed 5, min 0, max 100}` on the given box. -/
def slewState (box : Nat) : State :=
  { scenarioState MIXER_FLYING_WING 1 mixerSingleProp 0 0 0 1000 with
    servoRuleCount := 1
    currentServoMixer := fun _ =>
      { targetChannel := 0, inputSource := INPUT_RC_ROLL, rate := 100, speed := 5,
        min := 0, max := 100, box := box } }

/-- The base value of servo `i` as the specification writes it: the forwarded
channel when forwarding is enabled and the channel exists, else the middle. -/
def servoBase (env : Env) (i : Nat) : Int :=
  if (env.servoConf i).forwardFromChannel ≠ CHANNEL_FORWARDING_DISABLED
      ∧ (env.servoConf i).forwardFromChannel < env.channelCount then
    env.rcData (env.servoConf i).forwardFromChannel
  else (env.servoConf i).middle

/-- No active rule targets servo `i`. -/
def servoUntargeted (env : Env) (st : State) (i : Nat) : Prop :=
  ∀ k, k < st.servoRuleCount → ruleActive env st.currentServoMixer k →
    (st.currentServoMixer k).targetChannel ≠ i

instance (env : Env) (st : State) (i : Nat) : Decidable (servoUntargeted env st i) := by
  unfold servoUntargeted
  infer_instance

/-- The geometry `mixerUsePWMIOConfiguration` selects: the custom rows for the
custom airframe kinds, else the motor table of `mixers`, if there is one. -/
def selectedGeometry (st : State) : Option (Nat → motorMixer_t) :=
  if isCustomMixer st.currentMixerMode then some st.customMixers
  else (mixersAt st.currentMixerMode.index).motor.map tableRow

/-- A row with pitch, roll and yaw at half magnitude and the same throttle. -/
def halfGain (g : motorMixer_t) : motorMixer_t :=
  { throttle := g.throttle, roll := g.roll / 2, pitch := g.pitch / 2, yaw := g.yaw / 2 }

/-- A state of kind MIXER_CUSTOM whose custom array holds two rows, a zero
throttle row and a further non-zero row. -/
def customState : State :=
  { scenarioState MIXER_CUSTOM 0 [] 0 0 0 1000 with
    customMixers := tableRow
      [ { throttle := 1, roll := -1, pitch := 1, yaw := -1 },
        { throttle := 1, roll := 1, pitch := -1, yaw := -1 },
        { throttle := 0, roll := 0, pitch := 0, yaw := 0 },
        { throttle := 1, roll := 1, pitch := 1, yaw := 1 } ] }

/-- A flying-wing state with the rule table `servoMixerFlyingWing` and the
given roll and pitch demands. -/
def flyingWingState (roll pitch : Int) : State :=
  { scenarioState MIXER_FLYING_WING 1 mixerSingleProp roll pitch 0 1000 with
    servoRuleCount := servoMixerFlyingWing.length
    currentServoMixer := ruleRow servoMixerFlyingWing }

/-- The scenario environment with the given `reversedSources` mask on every
servo. -/
def reversedEnv (mask : Nat) : Env :=
  { scenarioEnv true false false false false 1500 1500 with
    servoConf := fun _ => { scenarioServoParam with reversedSources := mask } }

/-- A state whose custom rule array holds two rules, a zero-rate rule and a
further rule, and whose `currentServoMixer` holds a stale rule everywhere. -/
def customRuleState : State :=
  { scenarioState MIXER_CUSTOM_AIRPLANE 0 [] 0 0 0 1000 with
    currentServoMixer := fun _ =>
      { targetChannel := 7, inputSource := 3, rate := 100, speed := 0, min := 0, max := 100, box := 0 }
    customServoMixers := ruleRow
      [ { targetChannel := 3, inputSource := 0, rate := 100, speed := 0, min := 0, max := 100, box := 0 },
        { targetChannel := 4, inputSource := 1, rate := -50, speed := 0, min := 0, max := 100, box := 0 },
        { targetChannel := 5, inputSource := 2, rate := 0, speed := 0, min := 0, max := 100, box := 0 },
        { targetChannel := 6, inputSource := 1, rate := 100, speed := 0, min := 0, max := 100, box := 0 } ] }

/-! ## `mixerInit` and the tail servo tables (source lines 418-438, 1088-1115) -/

/-- Modelled from the spec: `DEFAULT_SERVO_MIDDLE` of `flight/mixer.h` (not
under `src/`), the centre 1500 of the 1000 .. 2000 µs servo command range of
section 6. -/
def DEFAULT_SERVO_MIDDLE : Int := 1500

/-- Modelled from the spec: the macro `MIN` of `common/maths.h` (not under
`src/`), the smaller of two values. -/
def MIN (a b : Int) : Int := if a < b then a else b

/-- Modelled from the spec: the macro `MAX` of `common/maths.h` (not under
`src/`), the larger of two values. -/
def MAX (a b : Int) : Int := if a > b then a else b

/-- The tail parameters `initTailServoSymmetry` stores first (source lines
1090-1091). -/
def tailParams (env : Env) (st : State) : State :=
  { st with
    tailServoThrustFactor := (env.mixerConfig.tri_tail_motor_thrustfactor : ℚ) / 10
    tailServoMaxAngle_DD := toInt16 env.mixerConfig.tri_servo_angle_at_max }

/-- The angle, in decidegrees, at which entry `i` of `yawForceCurve` is
tabulated (source lines 1098 and 1109). -/
def curveAngle_DD (i : Nat) : Int :=
  TRI_TAIL_SERVO_ANGLE_MID_DD - TRI_TAIL_SERVO_MAX_ANGLE_DD + 10 * (i : Int)

/-- Entry `i` of `yawForceCurve` as `initTailServoSymmetry` computes it (source
lines 1101-1102): a `float` converted to `int16_t`. -/
def yawForceAt (env : Env) (st : State) (i : Nat) : Int :=
  let f_angle : ℚ := (curveAngle_DD i : ℚ) / 10
  toInt16 (truncf
    (1000 * (-(tailParams env st).tailServoThrustFactor * env.cosf (env.DEGREES_TO_RADIANS f_angle)
      - env.sinf (env.DEGREES_TO_RADIANS f_angle)
          * getPitchCorrectionAtTailAngle env (tailParams env st) f_angle)))

/-- The locals `maxNegForce` and `maxPosForce` after the loop of
`initTailServoSymmetry` (source lines 1099-1110). -/
def tailForceExtremes (env : Env) (st : State) : Int × Int :=
  (List.range TRI_YAW_FORCE_CURVE_SIZE).foldl
    (fun acc i =>
      if curveAngle_DD i ≥ TRI_TAIL_SERVO_ANGLE_MID_DD - (tailParams env st).tailServoMaxAngle_DD
          ∧ curveAngle_DD i < TRI_TAIL_SERVO_ANGLE_MID_DD + (tailParams env st).tailServoMaxAngle_DD then
        (toInt16 (MIN (yawForceAt env st i) acc.1), toInt16 (MAX (yawForceAt env st i) acc.2))
      else acc)
    (0, 0)

/-- Function `initTailServoSymmetry` (source lines 1088-1115). -/
def initTailServoSymmetry (env : Env) (st : State) : State :=
  { tailParams env st with
    yawForceCurve := fun i =>
      if i < TRI_YAW_FORCE_CURVE_SIZE then yawForceAt env st i else st.yawForceCurve i
    tailServoMaxYawForce :=
      toInt16 (MIN (ABS (tailForceExtremes env st).1) (ABS (tailForceExtremes env st).2)) }

/-- Function `mixerInit` (source lines 418-438).  The function returns `void`:
there is no error value. -/
def mixerInit (env : Env) (mixerMode : mixerMode_e) (initialCustomMotorMixers : Nat → motorMixer_t)
    (initialCustomServoMixers : Nat → servoMixer_t) (st : State) : State :=
  initTailServoSymmetry env
    { st with
      currentMixerMode := mixerMode
      customMixers := initialCustomMotorMixers
      customServoMixers := initialCustomServoMixers
      useServo := if env.featureServoTilt then true else (mixersAt mixerMode.index).useServo
      servo := fun i => if i < MAX_SUPPORTED_SERVOS then toInt16 DEFAULT_SERVO_MIDDLE else st.servo i }

/-! ## `motors.c`: the reset template of `motorConfig` (source lines 32-50) -/

/-- The fields the reset template of `motorConfig` names (`motorConfig_t`). -/
structure motorConfig_t where
  minthrottle : Int
  maxthrottle : Int
  mincommand : Int
  reserved1 : Int
  motor_pwm_rate : Int
  reserved2 : Int
  deriving DecidableEq

/-- Source line 32 of `motors.c`. -/
def BRUSHED_MOTORS_PWM_RATE : Int := 16000

/-- Source line 33 of `motors.c`. -/
def BRUSHLESS_MOTORS_PWM_RATE : Int := 400

/-- The macro `DEFAULT_PWM_RATE` (source lines 35-39 of `motors.c`);
`brushedMotors` tells whether `BRUSHED_MOTORS` is defined. -/
def DEFAULT_PWM_RATE (brushedMotors : Bool) : Int :=
  if brushedMotors then BRUSHED_MOTORS_PWM_RATE else BRUSHLESS_MOTORS_PWM_RATE

/-- The reset template of `motorConfig` (source lines 43-50 of `motors.c`). -/
def motorConfigResetTemplate (brushedMotors : Bool) : motorConfig_t :=
  { minthrottle := 1100
    maxthrottle := 2000
    mincommand := 1000
    reserved1 := 0
    motor_pwm_rate := DEFAULT_PWM_RATE brushedMotors
    reserved2 := 0 }

/-- The command range the mixer reads out of a motor configuration. -/
def motorConfig_t.commandRange (c : motorConfig_t) : escAndServoConfig_t :=
  { minthrottle := c.minthrottle, maxthrottle := c.maxthrottle, mincommand := c.mincommand }

/-! ## Definitions for the tail, band and rule claims -/

/-- The local `angleDiff_D` of the tricopter pre-hook after the limitation of
source lines 841-845. -/
def angleDiff_D (env : Env) (st : State) : ℚ :=
  let servoAngle_D := getVirtualServoAngleInDegrees st
  let servoSetpointAngle_D : ℚ :=
    (getServoAngleInDeciDegrees st (env.servoConf 0) (st.servo SERVO_RUDDER) : ℚ) / 10
  let angleDiff0 := servoSetpointAngle_D - servoAngle_D
  if ABSf angleDiff0 > TRI_TAIL_MOTOR_CURVE_MAX_PHASE_SHIFT_DEGREES then
    TRI_TAIL_MOTOR_CURVE_MAX_PHASE_SHIFT_DEGREES * angleDiff0 / ABSf angleDiff0
  else angleDiff0

/-- The local `futureServoAngle` of the tricopter pre-hook (source line 846):
the argument `mixTable` passes to `getPitchCorrectionAtTailAngle`. -/
def futureServoAngle (env : Env) (st : State) : ℚ :=
  constrainf (getVirtualServoAngleInDegrees st + angleDiff_D env st)
    ((TRI_TAIL_SERVO_ANGLE_MID_DD - st.tailServoMaxAngle_DD : Int) : ℚ)
    ((TRI_TAIL_SERVO_ANGLE_MID_DD + st.tailServoMaxAngle_DD : Int) : ℚ)

/-- Consecutive `mixTable` cycles, one per environment of the list, the oldest
first. -/
def mixTableCycles (envs : List Env) (st : State) : State :=
  envs.foldl (fun s e => mixTable e s) st

/-- The throttle stick is at or below the deadband (test of source line 878). -/
def stickLow (env : Env) : Prop :=
  env.rcData THROTTLE ≤ env.rxConfig.midrc - env.flight3DConfig.deadband3d_throttle

/-- The throttle stick is at or above the deadband (test of source line 882). -/
def stickHigh (env : Env) : Prop :=
  env.rcData THROTTLE ≥ env.rxConfig.midrc + env.flight3DConfig.deadband3d_throttle

/-- The throttle stick is strictly inside the deadband. -/
def inDeadband (env : Env) : Prop :=
  env.rxConfig.midrc - env.flight3DConfig.deadband3d_throttle < env.rcData THROTTLE
  ∧ env.rcData THROTTLE < env.rxConfig.midrc + env.flight3DConfig.deadband3d_throttle

instance (env : Env) : Decidable (stickLow env) := by
  unfold stickLow
  infer_instance

instance (env : Env) : Decidable (stickHigh env) := by
  unfold stickHigh
  infer_instance

instance (env : Env) : Decidable (inDeadband env) := by
  unfold inDeadband
  infer_instance

/-- Every motor command `motor[i]`, `i < motorCount`, lies in `[lo, hi]`. -/
def motorsWithin (st : State) (lo hi : Int) : Prop :=
  ∀ i, i < st.motorCount → lo ≤ st.motor i ∧ st.motor i ≤ hi

instance (st : State) (lo hi : Int) : Decidable (motorsWithin st lo hi) := by
  unfold motorsWithin
  infer_instance

/-- The setting of the 3D airmode claims: airmode switch and FEATURE_3D on,
armed, no failsafe, a positive throttle deadband. -/
def airmode3DArmed (env : Env) : Prop :=
  env.airmode = true ∧ env.feature3D = true ∧ env.armed = true ∧ env.failsafeIsActive = false
  ∧ 0 < env.flight3DConfig.deadband3d_throttle

instance (env : Env) : Decidable (airmode3DArmed env) := by
  unfold airmode3DArmed
  infer_instance

/-- The two bands of the 3D airmode are non-empty and storable in `int16_t`:
`minthrottle ≤ deadband3d_low`, `deadband3d_high ≤ maxthrottle`, the four values
inside the `int16_t` range. -/
def bands3DTyped (env : Env) : Prop :=
  env.escAndServoConfig.minthrottle ≤ env.flight3DConfig.deadband3d_low
  ∧ env.flight3DConfig.deadband3d_high ≤ env.escAndServoConfig.maxthrottle
  ∧ INT16_MIN ≤ env.escAndServoConfig.minthrottle
  ∧ env.flight3DConfig.deadband3d_low ≤ INT16_MAX
  ∧ INT16_MIN ≤ env.flight3DConfig.deadband3d_high
  ∧ env.escAndServoConfig.maxthrottle ≤ INT16_MAX

instance (env : Env) : Decidable (bands3DTyped env) := by
  unfold bands3DTyped
  infer_instance

/-- The raw throttle channel holds an `int16_t` value (the element type of
`rcData`). -/
def throttleChannelTyped (env : Env) : Prop :=
  INT16_MIN ≤ env.rcData THROTTLE ∧ env.rcData THROTTLE ≤ INT16_MAX

instance (env : Env) : Decidable (throttleChannelTyped env) := by
  unfold throttleChannelTyped
  infer_instance

/-- The scenario environment in 3D airmode with the given arming state and raw
throttle channel. -/
def airmode3DEnv (armed : Bool) (rcThrottle : Int) : Env :=
  scenarioEnv armed false true true false rcThrottle rcThrottle

/-- The contribution of a rule with input value `input` as the specification
writes it: `direction · clamp(input · rate / 100, lo, hi)` with `width = max −
min`, `lo = r.min · width / 100 − width / 2`, `hi = r.max · width / 100 − width /
2`, in plain integer arithmetic. -/
def specRuleContribution (env : Env) (r : servoMixer_t) (input : Int) : Int :=
  let width := (env.servoConf r.targetChannel).max - (env.servoConf r.targetChannel).min
  let lo := Int.tdiv (r.min * width) 100 - Int.tdiv width 2
  let hi := Int.tdiv (r.max * width) 100 - Int.tdiv width 2
  servoDirection env r.targetChannel r.inputSource * constrain (Int.tdiv (input * r.rate) 100) lo hi

/-- The width of the target servo of a rule fits `uint16_t` and the two rule
bounds fit `int16_t`, the types of the locals `servo_width`, `min` and `max`. -/
def ruleBoundsTyped (env : Env) (r : servoMixer_t) : Prop :=
  0 ≤ (env.servoConf r.targetChannel).max - (env.servoConf r.targetChannel).min
  ∧ (env.servoConf r.targetChannel).max - (env.servoConf r.targetChannel).min ≤ 65535
  ∧ INT16_MIN ≤ Int.tdiv (r.min
        * ((env.servoConf r.targetChannel).max - (env.servoConf r.targetChannel).min)) 100
      - Int.tdiv ((env.servoConf r.targetChannel).max - (env.servoConf r.targetChannel).min) 2
  ∧ Int.tdiv (r.min
        * ((env.servoConf r.targetChannel).max - (env.servoConf r.targetChannel).min)) 100
      - Int.tdiv ((env.servoConf r.targetChannel).max - (env.servoConf r.targetChannel).min) 2
      ≤ INT16_MAX
  ∧ INT16_MIN ≤ Int.tdiv (r.max
        * ((env.servoConf r.targetChannel).max - (env.servoConf r.targetChannel).min)) 100
      - Int.tdiv ((env.servoConf r.targetChannel).max - (env.servoConf r.targetChannel).min) 2
  ∧ Int.tdiv (r.max
        * ((env.servoConf r.targetChannel).max - (env.servoConf r.targetChannel).min)) 100
      - Int.tdiv ((env.servoConf r.targetChannel).max - (env.servoConf r.targetChannel).min) 2
      ≤ INT16_MAX

instance (env : Env) (r : servoMixer_t) : Decidable (ruleBoundsTyped env r) := by
  unfold ruleBoundsTyped
  infer_instance

/-- The scenario environment of the flying-wing claims: armed, classic branch,
no passthrough, no servo reversal. -/
def wingEnv : Env := scenarioEnv true false false false false 1500 1500

/-- Value `m` is the maximum of `f i` over `i < n`. -/
def isMaxOver (f : Nat → Int) (n : Nat) (m : Int) : Prop :=
  (∀ i, i < n → f i ≤ m) ∧ ∃ i, i < n ∧ f i = m

/-- Value `m` is the minimum of `f i` over `i < n`. -/
def isMinOver (f : Nat → Int) (n : Nat) (m : Int) : Prop :=
  (∀ i, i < n → m ≤ f i) ∧ ∃ i, i < n ∧ f i = m

instance (f : Nat → Int) (n : Nat) (m : Int) : Decidable (isMaxOver f n m) := by
  unfold isMaxOver
  infer_instance

instance (f : Nat → Int) (n : Nat) (m : Int) : Decidable (isMinOver f n m) := by
  unfold isMinOver
  infer_instance

/-- A servo calibration and tail angle for which the conversions between servo
value and angle stay inside their C types: pulse widths `0 ≤ min < middle < max`
in `int16_t`, `0 < tailServoMaxAngle_DD ≤ 500`, and the product `angle · width ·
INT_PRECISION` inside the 32-bit `int`. -/
def calibrationTyped (st : State) (c : servoParam_t) : Prop :=
  0 ≤ c.min ∧ c.min < c.middle ∧ c.middle < c.max ∧ c.max ≤ INT16_MAX
  ∧ 0 < st.tailServoMaxAngle_DD ∧ st.tailServoMaxAngle_DD ≤ TRI_TAIL_SERVO_MAX_ANGLE_DD
  ∧ st.tailServoMaxAngle_DD * (c.max - c.min) * INT_PRECISION ≤ 2147483647

instance (st : State) (c : servoParam_t) : Decidable (calibrationTyped st c) := by
  unfold calibrationTyped
  infer_instance

/-- A servo value converted to its angle and back. -/
def servoRoundTrip (st : State) (c : servoParam_t) (v : Int) : Int :=
  getServoValueAtAngle st c (getServoAngleInDeciDegrees st c v)

/-- A tricopter state whose `yawForceCurve` rises by 20 per entry from −1000,
except for entry 10, which holds 900: the table is not monotonic. -/
def bumpCurveState : State :=
  { triState 0 with
    yawForceCurve := fun i => if i = 10 then 900 else 20 * (i : Int) - 1000 }

/-! ## `mixerLoadMix` and the definitions of the table claims -/

/-- Function `mixerLoadMix` (source lines 566-581) on the array behind the
pointer `customMixers`; `index` is the 0-based preset number, a valid index of
`mixers` after the increment. -/
def mixerLoadMix (index : Nat) (customMixers : Nat → motorMixer_t) : Nat → motorMixer_t :=
  let cleared : Nat → motorMixer_t := fun i =>
    if i < MAX_SUPPORTED_MOTORS then { customMixers i with throttle := 0 } else customMixers i
  match (mixersAt (index + 1)).motor with
  | some t =>
    fun i => if i < (mixersAt (index + 1)).motorCount then tableRow t i else cleared i
  | none => cleared

/-- An entry of `mixers` with a motor table declares the number of rows of the
table, at most `MAX_SUPPORTED_MOTORS`, and every row has throttle coefficient
1. -/
def mixerEntryWellFormed (e : mixer_t) : Prop :=
  ∀ t, e.motor = some t →
    e.motorCount = t.length ∧ e.motorCount ≤ MAX_SUPPORTED_MOTORS ∧ ∀ r ∈ t, r.throttle = 1

instance (e : mixer_t) : Decidable (mixerEntryWellFormed e) := by
  unfold mixerEntryWellFormed
  cases e.motor with
  | none => exact isTrue (fun t h => by cases h)
  | some t0 =>
    exact decidable_of_iff
      (e.motorCount = t0.length ∧ e.motorCount ≤ MAX_SUPPORTED_MOTORS ∧ ∀ r ∈ t0, r.throttle = 1)
      ⟨fun h t ht => by cases ht; exact h, fun h => h t0 rfl⟩

/-- The environment `env` with `failsafeIsActive()` returning `b`. -/
def withFailsafe (env : Env) (b : Bool) : Env := { env with failsafeIsActive := b }

/-- The table `yawForceCurve` is non-decreasing over its 100 entries. -/
def curveNonDecreasing (st : State) : Prop :=
  ∀ i, i < TRI_YAW_FORCE_CURVE_SIZE → ∀ j, j < TRI_YAW_FORCE_CURVE_SIZE → i ≤ j →
    st.yawForceCurve i ≤ st.yawForceCurve j

/-- The table `yawForceCurve` is strictly increasing over its 100 entries. -/
def curveStrictlyIncreasing (st : State) : Prop :=
  ∀ i, i < TRI_YAW_FORCE_CURVE_SIZE → ∀ j, j < TRI_YAW_FORCE_CURVE_SIZE → i < j →
    st.yawForceCurve i < st.yawForceCurve j

/-- The entries of `yawForceCurve` are `int16_t` values, the element type of
the array. -/
def curveTyped (st : State) : Prop :=
  ∀ i, i < TRI_YAW_FORCE_CURVE_SIZE →
    INT16_MIN ≤ st.yawForceCurve i ∧ st.yawForceCurve i ≤ INT16_MAX

instance (st : State) : Decidable (curveNonDecreasing st) := by
  unfold curveNonDecreasing
  infer_instance

instance (st : State) : Decidable (curveStrictlyIncreasing st) := by
  unfold curveStrictlyIncreasing
  infer_instance

instance (st : State) : Decidable (curveTyped st) := by
  unfold curveTyped
  infer_instance

/-- A tricopter state whose `yawForceCurve` rises by 20 per entry from −1000. -/
def risingCurveState : State :=
  { triState 0 with yawForceCurve := fun i => 20 * (i : Int) - 1000 }

/-- A tricopter state whose `yawForceCurve` rises by 20 every second entry from
−1000: non-decreasing with plateaus. -/
def plateauCurveState : State :=
  { triState 0 with yawForceCurve := fun i => 20 * ((i / 2 : Nat) : Int) - 1000 }

/-! ## Hypotheses on the configuration -/

/-- The ordering of the command values the output bounds rely on:
`mincommand ≤ minthrottle ≤ deadband3d_low ≤ neutral3d ≤ deadband3d_high ≤
maxthrottle`. -/
def configOrdered (env : Env) : Prop :=
  env.escAndServoConfig.mincommand ≤ env.escAndServoConfig.minthrottle
  ∧ env.escAndServoConfig.minthrottle ≤ env.flight3DConfig.deadband3d_low
  ∧ env.flight3DConfig.deadband3d_low ≤ env.flight3DConfig.neutral3d
  ∧ env.flight3DConfig.neutral3d ≤ env.flight3DConfig.deadband3d_high
  ∧ env.flight3DConfig.deadband3d_high ≤ env.escAndServoConfig.maxthrottle

/-- The command range fits the element type `int16_t` of the arrays `motor`
and `motor_disarmed`. -/
def commandsStorable (env : Env) : Prop :=
  INT16_MIN ≤ env.escAndServoConfig.mincommand ∧ env.escAndServoConfig.maxthrottle ≤ INT16_MAX

/-- The array `motor_disarmed` holds what `mixerResetDisarmedMotors` stores
into it. -/
def disarmedReset (env : Env) (st : State) : Prop :=
  ∀ i, i < MAX_SUPPORTED_MOTORS →
    st.motor_disarmed i = (mixerResetDisarmedMotors env st).motor_disarmed i

/-- Every servo calibration has `min ≤ max`. -/
def servoConfOrdered (env : Env) : Prop :=
  ∀ i, i < MAX_SUPPORTED_SERVOS → (env.servoConf i).min ≤ (env.servoConf i).max

/-- The fields `min` and `max` of every servo calibration hold `int16_t`
values. -/
def servoConfStorable (env : Env) : Prop :=
  ∀ i, i < MAX_SUPPORTED_SERVOS →
    INT16_MIN ≤ (env.servoConf i).min ∧ (env.servoConf i).max ≤ INT16_MAX

/-- No tail conversion of a tricopter divides by zero: on MIXER_TRI the
field `middle` of `servoConf[0]` is an `int16_t` value different from `min`
and from `max`, and when armed `tailServoMaxAngle_DD` is neither 0 nor
`TRI_TAIL_SERVO_ANGLE_MID_DD`. -/
def tailServoCalibrated (env : Env) (st : State) : Prop :=
  st.currentMixerMode = MIXER_TRI →
    INT16_MIN ≤ (env.servoConf 0).middle ∧ (env.servoConf 0).middle ≤ INT16_MAX
    ∧ (env.servoConf 0).middle ≠ (env.servoConf 0).min
    ∧ (env.servoConf 0).middle ≠ (env.servoConf 0).max
    ∧ (env.armed = true →
        st.tailServoMaxAngle_DD ≠ 0 ∧ st.tailServoMaxAngle_DD ≠ TRI_TAIL_SERVO_ANGLE_MID_DD)

instance (env : Env) (st : State) : Decidable (tailServoCalibrated env st) := by
  unfold tailServoCalibrated
  infer_instance

/-- The scenario environment, disarmed, with the tail servo calibrated to
1000 .. 1500 .. 1500 µs: `middle == max`. -/
def degenerateTailEnv : Env :=
  { scenarioEnv false false false false false 1500 1500 with
    servoConf := fun _ => { scenarioServoParam with max := 1500 } }

/-- The scenario environment, disarmed, with the tail servo calibrated to
1600 .. 1600 .. 2000 µs: `middle == min`. -/
def degenerateTailMinEnv : Env :=
  { scenarioEnv false false false false false 1500 1500 with
    servoConf := fun _ => { scenarioServoParam with min := 1600, middle := 1600 } }

/-- The value a call of `pwmWriteServo` passes lies in the configured range
of servo channel `j`. -/
def emittedInRange (env : Env) (st : State) (w : pwmWrite) (j : Nat) : Prop :=
  (env.servoConf j).min ≤ w.arg.value env st ∧ w.arg.value env st ≤ (env.servoConf j).max

instance (env : Env) : Decidable (servoConfOrdered env) := by
  unfold servoConfOrdered
  infer_instance

instance (env : Env) : Decidable (servoConfStorable env) := by
  unfold servoConfStorable
  infer_instance

instance (env : Env) (st : State) (w : pwmWrite) (j : Nat) : Decidable (emittedInRange env st w j) := by
  unfold emittedInRange
  infer_instance

instance (env : Env) : Decidable (configOrdered env) := by
  unfold configOrdered
  infer_instance

instance (env : Env) : Decidable (commandsStorable env) := by
  unfold commandsStorable
  infer_instance

instance (env : Env) (st : State) : Decidable (disarmedReset env st) := by
  unfold disarmedReset
  infer_instance

/-! ## Lemmas on the machine arithmetic -/

theorem toInt16_of_mem (x : Int) (h1 : INT16_MIN ≤ x) (h2 : x ≤ INT16_MAX) : toInt16 x = x := by
  unfold INT16_MIN at h1
  unfold INT16_MAX at h2
  unfold toInt16
  omega

theorem toInt16_mem (x : Int) : INT16_MIN ≤ toInt16 x ∧ toInt16 x ≤ INT16_MAX := by
  unfold INT16_MIN INT16_MAX toInt16
  omega

theorem toInt16_toUInt16 (x : Int) : toInt16 (toUInt16 x) = toInt16 x := by
  unfold toInt16 toUInt16
  omega

theorem constrain_mem (x lo hi : Int) (h : lo ≤ hi) :
    lo ≤ constrain x lo hi ∧ constrain x lo hi ≤ hi := by
  unfold constrain
  split_ifs <;> omega

theorem constrain_of_mem (x lo hi : Int) (h1 : lo ≤ x) (h2 : x ≤ hi) : constrain x lo hi = x := by
  unfold constrain
  split_ifs <;> omega

/-- A clamp to a band inside the `int16_t` range survives the store. -/
theorem toInt16_constrain_mem (x lo hi a b : Int) (h : lo ≤ hi)
    (ha : a ≤ lo) (hb : hi ≤ b) (hmin : INT16_MIN ≤ a) (hmax : b ≤ INT16_MAX) :
    a ≤ toInt16 (constrain x lo hi) ∧ toInt16 (constrain x lo hi) ≤ b := by
  have hc := constrain_mem x lo hi h
  rw [toInt16_of_mem _ (by omega) (by omega)]
  omega

/-- A stored configuration value inside the command range stays there. -/
theorem toInt16_value_mem (v a b : Int) (ha : a ≤ v) (hb : v ≤ b)
    (hmin : INT16_MIN ≤ a) (hmax : b ≤ INT16_MAX) :
    a ≤ toInt16 v ∧ toInt16 v ≤ b := by
  rw [toInt16_of_mem _ (by omega) (by omega)]
  omega

/-! ## Frame lemmas of `mixTable` -/

theorem yawJumpPrevention_frame (env : Env) (st : State) :
    (yawJumpPrevention env st).motorCount = st.motorCount
    ∧ (yawJumpPrevention env st).motor_disarmed = st.motor_disarmed
    ∧ (yawJumpPrevention env st).motor = st.motor
    ∧ (yawJumpPrevention env st).currentMixer = st.currentMixer
    ∧ (yawJumpPrevention env st).currentMixerMode = st.currentMixerMode := by
  unfold yawJumpPrevention
  split_ifs <;> simp

theorem triPreHook_frame (env : Env) (st : State) :
    (triPreHook env st).motorCount = st.motorCount
    ∧ (triPreHook env st).motor_disarmed = st.motor_disarmed
    ∧ (triPreHook env st).motor = st.motor
    ∧ (triPreHook env st).axisPID = st.axisPID := by
  unfold triPreHook
  split_ifs <;> simp

theorem preMix_motorCount (env : Env) (st : State) : (preMix env st).motorCount = st.motorCount := by
  unfold preMix
  rw [(triPreHook_frame env _).1, (yawJumpPrevention_frame env st).1]

theorem preMix_motor_disarmed (env : Env) (st : State) :
    (preMix env st).motor_disarmed = st.motor_disarmed := by
  unfold preMix
  rw [(triPreHook_frame env _).2.1, (yawJumpPrevention_frame env st).2.1]

/-- Function `virtualServoStep` writes `virtualServoAngle_D` only. -/
theorem virtualServoStep_frame (env : Env) (st : State) (c : servoParam_t) (x : Int) :
    virtualServoStep env st c x
      = { st with virtualServoAngle_D := (virtualServoStep env st c x).virtualServoAngle_D } := by
  unfold virtualServoStep
  dsimp only
  split_ifs <;> rfl

/-- The fields `servoMixer` writes. -/
theorem servoMixer_frame (env : Env) (st : State) :
    ∃ servo ci cnt v, servoMixer env st
      = { st with servo := servo, currentOutput := (servoMixerRules env st).currentOutput,
                  curveIndex := ci, counter := cnt, virtualServoAngle_D := v } := by
  unfold servoMixer
  dsimp only
  by_cases hm : st.currentMixerMode = MIXER_TRI
  · rw [if_pos hm, virtualServoStep_frame]
    by_cases ha : env.armed = true
    · rw [if_pos ha]
      exact ⟨_, _, _, _, rfl⟩
    · rw [if_neg ha]
      exact ⟨_, _, _, _, rfl⟩
  · rw [if_neg hm]
    exact ⟨_, _, _, _, rfl⟩

/-- The fields the servo part of `mixTable` writes. -/
theorem mixTableServos_frame (env : Env) (st : State) :
    ∃ servo cur ci cnt v, mixTableServos env st
      = { st with servo := servo, currentOutput := cur, curveIndex := ci, counter := cnt,
                  virtualServoAngle_D := v } := by
  have h1 : ∃ servo cur ci cnt v,
      (if usesServoMixer st.currentMixerMode then servoMixer env st else st)
        = { st with servo := servo, currentOutput := cur, curveIndex := ci, counter := cnt,
                    virtualServoAngle_D := v } := by
    by_cases hu : usesServoMixer st.currentMixerMode = true
    · rw [if_pos hu]
      obtain ⟨servo, ci, cnt, v, h⟩ := servoMixer_frame env st
      exact ⟨_, _, _, _, _, h⟩
    · rw [if_neg hu]
      exact ⟨_, _, _, _, _, rfl⟩
  obtain ⟨servo, cur, ci, cnt, v, h⟩ := h1
  unfold mixTableServos
  rw [h]
  unfold constrainServos camstabOverlay
  by_cases ht : env.featureServoTilt = true
  · rw [if_pos ht]
    exact ⟨_, _, _, _, _, rfl⟩
  · rw [if_neg ht]
    exact ⟨_, _, _, _, _, rfl⟩


theorem servoMixer_rules (env : Env) (st : State) :
    (servoMixer env st).currentServoMixer = st.currentServoMixer
    ∧ (servoMixer env st).servoRuleCount = st.servoRuleCount := by
  obtain ⟨servo, ci, cnt, v, h⟩ := servoMixer_frame env st
  rw [h]
  exact ⟨rfl, rfl⟩

theorem servoMixer_motor (env : Env) (st : State) :
    (servoMixer env st).motor = st.motor ∧ (servoMixer env st).motorCount = st.motorCount
    ∧ (servoMixer env st).motorLimitReached = st.motorLimitReached := by
  obtain ⟨servo, ci, cnt, v, h⟩ := servoMixer_frame env st
  rw [h]
  exact ⟨rfl, rfl, rfl⟩

theorem mixTableServos_motor (env : Env) (st : State) :
    (mixTableServos env st).motor = st.motor ∧ (mixTableServos env st).motorCount = st.motorCount
    ∧ (mixTableServos env st).motorLimitReached = st.motorLimitReached := by
  obtain ⟨servo, cur, ci, cnt, v, h⟩ := mixTableServos_frame env st
  rw [h]
  exact ⟨rfl, rfl, rfl⟩

/-- The motors `mixTable` leaves are those of its motor part. -/
theorem mixTable_motor (env : Env) (st : State) (i : Nat) :
    (mixTable env st).motor i = (mixTableMotors env st).motor i := by
  unfold mixTable
  rw [(mixTableServos_motor env _).1]

/-- Motor `i` after the motor part, spelled out by arming state and branch. -/
theorem mixTableMotors_motor (env : Env) (st : State) (i : Nat) (hi : i < st.motorCount) :
    (mixTableMotors env st).motor i =
      if env.armed then
        if env.airmode then airmodeMotor env (preMix env st) i
        else classicMotor env (preMix env st) i
      else st.motor_disarmed i := by
  have hc := preMix_motorCount env st
  have hd := preMix_motor_disarmed env st
  unfold mixTableMotors disarmMotors mixTableAirmode mixTableClassic
  cases env.armed <;> cases env.airmode <;> simp [hc, hi, hd]

/-! ## Bounds of the two branches -/

theorem airmodeMotor_mem (env : Env) (st : State) (i : Nat)
    (hord : configOrdered env) (hst : commandsStorable env) :
    env.escAndServoConfig.mincommand ≤ airmodeMotor env st i
    ∧ airmodeMotor env st i ≤ env.escAndServoConfig.maxthrottle := by
  obtain ⟨h1, h2, h3, h4, h5⟩ := hord
  obtain ⟨h6, h7⟩ := hst
  unfold airmodeMotor mixConstrainMotorForFailsafeCondition
  split_ifs
  · rw [toInt16_toUInt16]
    exact toInt16_constrain_mem _ _ _ _ _ (by omega) (by omega) (by omega) h6 h7
  · exact toInt16_constrain_mem _ _ _ _ _ (by omega) (by omega) (by omega) h6 h7
  · exact toInt16_constrain_mem _ _ _ _ _ (by omega) (by omega) (by omega) h6 h7
  · exact toInt16_constrain_mem _ _ _ _ _ (by omega) (by omega) (by omega) h6 h7

theorem classicMotor_mem (env : Env) (st : State) (i : Nat)
    (hord : configOrdered env) (hst : commandsStorable env) :
    env.escAndServoConfig.mincommand ≤ classicMotor env st i
    ∧ classicMotor env st i ≤ env.escAndServoConfig.maxthrottle := by
  obtain ⟨h1, h2, h3, h4, h5⟩ := hord
  obtain ⟨h6, h7⟩ := hst
  unfold classicMotor mixConstrainMotorForFailsafeCondition
  simp only
  split_ifs
  · exact toInt16_constrain_mem _ _ _ _ _ (by omega) (by omega) (by omega) h6 h7
  · exact toInt16_constrain_mem _ _ _ _ _ (by omega) (by omega) (by omega) h6 h7
  · exact toInt16_value_mem _ _ _ (by omega) (by omega) h6 h7
  · exact toInt16_value_mem _ _ _ (by omega) (by omega) h6 h7
  · rw [toInt16_toUInt16]
    exact toInt16_constrain_mem _ _ _ _ _ (by omega) (by omega) (by omega) h6 h7
  · exact toInt16_value_mem _ _ _ (by omega) (by omega) h6 h7
  · exact toInt16_value_mem _ _ _ (by omega) (by omega) h6 h7
  · exact toInt16_constrain_mem _ _ _ _ _ (by omega) (by omega) (by omega) h6 h7
  · exact toInt16_constrain_mem _ _ _ _ _ (by omega) (by omega) (by omega) h6 h7

/-! ## C1: motor output bounds -/

/-- C1. With the configuration ordered `mincommand ≤ minthrottle ≤
deadband3d_low ≤ neutral3d ≤ deadband3d_high ≤ maxthrottle`, the command
range storable in the `int16_t` motor array and `motor_disarmed` as
`mixerResetDisarmedMotors` leaves it, every `motor[i]` with
`i < motorCount` lies in `[mincommand, maxthrottle]` after `mixTable`, for
every throttle, `axisPID`, `rcData` and every combination of the armed,
failsafe, airmode, 3D, motor-stop and `pid_at_min_throttle` switches. -/
theorem C1_motor_output_bounds (env : Env) (st : State)
    (hord : configOrdered env) (hst : commandsStorable env)
    (hcount : st.motorCount ≤ MAX_SUPPORTED_MOTORS) (hdis : disarmedReset env st)
    (i : Nat) (hi : i < st.motorCount) :
    env.escAndServoConfig.mincommand ≤ (mixTable env st).motor i
    ∧ (mixTable env st).motor i ≤ env.escAndServoConfig.maxthrottle := by
  rw [mixTable_motor, mixTableMotors_motor env st i hi]
  split_ifs
  · exact airmodeMotor_mem env _ i hord hst
  · exact classicMotor_mem env _ i hord hst
  · have hi8 : i < MAX_SUPPORTED_MOTORS := by omega
    rw [hdis i hi8]
    obtain ⟨h1, h2, h3, h4, h5⟩ := hord
    obtain ⟨h6, h7⟩ := hst
    unfold mixerResetDisarmedMotors
    simp only [hi8, if_true]
    split_ifs
    · exact toInt16_value_mem _ _ _ (by omega) (by omega) h6 h7
    · exact toInt16_value_mem _ _ _ (by omega) (by omega) h6 h7

/-- C1 at a concrete input: armed QuadX in airmode with a roll demand of
10000 keeps motor 2 inside `[1000, 2000]`. -/
theorem C1_motor_output_bounds_witness :
    (1000 : Int) ≤ (mixTable (scenarioEnv true false true false false 1500 1500) (quadXState 10000 0 0)).motor 2
    ∧ (mixTable (scenarioEnv true false true false false 1500 1500) (quadXState 10000 0 0)).motor 2 ≤ (2000 : Int) :=
  C1_motor_output_bounds (scenarioEnv true false true false false 1500 1500) (quadXState 10000 0 0)
    (by decide) (by decide) (by decide) (by decide) 2 (by decide)

/-! ## C2: disarm dominance -/

/-- C2. If the ARMED flag is clear, then after `mixTable` every `motor[i]`
with `i < motorCount` equals `motor_disarmed[i]`, whatever the throttle,
`axisPID`, `rcData`, failsafe flag, airmode flag and features are; and when
`motor_disarmed` is what `mixerResetDisarmedMotors` stores, that value is
`neutral3d` with FEATURE_3D and `mincommand` without (as stored in the
`int16_t` array). -/
theorem C2_disarm_dominance (env : Env) (st : State) (harm : env.armed = false)
    (i : Nat) (hi : i < st.motorCount) :
    (mixTable env st).motor i = st.motor_disarmed i
    ∧ (disarmedReset env st → i < MAX_SUPPORTED_MOTORS →
        (mixTable env st).motor i
          = toInt16 (if env.feature3D then env.flight3DConfig.neutral3d
                     else env.escAndServoConfig.mincommand)) := by
  have h : (mixTable env st).motor i = st.motor_disarmed i := by
    rw [mixTable_motor, mixTableMotors_motor env st i hi]
    simp [harm]
  refine ⟨h, ?_⟩
  intro hdis hi8
  rw [h, hdis i hi8]
  unfold mixerResetDisarmedMotors
  simp [hi8]

/-- C2 at the scenario S4: a disarmed non-3D QuadX with `mincommand` 1000
outputs 1000 on all four motors, here under full throttle and a roll demand
of 500. -/
theorem C2_disarm_dominance_witness :
    (mixTable (scenarioEnv false false false false false 2000 2000) (quadXState 500 0 0)).motor 0 = 1000
    ∧ (mixTable (scenarioEnv false false false false false 2000 2000) (quadXState 500 0 0)).motor 1 = 1000
    ∧ (mixTable (scenarioEnv false false false false false 2000 2000) (quadXState 500 0 0)).motor 2 = 1000
    ∧ (mixTable (scenarioEnv false false false false false 2000 2000) (quadXState 500 0 0)).motor 3 = 1000 :=
  ⟨((C2_disarm_dominance (scenarioEnv false false false false false 2000 2000) (quadXState 500 0 0)
      rfl 0 (by decide)).2 (by decide) (by decide)).trans (by decide),
   ((C2_disarm_dominance (scenarioEnv false false false false false 2000 2000) (quadXState 500 0 0)
      rfl 1 (by decide)).2 (by decide) (by decide)).trans (by decide),
   ((C2_disarm_dominance (scenarioEnv false false false false false 2000 2000) (quadXState 500 0 0)
      rfl 2 (by decide)).2 (by decide) (by decide)).trans (by decide),
   ((C2_disarm_dominance (scenarioEnv false false false false false 2000 2000) (quadXState 500 0 0)
      rfl 3 (by decide)).2 (by decide) (by decide)).trans (by decide)⟩

/-! ## C3: failsafe dominance -/

/-- C3. If failsafe is active and the craft is armed, then (the configuration
being ordered and storable) after `mixTable` no `motor[i]` with
`i < motorCount` exceeds `maxthrottle` or falls below `mincommand`, for every
`axisPID`, throttle and mode; and without FEATURE_3D every motor equals
exactly `constrain(mixed, mincommand, maxthrottle)`, where `mixed` is the
value the branch has put in `motor[i]` before the regime handling
(`airmodeMix` in airmode, `classicRebalanced` in the classic branch): neither
motor-stop nor the min-throttle forcing takes part. -/
theorem C3_failsafe_dominance (env : Env) (st : State)
    (hord : configOrdered env) (hst : commandsStorable env)
    (hfs : env.failsafeIsActive = true) (harm : env.armed = true)
    (i : Nat) (hi : i < st.motorCount) :
    (env.escAndServoConfig.mincommand ≤ (mixTable env st).motor i
      ∧ (mixTable env st).motor i ≤ env.escAndServoConfig.maxthrottle)
    ∧ (env.feature3D = false →
        (mixTable env st).motor i
          = constrain
              (if env.airmode then airmodeMix env (preMix env st) i
               else classicRebalanced env (preMix env st) i)
              env.escAndServoConfig.mincommand env.escAndServoConfig.maxthrottle) := by
  rw [mixTable_motor, mixTableMotors_motor env st i hi]
  simp only [harm, if_true]
  constructor
  · split_ifs
    · exact airmodeMotor_mem env _ i hord hst
    · exact classicMotor_mem env _ i hord hst
  · intro h3d
    obtain ⟨h1, h2, h3, h4, h5⟩ := hord
    obtain ⟨h6, h7⟩ := hst
    have hle : env.escAndServoConfig.mincommand ≤ env.escAndServoConfig.maxthrottle := by omega
    split_ifs
    · unfold airmodeMotor mixConstrainMotorForFailsafeCondition
      simp only [hfs, if_true]
      rw [toInt16_toUInt16]
      have hc := constrain_mem (airmodeMix env (preMix env st) i) _ _ hle
      exact toInt16_of_mem _ (by omega) (by omega)
    · unfold classicMotor mixConstrainMotorForFailsafeCondition
      simp only [hfs, h3d, if_true]
      rw [toInt16_toUInt16]
      have hc := constrain_mem (classicRebalanced env (preMix env st) i) _ _ hle
      simpa using toInt16_of_mem _ (by omega) (by omega)

/-- C3 at the scenario S5: armed QuadX under failsafe with a roll demand of
10000, motor stop enabled and the stick below `mincheck`: motor 2 sits at
`maxthrottle` = 2000 and motor 0 at `mincommand` = 1000. -/
theorem C3_failsafe_dominance_witness :
    (mixTable (scenarioEnv true true false false true 1500 1000) (quadXState 10000 0 0)).motor 2 = 2000
    ∧ (mixTable (scenarioEnv true true false false true 1500 1000) (quadXState 10000 0 0)).motor 0 = 1000 :=
  ⟨((C3_failsafe_dominance (scenarioEnv true true false false true 1500 1000) (quadXState 10000 0 0)
      (by decide) (by decide) rfl rfl 2 (by decide)).2 rfl).trans (by decide!),
   ((C3_failsafe_dominance (scenarioEnv true true false false true 1500 1000) (quadXState 10000 0 0)
      (by decide) (by decide) rfl rfl 0 (by decide)).2 rfl).trans (by decide!)⟩

/-! ## The final servo clamp -/

theorem constrainServos_servo_mem (env : Env) (st : State)
    (hord : servoConfOrdered env) (hst : servoConfStorable env) (j : Nat)
    (hj : j < MAX_SUPPORTED_SERVOS) :
    (env.servoConf j).min ≤ (constrainServos env st).servo j
    ∧ (constrainServos env st).servo j ≤ (env.servoConf j).max := by
  unfold constrainServos
  simp only [hj, if_true]
  exact toInt16_constrain_mem _ _ _ _ _ (hord j hj) (le_refl _) (le_refl _) (hst j hj).1 (hst j hj).2

/-! ## The calls of `writeServos` after `mixTable` -/

theorem servoMixer_mode (env : Env) (st : State) :
    (servoMixer env st).currentMixerMode = st.currentMixerMode := by
  obtain ⟨servo, ci, cnt, v, h⟩ := servoMixer_frame env st
  rw [h]

theorem mixTableServos_mode (env : Env) (st : State) :
    (mixTableServos env st).currentMixerMode = st.currentMixerMode := by
  obtain ⟨servo, cur, ci, cnt, v, h⟩ := mixTableServos_frame env st
  rw [h]

theorem mixTableMotors_mode (env : Env) (st : State) :
    (mixTableMotors env st).currentMixerMode = st.currentMixerMode := by
  have h1 := (yawJumpPrevention_frame env st).2.2.2.2
  have h2 : (preMix env st).currentMixerMode = st.currentMixerMode := by
    unfold preMix triPreHook
    split_ifs <;> simp [h1]
  unfold mixTableMotors disarmMotors mixTableAirmode mixTableClassic
  split_ifs <;> simp [h2]

theorem mixTable_mode (env : Env) (st : State) :
    (mixTable env st).currentMixerMode = st.currentMixerMode := by
  unfold mixTable
  rw [mixTableServos_mode, mixTableMotors_mode]

/-- The servo array `mixTable` leaves is the result of the final clamp. -/
theorem mixTable_servo_mem (env : Env) (st : State)
    (hord : servoConfOrdered env) (hst : servoConfStorable env) (j : Nat)
    (hj : j < MAX_SUPPORTED_SERVOS) :
    (env.servoConf j).min ≤ (mixTable env st).servo j
    ∧ (mixTable env st).servo j ≤ (env.servoConf j).max := by
  unfold mixTable mixTableServos
  exact constrainServos_servo_mem env _ hord hst j hj

/-- With every servo calibration ordered, every call `writeServos` makes for
a servo of the mixer in the state `mixTable` leaves passes `servo[j]` for a
channel `j < MAX_SUPPORTED_SERVOS`, inside `[servoConf[j].min,
servoConf[j].max]`, or is the literal 0 of the disarmed tricopter. -/
theorem writeServosMixer_mixTable (env : Env) (st : State)
    (hord : servoConfOrdered env) (hst : servoConfStorable env)
    (w : pwmWrite) (hw : w ∈ writeServosMixer env (mixTable env st)) :
    (∃ j, j < MAX_SUPPORTED_SERVOS ∧ w.arg = servoArg.servoCh j
        ∧ emittedInRange env (mixTable env st) w j)
    ∨ (w.arg = servoArg.literal 0
        ∧ (st.currentMixerMode = MIXER_TRI ∨ st.currentMixerMode = MIXER_CUSTOM_TRI)
        ∧ env.armed = false ∧ env.mixerConfig.tri_unarmed_servo = 0) := by
  have key : ∀ j, j < MAX_SUPPORTED_SERVOS → ∀ k,
      emittedInRange env (mixTable env st) ⟨k, servoArg.servoCh j⟩ j := by
    intro j hj k
    exact mixTable_servo_mem env st hord hst j hj
  have hch : ∀ j k, j < MAX_SUPPORTED_SERVOS → w = ⟨k, servoArg.servoCh j⟩ →
      ∃ j, j < MAX_SUPPORTED_SERVOS ∧ w.arg = servoArg.servoCh j
        ∧ emittedInRange env (mixTable env st) w j := by
    intro j k hj hwk
    subst hwk
    exact ⟨j, hj, rfl, key j hj k⟩
  unfold writeServosMixer at hw
  rw [List.mem_append] at hw
  rcases hw with hw | hw
  · unfold writeMixerServos at hw
    rw [mixTable_mode] at hw
    cases hmode : st.currentMixerMode <;> simp only [hmode] at hw <;>
      first
      | exact absurd hw (List.not_mem_nil _)
      | skip
    · -- MIXER_TRI
      split_ifs at hw with h1 h2
      · simp only [List.mem_singleton] at hw
        exact Or.inl (hch SERVO_RUDDER 0 (by decide) hw)
      · simp only [List.mem_singleton] at hw
        exact Or.inl (hch SERVO_RUDDER 0 (by decide) hw)
      · simp only [List.mem_singleton] at hw
        refine Or.inr ⟨by rw [hw], Or.inl rfl, by simpa using h2, by simpa using h1⟩
    · -- MIXER_BICOPTER
      simp only [List.mem_cons, List.mem_singleton, List.not_mem_nil, or_false] at hw
      rcases hw with hw | hw
      · exact Or.inl (hch SERVO_BICOPTER_LEFT 0 (by decide) hw)
      · exact Or.inl (hch SERVO_BICOPTER_RIGHT 1 (by decide) hw)
    · -- MIXER_FLYING_WING
      simp only [List.mem_cons, List.mem_singleton, List.not_mem_nil, or_false] at hw
      rcases hw with hw | hw
      · exact Or.inl (hch SERVO_FLAPPERON_1 0 (by decide) hw)
      · exact Or.inl (hch SERVO_FLAPPERON_2 1 (by decide) hw)
    · -- MIXER_AIRPLANE
      rw [List.mem_map] at hw
      obtain ⟨k, hk, hwk⟩ := hw
      rw [List.mem_range] at hk
      exact Or.inl (hch (SERVO_PLANE_INDEX_MIN + k) k
        (by unfold SERVO_PLANE_INDEX_MAX SERVO_PLANE_INDEX_MIN at *; unfold MAX_SUPPORTED_SERVOS; omega)
        hwk.symm)
    · -- MIXER_DUALCOPTER
      simp only [List.mem_cons, List.mem_singleton, List.not_mem_nil, or_false] at hw
      rcases hw with hw | hw
      · exact Or.inl (hch SERVO_DUALCOPTER_LEFT 0 (by decide) hw)
      · exact Or.inl (hch SERVO_DUALCOPTER_RIGHT 1 (by decide) hw)
    · -- MIXER_SINGLECOPTER
      rw [List.mem_map] at hw
      obtain ⟨k, hk, hwk⟩ := hw
      rw [List.mem_range] at hk
      exact Or.inl (hch (SERVO_SINGLECOPTER_INDEX_MIN + k) k
        (by
          unfold SERVO_SINGLECOPTER_INDEX_MAX SERVO_SINGLECOPTER_INDEX_MIN at *
          unfold MAX_SUPPORTED_SERVOS
          omega)
        hwk.symm)
    · -- MIXER_CUSTOM_AIRPLANE
      rw [List.mem_map] at hw
      obtain ⟨k, hk, hwk⟩ := hw
      rw [List.mem_range] at hk
      exact Or.inl (hch (SERVO_PLANE_INDEX_MIN + k) k
        (by unfold SERVO_PLANE_INDEX_MAX SERVO_PLANE_INDEX_MIN at *; unfold MAX_SUPPORTED_SERVOS; omega)
        hwk.symm)
    · -- MIXER_CUSTOM_TRI
      split_ifs at hw with h1 h2
      · simp only [List.mem_singleton] at hw
        exact Or.inl (hch SERVO_RUDDER 0 (by decide) hw)
      · simp only [List.mem_singleton] at hw
        exact Or.inl (hch SERVO_RUDDER 0 (by decide) hw)
      · simp only [List.mem_singleton] at hw
        refine Or.inr ⟨by rw [hw], Or.inr rfl, by simpa using h2, by simpa using h1⟩
  · split_ifs at hw
    · unfold updateGimbalServos at hw
      simp only [List.mem_cons, List.mem_singleton, List.not_mem_nil, or_false] at hw
      rcases hw with hw | hw
      · exact Or.inl (hch SERVO_GIMBAL_PITCH _ (by decide) hw)
      · exact Or.inl (hch SERVO_GIMBAL_ROLL _ (by decide) hw)
    · exact absurd hw (List.not_mem_nil _)

/-! ## C6: motor stop -/

/-- C6 as stated fails: with FEATURE_MOTOR_STOP, armed, no 3D and the stick
below `mincheck` (1000 < 1100), the motors of a QuadX do not sit at
`mincommand` = 1000 when the airmode switch is on (motor 0 is at 1100), nor
when failsafe is active (motor 2 is at 1200 under a roll demand of 100). -/
theorem C6_motor_stop_counterexample :
    ((scenarioEnv true false true false true 1100 1000).featureMotorStop = true
      ∧ (scenarioEnv true false true false true 1100 1000).rcData THROTTLE
          < (scenarioEnv true false true false true 1100 1000).rxConfig.mincheck
      ∧ (mixTable (scenarioEnv true false true false true 1100 1000) (quadXState 0 0 0)).motor 0 = 1100
      ∧ (mixTable (scenarioEnv true false true false true 1100 1000) (quadXState 0 0 0)).motor 0
          ≠ (scenarioEnv true false true false true 1100 1000).escAndServoConfig.mincommand)
    ∧ ((scenarioEnv true true false false true 1100 1000).featureMotorStop = true
      ∧ (scenarioEnv true true false false true 1100 1000).rcData THROTTLE
          < (scenarioEnv true true false false true 1100 1000).rxConfig.mincheck
      ∧ (mixTable (scenarioEnv true true false false true 1100 1000) (quadXState 100 0 0)).motor 2 = 1200
      ∧ (mixTable (scenarioEnv true true false false true 1100 1000) (quadXState 100 0 0)).motor 2
          ≠ (scenarioEnv true true false false true 1100 1000).escAndServoConfig.mincommand) := by
  refine ⟨⟨rfl, by decide, by decide!, by decide!⟩, ⟨rfl, by decide, by decide!, by decide!⟩⟩

/-- C6, amended. With FEATURE_MOTOR_STOP enabled, armed, FEATURE_3D disabled,
the airmode switch off, failsafe inactive and `rcData[THROTTLE] < mincheck`,
after `mixTable` every `motor[i]` with `i < motorCount` equals `mincommand`
(an `int16_t` value), whatever the `axisPID` values are. -/
theorem C6_motor_stop (env : Env) (st : State)
    (hstop : env.featureMotorStop = true) (harm : env.armed = true)
    (h3d : env.feature3D = false) (hair : env.airmode = false)
    (hfs : env.failsafeIsActive = false)
    (hthr : env.rcData THROTTLE < env.rxConfig.mincheck)
    (hmin : INT16_MIN ≤ env.escAndServoConfig.mincommand)
    (hmax : env.escAndServoConfig.mincommand ≤ INT16_MAX)
    (i : Nat) (hi : i < st.motorCount) :
    (mixTable env st).motor i = env.escAndServoConfig.mincommand := by
  rw [mixTable_motor, mixTableMotors_motor env st i hi]
  simp only [harm, hair, if_true]
  unfold classicMotor
  simp only [h3d, hfs, hthr, hstop, if_true]
  simpa using toInt16_of_mem _ hmin hmax

/-- C6 (amended) at a concrete input: QuadX, classic branch, roll demand 300,
stick at 1000 below `mincheck` 1100: motor 2 is at `mincommand` = 1000. -/
theorem C6_motor_stop_witness :
    (mixTable (scenarioEnv true false false false true 1100 1000) (quadXState 300 0 0)).motor 2 = 1000 :=
  C6_motor_stop (scenarioEnv true false false false true 1100 1000) (quadXState 300 0 0)
    rfl rfl rfl rfl rfl (by decide) (by decide) (by decide) 2 (by decide)

/-! ## The running maximum of the classic branch -/

theorem foldl_max_le (f : Nat → Int) (l : List Nat) (a b : Int) (ha : a ≤ b)
    (hl : ∀ i, i ∈ l → f i ≤ b) :
    l.foldl (fun acc i => if f i > acc then f i else acc) a ≤ b := by
  induction l generalizing a with
  | nil => simpa using ha
  | cons x xs ih =>
    simp only [List.foldl_cons]
    apply ih
    · split_ifs
      · exact hl x (List.mem_cons_self x xs)
      · exact ha
    · intro i hi
      exact hl i (List.mem_cons_of_mem x hi)

theorem foldl_max_ge_init (f : Nat → Int) (l : List Nat) (a : Int) :
    a ≤ l.foldl (fun acc i => if f i > acc then f i else acc) a := by
  induction l generalizing a with
  | nil => simp
  | cons x xs ih =>
    simp only [List.foldl_cons]
    refine le_trans ?_ (ih _)
    split_ifs <;> omega

theorem foldl_max_ge_mem (f : Nat → Int) (l : List Nat) (a : Int) (i : Nat) (hi : i ∈ l) :
    f i ≤ l.foldl (fun acc i => if f i > acc then f i else acc) a := by
  induction l generalizing a with
  | nil => exact absurd hi (List.not_mem_nil i)
  | cons x xs ih =>
    simp only [List.foldl_cons]
    rcases List.mem_cons.mp hi with h | h
    · subst h
      refine le_trans ?_ (foldl_max_ge_init f xs _)
      split_ifs <;> omega
    · exact ih _ h

theorem foldl_max_attained (f : Nat → Int) (l : List Nat) (a : Int) :
    l.foldl (fun acc i => if f i > acc then f i else acc) a = a
    ∨ ∃ i, i ∈ l ∧ f i = l.foldl (fun acc i => if f i > acc then f i else acc) a := by
  induction l generalizing a with
  | nil => exact Or.inl rfl
  | cons x xs ih =>
    simp only [List.foldl_cons]
    rcases ih (if f x > a then f x else a) with h | ⟨i, hi, h⟩
    · split_ifs at h ⊢ with hx
      · exact Or.inr ⟨x, List.mem_cons_self x xs, h.symm⟩
      · exact Or.inl h
    · exact Or.inr ⟨i, List.mem_cons_of_mem x hi, h⟩

theorem mem_range'_one (n i : Nat) : i ∈ List.range' 1 (n - 1) ↔ 1 ≤ i ∧ i < n := by
  rw [List.mem_range'_1]
  omega

/-- The variable `maxMotor` is the value of one of the mixed motors. -/
theorem maxMotor_attained (env : Env) (st : State) (hn : 0 < st.motorCount) :
    ∃ i, i < st.motorCount ∧ classicMotorArray env st i = maxMotor env st := by
  unfold maxMotor
  rcases foldl_max_attained (classicMotorArray env st) (List.range' 1 (st.motorCount - 1))
      (classicMotorArray env st 0) with h | ⟨i, hi, h⟩
  · exact ⟨0, hn, h.symm⟩
  · exact ⟨i, ((mem_range'_one _ _).1 hi).2, h⟩

theorem truncf_intCast (n : Int) : truncf (n : ℚ) = n := by
  unfold truncf
  simp

/-- Outside MIXER_TRI the pre-hook does nothing. -/
theorem preMix_of_not_tri (env : Env) (st : State) (h : st.currentMixerMode ≠ MIXER_TRI) :
    preMix env st = yawJumpPrevention env st := by
  have hm := (yawJumpPrevention_frame env st).2.2.2.2
  unfold preMix triPreHook
  rw [if_neg (by rw [hm]; exact h)]

theorem yawJumpPrevention_axis (env : Env) (st : State) :
    (yawJumpPrevention env st).axisPID PITCH = st.axisPID PITCH
    ∧ (yawJumpPrevention env st).axisPID ROLL = st.axisPID ROLL := by
  unfold yawJumpPrevention
  split_ifs <;> simp [PITCH, ROLL, YAW]

/-- On a state whose rows are `mixerQuadX`, the float expression of source
lines 934-938 is the integer the specification formula gives. -/
theorem classicMix_quadX (env : Env) (st : State)
    (hrows : ∀ i, i < 4 → st.currentMixer i = tableRow mixerQuadX i) (i : Nat) (hi : i < 4) :
    ∃ n : Int, (n : ℚ) = specLinearMix env st (st.axisPID YAW) i
      ∧ classicMix env st i = toInt16 n := by
  unfold classicMix specLinearMix
  rw [hrows i hi]
  interval_cases i
  · refine ⟨env.rcCommand THROTTLE + st.axisPID PITCH - st.axisPID ROLL
      + env.mixerConfig.yaw_motor_direction * st.axisPID YAW, ?_, ?_⟩
    · simp [tableRow, mixerQuadX]
      ring
    · rw [← truncf_intCast (env.rcCommand THROTTLE + st.axisPID PITCH - st.axisPID ROLL
        + env.mixerConfig.yaw_motor_direction * st.axisPID YAW)]
      congr 2
      simp [tableRow, mixerQuadX]
      ring
  · refine ⟨env.rcCommand THROTTLE - st.axisPID PITCH - st.axisPID ROLL
      - env.mixerConfig.yaw_motor_direction * st.axisPID YAW, ?_, ?_⟩
    · simp [tableRow, mixerQuadX]
      ring
    · rw [← truncf_intCast (env.rcCommand THROTTLE - st.axisPID PITCH - st.axisPID ROLL
        - env.mixerConfig.yaw_motor_direction * st.axisPID YAW)]
      congr 2
      simp [tableRow, mixerQuadX]
      ring
  · refine ⟨env.rcCommand THROTTLE + st.axisPID PITCH + st.axisPID ROLL
      - env.mixerConfig.yaw_motor_direction * st.axisPID YAW, ?_, ?_⟩
    · simp [tableRow, mixerQuadX]
    · rw [← truncf_intCast (env.rcCommand THROTTLE + st.axisPID PITCH + st.axisPID ROLL
        - env.mixerConfig.yaw_motor_direction * st.axisPID YAW)]
      congr 2
      simp [tableRow, mixerQuadX]
      ring
  · refine ⟨env.rcCommand THROTTLE - st.axisPID PITCH + st.axisPID ROLL
      + env.mixerConfig.yaw_motor_direction * st.axisPID YAW, ?_, ?_⟩
    · simp [tableRow, mixerQuadX]
      ring
    · rw [← truncf_intCast (env.rcCommand THROTTLE - st.axisPID PITCH + st.axisPID ROLL
        + env.mixerConfig.yaw_motor_direction * st.axisPID YAW)]
      congr 2
      simp [tableRow, mixerQuadX]
      ring

/-- C7. QuadX (`mixerQuadX`, 4 motors), armed, airmode off, FEATURE_3D off,
failsafe inactive, `rcData[THROTTLE] ≥ mincheck`; let `y` be `axisPID[YAW]`
after yaw-jump clamping.  If for every motor `i` the value `v_i =
throttle·f_i.throttle + pitch·f_i.pitch + roll·f_i.roll −
yaw_motor_direction·y·f_i.yaw` lies in `[minthrottle, maxthrottle]` (a band of
`int16_t` values), then after `mixTable` `motor[i] = v_i` for all four
motors. -/
theorem C7_classic_linear_mix (env : Env) (st : State)
    (hmode : st.currentMixerMode = MIXER_QUADX) (hcount : st.motorCount = 4)
    (hrows : ∀ i, i < 4 → st.currentMixer i = tableRow mixerQuadX i)
    (harm : env.armed = true) (hair : env.airmode = false) (h3d : env.feature3D = false)
    (hfs : env.failsafeIsActive = false)
    (hthr : env.rxConfig.mincheck ≤ env.rcData THROTTLE)
    (hmin : INT16_MIN ≤ env.escAndServoConfig.minthrottle)
    (hmax : env.escAndServoConfig.maxthrottle ≤ INT16_MAX)
    (hv : ∀ i, i < 4 →
      (env.escAndServoConfig.minthrottle : ℚ)
          ≤ specLinearMix env st ((yawJumpPrevention env st).axisPID YAW) i
      ∧ specLinearMix env st ((yawJumpPrevention env st).axisPID YAW) i
          ≤ (env.escAndServoConfig.maxthrottle : ℚ))
    (i : Nat) (hi : i < 4) :
    ((mixTable env st).motor i : ℚ)
      = specLinearMix env st ((yawJumpPrevention env st).axisPID YAW) i := by
  have hpre : preMix env st = yawJumpPrevention env st :=
    preMix_of_not_tri env st (by rw [hmode]; decide)
  have hmix : (yawJumpPrevention env st).currentMixer = st.currentMixer :=
    (yawJumpPrevention_frame env st).2.2.2.1
  have hc1 : (yawJumpPrevention env st).motorCount = 4 := by
    rw [(yawJumpPrevention_frame env st).1, hcount]
  have hax := yawJumpPrevention_axis env st
  have hrows1 : ∀ k, k < 4 → (yawJumpPrevention env st).currentMixer k = tableRow mixerQuadX k := by
    intro k hk
    rw [hmix]
    exact hrows k hk
  have hspec : ∀ k, specLinearMix env (yawJumpPrevention env st) ((yawJumpPrevention env st).axisPID YAW) k
      = specLinearMix env st ((yawJumpPrevention env st).axisPID YAW) k := by
    intro k
    unfold specLinearMix
    rw [hmix, hax.1, hax.2]
  -- every mixed motor is the specification value, inside the band
  have hraw : ∀ k, k < 4 → ∃ n : Int,
      (n : ℚ) = specLinearMix env st ((yawJumpPrevention env st).axisPID YAW) k
      ∧ classicMix env (yawJumpPrevention env st) k = n
      ∧ env.escAndServoConfig.minthrottle ≤ n ∧ n ≤ env.escAndServoConfig.maxthrottle := by
    intro k hk
    obtain ⟨n, hn1, hn2⟩ := classicMix_quadX env (yawJumpPrevention env st) hrows1 k hk
    rw [hspec k] at hn1
    have hb := hv k hk
    rw [← hn1] at hb
    have hb1 : env.escAndServoConfig.minthrottle ≤ n := by exact_mod_cast hb.1
    have hb2 : n ≤ env.escAndServoConfig.maxthrottle := by exact_mod_cast hb.2
    refine ⟨n, hn1, ?_, hb1, hb2⟩
    rw [hn2]
    exact toInt16_of_mem _ (by omega) (by omega)
  -- no overshoot
  have hmaxMotor : maxMotor env (yawJumpPrevention env st) ≤ env.escAndServoConfig.maxthrottle := by
    obtain ⟨j, hj, hjM⟩ := maxMotor_attained env (yawJumpPrevention env st) (by omega)
    rw [← hjM]
    rw [hc1] at hj
    obtain ⟨n, _, hn2, _, hn4⟩ := hraw j hj
    unfold classicMotorArray
    rw [hc1]
    simp only [hj, if_true]
    omega
  have hdiff : maxThrottleDifference env (yawJumpPrevention env st) = 0 := by
    unfold maxThrottleDifference
    rw [if_neg (by omega)]
  obtain ⟨n, hn1, hn2, hn3, hn4⟩ := hraw i hi
  have hreb : classicRebalanced env (yawJumpPrevention env st) i = n := by
    unfold classicRebalanced classicMotorArray
    rw [hdiff, hc1]
    simp only [hi, if_true, sub_zero]
    rw [hn2]
    exact toInt16_of_mem _ (by omega) (by omega)
  rw [mixTable_motor, mixTableMotors_motor env st i (by omega)]
  simp only [harm, hair, if_true]
  rw [hpre, ← hn1]
  unfold classicMotor
  simp only [h3d, hfs]
  rw [hreb, constrain_of_mem n _ _ hn3 hn4, toInt16_of_mem n (by omega) (by omega)]
  have hnot : ¬ env.rcData THROTTLE < env.rxConfig.mincheck := by omega
  simp [hnot]

/-- C7 at the scenarios S1 and S2: throttle 1500 with `axisPID = [0,0,0]`
gives 1500 on all four motors; `axisPID = [+100,0,0]` gives REAR_R = 1400,
FRONT_R = 1400, REAR_L = 1600, FRONT_L = 1600. -/
theorem C7_classic_linear_mix_witness :
    ((mixTable (scenarioEnv true false false false false 1500 1500) (quadXState 0 0 0)).motor 0 = 1500
      ∧ (mixTable (scenarioEnv true false false false false 1500 1500) (quadXState 0 0 0)).motor 1 = 1500
      ∧ (mixTable (scenarioEnv true false false false false 1500 1500) (quadXState 0 0 0)).motor 2 = 1500
      ∧ (mixTable (scenarioEnv true false false false false 1500 1500) (quadXState 0 0 0)).motor 3 = 1500)
    ∧ ((mixTable (scenarioEnv true false false false false 1500 1500) (quadXState 100 0 0)).motor 0 = 1400
      ∧ (mixTable (scenarioEnv true false false false false 1500 1500) (quadXState 100 0 0)).motor 1 = 1400
      ∧ (mixTable (scenarioEnv true false false false false 1500 1500) (quadXState 100 0 0)).motor 2 = 1600
      ∧ (mixTable (scenarioEnv true false false false false 1500 1500) (quadXState 100 0 0)).motor 3 = 1600) := by
  have h0 := C7_classic_linear_mix (scenarioEnv true false false false false 1500 1500) (quadXState 0 0 0)
    rfl rfl (fun _ _ => rfl) rfl rfl rfl rfl (by decide) (by decide) (by decide) (by decide!)
  have h1 := C7_classic_linear_mix (scenarioEnv true false false false false 1500 1500) (quadXState 100 0 0)
    rfl rfl (fun _ _ => rfl) rfl rfl rfl rfl (by decide) (by decide) (by decide) (by decide!)
  refine ⟨⟨?_, ?_, ?_, ?_⟩, ⟨?_, ?_, ?_, ?_⟩⟩
  · exact Int.cast_injective ((h0 0 (by decide)).trans (by decide! : _ = ((1500 : Int) : ℚ)))
  · exact Int.cast_injective ((h0 1 (by decide)).trans (by decide! : _ = ((1500 : Int) : ℚ)))
  · exact Int.cast_injective ((h0 2 (by decide)).trans (by decide! : _ = ((1500 : Int) : ℚ)))
  · exact Int.cast_injective ((h0 3 (by decide)).trans (by decide! : _ = ((1500 : Int) : ℚ)))
  · exact Int.cast_injective ((h1 0 (by decide)).trans (by decide! : _ = ((1400 : Int) : ℚ)))
  · exact Int.cast_injective ((h1 1 (by decide)).trans (by decide! : _ = ((1400 : Int) : ℚ)))
  · exact Int.cast_injective ((h1 2 (by decide)).trans (by decide! : _ = ((1600 : Int) : ℚ)))
  · exact Int.cast_injective ((h1 3 (by decide)).trans (by decide! : _ = ((1600 : Int) : ℚ)))

/-! ## C8: overshoot rebalance -/

theorem lrintf_err (q : ℚ) : q - 1 / 2 ≤ (lrintf q : ℚ) ∧ (lrintf q : ℚ) ≤ q + 1 / 2 := by
  have h1 := Int.floor_le q
  have h2 := Int.lt_floor_add_one q
  unfold lrintf
  split_ifs <;> push_cast <;> constructor <;> linarith

theorem foldl_min_le_init (f : Nat → Int) (l : List Nat) (a : Int) :
    l.foldl (fun acc i => if f i < acc then f i else acc) a ≤ a := by
  induction l generalizing a with
  | nil => simp
  | cons x xs ih =>
    simp only [List.foldl_cons]
    refine le_trans (ih _) ?_
    split_ifs <;> omega

theorem foldl_min_le_mem (f : Nat → Int) (l : List Nat) (a : Int) (i : Nat) (hi : i ∈ l) :
    l.foldl (fun acc i => if f i < acc then f i else acc) a ≤ f i := by
  induction l generalizing a with
  | nil => exact absurd hi (List.not_mem_nil i)
  | cons x xs ih =>
    simp only [List.foldl_cons]
    rcases List.mem_cons.mp hi with h | h
    · subst h
      refine le_trans (foldl_min_le_init f xs _) ?_
      split_ifs <;> omega
    · exact ih _ h

theorem foldl_min_attained (f : Nat → Int) (l : List Nat) (a : Int) :
    l.foldl (fun acc i => if f i < acc then f i else acc) a = a
    ∨ ∃ i, i ∈ l ∧ f i = l.foldl (fun acc i => if f i < acc then f i else acc) a := by
  induction l generalizing a with
  | nil => exact Or.inl rfl
  | cons x xs ih =>
    simp only [List.foldl_cons]
    rcases ih (if f x < a then f x else a) with h | ⟨i, hi, h⟩
    · split_ifs at h ⊢ with hx
      · exact Or.inr ⟨x, List.mem_cons_self x xs, h.symm⟩
      · exact Or.inl h
    · exact Or.inr ⟨i, List.mem_cons_of_mem x hi, h⟩

theorem rollPitchYawMix_mem (env : Env) (st : State) (i : Nat) :
    INT16_MIN ≤ rollPitchYawMix env st i ∧ rollPitchYawMix env st i ≤ INT16_MAX := by
  unfold rollPitchYawMix
  exact toInt16_mem _

/-- The running maximum bounds every motor and, when some value is
non-negative, is attained. -/
theorem rollPitchYawMixMax_spec (env : Env) (st : State) :
    0 ≤ rollPitchYawMixMax env st
    ∧ (∀ i, i < st.motorCount → rollPitchYawMix env st i ≤ rollPitchYawMixMax env st)
    ∧ ((∃ i, i < st.motorCount ∧ 0 ≤ rollPitchYawMix env st i) →
        ∃ i, i < st.motorCount ∧ rollPitchYawMix env st i = rollPitchYawMixMax env st) := by
  unfold rollPitchYawMixMax
  refine ⟨foldl_max_ge_init _ _ _, ?_, ?_⟩
  · intro i hi
    exact foldl_max_ge_mem (rollPitchYawMix env st) _ _ i (List.mem_range.2 hi)
  · rintro ⟨k, hk, hk0⟩
    rcases foldl_max_attained (rollPitchYawMix env st) (List.range st.motorCount) 0 with h | ⟨i, hi, h⟩
    · have hle := foldl_max_ge_mem (rollPitchYawMix env st) (List.range st.motorCount) 0 k
        (List.mem_range.2 hk)
      exact ⟨k, hk, by omega⟩
    · exact ⟨i, List.mem_range.1 hi, h⟩

/-- The running minimum bounds every motor and, when some value is
non-positive, is attained. -/
theorem rollPitchYawMixMin_spec (env : Env) (st : State) :
    rollPitchYawMixMin env st ≤ 0
    ∧ (∀ i, i < st.motorCount → rollPitchYawMixMin env st ≤ rollPitchYawMix env st i)
    ∧ ((∃ i, i < st.motorCount ∧ rollPitchYawMix env st i ≤ 0) →
        ∃ i, i < st.motorCount ∧ rollPitchYawMix env st i = rollPitchYawMixMin env st) := by
  unfold rollPitchYawMixMin
  refine ⟨foldl_min_le_init _ _ _, ?_, ?_⟩
  · intro i hi
    exact foldl_min_le_mem (rollPitchYawMix env st) _ _ i (List.mem_range.2 hi)
  · rintro ⟨k, hk, hk0⟩
    rcases foldl_min_attained (rollPitchYawMix env st) (List.range st.motorCount) 0 with h | ⟨i, hi, h⟩
    · have hle := foldl_min_le_mem (rollPitchYawMix env st) (List.range st.motorCount) 0 k
        (List.mem_range.2 hk)
      exact ⟨k, hk, by omega⟩
    · exact ⟨i, List.mem_range.1 hi, h⟩

theorem throttleRange_mem (env : Env) (st : State) :
    INT16_MIN ≤ throttleRange env st ∧ throttleRange env st ≤ INT16_MAX := by
  unfold throttleRange
  exact toInt16_mem _

/-- C9 as stated fails: on a custom single-motor matrix with roll coefficient
1 and a roll demand of 1000 the branch is saturated (range 1000 against a
throttle range of 900), the single value is scaled to 900, and the spread of
the scaled values is 0, not 900 up to 1. -/
theorem C9_airmode_authority_counterexample :
    airmodeSaturated (scenarioEnv true false true false false 1500 1500)
        (preMix (scenarioEnv true false true false false 1500 1500)
          (scenarioState MIXER_CUSTOM 1 customSingleRoll 1000 0 0 1000)) = true
    ∧ throttleRange (scenarioEnv true false true false false 1500 1500)
        (preMix (scenarioEnv true false true false false 1500 1500)
          (scenarioState MIXER_CUSTOM 1 customSingleRoll 1000 0 0 1000)) = 900
    ∧ rollPitchYawMixScaled (scenarioEnv true false true false false 1500 1500)
        (preMix (scenarioEnv true false true false false 1500 1500)
          (scenarioState MIXER_CUSTOM 1 customSingleRoll 1000 0 0 1000)) 0 = 900
    ∧ ¬ scaledSpreadMatches (scenarioEnv true false true false false 1500 1500)
        (preMix (scenarioEnv true false true false false 1500 1500)
          (scenarioState MIXER_CUSTOM 1 customSingleRoll 1000 0 0 1000)) := by
  refine ⟨by decide!, by decide!, by decide!, by decide!⟩

/-! ### Single-precision rounding -/

theorem pow2_eq_zpow (e : Int) : pow2 e = (2 : ℚ) ^ e := by
  unfold pow2
  split_ifs with h
  · obtain ⟨n, rfl⟩ := Int.eq_ofNat_of_zero_le h
    simp
  · have h' : 0 ≤ -e := by omega
    obtain ⟨n, hn⟩ := Int.eq_ofNat_of_zero_le h'
    have he : e = -(n : Int) := by omega
    subst he
    simp

theorem pow2_pos (e : Int) : 0 < pow2 e := by
  rw [pow2_eq_zpow]
  positivity

theorem leadingBit_spec (fuel n : Nat) (h : n ≤ fuel) (hn : 0 < n) :
    2 ^ leadingBit fuel n ≤ n ∧ n < 2 ^ (leadingBit fuel n + 1) := by
  induction fuel generalizing n with
  | zero => omega
  | succ k ih =>
    unfold leadingBit
    split_ifs with h2
    · constructor
      · simpa using hn
      · simpa using h2
    · obtain ⟨a, b⟩ := ih (n / 2) (by omega) (by omega)
      constructor
      · rw [pow_succ]
        omega
      · rw [pow_succ]
        omega

/-- The exponent `binade q` brackets `|q|` between two consecutive powers of
two. -/
theorem binade_spec (q : ℚ) (hq : q ≠ 0) :
    pow2 (binade q) ≤ |q| ∧ |q| < pow2 (binade q + 1) := by
  have hnum : q.num ≠ 0 := Rat.num_ne_zero.mpr hq
  have hn : 0 < q.num.natAbs := Int.natAbs_pos.mpr hnum
  have hd : 0 < q.den := q.den_pos
  obtain ⟨n1, n2⟩ := leadingBit_spec q.num.natAbs q.num.natAbs (le_refl _) hn
  obtain ⟨d1, d2⟩ := leadingBit_spec q.den q.den (le_refl _) hd
  have habs : |q| = (q.num.natAbs : ℚ) / (q.den : ℚ) := by
    conv_lhs => rw [← Rat.num_div_den q]
    rw [abs_div, Nat.abs_cast, Nat.cast_natAbs, Int.cast_abs]
  have hdq : (0 : ℚ) < (q.den : ℚ) := by exact_mod_cast hd
  have n1q : ((2 : ℚ) ^ leadingBit q.num.natAbs q.num.natAbs) ≤ (q.num.natAbs : ℚ) := by
    exact_mod_cast n1
  have n2q : (q.num.natAbs : ℚ) < (2 : ℚ) ^ (leadingBit q.num.natAbs q.num.natAbs + 1) := by
    exact_mod_cast n2
  have d1q : ((2 : ℚ) ^ leadingBit q.den q.den) ≤ (q.den : ℚ) := by exact_mod_cast d1
  have d2q : (q.den : ℚ) < (2 : ℚ) ^ (leadingBit q.den q.den + 1) := by exact_mod_cast d2
  unfold binade
  simp only
  generalize leadingBit q.num.natAbs q.num.natAbs = a at *
  generalize leadingBit q.den q.den = b at *
  have hlow : (2 : ℚ) ^ ((a : Int) - (b : Int) - 1) < |q| := by
    rw [habs, lt_div_iff₀ hdq]
    have : (2 : ℚ) ^ ((a : Int) - (b : Int) - 1) * (2 : ℚ) ^ (b + 1) = (2 : ℚ) ^ a := by
      rw [← zpow_natCast, ← zpow_natCast, ← zpow_add₀ (by norm_num)]
      congr 1
      push_cast
      ring
    calc (2 : ℚ) ^ ((a : Int) - (b : Int) - 1) * (q.den : ℚ)
        < (2 : ℚ) ^ ((a : Int) - (b : Int) - 1) * (2 : ℚ) ^ (b + 1) := by
          apply mul_lt_mul_of_pos_left d2q
          positivity
      _ = (2 : ℚ) ^ a := this
      _ ≤ _ := n1q
  have hhigh : |q| < (2 : ℚ) ^ ((a : Int) - (b : Int) + 1) := by
    rw [habs, div_lt_iff₀ hdq]
    have : (2 : ℚ) ^ ((a : Int) - (b : Int) + 1) * (2 : ℚ) ^ b = (2 : ℚ) ^ (a + 1) := by
      rw [← zpow_natCast, ← zpow_natCast, ← zpow_add₀ (by norm_num)]
      congr 1
      push_cast
      ring
    calc (q.num.natAbs : ℚ) < (2 : ℚ) ^ (a + 1) := n2q
      _ = (2 : ℚ) ^ ((a : Int) - (b : Int) + 1) * (2 : ℚ) ^ b := this.symm
      _ ≤ (2 : ℚ) ^ ((a : Int) - (b : Int) + 1) * (q.den : ℚ) := by
          apply mul_le_mul_of_nonneg_left d1q
          positivity
  split_ifs with hc
  · exact ⟨hc, by rw [pow2_eq_zpow]; exact hhigh⟩
  · constructor
    · rw [pow2_eq_zpow]
      exact le_of_lt hlow
    · rw [pow2_eq_zpow] at hc ⊢
      have : (a : Int) - (b : Int) - 1 + 1 = (a : Int) - (b : Int) := by ring
      rw [this]
      exact lt_of_not_le hc

/-- The error of a single-precision operation is at most half a unit in the
last place: `2^-24` relative to the exact result, or `2^-150` among the
subnormal numbers. -/
theorem roundF32_err (q : ℚ) : |roundF32 q - q| ≤ |q| / 2 ^ 24 + 1 / 2 ^ 150 := by
  by_cases hq : q = 0
  · subst hq
    simp [roundF32]
  unfold roundF32
  rw [if_neg hq]
  have hb := (binade_spec q hq).1
  generalize binade q = e at hb
  have hu := pow2_pos (max (e - 23) (-149))
  have herr := lrintf_err (q / pow2 (max (e - 23) (-149)))
  have hule : pow2 (max (e - 23) (-149)) / 2 ≤ |q| / 2 ^ 24 + 1 / 2 ^ 150 := by
    rcases le_total (e - 23) (-149) with h | h
    · rw [max_eq_right h]
      have : pow2 (-149) / 2 = 1 / 2 ^ 150 := by
        rw [pow2_eq_zpow]
        norm_num
      rw [this]
      have : 0 ≤ |q| / 2 ^ 24 := by positivity
      linarith
    · rw [max_eq_left h]
      have : pow2 (e - 23) / 2 = pow2 e / 2 ^ 24 := by
        rw [pow2_eq_zpow, pow2_eq_zpow, zpow_sub₀ (by norm_num)]
        norm_num
        ring
      rw [this]
      have h1 : pow2 e / 2 ^ 24 ≤ |q| / 2 ^ 24 := by
        apply div_le_div_of_nonneg_right hb
        positivity
      have : (0 : ℚ) ≤ 1 / 2 ^ 150 := by positivity
      linarith
  generalize pow2 (max (e - 23) (-149)) = u at *
  have hq2 : q = q / u * u := by field_simp
  generalize q / u = y at *
  have : (lrintf y : ℚ) * u - q = ((lrintf y : ℚ) - y) * u := by rw [hq2]; ring
  rw [this, abs_mul, abs_of_pos hu]
  have habs : |(lrintf y : ℚ) - y| ≤ 1 / 2 := by
    rw [abs_le]
    constructor <;> linarith [herr.1, herr.2]
  calc |(lrintf y : ℚ) - y| * u ≤ 1 / 2 * u := by
        apply mul_le_mul_of_nonneg_right habs (le_of_lt hu)
    _ = u / 2 := by ring
    _ ≤ _ := hule

/-- The single-precision product of an `int16_t` value `a` with the
single-precision quotient `T / R` differs from the exact `a·T/R` by less than
`1/100`, when `0 ≤ T`, `|a| ≤ R` and both ranges are `int16_t` values. -/
theorem scaledProduct_err (a T R : Int) (hT0 : 0 ≤ T) (hT : T ≤ 32767) (hR0 : 0 < R)
    (hR : R ≤ 32767) (ha1 : -R ≤ a) (ha2 : a ≤ R) :
    |roundF32 ((a : ℚ) * roundF32 ((T : ℚ) / (R : ℚ))) - (a : ℚ) * ((T : ℚ) / (R : ℚ))|
      ≤ 1 / 100 := by
  have hRq : (0 : ℚ) < (R : ℚ) := by exact_mod_cast hR0
  have hTq0 : (0 : ℚ) ≤ (T : ℚ) := by exact_mod_cast hT0
  have hTq : (T : ℚ) ≤ 32767 := by exact_mod_cast hT
  have hRq2 : (R : ℚ) ≤ 32767 := by exact_mod_cast hR
  have hx0 : (0 : ℚ) ≤ (T : ℚ) / (R : ℚ) := div_nonneg hTq0 (le_of_lt hRq)
  have hA : |(a : ℚ)| ≤ (R : ℚ) := by
    rw [abs_le]
    constructor
    · exact_mod_cast ha1
    · exact_mod_cast ha2
  have hA0 : (0 : ℚ) ≤ |(a : ℚ)| := abs_nonneg _
  have hRx : (R : ℚ) * ((T : ℚ) / (R : ℚ)) = (T : ℚ) := by field_simp
  have e1 := roundF32_err ((T : ℚ) / (R : ℚ))
  rw [abs_of_nonneg hx0] at e1
  generalize (T : ℚ) / (R : ℚ) = x at *
  generalize roundF32 x = c at *
  have e2 := roundF32_err ((a : ℚ) * c)
  generalize roundF32 ((a : ℚ) * c) = p at *
  -- |a| x ≤ T
  have hAx : |(a : ℚ)| * x ≤ (T : ℚ) := by
    calc |(a : ℚ)| * x ≤ (R : ℚ) * x := mul_le_mul_of_nonneg_right hA hx0
      _ = (T : ℚ) := hRx
  have hd : (0 : ℚ) ≤ 1 / 2 ^ 150 := by positivity
  have hd2 : (1 : ℚ) / 2 ^ 150 ≤ 1 / 2 ^ 60 := by norm_num
  have h24 : (0 : ℚ) < 2 ^ 24 := by positivity
  -- |a c − a x| ≤ T/2^24 + R δ
  have hac : |(a : ℚ) * c - (a : ℚ) * x| ≤ (T : ℚ) / 2 ^ 24 + 32767 * (1 / 2 ^ 150) := by
    have : (a : ℚ) * c - (a : ℚ) * x = (a : ℚ) * (c - x) := by ring
    rw [this, abs_mul]
    calc |(a : ℚ)| * |c - x| ≤ |(a : ℚ)| * (x / 2 ^ 24 + 1 / 2 ^ 150) :=
          mul_le_mul_of_nonneg_left e1 hA0
      _ = |(a : ℚ)| * x / 2 ^ 24 + |(a : ℚ)| * (1 / 2 ^ 150) := by ring
      _ ≤ (T : ℚ) / 2 ^ 24 + 32767 * (1 / 2 ^ 150) := by
          apply add_le_add
          · exact div_le_div_of_nonneg_right hAx (le_of_lt h24)
          · exact mul_le_mul_of_nonneg_right (le_trans hA hRq2) hd
  have hax : |(a : ℚ) * x| ≤ (T : ℚ) := by
    rw [abs_mul, abs_of_nonneg hx0]
    exact hAx
  have hacabs : |(a : ℚ) * c| ≤ (T : ℚ) + ((T : ℚ) / 2 ^ 24 + 32767 * (1 / 2 ^ 150)) := by
    have := abs_add ((a : ℚ) * x) ((a : ℚ) * c - (a : ℚ) * x)
    have h2 : (a : ℚ) * x + ((a : ℚ) * c - (a : ℚ) * x) = (a : ℚ) * c := by ring
    rw [h2] at this
    linarith
  have hpc : |p - (a : ℚ) * c| ≤ ((T : ℚ) + ((T : ℚ) / 2 ^ 24 + 32767 * (1 / 2 ^ 150))) / 2 ^ 24
      + 1 / 2 ^ 150 := by
    refine le_trans e2 ?_
    apply add_le_add_right
    exact div_le_div_of_nonneg_right hacabs (le_of_lt h24)
  have htot : |p - (a : ℚ) * x| ≤ |p - (a : ℚ) * c| + |(a : ℚ) * c - (a : ℚ) * x| := by
    have := abs_add (p - (a : ℚ) * c) ((a : ℚ) * c - (a : ℚ) * x)
    have h2 : p - (a : ℚ) * c + ((a : ℚ) * c - (a : ℚ) * x) = p - (a : ℚ) * x := by ring
    rw [h2] at this
    exact this
  norm_num at hpc hac hd2 ⊢
  linarith

/-- C9, amended. In the airmode branch, for every motor matrix and every
`axisPID`: whenever the computed roll/pitch/yaw range exceeds a non-negative
throttle range and the unscaled values `rollPitchYawMix[i]` (`i < motorCount`)
lie on both sides of zero (one is `≤ 0` and one is `≥ 0`, the case the running
minimum and maximum started at 0 are written for), the values scaled in single
precision and rounded by `lrintf` satisfy `max_i − min_i = throttleRange` up
to 1. -/
theorem C9_airmode_authority (env : Env) (st : State)
    (hsat : airmodeSaturated env (preMix env st) = true)
    (htr : 0 ≤ throttleRange env (preMix env st))
    (hneg : ∃ i, i < (preMix env st).motorCount ∧ rollPitchYawMix env (preMix env st) i ≤ 0)
    (hpos : ∃ i, i < (preMix env st).motorCount ∧ 0 ≤ rollPitchYawMix env (preMix env st) i) :
    scaledSpreadMatches env (preMix env st) := by
  generalize preMix env st = S at *
  obtain ⟨hMax0, hMaxge, hMaxat⟩ := rollPitchYawMixMax_spec env S
  obtain ⟨hMin0, hMinle, hMinat⟩ := rollPitchYawMixMin_spec env S
  obtain ⟨iM, hiM, hiMeq⟩ := hMaxat hpos
  obtain ⟨im, him, himeq⟩ := hMinat hneg
  have hMaxmem := (rollPitchYawMix_mem env S iM).2
  have hMinmem := (rollPitchYawMix_mem env S im).1
  have htrmem := (throttleRange_mem env S).2
  have hsat2 : rollPitchYawMixRange env S > throttleRange env S := by
    unfold airmodeSaturated at hsat
    exact of_decide_eq_true hsat
  have hRmem : rollPitchYawMixRange env S ≤ 32767 := by
    unfold rollPitchYawMixRange
    exact (toInt16_mem _).2
  -- the computed range is the true spread of the unscaled values
  have hR : rollPitchYawMixRange env S = rollPitchYawMixMax env S - rollPitchYawMixMin env S := by
    have hpos2 : 0 < rollPitchYawMixRange env S := by omega
    unfold rollPitchYawMixRange at hpos2 ⊢
    unfold toInt16 at hpos2 ⊢
    unfold INT16_MAX at hMaxmem
    unfold INT16_MIN at hMinmem
    omega
  have hR0 : 0 < rollPitchYawMixRange env S := by omega
  have hRpos : (0 : ℚ) < (rollPitchYawMixRange env S : ℚ) := by exact_mod_cast hR0
  have hT : throttleRange env S ≤ 32767 := by
    unfold INT16_MAX at htrmem
    exact htrmem
  have hx0 : (0 : ℚ) ≤ (throttleRange env S : ℚ) / (rollPitchYawMixRange env S : ℚ) :=
    div_nonneg (by exact_mod_cast htr) (le_of_lt hRpos)
  have hRx : (rollPitchYawMixRange env S : ℚ)
      * ((throttleRange env S : ℚ) / (rollPitchYawMixRange env S : ℚ)) = (throttleRange env S : ℚ) := by
    field_simp
  -- every unscaled value lies in [-range, range]
  have hrange : ∀ i, i < S.motorCount →
      -rollPitchYawMixRange env S ≤ rollPitchYawMix env S i
      ∧ rollPitchYawMix env S i ≤ rollPitchYawMixRange env S := by
    intro i hi
    have h1 := hMaxge i hi
    have h2 := hMinle i hi
    constructor <;> omega
  -- the single-precision product is within 1/100 of the exact one
  have hprod : ∀ i, i < S.motorCount →
      |roundF32 ((rollPitchYawMix env S i : ℚ) * mixReduction env S)
        - (rollPitchYawMix env S i : ℚ)
          * ((throttleRange env S : ℚ) / (rollPitchYawMixRange env S : ℚ))| ≤ 1 / 100 := by
    intro i hi
    unfold mixReduction
    exact scaledProduct_err _ _ _ htr hT hR0 hRmem (hrange i hi).1 (hrange i hi).2
  -- a scaled value is the rounded product, without wrap-around
  have hscaled : ∀ i, i < S.motorCount →
      rollPitchYawMixScaled env S i
        = lrintf (roundF32 ((rollPitchYawMix env S i : ℚ) * mixReduction env S)) := by
    intro i hi
    unfold rollPitchYawMixScaled
    rw [if_pos hsat]
    have herr := lrintf_err (roundF32 ((rollPitchYawMix env S i : ℚ) * mixReduction env S))
    have hp := abs_le.mp (hprod i hi)
    have hup : (rollPitchYawMix env S i : ℚ) ≤ (rollPitchYawMixRange env S : ℚ) := by
      exact_mod_cast (hrange i hi).2
    have hlo : -(rollPitchYawMixRange env S : ℚ) ≤ (rollPitchYawMix env S i : ℚ) := by
      exact_mod_cast (hrange i hi).1
    have hup2 := mul_le_mul_of_nonneg_right hup hx0
    have hlo2 := mul_le_mul_of_nonneg_right hlo hx0
    rw [hRx] at hup2
    rw [neg_mul, hRx] at hlo2
    have hb1 : (lrintf (roundF32 ((rollPitchYawMix env S i : ℚ) * mixReduction env S)) : ℚ)
        < ((throttleRange env S + 1 : Int) : ℚ) := by
      push_cast
      linarith [herr.2, hp.2]
    have hb2 : ((-throttleRange env S - 1 : Int) : ℚ)
        < (lrintf (roundF32 ((rollPitchYawMix env S i : ℚ) * mixReduction env S)) : ℚ) := by
      push_cast
      linarith [herr.1, hp.1]
    have hb1i : lrintf (roundF32 ((rollPitchYawMix env S i : ℚ) * mixReduction env S))
        < throttleRange env S + 1 := by
      exact_mod_cast hb1
    have hb2i : -throttleRange env S - 1
        < lrintf (roundF32 ((rollPitchYawMix env S i : ℚ) * mixReduction env S)) := by
      exact_mod_cast hb2
    apply toInt16_of_mem
    · unfold INT16_MIN
      omega
    · unfold INT16_MAX
      omega
  unfold scaledSpreadMatches
  constructor
  · intro i hi j hj
    rw [hscaled i hi, hscaled j hj]
    have hei := lrintf_err (roundF32 ((rollPitchYawMix env S i : ℚ) * mixReduction env S))
    have hej := lrintf_err (roundF32 ((rollPitchYawMix env S j : ℚ) * mixReduction env S))
    have hpi := abs_le.mp (hprod i hi)
    have hpj := abs_le.mp (hprod j hj)
    have hdiff : (rollPitchYawMix env S i : ℚ) - (rollPitchYawMix env S j : ℚ)
        ≤ (rollPitchYawMixRange env S : ℚ) := by
      have h1 := hMaxge i hi
      have h2 := hMinle j hj
      have : rollPitchYawMix env S i - rollPitchYawMix env S j ≤ rollPitchYawMixRange env S := by omega
      exact_mod_cast this
    have hmul := mul_le_mul_of_nonneg_right hdiff hx0
    rw [hRx, sub_mul] at hmul
    have hq : (lrintf (roundF32 ((rollPitchYawMix env S i : ℚ) * mixReduction env S)) : ℚ)
        - (lrintf (roundF32 ((rollPitchYawMix env S j : ℚ) * mixReduction env S)) : ℚ)
        < ((throttleRange env S + 2 : Int) : ℚ) := by
      push_cast
      linarith [hei.2, hej.1, hpi.2, hpj.1]
    have hqi : lrintf (roundF32 ((rollPitchYawMix env S i : ℚ) * mixReduction env S))
        - lrintf (roundF32 ((rollPitchYawMix env S j : ℚ) * mixReduction env S))
        < throttleRange env S + 2 := by
      exact_mod_cast hq
    omega
  · refine ⟨iM, hiM, im, him, ?_⟩
    rw [hscaled iM hiM, hscaled im him]
    have hei := lrintf_err (roundF32 ((rollPitchYawMix env S iM : ℚ) * mixReduction env S))
    have hej := lrintf_err (roundF32 ((rollPitchYawMix env S im : ℚ) * mixReduction env S))
    have hpi := abs_le.mp (hprod iM hiM)
    have hpj := abs_le.mp (hprod im him)
    have hdiff : (rollPitchYawMix env S iM : ℚ) - (rollPitchYawMix env S im : ℚ)
        = (rollPitchYawMixRange env S : ℚ) := by
      have : rollPitchYawMix env S iM - rollPitchYawMix env S im = rollPitchYawMixRange env S := by omega
      exact_mod_cast this
    have hmul : ((rollPitchYawMix env S iM : ℚ) - (rollPitchYawMix env S im : ℚ))
        * ((throttleRange env S : ℚ) / (rollPitchYawMixRange env S : ℚ))
        = (throttleRange env S : ℚ) := by
      rw [hdiff, hRx]
    rw [sub_mul] at hmul
    have hq : ((throttleRange env S - 2 : Int) : ℚ)
        < (lrintf (roundF32 ((rollPitchYawMix env S iM : ℚ) * mixReduction env S)) : ℚ)
          - (lrintf (roundF32 ((rollPitchYawMix env S im : ℚ) * mixReduction env S)) : ℚ) := by
      push_cast
      linarith [hei.1, hej.2, hpi.1, hpj.2]
    have hqi : throttleRange env S - 2
        < lrintf (roundF32 ((rollPitchYawMix env S iM : ℚ) * mixReduction env S))
          - lrintf (roundF32 ((rollPitchYawMix env S im : ℚ) * mixReduction env S)) := by
      exact_mod_cast hq
    omega

/-- C9 (amended) at the scenario S6: QuadX, throttle 1100, `axisPID =
[+500,0,0]`: range 1000 against a throttle range of 900, scaled values
−450 and +450, spread 900.  For `axisPID = [+434,+126,0]` (range 1120) the
exact products `±308·900/1120 = ±247.5` become `±247` in single precision. -/
theorem C9_airmode_authority_witness :
    scaledSpreadMatches (scenarioEnv true false true false false 1100 1100)
        (preMix (scenarioEnv true false true false false 1100 1100) (quadXState 500 0 0))
    ∧ rollPitchYawMixScaled (scenarioEnv true false true false false 1100 1100)
        (preMix (scenarioEnv true false true false false 1100 1100) (quadXState 500 0 0)) 0 = -450
    ∧ rollPitchYawMixScaled (scenarioEnv true false true false false 1100 1100)
        (preMix (scenarioEnv true false true false false 1100 1100) (quadXState 500 0 0)) 2 = 450
    ∧ rollPitchYawMix (scenarioEnv true false true false false 1100 1100)
        (preMix (scenarioEnv true false true false false 1100 1100) (quadXState 434 126 0)) 0 = -308
    ∧ rollPitchYawMixScaled (scenarioEnv true false true false false 1100 1100)
        (preMix (scenarioEnv true false true false false 1100 1100) (quadXState 434 126 0)) 0 = -247
    ∧ rollPitchYawMixScaled (scenarioEnv true false true false false 1100 1100)
        (preMix (scenarioEnv true false true false false 1100 1100) (quadXState 434 126 0)) 3 = 247 :=
  ⟨C9_airmode_authority (scenarioEnv true false true false false 1100 1100) (quadXState 500 0 0)
      (by decide!) (by decide!) ⟨0, by decide, by decide!⟩ ⟨2, by decide, by decide!⟩,
    by decide!, by decide!, by decide!, by decide!, by decide!⟩

/-! ## C10: saturation flag -/

theorem mixTable_motorLimitReached (env : Env) (st : State) :
    (mixTable env st).motorLimitReached
      = if env.airmode then airmodeSaturated env (preMix env st)
        else (preMix env st).motorLimitReached := by
  unfold mixTable
  rw [(mixTableServos_motor env _).2.2]
  unfold mixTableMotors disarmMotors mixTableAirmode mixTableClassic
  cases env.armed <;> cases env.airmode <;> simp

/-- C10. In the airmode branch, after `mixTable` the flag `motorLimitReached`
is true if and only if `rollPitchYawMixRange > throttleRange`, where
`throttleRange` is `throttleMax − throttleMin` of the resolved band (an
`int16_t`); and in that case, with FEATURE_3D off, armed, no failsafe and
`minthrottle ≤ maxthrottle` (both `int16_t` values), every motor still ends in
`[minthrottle, maxthrottle]`. -/
theorem C10_saturation_flag (env : Env) (st : State) (hair : env.airmode = true) :
    ((mixTable env st).motorLimitReached = true
        ↔ rollPitchYawMixRange env (preMix env st) > throttleRange env (preMix env st))
    ∧ throttleRange env (preMix env st)
        = toInt16 ((airmodeBand env (preMix env st)).throttleMax
            - (airmodeBand env (preMix env st)).throttleMin)
    ∧ (rollPitchYawMixRange env (preMix env st) > throttleRange env (preMix env st) →
        env.feature3D = false → env.armed = true → env.failsafeIsActive = false →
        env.escAndServoConfig.minthrottle ≤ env.escAndServoConfig.maxthrottle →
        INT16_MIN ≤ env.escAndServoConfig.minthrottle →
        env.escAndServoConfig.maxthrottle ≤ INT16_MAX →
        ∀ i, i < st.motorCount →
          env.escAndServoConfig.minthrottle ≤ (mixTable env st).motor i
          ∧ (mixTable env st).motor i ≤ env.escAndServoConfig.maxthrottle) := by
  refine ⟨?_, rfl, ?_⟩
  · rw [mixTable_motorLimitReached]
    simp only [hair, if_true]
    unfold airmodeSaturated
    exact decide_eq_true_iff
  · intro _ h3d harm hfs hle hmin hmax i hi
    rw [mixTable_motor, mixTableMotors_motor env st i hi]
    simp only [harm, hair, if_true]
    unfold airmodeMotor
    simp only [hfs, h3d]
    exact toInt16_constrain_mem _ _ _ _ _ hle (le_refl _) (le_refl _) hmin hmax

/-- C10 at the scenario S6: QuadX, `minthrottle` 1100, `maxthrottle` 2000,
throttle 1100, `axisPID = [+500,0,0]`: range 1000 > 900, so
`motorLimitReached` is true, and the motors end at 1100, 1100, 2000, 2000. -/
theorem C10_saturation_flag_witness :
    rollPitchYawMixRange (scenarioEnv true false true false false 1100 1100)
        (preMix (scenarioEnv true false true false false 1100 1100) (quadXState 500 0 0)) = 1000
    ∧ throttleRange (scenarioEnv true false true false false 1100 1100)
        (preMix (scenarioEnv true false true false false 1100 1100) (quadXState 500 0 0)) = 900
    ∧ (mixTable (scenarioEnv true false true false false 1100 1100) (quadXState 500 0 0)).motorLimitReached
        = true
    ∧ (1100 : Int) ≤ (mixTable (scenarioEnv true false true false false 1100 1100) (quadXState 500 0 0)).motor 0
    ∧ (mixTable (scenarioEnv true false true false false 1100 1100) (quadXState 500 0 0)).motor 2 ≤ (2000 : Int) := by
  have h := C10_saturation_flag (scenarioEnv true false true false false 1100 1100) (quadXState 500 0 0) rfl
  have hb := h.2.2 (by decide!) rfl rfl rfl (by decide) (by decide) (by decide)
  exact ⟨by decide!, by decide!, h.1.2 (by decide!), (hb 0 (by decide)).1, (hb 2 (by decide)).2⟩

/-! ## C11: airmode no re-clip -/

theorem truncf_mul_one (n : Int) (f : ℚ) (hf : f = 1) : truncf ((n : ℚ) * f) = n := by
  rw [hf, mul_one, truncf_intCast]

/-- C11 as stated fails: QuadX in airmode, 3D off, armed, no failsafe, throttle
1100 and simultaneous roll, pitch and yaw demands of 100.  The branch is not
saturated (range 400 against 900), the band is shrunk to `[1300, 1800]`, yet
FRONT_R gets `-300 + 1300 = 1000`, below `minthrottle` 1100, and the final
`constrain` raises it to 1100. -/
theorem C11_airmode_no_reclip_counterexample :
    airmodeSaturated (scenarioEnv true false true false false 1100 1100)
        (preMix (scenarioEnv true false true false false 1100 1100) (quadXState 100 100 100)) = false
    ∧ rollPitchYawMix (scenarioEnv true false true false false 1100 1100)
        (preMix (scenarioEnv true false true false false 1100 1100) (quadXState 100 100 100)) 1 = -300
    ∧ airmodeThrottleMin (scenarioEnv true false true false false 1100 1100)
        (preMix (scenarioEnv true false true false false 1100 1100) (quadXState 100 100 100)) = 1300
    ∧ airmodeMix (scenarioEnv true false true false false 1100 1100)
        (preMix (scenarioEnv true false true false false 1100 1100) (quadXState 100 100 100)) 1 = 1000
    ∧ (mixTable (scenarioEnv true false true false false 1100 1100) (quadXState 100 100 100)).motor 1 = 1100
    ∧ (mixTable (scenarioEnv true false true false false 1100 1100) (quadXState 100 100 100)).motor 1
        ≠ airmodeMix (scenarioEnv true false true false false 1100 1100)
            (preMix (scenarioEnv true false true false false 1100 1100) (quadXState 100 100 100)) 1 := by
  refine ⟨by decide!, by decide!, by decide!, by decide!, by decide!, by decide!⟩

/-- C11, amended. Airmode branch, FEATURE_3D off, armed, no failsafe, all
throttle factors 1, `0 ≤ minthrottle ≤ maxthrottle` storable as `int16_t`.
Whenever the branch is not saturated (`0 ≤ rollPitchYawMixRange ≤
throttleRange`) the throttle band is shrunk by `rollPitchYawMixRange/2` on
each side; and if moreover the roll/pitch/yaw values are symmetric about zero
(`rollPitchYawMixMax = −rollPitchYawMixMin`), then for every motor the sum
`rollPitchYawMix[i] + constrain(throttle, throttleMin, throttleMax)` already
lies in `[minthrottle, maxthrottle]`, so the final `constrain` leaves the motor
unchanged. -/
theorem C11_airmode_no_reclip (env : Env) (st : State)
    (hair : env.airmode = true) (h3d : env.feature3D = false) (harm : env.armed = true)
    (hfs : env.failsafeIsActive = false)
    (hfac : ∀ i, i < st.motorCount → ((preMix env st).currentMixer i).throttle = 1)
    (hmin0 : 0 ≤ env.escAndServoConfig.minthrottle)
    (hle : env.escAndServoConfig.minthrottle ≤ env.escAndServoConfig.maxthrottle)
    (hmax : env.escAndServoConfig.maxthrottle ≤ INT16_MAX)
    (hns : airmodeSaturated env (preMix env st) = false)
    (hR0 : 0 ≤ rollPitchYawMixRange env (preMix env st))
    (hsym : rollPitchYawMixMax env (preMix env st) = -rollPitchYawMixMin env (preMix env st))
    (i : Nat) (hi : i < st.motorCount) :
    (airmodeThrottleMin env (preMix env st)
        = env.escAndServoConfig.minthrottle + rollPitchYawMixRange env (preMix env st) / 2
      ∧ airmodeThrottleMax env (preMix env st)
        = env.escAndServoConfig.maxthrottle - rollPitchYawMixRange env (preMix env st) / 2)
    ∧ airmodeMix env (preMix env st) i
        = rollPitchYawMix env (preMix env st) i
          + constrain (toInt16 (env.rcCommand THROTTLE)) (airmodeThrottleMin env (preMix env st))
              (airmodeThrottleMax env (preMix env st))
    ∧ (env.escAndServoConfig.minthrottle ≤ airmodeMix env (preMix env st) i
      ∧ airmodeMix env (preMix env st) i ≤ env.escAndServoConfig.maxthrottle)
    ∧ (mixTable env st).motor i = airmodeMix env (preMix env st) i := by
  have hc := preMix_motorCount env st
  have hfi := hfac i hi
  rw [← hc] at hi
  generalize hS : preMix env st = S at *
  obtain ⟨hMax0, hMaxge, -⟩ := rollPitchYawMixMax_spec env S
  obtain ⟨hMin0, hMinle, -⟩ := rollPitchYawMixMin_spec env S
  have hmix1 := hMaxge i hi
  have hmix2 := hMinle i hi
  have hmixmem := rollPitchYawMix_mem env S i
  unfold INT16_MAX at hmax hmixmem
  unfold INT16_MIN at hmixmem
  -- the band of the non-3D case
  have hband : (airmodeBand env S).throttleMin = env.escAndServoConfig.minthrottle
      ∧ (airmodeBand env S).throttleMax = env.escAndServoConfig.maxthrottle
      ∧ (airmodeBand env S).throttle = toInt16 (env.rcCommand THROTTLE) := by
    unfold airmodeBand
    simp only [h3d]
    refine ⟨?_, ?_, rfl⟩
    · exact toInt16_of_mem _ (by unfold INT16_MIN; omega) (by unfold INT16_MAX; omega)
    · exact toInt16_of_mem _ (by unfold INT16_MIN; omega) (by unfold INT16_MAX; omega)
  have htr : throttleRange env S
      = env.escAndServoConfig.maxthrottle - env.escAndServoConfig.minthrottle := by
    unfold throttleRange
    rw [hband.1, hband.2.1]
    exact toInt16_of_mem _ (by unfold INT16_MIN; omega) (by unfold INT16_MAX; omega)
  have hRle : rollPitchYawMixRange env S ≤ throttleRange env S := by
    unfold airmodeSaturated at hns
    have := of_decide_eq_false hns
    omega
  -- the computed range is twice the maximum
  have hR : rollPitchYawMixRange env S = 2 * rollPitchYawMixMax env S := by
    have hM : rollPitchYawMixMax env S ≤ 32767 := by
      unfold rollPitchYawMixMax
      refine foldl_max_le _ _ _ _ (by decide) ?_
      intro k _
      have := (rollPitchYawMix_mem env S k).2
      unfold INT16_MAX at this
      exact this
    unfold rollPitchYawMixRange at hR0 ⊢
    unfold toInt16 at hR0 ⊢
    omega
  have hhalf : Int.tdiv (rollPitchYawMixRange env S) 2 = rollPitchYawMixRange env S / 2 :=
    Int.tdiv_eq_ediv hR0 (by decide)
  have htmin : airmodeThrottleMin env S
      = env.escAndServoConfig.minthrottle + rollPitchYawMixRange env S / 2 := by
    unfold airmodeThrottleMin
    rw [if_neg (by rw [hns]; decide), hband.1, hhalf]
    exact toInt16_of_mem _ (by unfold INT16_MIN; omega) (by unfold INT16_MAX; omega)
  have htmax : airmodeThrottleMax env S
      = env.escAndServoConfig.maxthrottle - rollPitchYawMixRange env S / 2 := by
    unfold airmodeThrottleMax
    rw [if_neg (by rw [hns]; decide), hband.2.1, hhalf]
    exact toInt16_of_mem _ (by unfold INT16_MIN; omega) (by unfold INT16_MAX; omega)
  have hcon := constrain_mem (toInt16 (env.rcCommand THROTTLE)) (airmodeThrottleMin env S)
    (airmodeThrottleMax env S) (by rw [htmin, htmax]; omega)
  have hmixeq : airmodeMix env S i
      = rollPitchYawMix env S i
        + constrain (toInt16 (env.rcCommand THROTTLE)) (airmodeThrottleMin env S)
            (airmodeThrottleMax env S) := by
    unfold airmodeMix rollPitchYawMixScaled
    rw [if_neg (by rw [hns]; decide), hband.2.2, truncf_mul_one _ _ hfi]
    rw [htmin, htmax] at hcon ⊢
    exact toInt16_of_mem _ (by unfold INT16_MIN; omega) (by unfold INT16_MAX; omega)
  have hbounds : env.escAndServoConfig.minthrottle ≤ airmodeMix env S i
      ∧ airmodeMix env S i ≤ env.escAndServoConfig.maxthrottle := by
    rw [hmixeq]
    rw [htmin, htmax] at hcon ⊢
    omega
  refine ⟨⟨htmin, htmax⟩, hmixeq, hbounds, ?_⟩
  rw [mixTable_motor, mixTableMotors_motor env st i (by omega)]
  simp only [harm, hair, if_true]
  rw [hS]
  unfold airmodeMotor
  simp only [hfs, h3d]
  rw [constrain_of_mem _ _ _ hbounds.1 hbounds.2]
  exact toInt16_of_mem _ (by unfold INT16_MIN; omega) (by unfold INT16_MAX; omega)

/-- C11 (amended) at a concrete input: QuadX, throttle 1100 and a pure roll
demand of 100 (values −100, −100, 100, 100): the band is `[1200, 1900]` and
motor 0 ends at `−100 + 1200 = 1100`, untouched by the final clamp. -/
theorem C11_airmode_no_reclip_witness :
    airmodeMix (scenarioEnv true false true false false 1100 1100)
        (preMix (scenarioEnv true false true false false 1100 1100) (quadXState 100 0 0)) 0 = 1100
    ∧ (mixTable (scenarioEnv true false true false false 1100 1100) (quadXState 100 0 0)).motor 0 = 1100 := by
  have h := C11_airmode_no_reclip (scenarioEnv true false true false false 1100 1100)
    (quadXState 100 0 0) rfl rfl rfl rfl (by decide!) (by decide) (by decide) (by decide)
    (by decide!) (by decide!) (by decide!) 0 (by decide)
  exact ⟨by decide!, h.2.2.2.trans (by decide!)⟩

/-! ## C12: yaw jump prevention -/

theorem servoMixer_axisPID (env : Env) (st : State) :
    (servoMixer env st).axisPID = st.axisPID := by
  obtain ⟨servo, ci, cnt, v, h⟩ := servoMixer_frame env st
  rw [h]

theorem mixTableServos_axisPID (env : Env) (st : State) :
    (mixTableServos env st).axisPID = st.axisPID := by
  obtain ⟨servo, cur, ci, cnt, v, h⟩ := mixTableServos_frame env st
  rw [h]

theorem mixTableMotors_axisPID (env : Env) (st : State) :
    (mixTableMotors env st).axisPID = (preMix env st).axisPID := by
  unfold mixTableMotors disarmMotors mixTableAirmode mixTableClassic
  split_ifs <;> simp

theorem preMix_axisPID (env : Env) (st : State) :
    (preMix env st).axisPID = (yawJumpPrevention env st).axisPID := by
  unfold preMix
  exact (triPreHook_frame env _).2.2.2

theorem ABS_le_iff (x b : Int) : ABS x ≤ b ↔ -b ≤ x ∧ x ≤ b := by
  unfold ABS
  split_ifs <;> omega

theorem ABS_nonneg (x : Int) : 0 ≤ ABS x := by
  unfold ABS
  split_ifs <;> omega

/-- C12. With `axisPID[YAW]` an `int16_t` value and a non-negative limit: if
`motorCount ≥ 4` and `yaw_jump_prevention_limit <
YAW_JUMP_PREVENTION_LIMIT_HIGH`, the yaw value used in mixing (and left in
`axisPID[YAW]` by `mixTable`) is `constrain(axisPID[YAW], −(limit +
|rcCommand[YAW]|), limit + |rcCommand[YAW]|)`, so its absolute value is at most
`limit + |rcCommand[YAW]|` and it is unchanged when already inside; if
`motorCount < 4` or the limit is at or above the sentinel, `axisPID[YAW]` is
left unchanged. -/
theorem C12_yaw_jump_prevention (env : Env) (st : State)
    (hmin : INT16_MIN ≤ st.axisPID YAW) (hmax : st.axisPID YAW ≤ INT16_MAX)
    (hlim : 0 ≤ env.mixerConfig.yaw_jump_prevention_limit) :
    (mixTable env st).axisPID YAW = (preMix env st).axisPID YAW
    ∧ (st.motorCount ≥ 4
        ∧ env.mixerConfig.yaw_jump_prevention_limit < YAW_JUMP_PREVENTION_LIMIT_HIGH →
        (preMix env st).axisPID YAW
            = constrain (st.axisPID YAW)
                (-(env.mixerConfig.yaw_jump_prevention_limit + ABS (env.rcCommand YAW)))
                (env.mixerConfig.yaw_jump_prevention_limit + ABS (env.rcCommand YAW))
        ∧ ABS ((preMix env st).axisPID YAW)
            ≤ env.mixerConfig.yaw_jump_prevention_limit + ABS (env.rcCommand YAW)
        ∧ (ABS (st.axisPID YAW)
              ≤ env.mixerConfig.yaw_jump_prevention_limit + ABS (env.rcCommand YAW) →
            (preMix env st).axisPID YAW = st.axisPID YAW))
    ∧ (st.motorCount < 4
        ∨ YAW_JUMP_PREVENTION_LIMIT_HIGH ≤ env.mixerConfig.yaw_jump_prevention_limit →
        (preMix env st).axisPID YAW = st.axisPID YAW) := by
  have hrc := ABS_nonneg (env.rcCommand YAW)
  refine ⟨?_, ?_, ?_⟩
  · unfold mixTable
    rw [mixTableServos_axisPID, mixTableMotors_axisPID]
  · intro hcond
    have hval : (preMix env st).axisPID YAW
        = constrain (st.axisPID YAW)
            (-(env.mixerConfig.yaw_jump_prevention_limit + ABS (env.rcCommand YAW)))
            (env.mixerConfig.yaw_jump_prevention_limit + ABS (env.rcCommand YAW)) := by
      rw [preMix_axisPID]
      unfold yawJumpPrevention
      rw [if_pos hcond]
      simp only [if_true]
      have heq : -env.mixerConfig.yaw_jump_prevention_limit - ABS (env.rcCommand YAW)
          = -(env.mixerConfig.yaw_jump_prevention_limit + ABS (env.rcCommand YAW)) := by ring
      rw [heq]
      apply toInt16_of_mem
      · unfold constrain
        unfold INT16_MIN at *
        split_ifs <;> omega
      · unfold constrain
        unfold INT16_MAX at *
        unfold INT16_MIN at hmin
        split_ifs <;> omega
    refine ⟨hval, ?_, ?_⟩
    · rw [hval, ABS_le_iff]
      exact constrain_mem _ _ _ (by omega)
    · intro hin
      rw [hval]
      rw [ABS_le_iff] at hin
      exact constrain_of_mem _ _ _ hin.1 hin.2
  · intro hcond
    rw [preMix_axisPID]
    unfold yawJumpPrevention
    rw [if_neg (by omega)]

/-- C12 at a concrete input: QuadX, limit 200, yaw stick centred, yaw demand
1000: the value used in mixing is 200. -/
theorem C12_yaw_jump_prevention_witness :
    (preMix (scenarioEnv true false false false false 1500 1500) (quadXState 0 0 1000)).axisPID YAW = 200 :=
  ((C12_yaw_jump_prevention (scenarioEnv true false false false false 1500 1500) (quadXState 0 0 1000)
      (by decide) (by decide) (by decide)).2.1 ⟨by decide, by decide⟩).1.trans (by decide)

/-! ## The rule loop of `servoMixer` -/

theorem servoMixerRule_eq (env : Env) (st : State) (acc : servoAcc) (i : Nat) :
    servoMixerRule env st.currentServoMixer (servoInput env st) acc i
      = if ruleActive env st.currentServoMixer i then
          { servo := fun j =>
              if j = (st.currentServoMixer i).targetChannel then
                toInt16 (acc.servo (st.currentServoMixer i).targetChannel
                  + servoRuleContribution env (st.currentServoMixer i)
                      (slewStep (st.currentServoMixer i).speed (acc.currentOutput i)
                        (servoInput env st (st.currentServoMixer i).inputSource)))
              else acc.servo j
            currentOutput := fun k =>
              if k = i then
                slewStep (st.currentServoMixer i).speed (acc.currentOutput i)
                  (servoInput env st (st.currentServoMixer i).inputSource)
              else acc.currentOutput k }
        else { acc with currentOutput := fun k => if k = i then 0 else acc.currentOutput k } := by
  unfold servoMixerRule ruleActive servoRuleContribution
  rfl

theorem servoMixerRulesUpTo_succ (env : Env) (st : State) (n : Nat) :
    servoMixerRulesUpTo env st (n + 1)
      = servoMixerRule env st.currentServoMixer (servoInput env st) (servoMixerRulesUpTo env st n) n := by
  unfold servoMixerRulesUpTo
  rw [List.range_succ, List.foldl_append]
  rfl

/-- The slew memory after the first `n` rules: rule `r < n` holds its new
value, the others are untouched. -/
theorem servoMixerRulesUpTo_currentOutput (env : Env) (st : State) (n r : Nat) :
    (servoMixerRulesUpTo env st n).currentOutput r
      = if r < n then
          (if ruleActive env st.currentServoMixer r then ruleOut env st r else 0)
        else st.currentOutput r := by
  induction n generalizing r with
  | zero => simp [servoMixerRulesUpTo]
  | succ n ih =>
    rw [servoMixerRulesUpTo_succ, servoMixerRule_eq]
    have ihn : (servoMixerRulesUpTo env st n).currentOutput n = st.currentOutput n := by
      rw [ih n]
      simp
    by_cases hact : ruleActive env st.currentServoMixer n
    · rw [if_pos hact]
      simp only
      by_cases hrn : r = n
      · subst hrn
        simp [hact, ihn, ruleOut]
      · rw [if_neg hrn, ih r]
        by_cases hlt : r < n
        · have h1 : r < n + 1 := by omega
          simp only [hlt, h1, if_true]
        · have h1 : ¬ r < n + 1 := by omega
          simp only [hlt, h1, if_false]
    · rw [if_neg hact]
      simp only
      by_cases hrn : r = n
      · subst hrn
        simp [hact]
      · rw [if_neg hrn, ih r]
        by_cases hlt : r < n
        · have h1 : r < n + 1 := by omega
          simp only [hlt, h1, if_true]
        · have h1 : ¬ r < n + 1 := by omega
          simp only [hlt, h1, if_false]

theorem toInt16_add_toInt16 (a b : Int) : toInt16 (toInt16 a + b) = toInt16 (a + b) := by
  unfold toInt16
  omega

/-- The accumulator of servo `j` after the first `n` rules is the wrapped sum
of what these rules add to it. -/
theorem servoMixerRulesUpTo_servo (env : Env) (st : State) (n j : Nat)
    (hj : j < MAX_SUPPORTED_SERVOS) :
    (servoMixerRulesUpTo env st n).servo j
      = toInt16 (((List.range n).map (ruleAmount env st j)).sum) := by
  induction n with
  | zero =>
    simp [servoMixerRulesUpTo, hj]
    decide
  | succ n ih =>
    rw [servoMixerRulesUpTo_succ, servoMixerRule_eq, List.range_succ, List.map_append,
      List.sum_append, List.map_singleton, List.sum_singleton]
    have hout : (servoMixerRulesUpTo env st n).currentOutput n = st.currentOutput n := by
      rw [servoMixerRulesUpTo_currentOutput]
      simp
    by_cases hact : ruleActive env st.currentServoMixer n
    · rw [if_pos hact]
      simp only
      by_cases htj : j = (st.currentServoMixer n).targetChannel
      · rw [if_pos htj, ← htj, ih, hout, toInt16_add_toInt16]
        unfold ruleAmount
        rw [if_pos ⟨hact, htj.symm⟩]
        rfl
      · rw [if_neg htj, ih]
        unfold ruleAmount
        rw [if_neg (fun h => htj h.2.symm), add_zero]
    · rw [if_neg hact]
      simp only
      rw [ih]
      unfold ruleAmount
      rw [if_neg (fun h => hact h.1), add_zero]

theorem servoMixerRules_eq_upTo (env : Env) (st : State) :
    servoMixerRules env st = servoMixerRulesUpTo env st st.servoRuleCount := rfl

/-- The slew memory `servoMixer` leaves. -/
theorem servoMixer_currentOutput (env : Env) (st : State) (r : Nat) :
    (servoMixer env st).currentOutput r
      = if r < st.servoRuleCount then
          (if ruleActive env st.currentServoMixer r then ruleOut env st r else 0)
        else st.currentOutput r := by
  have h : (servoMixer env st).currentOutput = (servoMixerRules env st).currentOutput := by
    obtain ⟨servo, ci, cnt, v, hf⟩ := servoMixer_frame env st
    rw [hf]
  rw [h, servoMixerRules_eq_upTo, servoMixerRulesUpTo_currentOutput]

/-- The servo array `servoMixer` leaves outside MIXER_TRI. -/
theorem servoMixer_servo (env : Env) (st : State) (hmode : st.currentMixerMode ≠ MIXER_TRI)
    (j : Nat) (hj : j < MAX_SUPPORTED_SERVOS) :
    (servoMixer env st).servo j = servoPostScale env (toInt16 (servoRuleSum env st j)) j := by
  unfold servoMixer
  simp only [hmode, if_false, hj, if_true]
  rw [servoMixerRules_eq_upTo, servoMixerRulesUpTo_servo env st _ j hj]
  rfl

/-! ## Initialisation lemmas -/

/-- What the custom motor loop computes: it stops after `k` rows, at the first
zero throttle or at the end of the array. -/
theorem loadCustomMixer_spec (custom : Nat → motorMixer_t) (fuel i : Nat)
    (acc : (Nat → motorMixer_t) × Nat) :
    ∃ k, k ≤ fuel
      ∧ (loadCustomMixer custom fuel i acc).2 = acc.2 + k
      ∧ (∀ j, j < k → (custom (i + j)).throttle ≠ 0)
      ∧ (k = fuel ∨ (custom (i + k)).throttle = 0)
      ∧ (∀ j, (loadCustomMixer custom fuel i acc).1 j
          = if i ≤ j ∧ j < i + k then custom j else acc.1 j) := by
  induction fuel generalizing i acc with
  | zero =>
    refine ⟨0, le_refl _, rfl, ?_, Or.inl rfl, ?_⟩
    · intro j hj
      omega
    · intro j
      rw [if_neg (by omega)]
      rfl
  | succ fuel ih =>
    unfold loadCustomMixer
    by_cases h0 : (custom i).throttle = 0
    · rw [if_pos h0]
      refine ⟨0, Nat.zero_le _, rfl, ?_, Or.inr h0, ?_⟩
      · intro j hj
        omega
      · intro j
        rw [if_neg (by omega)]
    · rw [if_neg h0]
      obtain ⟨k, hk, hcount, hnz, hend, hrows⟩ :=
        ih (i + 1) (fun j => if j = i then custom i else acc.1 j, acc.2 + 1)
      refine ⟨k + 1, by omega, ?_, ?_, ?_, ?_⟩
      · rw [hcount]
        simp only
        omega
      · intro j hj
        rcases Nat.eq_zero_or_pos j with hj0 | hjpos
        · subst hj0
          exact h0
        · have := hnz (j - 1) (by omega)
          have hidx : i + 1 + (j - 1) = i + j := by omega
          rw [hidx] at this
          exact this
      · rcases hend with hend | hend
        · exact Or.inl (by omega)
        · refine Or.inr ?_
          have hidx : i + 1 + k = i + (k + 1) := by omega
          rw [hidx] at hend
          exact hend
      · intro j
        rw [hrows j]
        simp only
        by_cases hji : j = i
        · subst hji
          rw [if_neg (by omega), if_pos rfl, if_pos (by omega)]
        · by_cases hin : i + 1 ≤ j ∧ j < i + 1 + k
          · rw [if_pos hin, if_pos (by omega)]
          · rw [if_neg hin, if_neg hji, if_neg (by omega)]

/-- What the custom rule loop computes. -/
theorem loadCustomRules_spec (custom : Nat → servoMixer_t) (fuel i : Nat)
    (acc : (Nat → servoMixer_t) × Nat) :
    ∃ k, k ≤ fuel
      ∧ (loadCustomRules custom fuel i acc).2 = acc.2 + k
      ∧ (∀ j, j < k → (custom (i + j)).rate ≠ 0)
      ∧ (k = fuel ∨ (custom (i + k)).rate = 0)
      ∧ (∀ j, (loadCustomRules custom fuel i acc).1 j
          = if i ≤ j ∧ j < i + k then custom j else acc.1 j) := by
  induction fuel generalizing i acc with
  | zero =>
    refine ⟨0, le_refl _, rfl, ?_, Or.inl rfl, ?_⟩
    · intro j hj
      omega
    · intro j
      rw [if_neg (by omega)]
      rfl
  | succ fuel ih =>
    unfold loadCustomRules
    by_cases h0 : (custom i).rate = 0
    · rw [if_pos h0]
      refine ⟨0, Nat.zero_le _, rfl, ?_, Or.inr h0, ?_⟩
      · intro j hj
        omega
      · intro j
        rw [if_neg (by omega)]
    · rw [if_neg h0]
      obtain ⟨k, hk, hcount, hnz, hend, hrows⟩ :=
        ih (i + 1) (fun j => if j = i then custom i else acc.1 j, acc.2 + 1)
      refine ⟨k + 1, by omega, ?_, ?_, ?_, ?_⟩
      · rw [hcount]
        simp only
        omega
      · intro j hj
        rcases Nat.eq_zero_or_pos j with hj0 | hjpos
        · subst hj0
          exact h0
        · have := hnz (j - 1) (by omega)
          have hidx : i + 1 + (j - 1) = i + j := by omega
          rw [hidx] at this
          exact this
      · rcases hend with hend | hend
        · exact Or.inl (by omega)
        · refine Or.inr ?_
          have hidx : i + 1 + k = i + (k + 1) := by omega
          rw [hidx] at hend
          exact hend
      · intro j
        rw [hrows j]
        simp only
        by_cases hji : j = i
        · subst hji
          rw [if_neg (by omega), if_pos rfl, if_pos (by omega)]
        · by_cases hin : i + 1 ≤ j ∧ j < i + 1 + k
          · rw [if_pos hin, if_pos (by omega)]
          · rw [if_neg hin, if_neg hji, if_neg (by omega)]

theorem loadCustomServoMixer_frame (st : State) :
    (loadCustomServoMixer st).motorCount = st.motorCount
    ∧ (loadCustomServoMixer st).currentMixer = st.currentMixer
    ∧ (loadCustomServoMixer st).currentMixerMode = st.currentMixerMode := by
  unfold loadCustomServoMixer
  exact ⟨rfl, rfl, rfl⟩

/-- Motor count and rows `mixerUsePWMIOConfiguration` leaves. -/
theorem mixerUsePWMIOConfiguration_mixer (env : Env) (n : Nat) (st : State) :
    (mixerUsePWMIOConfiguration env n st).motorCount = (loadMotorMixer st).2
    ∧ (mixerUsePWMIOConfiguration env n st).currentMixer = halveGain3D env (loadMotorMixer st) := by
  unfold mixerUsePWMIOConfiguration mixerResetDisarmedMotors
  dsimp only
  split_ifs <;> simp [loadCustomServoMixer_frame]


/-- The rows the selected geometry provides are those the load leaves below
the motor count. -/
theorem loadMotorMixer_geom (st : State) (geom : Nat → motorMixer_t)
    (hg : selectedGeometry st = some geom) (i : Nat) (hi : i < (loadMotorMixer st).2) :
    (loadMotorMixer st).1 i = geom i := by
  unfold selectedGeometry at hg
  unfold loadMotorMixer at hi ⊢
  by_cases hc : isCustomMixer st.currentMixerMode = true
  · rw [if_pos hc] at hg hi ⊢
    obtain ⟨k, _, hcount, _, _, hrows⟩ :=
      loadCustomMixer_spec st.customMixers MAX_SUPPORTED_MOTORS 0 (st.currentMixer, 0)
    rw [hcount] at hi
    rw [hrows i, if_pos ⟨Nat.zero_le _, by simpa using hi⟩]
    injection hg with hg
    rw [hg]
  · rw [if_neg hc] at hg hi ⊢
    cases hm : (mixersAt st.currentMixerMode.index).motor with
    | none =>
      rw [hm] at hg
      exact absurd hg (by simp)
    | some t =>
      rw [hm] at hg
      simp only [hm] at hi ⊢
      rw [if_pos hi]
      simp only [Option.map_some', Option.some.injEq] at hg
      rw [← hg]

/-! ## C13: 3D gain halving -/

/-- C13. After `mixerUsePWMIOConfiguration`, for every airframe kind that selects
a geometry `geom` (the custom rows for the custom kinds, the motor table of
`mixers` otherwise) and every active row `i < motorCount`: when FEATURE_3D is
enabled and `motorCount > 1`, `currentMixer[i]` has pitch, roll and yaw equal
to half the geometry's coefficients and the geometry's throttle; when
FEATURE_3D is disabled or `motorCount ≤ 1`, all four coefficients equal the
geometry's. -/
theorem C13_gain_halving (env : Env) (n : Nat) (st : State) (geom : Nat → motorMixer_t)
    (hg : selectedGeometry st = some geom) (i : Nat)
    (hi : i < (mixerUsePWMIOConfiguration env n st).motorCount) :
    (env.feature3D = true ∧ (mixerUsePWMIOConfiguration env n st).motorCount > 1 →
        (mixerUsePWMIOConfiguration env n st).currentMixer i = halfGain (geom i))
    ∧ (env.feature3D = false ∨ (mixerUsePWMIOConfiguration env n st).motorCount ≤ 1 →
        (mixerUsePWMIOConfiguration env n st).currentMixer i = geom i) := by
  obtain ⟨hcount, hrows⟩ := mixerUsePWMIOConfiguration_mixer env n st
  rw [hcount] at hi ⊢
  rw [hrows]
  have hrow := loadMotorMixer_geom st geom hg i hi
  unfold halveGain3D
  constructor
  · rintro ⟨h3d, hgt⟩
    rw [if_pos h3d, if_pos hgt]
    simp only [hi, if_true]
    rw [hrow]
    unfold halfGain
    congr 1 <;> ring
  · rintro (h3d | hle)
    · rw [if_neg (by rw [h3d]; decide), hrow]
    · by_cases h3d : env.feature3D = true
      · rw [if_pos h3d, if_neg (by omega), hrow]
      · rw [if_neg h3d, hrow]

/-- C13 at a concrete input: MIXER_QUADX from an empty mixer state.  With
FEATURE_3D row 0 of `mixerQuadX` is loaded as `(1, −1/2, 1/2, −1/2)`, without
it as `(1, −1, 1, −1)`. -/
theorem C13_gain_halving_witness :
    (mixerUsePWMIOConfiguration (scenarioEnv false false false true false 1500 1500) 0
        (scenarioState MIXER_QUADX 0 [] 0 0 0 1000)).currentMixer 0
      = { throttle := 1, roll := -1 / 2, pitch := 1 / 2, yaw := -1 / 2 }
    ∧ (mixerUsePWMIOConfiguration (scenarioEnv false false false false false 1500 1500) 0
        (scenarioState MIXER_QUADX 0 [] 0 0 0 1000)).currentMixer 0
      = { throttle := 1, roll := -1, pitch := 1, yaw := -1 } :=
  ⟨((C13_gain_halving (scenarioEnv false false false true false 1500 1500) 0
        (scenarioState MIXER_QUADX 0 [] 0 0 0 1000)
        (tableRow mixerQuadX) rfl 0 (by decide)).1 ⟨rfl, by decide⟩).trans (by decide!),
   ((C13_gain_halving (scenarioEnv false false false false false 1500 1500) 0
        (scenarioState MIXER_QUADX 0 [] 0 0 0 1000)
        (tableRow mixerQuadX) rfl 0 (by decide)).2 (Or.inl rfl)).trans (by decide!)⟩

/-! ## C14: custom motor mixer loading -/

/-- C14. For MIXER_CUSTOM, MIXER_CUSTOM_TRI and MIXER_CUSTOM_AIRPLANE,
`mixerUsePWMIOConfiguration` leaves `motorCount ≤ MAX_SUPPORTED_MOTORS` equal to
the index of the first row of `customMixers` whose throttle is 0 (every row
below it has a non-zero throttle), or to `MAX_SUPPORTED_MOTORS` if there is
none; with FEATURE_3D off `currentMixer[i] = customMixers[i]` for every
`i < motorCount`; and the rows of `currentMixer` from `motorCount` on are not
written, whatever `customMixers` holds after the sentinel. -/
theorem C14_custom_motor_mixer (env : Env) (n : Nat) (st : State)
    (hcustom : isCustomMixer st.currentMixerMode = true) :
    (mixerUsePWMIOConfiguration env n st).motorCount ≤ MAX_SUPPORTED_MOTORS
    ∧ (∀ j, j < (mixerUsePWMIOConfiguration env n st).motorCount →
        (st.customMixers j).throttle ≠ 0)
    ∧ ((mixerUsePWMIOConfiguration env n st).motorCount = MAX_SUPPORTED_MOTORS
        ∨ (st.customMixers (mixerUsePWMIOConfiguration env n st).motorCount).throttle = 0)
    ∧ (env.feature3D = false →
        ∀ i, i < (mixerUsePWMIOConfiguration env n st).motorCount →
          (mixerUsePWMIOConfiguration env n st).currentMixer i = st.customMixers i)
    ∧ (∀ i, (mixerUsePWMIOConfiguration env n st).motorCount ≤ i →
        (mixerUsePWMIOConfiguration env n st).currentMixer i = st.currentMixer i) := by
  obtain ⟨hcount, hrows⟩ := mixerUsePWMIOConfiguration_mixer env n st
  rw [hcount, hrows]
  have hload : loadMotorMixer st
      = loadCustomMixer st.customMixers MAX_SUPPORTED_MOTORS 0 (st.currentMixer, 0) := by
    unfold loadMotorMixer
    rw [if_pos hcustom]
  obtain ⟨k, hk, hc, hnz, hend, hr⟩ :=
    loadCustomMixer_spec st.customMixers MAX_SUPPORTED_MOTORS 0 (st.currentMixer, 0)
  rw [← hload] at hc hr
  have hck : (loadMotorMixer st).2 = k := by
    rw [hc]
    simp
  rw [hck]
  refine ⟨hk, ?_, ?_, ?_, ?_⟩
  · intro j hj
    have := hnz j hj
    rw [Nat.zero_add] at this
    exact this
  · rcases hend with hend | hend
    · exact Or.inl hend
    · rw [Nat.zero_add] at hend
      exact Or.inr hend
  · intro h3d i hi
    unfold halveGain3D
    rw [if_neg (by rw [h3d]; decide), hr i, if_pos ⟨Nat.zero_le _, by omega⟩]
  · intro i hi
    have hrow : (loadMotorMixer st).1 i = st.currentMixer i := by
      rw [hr i, if_neg (by omega)]
    unfold halveGain3D
    by_cases h1 : env.feature3D = true
    · by_cases h2 : (loadMotorMixer st).2 > 1
      · rw [if_pos h1, if_pos h2]
        rw [if_neg (by omega)]
        exact hrow
      · rw [if_pos h1, if_neg h2]
        exact hrow
    · rw [if_neg h1]
      exact hrow

/-- C14 at a concrete input: custom rows `r0, r1, 0, r3` give `motorCount = 2`,
rows 0 and 1 loaded, and row 3 of `currentMixer` left at zero although
`customMixers[3]` has throttle 1. -/
theorem C14_custom_motor_mixer_witness :
    (mixerUsePWMIOConfiguration (scenarioEnv false false false false false 1500 1500) 0
        customState).motorCount = 2
    ∧ (mixerUsePWMIOConfiguration (scenarioEnv false false false false false 1500 1500) 0
        customState).currentMixer 1 = customState.customMixers 1
    ∧ (mixerUsePWMIOConfiguration (scenarioEnv false false false false false 1500 1500) 0
        customState).currentMixer 3 = motorMixerZero
    ∧ (customState.customMixers 3).throttle = 1 := by
  have h := C14_custom_motor_mixer (scenarioEnv false false false false false 1500 1500) 0
    customState rfl
  have hc : (mixerUsePWMIOConfiguration (scenarioEnv false false false false false 1500 1500) 0
      customState).motorCount = 2 := by decide!
  refine ⟨hc, h.2.2.2.1 rfl 1 (by rw [hc]; decide), ?_, by decide!⟩
  exact (h.2.2.2.2 3 (by rw [hc]; decide)).trans (by decide!)

/-! ## C15: custom servo mixer loading -/

/-- C15. Function `loadCustomServoMixer` sets `servoRuleCount ≤ MAX_SERVO_RULES`
to the index of the first rule of `customServoMixers` whose rate is 0 (every
rule below it has a non-zero rate), or to `MAX_SERVO_RULES` if there is none,
copies exactly those leading rules into `currentServoMixer`, and leaves every
entry of `currentServoMixer` from `servoRuleCount` up to the end of the array
all-zero, whatever `currentServoMixer` held before. -/
theorem C15_custom_servo_mixer (st : State) :
    (loadCustomServoMixer st).servoRuleCount ≤ MAX_SERVO_RULES
    ∧ (∀ j, j < (loadCustomServoMixer st).servoRuleCount → (st.customServoMixers j).rate ≠ 0)
    ∧ ((loadCustomServoMixer st).servoRuleCount = MAX_SERVO_RULES
        ∨ (st.customServoMixers (loadCustomServoMixer st).servoRuleCount).rate = 0)
    ∧ (∀ i, i < (loadCustomServoMixer st).servoRuleCount →
        (loadCustomServoMixer st).currentServoMixer i = st.customServoMixers i)
    ∧ (∀ i, (loadCustomServoMixer st).servoRuleCount ≤ i → i < MAX_SERVO_RULES →
        (loadCustomServoMixer st).currentServoMixer i = servoMixerZero) := by
  obtain ⟨k, hk, hc, hnz, hend, hr⟩ :=
    loadCustomRules_spec st.customServoMixers MAX_SERVO_RULES 0
      (fun j => if j < MAX_SERVO_RULES then servoMixerZero else st.currentServoMixer j, 0)
  have hcount : (loadCustomServoMixer st).servoRuleCount = k := by
    unfold loadCustomServoMixer
    dsimp only
    rw [hc]
    simp
  have hrows : ∀ i, (loadCustomServoMixer st).currentServoMixer i
      = if 0 ≤ i ∧ i < 0 + k then st.customServoMixers i
        else if i < MAX_SERVO_RULES then servoMixerZero else st.currentServoMixer i := by
    intro i
    unfold loadCustomServoMixer
    dsimp only
    rw [hr i]
  rw [hcount]
  refine ⟨hk, ?_, ?_, ?_, ?_⟩
  · intro j hj
    have := hnz j hj
    rw [Nat.zero_add] at this
    exact this
  · rcases hend with hend | hend
    · exact Or.inl hend
    · rw [Nat.zero_add] at hend
      exact Or.inr hend
  · intro i hi
    rw [hrows i, if_pos ⟨Nat.zero_le _, by omega⟩]
  · intro i hi hlt
    rw [hrows i, if_neg (by omega), if_pos hlt]

/-- C15 at a concrete input: custom rules `r0, r1, (rate 0), r3` over a stale
`currentServoMixer`: `servoRuleCount = 2`, rule 1 is copied, entries 2, 3 and
35 are all-zero. -/
theorem C15_custom_servo_mixer_witness :
    (loadCustomServoMixer customRuleState).servoRuleCount = 2
    ∧ (loadCustomServoMixer customRuleState).currentServoMixer 1 = customRuleState.customServoMixers 1
    ∧ (loadCustomServoMixer customRuleState).currentServoMixer 2 = servoMixerZero
    ∧ (loadCustomServoMixer customRuleState).currentServoMixer 3 = servoMixerZero
    ∧ (loadCustomServoMixer customRuleState).currentServoMixer 35 = servoMixerZero := by
  have h := C15_custom_servo_mixer customRuleState
  have hc : (loadCustomServoMixer customRuleState).servoRuleCount = 2 := by decide
  refine ⟨hc, h.2.2.2.1 1 (by rw [hc]; decide), h.2.2.2.2 2 (by rw [hc]) (by decide),
    h.2.2.2.2 3 (by rw [hc]; decide) (by decide), h.2.2.2.2 35 (by rw [hc]; decide) (by decide)⟩

/-! ## C16: reversal symmetry -/

theorem and_one_shiftLeft_ne_zero (x k : Nat) : x &&& (1 <<< k) ≠ 0 ↔ x.testBit k = true := by
  rw [Nat.one_shiftLeft]
  constructor
  · intro h
    obtain ⟨i, hi⟩ := Nat.ne_zero_implies_bit_true h
    rw [Nat.testBit_and, Nat.testBit_two_pow] at hi
    simp only [Bool.and_eq_true, decide_eq_true_eq] at hi
    rw [hi.2]
    exact hi.1
  · intro h hz
    have : (x &&& 2 ^ k).testBit k = true := by
      rw [Nat.testBit_and, Nat.testBit_two_pow_self, h]
      rfl
    rw [hz, Nat.zero_testBit] at this
    exact Bool.false_ne_true this

/-- C16. Take an active rule `i` and two environments that give its target servo
the same `min` and `max` and differ in bit `inputSource` of
`servoConf[target].reversedSources`: clear in `envClear`, set in `envSet`.
Then `servoDirection` is `+1` with the bit clear and `−1` with it set; for
every slew value the amount the rule adds with the bit set is the negation of
the amount it adds with the bit clear; and one iteration of the rule loop
stores `servo[target] + amount` in the first case and `servo[target] − amount`
in the second (as `int16_t`). -/
theorem C16_reversal_symmetry (envClear envSet : Env) (st : State) (acc : servoAcc) (i : Nat)
    (hact : ruleActive envClear st.currentServoMixer i)
    (hbox : envSet.servoBox = envClear.servoBox)
    (hminmax : (envSet.servoConf (st.currentServoMixer i).targetChannel).min
        = (envClear.servoConf (st.currentServoMixer i).targetChannel).min
      ∧ (envSet.servoConf (st.currentServoMixer i).targetChannel).max
        = (envClear.servoConf (st.currentServoMixer i).targetChannel).max)
    (hclear : (envClear.servoConf (st.currentServoMixer i).targetChannel).reversedSources.testBit
        (st.currentServoMixer i).inputSource = false)
    (hset : (envSet.servoConf (st.currentServoMixer i).targetChannel).reversedSources.testBit
        (st.currentServoMixer i).inputSource = true)
    (input : Nat → Int) :
    (servoDirection envClear (st.currentServoMixer i).targetChannel (st.currentServoMixer i).inputSource = 1
      ∧ servoDirection envSet (st.currentServoMixer i).targetChannel (st.currentServoMixer i).inputSource = -1)
    ∧ (∀ out, servoRuleContribution envSet (st.currentServoMixer i) out
        = -servoRuleContribution envClear (st.currentServoMixer i) out)
    ∧ ((servoMixerRule envClear st.currentServoMixer input acc i).servo (st.currentServoMixer i).targetChannel
        = toInt16 (acc.servo (st.currentServoMixer i).targetChannel
            + servoRuleContribution envClear (st.currentServoMixer i)
                (slewStep (st.currentServoMixer i).speed (acc.currentOutput i)
                  (input (st.currentServoMixer i).inputSource))))
    ∧ ((servoMixerRule envSet st.currentServoMixer input acc i).servo (st.currentServoMixer i).targetChannel
        = toInt16 (acc.servo (st.currentServoMixer i).targetChannel
            - servoRuleContribution envClear (st.currentServoMixer i)
                (slewStep (st.currentServoMixer i).speed (acc.currentOutput i)
                  (input (st.currentServoMixer i).inputSource)))) := by
  have hd1 : servoDirection envClear (st.currentServoMixer i).targetChannel
      (st.currentServoMixer i).inputSource = 1 := by
    unfold servoDirection
    rw [if_neg]
    rw [and_one_shiftLeft_ne_zero, hclear]
    exact Bool.false_ne_true
  have hd2 : servoDirection envSet (st.currentServoMixer i).targetChannel
      (st.currentServoMixer i).inputSource = -1 := by
    unfold servoDirection
    rw [if_pos]
    rw [and_one_shiftLeft_ne_zero, hset]
  have hneg : ∀ out, servoRuleContribution envSet (st.currentServoMixer i) out
      = -servoRuleContribution envClear (st.currentServoMixer i) out := by
    intro out
    unfold servoRuleContribution
    rw [hd1, hd2, hminmax.1, hminmax.2]
    ring
  have hact2 : ruleActive envSet st.currentServoMixer i := by
    unfold ruleActive at hact ⊢
    rw [hbox]
    exact hact
  refine ⟨⟨hd1, hd2⟩, hneg, ?_, ?_⟩
  · unfold servoMixerRule
    unfold ruleActive at hact
    rw [if_pos hact]
    simp only [if_true]
    rfl
  · have h2 : (servoMixerRule envSet st.currentServoMixer input acc i).servo
          (st.currentServoMixer i).targetChannel
        = toInt16 (acc.servo (st.currentServoMixer i).targetChannel
            + servoRuleContribution envSet (st.currentServoMixer i)
                (slewStep (st.currentServoMixer i).speed (acc.currentOutput i)
                  (input (st.currentServoMixer i).inputSource))) := by
      unfold servoMixerRule
      unfold ruleActive at hact2
      rw [if_pos hact2]
      simp only [if_true]
      rfl
    rw [h2, hneg, sub_eq_add_neg]

/-- C16 at a concrete input: the tricopter rule `{RUDDER, STABILIZED_YAW, rate
100}` with slew value 100 adds +100 with mask 0 and −100 with mask `1 << 2`. -/
theorem C16_reversal_symmetry_witness :
    servoRuleContribution (reversedEnv 0) ((triState 100).currentServoMixer 0) 100 = 100
    ∧ servoRuleContribution (reversedEnv 4) ((triState 100).currentServoMixer 0) 100 = -100 := by
  have h := C16_reversal_symmetry (reversedEnv 0) (reversedEnv 4) (triState 100)
    ⟨fun _ => 0, fun _ => 0⟩ 0 (by decide) rfl ⟨rfl, rfl⟩ (by decide) (by decide)
    (servoInput (reversedEnv 0) (triState 100))
  have h1 : servoRuleContribution (reversedEnv 0) ((triState 100).currentServoMixer 0) 100 = 100 := by
    decide
  exact ⟨h1, (h.2.1 100).trans (by rw [h1])⟩

/-! ## C17: servo speed limit -/

theorem slewStep_mem (speed : Nat) (cur inp : Int)
    (hc : INT16_MIN ≤ cur ∧ cur ≤ INT16_MAX) (hi : INT16_MIN ≤ inp ∧ inp ≤ INT16_MAX) :
    slewStep speed cur inp
      = if speed = 0 then inp
        else if cur < inp then constrain (cur + speed) cur inp
        else if cur > inp then constrain (cur - speed) inp cur
        else cur := by
  unfold slewStep
  split_ifs with h0 h1 h2
  · rfl
  · have := constrain_mem (cur + speed) cur inp (by omega)
    exact toInt16_of_mem _ (by omega) (by omega)
  · have := constrain_mem (cur - speed) inp cur (by omega)
    exact toInt16_of_mem _ (by omega) (by omega)
  · rfl

theorem servoInput_mem (env : Env) (st : State) (s : Nat) :
    INT16_MIN ≤ servoInput env st s ∧ servoInput env st s ≤ INT16_MAX := by
  have hite : ∀ (p : Prop) [Decidable p] (a b : Int),
      (INT16_MIN ≤ a ∧ a ≤ INT16_MAX) → (INT16_MIN ≤ b ∧ b ≤ INT16_MAX) →
      (INT16_MIN ≤ (if p then a else b) ∧ (if p then a else b) ≤ INT16_MAX) := by
    intro p _ a b ha hb
    split_ifs
    · exact ha
    · exact hb
  unfold servoInput
  repeat' first
    | exact toInt16_mem _
    | apply hite
    | decide

/-- C17 as stated fails: a rule with speed 5 on servo box 1 and the input held
at 200.  Two cycles with the box on bring the slew memory to 5 and 10; the
next cycle with the box off resets it to 0, a change of 10 > 5. -/
theorem C17_servo_speed_limit_counterexample :
    (servoMixer (slewEnv true 1700) (slewState 1)).currentOutput 0 = 5
    ∧ (servoMixer (slewEnv true 1700) (servoMixer (slewEnv true 1700) (slewState 1))).currentOutput 0 = 10
    ∧ (servoMixer (slewEnv false 1700)
        (servoMixer (slewEnv true 1700) (servoMixer (slewEnv true 1700) (slewState 1)))).currentOutput 0 = 0
    ∧ 0 < ((slewState 1).currentServoMixer 0).speed
    ∧ ¬ ABS ((servoMixer (slewEnv false 1700)
          (servoMixer (slewEnv true 1700) (servoMixer (slewEnv true 1700) (slewState 1)))).currentOutput 0
        - (servoMixer (slewEnv true 1700) (servoMixer (slewEnv true 1700) (slewState 1))).currentOutput 0)
        ≤ ((slewState 1).currentServoMixer 0).speed := by
  refine ⟨by decide!, by decide!, by decide!, by decide, by decide!⟩

/-- C17, amended. For every rule `r < servoRuleCount` with `speed > 0` and an
`int16_t` slew memory: in a `servoMixer` cycle in which the rule is active (no
box or box on), `currentOutput[r]` changes by at most `speed` in absolute
value, whatever the input and the gating of the previous cycle were; in a
cycle in which it is gated off, `currentOutput[r]` is reset to 0.  The rule
table is not modified and the new value is again an `int16_t`, so the bound
holds along every sequence of cycles. -/
theorem C17_servo_speed_limit (env : Env) (st : State) (r : Nat)
    (hr : r < st.servoRuleCount)
    (hspeed : 0 < (st.currentServoMixer r).speed)
    (hcur : INT16_MIN ≤ st.currentOutput r ∧ st.currentOutput r ≤ INT16_MAX) :
    (ruleActive env st.currentServoMixer r →
        ABS ((servoMixer env st).currentOutput r - st.currentOutput r)
          ≤ (st.currentServoMixer r).speed)
    ∧ (¬ ruleActive env st.currentServoMixer r → (servoMixer env st).currentOutput r = 0)
    ∧ (servoMixer env st).currentServoMixer = st.currentServoMixer
    ∧ (INT16_MIN ≤ (servoMixer env st).currentOutput r
        ∧ (servoMixer env st).currentOutput r ≤ INT16_MAX) := by
  have hinp := servoInput_mem env st (st.currentServoMixer r).inputSource
  have hrules := (servoMixer_rules env st).1
  rw [servoMixer_currentOutput, if_pos hr]
  have hout : ruleOut env st r
      = if st.currentOutput r < servoInput env st (st.currentServoMixer r).inputSource then
          constrain (st.currentOutput r + (st.currentServoMixer r).speed) (st.currentOutput r)
            (servoInput env st (st.currentServoMixer r).inputSource)
        else if st.currentOutput r > servoInput env st (st.currentServoMixer r).inputSource then
          constrain (st.currentOutput r - (st.currentServoMixer r).speed)
            (servoInput env st (st.currentServoMixer r).inputSource) (st.currentOutput r)
        else st.currentOutput r := by
    unfold ruleOut
    rw [slewStep_mem _ _ _ hcur hinp, if_neg (by omega)]
  refine ⟨?_, ?_, hrules, ?_⟩
  · intro hact
    rw [if_pos hact, hout, ABS_le_iff]
    unfold constrain
    split_ifs <;> omega
  · intro hact
    rw [if_neg hact]
  · by_cases hact : ruleActive env st.currentServoMixer r
    · rw [if_pos hact, hout]
      unfold constrain
      split_ifs <;> omega
    · rw [if_neg hact]
      decide

/-- C17 (amended) at a concrete input: rule with speed 5 on box 1, box on,
input 200, slew memory 0: the change is at most 5. -/
theorem C17_servo_speed_limit_witness :
    ABS ((servoMixer (slewEnv true 1700) (slewState 1)).currentOutput 0 - (slewState 1).currentOutput 0)
      ≤ (5 : Int) :=
  (C17_servo_speed_limit (slewEnv true 1700) (slewState 1) 0 (by decide) (by decide) (by decide)).1
    (by decide)

/-! ## C18: slew step -/

/-- C18. For an active rule `r < servoRuleCount` with an `int16_t` slew memory,
one `servoMixer` cycle gives: with `speed = 0` the new `currentOutput[r]` is
the input; with `speed = s > 0`, if `|input − current| ≥ s` the new value is
`current + s` when `input > current` and `current − s` when `input < current`,
and if `|input − current| < s` the new value is exactly the input. -/
theorem C18_slew_step (env : Env) (st : State) (r : Nat)
    (hr : r < st.servoRuleCount) (hact : ruleActive env st.currentServoMixer r)
    (hcur : INT16_MIN ≤ st.currentOutput r ∧ st.currentOutput r ≤ INT16_MAX) :
    ((st.currentServoMixer r).speed = 0 →
        (servoMixer env st).currentOutput r
          = servoInput env st (st.currentServoMixer r).inputSource)
    ∧ (0 < (st.currentServoMixer r).speed →
        ((st.currentServoMixer r).speed
              ≤ ABS (servoInput env st (st.currentServoMixer r).inputSource - st.currentOutput r) →
            (st.currentOutput r < servoInput env st (st.currentServoMixer r).inputSource →
              (servoMixer env st).currentOutput r
                = st.currentOutput r + (st.currentServoMixer r).speed)
            ∧ (servoInput env st (st.currentServoMixer r).inputSource < st.currentOutput r →
              (servoMixer env st).currentOutput r
                = st.currentOutput r - (st.currentServoMixer r).speed))
        ∧ (ABS (servoInput env st (st.currentServoMixer r).inputSource - st.currentOutput r)
              < (st.currentServoMixer r).speed →
            (servoMixer env st).currentOutput r
              = servoInput env st (st.currentServoMixer r).inputSource)) := by
  have hinp := servoInput_mem env st (st.currentServoMixer r).inputSource
  rw [servoMixer_currentOutput, if_pos hr, if_pos hact]
  unfold ruleOut
  rw [slewStep_mem _ _ _ hcur hinp]
  have hA := ABS_le_iff (servoInput env st (st.currentServoMixer r).inputSource - st.currentOutput r)
    ((st.currentServoMixer r).speed - 1)
  unfold constrain
  refine ⟨?_, ?_⟩
  · intro h0
    rw [if_pos h0]
  · intro hpos
    rw [if_neg (by omega)]
    refine ⟨?_, ?_⟩
    · intro hfar
      have hfar2 : ¬ (ABS (servoInput env st (st.currentServoMixer r).inputSource - st.currentOutput r)
          ≤ (st.currentServoMixer r).speed - 1) := by omega
      rw [hA] at hfar2
      constructor
      · intro hlt
        split_ifs <;> omega
      · intro hgt
        split_ifs <;> omega
    · intro hnear
      have hnear2 : ABS (servoInput env st (st.currentServoMixer r).inputSource - st.currentOutput r)
          ≤ (st.currentServoMixer r).speed - 1 := by omega
      rw [hA] at hnear2
      split_ifs <;> omega

/-- C18 at the scenario S8: rule `{target 0, input RC_ROLL, rate 100, speed 5,
min 0, max 100}`, input jumping from 0 to 200: the slew memory is 5, 10, 15
after one, two, three cycles, 195 after 39, 200 after 40 and still 200 after
41. -/
theorem C18_slew_step_witness :
    (servoMixer (slewEnv false 1700) (slewState 0)).currentOutput 0 = 5
    ∧ ((servoMixer (slewEnv false 1700))^[2] (slewState 0)).currentOutput 0 = 10
    ∧ ((servoMixer (slewEnv false 1700))^[3] (slewState 0)).currentOutput 0 = 15
    ∧ ((servoMixer (slewEnv false 1700))^[39] (slewState 0)).currentOutput 0 = 195
    ∧ ((servoMixer (slewEnv false 1700))^[40] (slewState 0)).currentOutput 0 = 200
    ∧ ((servoMixer (slewEnv false 1700))^[41] (slewState 0)).currentOutput 0 = 200 := by
  have h := C18_slew_step (slewEnv false 1700) (slewState 0) 0 (by decide) (by decide) (by decide)
  exact ⟨(((h.2 (by decide)).1 (by decide!)).1 (by decide!)).trans (by decide),
    by decide!, by decide!, by decide!, by decide!, by decide!⟩

/-! ## C20: virtual servo rate limit -/

/-- C20. For `dT ≥ 0` and `tri_tail_servo_speed ≥ 0`, every servo value and every
prior `virtualServoAngle_D`, one call of `virtualServoStep` (in exact rational
arithmetic) changes `virtualServoAngle_D` by at most `dA = dT ·
tri_tail_servo_speed`, does not increase its distance to the angle set-point,
does not cross the set-point, and sets it exactly to the set-point when the
prior distance is below `dA`. -/
theorem C20_virtual_servo_rate_limit (env : Env) (st : State) (c : servoParam_t) (x : Int)
    (hdT : 0 ≤ env.dT) (hspeed : 0 ≤ env.mixerConfig.tri_tail_servo_speed) :
    ABSf ((virtualServoStep env st c x).virtualServoAngle_D - st.virtualServoAngle_D)
        ≤ env.dT * (env.mixerConfig.tri_tail_servo_speed : ℚ)
    ∧ ABSf ((virtualServoStep env st c x).virtualServoAngle_D
          - (getServoAngleInDeciDegrees st c x : ℚ) / 10)
        ≤ ABSf (st.virtualServoAngle_D - (getServoAngleInDeciDegrees st c x : ℚ) / 10)
    ∧ (st.virtualServoAngle_D ≤ (getServoAngleInDeciDegrees st c x : ℚ) / 10 →
        (virtualServoStep env st c x).virtualServoAngle_D
          ≤ (getServoAngleInDeciDegrees st c x : ℚ) / 10)
    ∧ ((getServoAngleInDeciDegrees st c x : ℚ) / 10 ≤ st.virtualServoAngle_D →
        (getServoAngleInDeciDegrees st c x : ℚ) / 10
          ≤ (virtualServoStep env st c x).virtualServoAngle_D)
    ∧ (ABSf (st.virtualServoAngle_D - (getServoAngleInDeciDegrees st c x : ℚ) / 10)
          < env.dT * (env.mixerConfig.tri_tail_servo_speed : ℚ) →
        (virtualServoStep env st c x).virtualServoAngle_D
          = (getServoAngleInDeciDegrees st c x : ℚ) / 10) := by
  have hdA : 0 ≤ env.dT * (env.mixerConfig.tri_tail_servo_speed : ℚ) :=
    mul_nonneg hdT (by exact_mod_cast hspeed)
  have hstep : (virtualServoStep env st c x).virtualServoAngle_D
      = if ABSf (st.virtualServoAngle_D - (getServoAngleInDeciDegrees st c x : ℚ) / 10)
            < env.dT * (env.mixerConfig.tri_tail_servo_speed : ℚ)
          then (getServoAngleInDeciDegrees st c x : ℚ) / 10
        else if st.virtualServoAngle_D < (getServoAngleInDeciDegrees st c x : ℚ) / 10
          then st.virtualServoAngle_D + env.dT * (env.mixerConfig.tri_tail_servo_speed : ℚ)
        else st.virtualServoAngle_D - env.dT * (env.mixerConfig.tri_tail_servo_speed : ℚ) := by
    unfold virtualServoStep
    dsimp only
    split_ifs <;> rfl
  rw [hstep]
  generalize env.dT * (env.mixerConfig.tri_tail_servo_speed : ℚ) = dA at hdA ⊢
  generalize (getServoAngleInDeciDegrees st c x : ℚ) / 10 = sp
  generalize st.virtualServoAngle_D = v
  unfold ABSf
  refine ⟨?_, ?_, ?_, ?_, ?_⟩
  · split_ifs <;> linarith
  · split_ifs <;> linarith
  · intro h
    split_ifs <;> linarith
  · intro h
    split_ifs <;> linarith
  · intro h
    rw [if_pos h]

/-- C20 at a concrete input: `dT` = 1 ms, speed 300 deg/s, virtual angle 90,
servo at 2000 (set-point 130 deg): the angle moves by 3/10 to 903/10. -/
theorem C20_virtual_servo_rate_limit_witness :
    (virtualServoStep (scenarioEnv true false false false false 1500 1500) (triState 0)
        scenarioServoParam 2000).virtualServoAngle_D = 903 / 10
    ∧ ABSf ((virtualServoStep (scenarioEnv true false false false false 1500 1500) (triState 0)
        scenarioServoParam 2000).virtualServoAngle_D - (triState 0).virtualServoAngle_D) ≤ 3 / 10 :=
  ⟨by decide!,
   le_trans (C20_virtual_servo_rate_limit (scenarioEnv true false false false false 1500 1500)
      (triState 0) scenarioServoParam 2000 (by decide!) (by decide)).1 (by decide!)⟩

/-! ## C19: servo post-scale and centre -/

theorem determineServo_eq (env : Env) (i : Nat) :
    determineServoMiddleOrForwardFromChannel env i = toInt16 (servoBase env i) := by
  unfold determineServoMiddleOrForwardFromChannel servoBase
  dsimp only
  split_ifs <;> rfl

theorem mixTableMotors_rules (env : Env) (st : State) :
    (mixTableMotors env st).currentServoMixer = st.currentServoMixer
    ∧ (mixTableMotors env st).servoRuleCount = st.servoRuleCount := by
  have h1 : (yawJumpPrevention env st).currentServoMixer = st.currentServoMixer
      ∧ (yawJumpPrevention env st).servoRuleCount = st.servoRuleCount := by
    unfold yawJumpPrevention
    split_ifs <;> exact ⟨rfl, rfl⟩
  have h2 : (preMix env st).currentServoMixer = st.currentServoMixer
      ∧ (preMix env st).servoRuleCount = st.servoRuleCount := by
    unfold preMix triPreHook
    split_ifs
    · exact h1
    · exact h1
  unfold mixTableMotors disarmMotors mixTableAirmode mixTableClassic
  split_ifs <;> exact h2

theorem servoRuleSum_untargeted (env : Env) (st : State) (i : Nat)
    (h : servoUntargeted env st i) : servoRuleSum env st i = 0 := by
  unfold servoRuleSum
  apply List.sum_eq_zero
  intro x hx
  rw [List.mem_map] at hx
  obtain ⟨k, hk, hkx⟩ := hx
  rw [← hkx]
  unfold ruleAmount
  rw [if_neg]
  rintro ⟨hact, htarget⟩
  exact h k (List.mem_range.1 hk) hact htarget

/-- C19. Outside MIXER_TRI, for every servo `i < MAX_SUPPORTED_SERVOS`, after
`servoMixer` `servo[i]` is `(servoConf[i].rate · acc_i) / 100 + base_i` with
truncating division, computed in `int16_t`, where `acc_i` is the sum of the
contributions of the active rules targeting `i` and `base_i` is the forwarded
channel or the middle; the equation holds without wrap-around whenever the sum
and the result are `int16_t` values.  A servo targeted by no active rule ends
`mixTable` at `constrain(base_i, min, max)` (airframe using the servo mixer,
FEATURE_SERVO_TILT off, `base_i`, `min`, `max` being `int16_t` values). -/
theorem C19_servo_post_scale (env : Env) (st : State)
    (hmode : st.currentMixerMode ≠ MIXER_TRI) (i : Nat) (hi : i < MAX_SUPPORTED_SERVOS) :
    (servoMixer env st).servo i
        = toInt16 (Int.tdiv ((env.servoConf i).rate * toInt16 (servoRuleSum env st i)) 100
            + toInt16 (servoBase env i))
    ∧ (INT16_MIN ≤ servoRuleSum env st i → servoRuleSum env st i ≤ INT16_MAX →
        INT16_MIN ≤ Int.tdiv ((env.servoConf i).rate * servoRuleSum env st i) 100 + servoBase env i →
        Int.tdiv ((env.servoConf i).rate * servoRuleSum env st i) 100 + servoBase env i ≤ INT16_MAX →
        (servoMixer env st).servo i
          = Int.tdiv ((env.servoConf i).rate * servoRuleSum env st i) 100 + servoBase env i)
    ∧ (servoUntargeted env st i → usesServoMixer st.currentMixerMode = true →
        env.featureServoTilt = false →
        INT16_MIN ≤ servoBase env i → servoBase env i ≤ INT16_MAX →
        INT16_MIN ≤ (env.servoConf i).min → (env.servoConf i).min ≤ INT16_MAX →
        INT16_MIN ≤ (env.servoConf i).max → (env.servoConf i).max ≤ INT16_MAX →
        (mixTable env st).servo i
          = constrain (servoBase env i) (env.servoConf i).min (env.servoConf i).max) := by
  have hA : ∀ S : State, S.currentMixerMode ≠ MIXER_TRI →
      (servoMixer env S).servo i
        = toInt16 (Int.tdiv ((env.servoConf i).rate * toInt16 (servoRuleSum env S i)) 100
            + toInt16 (servoBase env i)) := by
    intro S hS
    rw [servoMixer_servo env S hS i hi]
    unfold servoPostScale
    rw [determineServo_eq, toInt16_add_toInt16]
  refine ⟨hA st hmode, ?_, ?_⟩
  · intro h1 h2 h3 h4
    rw [hA st hmode, toInt16_of_mem _ h1 h2]
    have : toInt16 (Int.tdiv ((env.servoConf i).rate * servoRuleSum env st i) 100
        + toInt16 (servoBase env i))
        = toInt16 (Int.tdiv ((env.servoConf i).rate * servoRuleSum env st i) 100 + servoBase env i) := by
      rw [add_comm, toInt16_add_toInt16, add_comm]
    rw [this]
    exact toInt16_of_mem _ h3 h4
  · intro hunt huse htilt hb1 hb2 hmin1 hmin2 hmax1 hmax2
    have hmodeS := mixTableMotors_mode env st
    have hrules := mixTableMotors_rules env st
    have huntS : servoUntargeted env (mixTableMotors env st) i := by
      unfold servoUntargeted at hunt ⊢
      rw [hrules.1, hrules.2]
      exact hunt
    have hservo : (servoMixer env (mixTableMotors env st)).servo i = servoBase env i := by
      rw [hA _ (by rw [hmodeS]; exact hmode), servoRuleSum_untargeted env _ i huntS]
      have h0 : toInt16 0 = 0 := by decide
      rw [h0, mul_zero]
      have h1 : Int.tdiv 0 100 = 0 := by decide
      rw [h1, zero_add, toInt16_of_mem _ hb1 hb2, toInt16_of_mem _ hb1 hb2]
    have hcam : ∀ S : State, camstabOverlay env S = S := by
      intro S
      unfold camstabOverlay
      rw [htilt]
      rfl
    unfold mixTable mixTableServos
    rw [hmodeS, huse, if_pos rfl, hcam]
    unfold constrainServos
    simp only [hi, if_true]
    rw [hservo]
    unfold constrain
    split_ifs
    · exact toInt16_of_mem _ hmin1 hmin2
    · exact toInt16_of_mem _ hmax1 hmax2
    · exact toInt16_of_mem _ hb1 hb2

/-- C19 at a concrete input: flying wing with roll demand 100 and pitch demand
50.  FLAPPERON_1 accumulates 150 and ends `servoMixer` at `100·150/100 + 1500
= 1650`; the gimbal pitch servo, which no rule targets, ends `mixTable` at its
middle 1500. -/
theorem C19_servo_post_scale_witness :
    servoRuleSum (scenarioEnv true false false false false 1500 1500) (flyingWingState 100 50)
        SERVO_FLAPPERON_1 = 150
    ∧ (servoMixer (scenarioEnv true false false false false 1500 1500)
        (flyingWingState 100 50)).servo SERVO_FLAPPERON_1 = 1650
    ∧ (mixTable (scenarioEnv true false false false false 1500 1500)
        (flyingWingState 100 50)).servo SERVO_GIMBAL_PITCH = 1500 := by
  have h1 := C19_servo_post_scale (scenarioEnv true false false false false 1500 1500)
    (flyingWingState 100 50) (by decide) SERVO_FLAPPERON_1 (by decide)
  have h2 := C19_servo_post_scale (scenarioEnv true false false false false 1500 1500)
    (flyingWingState 100 50) (by decide) SERVO_GIMBAL_PITCH (by decide)
  refine ⟨by decide!, ?_, ?_⟩
  · exact (h1.2.1 (by decide!) (by decide!) (by decide!) (by decide!)).trans (by decide!)
  · exact (h2.2.2 (by decide!) rfl rfl (by decide) (by decide) (by decide) (by decide)
      (by decide) (by decide)).trans (by decide)

/-! ## C21: the binary search of the yaw force curve -/

/-- Invariant of the binary search: the loop keeps `curve[lower] ≤ force <
curve[higher]` and `lower < higher`, and with at least `higher − lower`
iterations allowed it stops at `higher = lower + 1` inside the initial
bracket. -/
theorem yawCurveSearch_spec (curve : Nat → Int) (force : Int) (fuel : Nat) :
    ∀ lower higher : Nat, lower < higher → higher - lower ≤ fuel + 1 →
      curve lower ≤ force → force < curve higher →
      ∃ l, yawCurveSearch curve force fuel lower higher = (l, l + 1)
        ∧ lower ≤ l ∧ l + 1 ≤ higher ∧ curve l ≤ force ∧ force < curve (l + 1) := by
  induction fuel with
  | zero =>
    intro lower higher hlt hfuel hlo hhi
    have : higher = lower + 1 := by omega
    subst this
    exact ⟨lower, rfl, le_refl _, le_refl _, hlo, hhi⟩
  | succ n ih =>
    intro lower higher hlt hfuel hlo hhi
    unfold yawCurveSearch
    by_cases hgap : higher > lower + 1
    · rw [if_pos hgap]
      have hmid1 : lower < (lower + higher) / 2 := by omega
      have hmid2 : (lower + higher) / 2 < higher := by omega
      by_cases hc : curve ((lower + higher) / 2) > force
      · rw [if_pos hc]
        obtain ⟨l, h1, h2, h3, h4, h5⟩ := ih lower ((lower + higher) / 2) hmid1 (by omega) hlo hc
        exact ⟨l, h1, h2, by omega, h4, h5⟩
      · rw [if_neg hc]
        obtain ⟨l, h1, h2, h3, h4, h5⟩ :=
          ih ((lower + higher) / 2) higher hmid2 (by omega) (by omega) hhi
        exact ⟨l, h1, by omega, h3, h4, h5⟩
    · rw [if_neg hgap]
      have : higher = lower + 1 := by omega
      subst this
      exact ⟨lower, rfl, le_refl _, le_refl _, hlo, hhi⟩

/-- The interpolation term of the lookup is one decimal digit when the force
lies inside the bracket. -/
theorem interp_digit (x d : Int) (h0 : 0 ≤ x) (hd : x < d) :
    0 ≤ Int.tdiv (Int.tdiv (x * 1000) d) 100 ∧ Int.tdiv (Int.tdiv (x * 1000) d) 100 ≤ 9 := by
  have hdpos : 0 < d := by omega
  have h1 : Int.tdiv (x * 1000) d = x * 1000 / d := Int.tdiv_eq_ediv (by omega) (by omega)
  have h2 : 0 ≤ x * 1000 / d := Int.ediv_nonneg (by omega) (by omega)
  have h3 : x * 1000 / d < 1000 := by
    apply Int.ediv_lt_of_lt_mul hdpos
    nlinarith
  rw [h1, Int.tdiv_eq_ediv h2 (by omega)]
  omega

/-- C21. For every table `yawForceCurve` (monotonic or not) and every force
`F` (as the `int16_t` parameter), with the cases taken in the order the code
tests them: if `F < curve[0]` the result is 400; else if `F ≥ curve[99]` the
result is 1400 (the first test cannot interfere when `curve[0] ≤ curve[99]`);
otherwise the loop ends, within the 100 iterations allowed, at `higher = lower
+ 1` with `0 ≤ lower < 99` and `curve[lower] ≤ F < curve[higher]`, the divisor
`curve[higher] − curve[lower]` is positive and the result is `400 + 10·lower +
k` with `0 ≤ k ≤ 9`.  Every result lies in `[400, 1400]`. -/
theorem C21_yaw_curve_search (st : State) (F : Int) :
    (toInt16 F < st.yawForceCurve 0 → getAngleFromYawCurveAtForce st F = 400)
    ∧ (¬ toInt16 F < st.yawForceCurve 0 → st.yawForceCurve 99 ≤ toInt16 F →
        getAngleFromYawCurveAtForce st F = 1400)
    ∧ (st.yawForceCurve 0 ≤ st.yawForceCurve 99 → st.yawForceCurve 99 ≤ toInt16 F →
        getAngleFromYawCurveAtForce st F = 1400)
    ∧ (¬ toInt16 F < st.yawForceCurve 0 → toInt16 F < st.yawForceCurve 99 →
        ∃ lower : Nat,
          yawCurveSearch st.yawForceCurve (toInt16 F) TRI_YAW_FORCE_CURVE_SIZE 0
              (TRI_YAW_FORCE_CURVE_SIZE - 1) = (lower, lower + 1)
          ∧ lower < 99
          ∧ st.yawForceCurve lower ≤ toInt16 F ∧ toInt16 F < st.yawForceCurve (lower + 1)
          ∧ 0 < st.yawForceCurve (lower + 1) - st.yawForceCurve lower
          ∧ ∃ k : Int, 0 ≤ k ∧ k ≤ 9
              ∧ getAngleFromYawCurveAtForce st F = 400 + 10 * (lower : Int) + k)
    ∧ 400 ≤ getAngleFromYawCurveAtForce st F ∧ getAngleFromYawCurveAtForce st F ≤ 1400 := by
  have hcase3 : ¬ toInt16 F < st.yawForceCurve 0 → toInt16 F < st.yawForceCurve 99 →
        ∃ lower : Nat,
          yawCurveSearch st.yawForceCurve (toInt16 F) TRI_YAW_FORCE_CURVE_SIZE 0
              (TRI_YAW_FORCE_CURVE_SIZE - 1) = (lower, lower + 1)
          ∧ lower < 99
          ∧ st.yawForceCurve lower ≤ toInt16 F ∧ toInt16 F < st.yawForceCurve (lower + 1)
          ∧ 0 < st.yawForceCurve (lower + 1) - st.yawForceCurve lower
          ∧ ∃ k : Int, 0 ≤ k ∧ k ≤ 9
              ∧ getAngleFromYawCurveAtForce st F = 400 + 10 * (lower : Int) + k := by
    intro h0 h99
    obtain ⟨l, hl, _, hl2, hl3, hl4⟩ :=
      yawCurveSearch_spec st.yawForceCurve (toInt16 F) TRI_YAW_FORCE_CURVE_SIZE 0
        (TRI_YAW_FORCE_CURVE_SIZE - 1) (by decide) (by decide) (by omega) h99
    have hl99 : l < 99 := by
      have : TRI_YAW_FORCE_CURVE_SIZE - 1 = 99 := by decide
      omega
    have hk := interp_digit (toInt16 F - st.yawForceCurve l)
      (st.yawForceCurve (l + 1) - st.yawForceCurve l) (by omega) (by omega)
    refine ⟨l, hl, hl99, hl3, hl4, by omega, _, hk.1, hk.2, ?_⟩
    unfold getAngleFromYawCurveAtForce
    dsimp only
    rw [if_neg h0, if_neg (by
      have : TRI_YAW_FORCE_CURVE_SIZE - 1 = 99 := by decide
      rw [this]; omega), hl]
    unfold toUInt16 TRI_TAIL_SERVO_ANGLE_MID_DD TRI_TAIL_SERVO_MAX_ANGLE_DD
    dsimp only
    omega
  have hcase1 : toInt16 F < st.yawForceCurve 0 → getAngleFromYawCurveAtForce st F = 400 := by
    intro h
    unfold getAngleFromYawCurveAtForce
    dsimp only
    rw [if_pos h]
    decide
  have hcase2 : ¬ toInt16 F < st.yawForceCurve 0 → st.yawForceCurve 99 ≤ toInt16 F →
        getAngleFromYawCurveAtForce st F = 1400 := by
    intro h0 h
    unfold getAngleFromYawCurveAtForce
    dsimp only
    have h99 : TRI_YAW_FORCE_CURVE_SIZE - 1 = 99 := by decide
    rw [if_neg h0, h99, if_pos (by omega)]
    decide
  refine ⟨hcase1, hcase2, fun hmono h => hcase2 (by omega) h, hcase3, ?_⟩
  by_cases h0 : toInt16 F < st.yawForceCurve 0
  · rw [hcase1 h0]; omega
  · by_cases h99 : toInt16 F < st.yawForceCurve 99
    · obtain ⟨l, _, hl, _, _, _, k, hk0, hk9, hk⟩ := hcase3 h0 h99
      rw [hk]; omega
    · rw [hcase2 h0 (by omega)]; omega


/-- C21 at a concrete input: on the non-monotonic table of `bumpCurveState`
the force 5 is bracketed by the entries 50 and 51 (values 0 and 20) and the
lookup returns `400 + 10·50 + 2 = 902`. -/
theorem C21_yaw_curve_search_witness :
    yawCurveSearch bumpCurveState.yawForceCurve 5 TRI_YAW_FORCE_CURVE_SIZE 0
        (TRI_YAW_FORCE_CURVE_SIZE - 1) = (50, 51)
    ∧ getAngleFromYawCurveAtForce bumpCurveState 5 = 902
    ∧ 400 ≤ getAngleFromYawCurveAtForce bumpCurveState 5
    ∧ getAngleFromYawCurveAtForce bumpCurveState 5 ≤ 1400 :=
  ⟨by decide, by decide, (C21_yaw_curve_search bumpCurveState 5).2.2.2.2⟩

/-! ## C22: conversion between servo value and tail angle -/

theorem toUInt16_of_mem (x : Int) (h1 : 0 ≤ x) (h2 : x ≤ 65535) : toUInt16 x = x := by
  unfold toUInt16
  omega

/-- The angle offset `M·d·1024 / R / 1024` of a servo offset `d ∈ [0, R]` lies
in `[0, M]`. -/
theorem scale_bounds (M d R : Int) (hM : 0 ≤ M) (hd0 : 0 ≤ d) (hdR : d ≤ R) (hR : 0 < R) :
    0 ≤ M * d * 1024 / R / 1024 ∧ M * d * 1024 / R / 1024 ≤ M := by
  have h0 : 0 ≤ M * d * 1024 := by positivity
  have h1 : 0 ≤ M * d * 1024 / R := Int.ediv_nonneg h0 (by omega)
  have h2 : M * d * 1024 / R ≤ M * 1024 := by
    apply Int.ediv_le_of_le_mul hR
    nlinarith
  omega

/-- The angle of a servo value on the upper half `[middle, max]`. -/
theorem getServoAngle_high (st : State) (c : servoParam_t) (v : Int)
    (ht : calibrationTyped st c) (h1 : c.middle ≤ v) (h2 : v ≤ c.max) :
    getServoAngleInDeciDegrees st c v
      = 900 + st.tailServoMaxAngle_DD * (v - c.middle) * 1024 / (c.max - c.middle) / 1024 := by
  obtain ⟨hmin, hlt1, hlt2, hmax, hM0, hM1, hprod⟩ := ht
  unfold INT16_MAX at hmax
  unfold TRI_TAIL_SERVO_MAX_ANGLE_DD at hM1
  have hv : toUInt16 v = v := toUInt16_of_mem v (by omega) (by omega)
  have hmid : toInt16 c.middle = c.middle :=
    toInt16_of_mem _ (by unfold INT16_MIN; omega) (by unfold INT16_MAX; omega)
  have hmaxv : toInt16 c.max = c.max :=
    toInt16_of_mem _ (by unfold INT16_MIN; omega) (by unfold INT16_MAX; omega)
  have hang : toInt16 (TRI_TAIL_SERVO_ANGLE_MID_DD + st.tailServoMaxAngle_DD)
      = TRI_TAIL_SERVO_ANGLE_MID_DD + st.tailServoMaxAngle_DD :=
    toInt16_of_mem _ (by unfold INT16_MIN TRI_TAIL_SERVO_ANGLE_MID_DD; omega)
      (by unfold INT16_MAX TRI_TAIL_SERVO_ANGLE_MID_DD; omega)
  have hb := scale_bounds st.tailServoMaxAngle_DD (v - c.middle) (c.max - c.middle)
    (by omega) (by omega) (by omega) (by omega)
  have hx0 : 0 ≤ st.tailServoMaxAngle_DD * (v - c.middle) * 1024 :=
    mul_nonneg (mul_nonneg (by omega) (by omega)) (by omega)
  have hq0 : 0 ≤ st.tailServoMaxAngle_DD * (v - c.middle) * 1024 / (c.max - c.middle) :=
    Int.ediv_nonneg hx0 (by omega)
  unfold getServoAngleInDeciDegrees
  dsimp only
  have hnlt : ¬ v < c.middle := not_lt.2 h1
  simp only [hv, hmid, hnlt, if_false, hmaxv, hang, add_sub_cancel_left]
  unfold INT_PRECISION TRI_TAIL_SERVO_ANGLE_MID_DD
  rw [Int.tdiv_eq_ediv hx0 (by omega), Int.tdiv_eq_ediv hq0 (by omega)]
  unfold toUInt16 toInt16
  omega

/-- The servo value of an angle above 900, up to `900 + tailServoMaxAngle_DD`. -/
theorem getServoValue_high (st : State) (c : servoParam_t) (a : Int)
    (ht : calibrationTyped st c) (h1 : 0 < a) (h2 : a ≤ st.tailServoMaxAngle_DD) :
    getServoValueAtAngle st c (900 + a)
      = c.middle + a * 1024 / st.tailServoMaxAngle_DD * (c.max - c.middle) / 1024
    ∧ a * 1024 / st.tailServoMaxAngle_DD * (c.max - c.middle) / 1024 ≤ c.max - c.middle := by
  obtain ⟨hmin, hlt1, hlt2, hmax, hM0, hM1, hprod⟩ := ht
  unfold INT16_MAX at hmax
  unfold TRI_TAIL_SERVO_MAX_ANGLE_DD at hM1
  have hmid : toInt16 c.middle = c.middle :=
    toInt16_of_mem _ (by unfold INT16_MIN; omega) (by unfold INT16_MAX; omega)
  have hmaxv : toInt16 c.max = c.max :=
    toInt16_of_mem _ (by unfold INT16_MIN; omega) (by unfold INT16_MAX; omega)
  have hang : toUInt16 (900 + a) = 900 + a := toUInt16_of_mem _ (by omega) (by omega)
  have hb0 : 0 ≤ a * 1024 / st.tailServoMaxAngle_DD :=
    Int.ediv_nonneg (by omega) (by omega)
  have hb1 : a * 1024 / st.tailServoMaxAngle_DD ≤ 1024 := by
    apply Int.ediv_le_of_le_mul hM0
    nlinarith
  have hw0 : 0 ≤ a * 1024 / st.tailServoMaxAngle_DD * (c.max - c.middle) :=
    mul_nonneg hb0 (by omega)
  have hw1 : a * 1024 / st.tailServoMaxAngle_DD * (c.max - c.middle) ≤ 1024 * (c.max - c.middle) :=
    mul_le_mul_of_nonneg_right hb1 (by omega)
  have hw2 : a * 1024 / st.tailServoMaxAngle_DD * (c.max - c.middle) / 1024 ≤ c.max - c.middle := by
    omega
  refine ⟨?_, hw2⟩
  unfold getServoValueAtAngle
  dsimp only
  have hnlt : ¬ (900 + a < TRI_TAIL_SERVO_ANGLE_MID_DD) := by
    unfold TRI_TAIL_SERVO_ANGLE_MID_DD; omega
  have hgt : 900 + a > TRI_TAIL_SERVO_ANGLE_MID_DD := by
    unfold TRI_TAIL_SERVO_ANGLE_MID_DD; omega
  simp only [hang, hmid, hmaxv, hnlt, if_false, hgt, if_true]
  unfold INT_PRECISION TRI_TAIL_SERVO_ANGLE_MID_DD
  have e1 : 900 + a - 900 = a := by omega
  rw [e1, @Int.tdiv_eq_ediv (a * 1024) st.tailServoMaxAngle_DD (by omega) (by omega),
    Int.tdiv_eq_ediv hw0 (by omega)]
  unfold toUInt16
  omega

/-- The angle of the servo value `min`. -/
theorem getServoAngle_min (st : State) (c : servoParam_t) (ht : calibrationTyped st c) :
    getServoAngleInDeciDegrees st c c.min = 900 - st.tailServoMaxAngle_DD := by
  obtain ⟨hmin, hlt1, hlt2, hmax, hM0, hM1, hprod⟩ := ht
  unfold INT16_MAX at hmax
  unfold TRI_TAIL_SERVO_MAX_ANGLE_DD at hM1
  have hv : toUInt16 c.min = c.min := toUInt16_of_mem _ (by omega) (by omega)
  have hmid : toInt16 c.middle = c.middle :=
    toInt16_of_mem _ (by unfold INT16_MIN; omega) (by unfold INT16_MAX; omega)
  have hminv : toInt16 c.min = c.min :=
    toInt16_of_mem _ (by unfold INT16_MIN; omega) (by unfold INT16_MAX; omega)
  have hang : toInt16 (TRI_TAIL_SERVO_ANGLE_MID_DD - st.tailServoMaxAngle_DD)
      = TRI_TAIL_SERVO_ANGLE_MID_DD - st.tailServoMaxAngle_DD :=
    toInt16_of_mem _ (by unfold INT16_MIN TRI_TAIL_SERVO_ANGLE_MID_DD; omega)
      (by unfold INT16_MAX TRI_TAIL_SERVO_ANGLE_MID_DD; omega)
  unfold getServoAngleInDeciDegrees
  dsimp only
  simp only [hv, hmid, hlt1, if_true, hminv, hang]
  have e1 : (TRI_TAIL_SERVO_ANGLE_MID_DD - st.tailServoMaxAngle_DD - TRI_TAIL_SERVO_ANGLE_MID_DD)
      * (c.min - c.middle) * INT_PRECISION
      = (-st.tailServoMaxAngle_DD * INT_PRECISION) * (c.min - c.middle) := by ring
  rw [e1, Int.mul_tdiv_cancel _ (by omega)]
  unfold INT_PRECISION TRI_TAIL_SERVO_ANGLE_MID_DD
  have e2 : (-st.tailServoMaxAngle_DD * 1024) = (-st.tailServoMaxAngle_DD) * 1024 := by ring
  rw [e2, Int.mul_tdiv_cancel _ (by omega)]
  unfold toUInt16 toInt16
  omega

/-- The round trip through the angle on the upper half loses less than
`2·R/M + 1` units and never gains. -/
theorem roundTrip_arith (M d R : Int) (hM0 : 0 < M) (hM1 : M ≤ 500) (hd0 : 0 ≤ d) (hdR : d ≤ R)
    (hR : 0 < R) :
    (M * d * 1024 / R / 1024) * 1024 / M * R / 1024 ≤ d
    ∧ (d - (M * d * 1024 / R / 1024) * 1024 / M * R / 1024) * M < 2 * R + M := by
  have hx0 : 0 ≤ M * d * 1024 := by positivity
  have hq1a : M * d * 1024 / R * R ≤ M * d * 1024 := Int.ediv_mul_le _ (by omega)
  have hq1b : M * d * 1024 < (M * d * 1024 / R + 1) * R := Int.lt_ediv_add_one_mul_self _ hR
  have hq10 : 0 ≤ M * d * 1024 / R := Int.ediv_nonneg hx0 (by omega)
  generalize M * d * 1024 / R = q1 at hq1a hq1b hq10 ⊢
  have ha0 : 0 ≤ q1 / 1024 := by omega
  have haa : q1 / 1024 * 1024 ≤ q1 := by omega
  have hab : q1 < (q1 / 1024 + 1) * 1024 := by omega
  generalize q1 / 1024 = a at ha0 haa hab ⊢
  have hba : a * 1024 / M * M ≤ a * 1024 := Int.ediv_mul_le _ (by omega)
  have hbb : a * 1024 < (a * 1024 / M + 1) * M := Int.lt_ediv_add_one_mul_self _ hM0
  have hb0 : 0 ≤ a * 1024 / M := Int.ediv_nonneg (by omega) (by omega)
  generalize a * 1024 / M = b at hba hbb hb0 ⊢
  have hbR0 : 0 ≤ b * R := mul_nonneg hb0 (by omega)
  have hwa : b * R / 1024 * 1024 ≤ b * R := by omega
  have hwb : b * R < (b * R / 1024 + 1) * 1024 := by omega
  have hw0 : 0 ≤ b * R / 1024 := by omega
  generalize b * R / 1024 = w at hwa hwb hw0 ⊢
  constructor
  · -- w * 1024 * M ≤ b*R*M ≤ a*1024*R ≤ q1*R ≤ M*d*1024
    have h1 : w * 1024 * M ≤ b * R * M := mul_le_mul_of_nonneg_right hwa (by omega)
    have h2 : b * M * R ≤ a * 1024 * R := mul_le_mul_of_nonneg_right hba (by omega)
    have h3 : a * 1024 * R ≤ q1 * R := mul_le_mul_of_nonneg_right haa (by omega)
    have h4 : w * (1024 * M) ≤ d * (1024 * M) := by nlinarith
    have h5 : 0 < 1024 * M := by omega
    exact le_of_mul_le_mul_right h4 h5
  · have h1 : M * d * 1024 < (a + 1) * 1024 * R := by nlinarith
    have h2 : a * 1024 * R < (b + 1) * M * R := mul_lt_mul_of_pos_right hbb hR
    have h3 : b * R * M < (w + 1) * 1024 * M := mul_lt_mul_of_pos_right hwb hM0
    have h4 : M * R ≤ 500 * R := mul_le_mul_of_nonneg_right hM1 (by omega)
    nlinarith


/-- C22 as stated fails.  With the calibration 1000 / 1500 / 2000 and
`tailServoMaxAngle_DD = 400`: `getServoValueAtAngle` maps the angle `900 − 400`
to 1099, not to `servoConf.min = 1000`; and the servo value 1502 has the angle
901, which is converted back to 1500, two units away. -/
theorem C22_angle_servo_conversion_counterexample :
    calibrationTyped (triState 0) scenarioServoParam
    ∧ (triState 0).tailServoMaxAngle_DD = 400
    ∧ getServoValueAtAngle (triState 0) scenarioServoParam (900 - 400) = 1099
    ∧ getServoValueAtAngle (triState 0) scenarioServoParam (900 - 400) ≠ scenarioServoParam.min
    ∧ getServoAngleInDeciDegrees (triState 0) scenarioServoParam 1502 = 901
    ∧ servoRoundTrip (triState 0) scenarioServoParam 1502 = 1500
    ∧ ¬ ABS (servoRoundTrip (triState 0) scenarioServoParam 1502 - 1502) ≤ 1 := by
  refine ⟨by decide, by decide, by decide, by decide, by decide, by decide, by decide⟩

/-- C22, amended. For a servo calibration `0 ≤ min < middle < max` and `0 <
tailServoMaxAngle_DD ≤ 500` (values inside their C types): `getServoValueAtAngle`
maps the angle 900 to `middle` and `900 + tailServoMaxAngle_DD` to `max`;
`getServoAngleInDeciDegrees` maps `min`, `middle`, `max` to `900 −
tailServoMaxAngle_DD`, 900, `900 + tailServoMaxAngle_DD`; and on `[middle, max]`
the conversion back from the angle never exceeds the servo value and falls
short of it by less than `2·(max − middle)/tailServoMaxAngle_DD + 1`.  Angles
below 900 are not covered. -/
theorem C22_angle_servo_conversion (st : State) (c : servoParam_t) (ht : calibrationTyped st c) :
    getServoValueAtAngle st c 900 = c.middle
    ∧ getServoValueAtAngle st c (900 + st.tailServoMaxAngle_DD) = c.max
    ∧ getServoAngleInDeciDegrees st c c.min = 900 - st.tailServoMaxAngle_DD
    ∧ getServoAngleInDeciDegrees st c c.middle = 900
    ∧ getServoAngleInDeciDegrees st c c.max = 900 + st.tailServoMaxAngle_DD
    ∧ ∀ v, c.middle ≤ v → v ≤ c.max →
        servoRoundTrip st c v ≤ v
        ∧ (v - servoRoundTrip st c v) * st.tailServoMaxAngle_DD
            < 2 * (c.max - c.middle) + st.tailServoMaxAngle_DD := by
  have ht2 := ht
  obtain ⟨hmin, hlt1, hlt2, hmax, hM0, hM1, hprod⟩ := ht2
  unfold INT16_MAX at hmax
  unfold TRI_TAIL_SERVO_MAX_ANGLE_DD at hM1
  have hmid : toInt16 c.middle = c.middle :=
    toInt16_of_mem _ (by unfold INT16_MIN; omega) (by unfold INT16_MAX; omega)
  have h900 : getServoValueAtAngle st c 900 = c.middle := by
    unfold getServoValueAtAngle
    dsimp only
    have e0 : toUInt16 900 = 900 := by decide
    have e1 : ¬ (900 : Int) < TRI_TAIL_SERVO_ANGLE_MID_DD := by decide
    have e2 : ¬ (900 : Int) > TRI_TAIL_SERVO_ANGLE_MID_DD := by decide
    simp only [e0, e1, e2, if_false, hmid]
    exact toUInt16_of_mem _ (by omega) (by omega)
  refine ⟨h900, ?_, getServoAngle_min st c ht, ?_, ?_, ?_⟩
  · rw [(getServoValue_high st c _ ht hM0 (le_refl _)).1,
      mul_comm st.tailServoMaxAngle_DD 1024, Int.mul_ediv_cancel _ (by omega)]
    omega
  · rw [getServoAngle_high st c _ ht (le_refl _) (by omega)]
    simp
  · rw [getServoAngle_high st c _ ht (by omega) (le_refl _)]
    have e : st.tailServoMaxAngle_DD * (c.max - c.middle) * 1024
        = st.tailServoMaxAngle_DD * 1024 * (c.max - c.middle) := by ring
    rw [e, Int.mul_ediv_cancel _ (by omega), Int.mul_ediv_cancel _ (by omega)]
  · intro v hv1 hv2
    have hb := scale_bounds st.tailServoMaxAngle_DD (v - c.middle) (c.max - c.middle)
      (by omega) (by omega) (by omega) (by omega)
    have hr := roundTrip_arith st.tailServoMaxAngle_DD (v - c.middle) (c.max - c.middle)
      hM0 hM1 (by omega) (by omega) (by omega)
    have hw : servoRoundTrip st c v
        = c.middle + st.tailServoMaxAngle_DD * (v - c.middle) * 1024 / (c.max - c.middle) / 1024
            * 1024 / st.tailServoMaxAngle_DD * (c.max - c.middle) / 1024 := by
      unfold servoRoundTrip
      rw [getServoAngle_high st c v ht hv1 hv2]
      by_cases hq : st.tailServoMaxAngle_DD * (v - c.middle) * 1024 / (c.max - c.middle) / 1024 = 0
      · rw [hq, add_zero, h900]
        simp
      · exact (getServoValue_high st c _ ht (by omega) hb.2).1
    rw [hw]
    constructor
    · omega
    · have e : v - (c.middle + st.tailServoMaxAngle_DD * (v - c.middle) * 1024 / (c.max - c.middle)
          / 1024 * 1024 / st.tailServoMaxAngle_DD * (c.max - c.middle) / 1024)
          = (v - c.middle) - st.tailServoMaxAngle_DD * (v - c.middle) * 1024 / (c.max - c.middle)
          / 1024 * 1024 / st.tailServoMaxAngle_DD * (c.max - c.middle) / 1024 := by ring
      rw [e]
      exact hr.2

/-- C22 (amended) at a concrete input: calibration 1000 / 1500 / 2000,
`tailServoMaxAngle_DD = 400`.  The angle 1300 gives 2000, and the servo value
1502 comes back as a value at most 1502 and less than `2·500/400 + 1` below it. -/
theorem C22_angle_servo_conversion_witness :
    calibrationTyped (triState 0) scenarioServoParam
    ∧ getServoValueAtAngle (triState 0) scenarioServoParam (900 + (triState 0).tailServoMaxAngle_DD)
        = scenarioServoParam.max
    ∧ servoRoundTrip (triState 0) scenarioServoParam 1502 ≤ 1502
    ∧ (1502 - servoRoundTrip (triState 0) scenarioServoParam 1502) * (triState 0).tailServoMaxAngle_DD
        < 2 * (scenarioServoParam.max - scenarioServoParam.middle) + (triState 0).tailServoMaxAngle_DD :=
  ⟨by decide,
   (C22_angle_servo_conversion (triState 0) scenarioServoParam (by decide)).2.1,
   (C22_angle_servo_conversion (triState 0) scenarioServoParam (by decide)).2.2.2.2.2 1502
     (by decide) (by decide)⟩

/-! ## C23: the angle of the tricopter pre-hook -/

/-- Yaw jump prevention writes `axisPID` only. -/
theorem yawJumpPrevention_eq (env : Env) (st : State) :
    yawJumpPrevention env st = { st with axisPID := (yawJumpPrevention env st).axisPID } := by
  unfold yawJumpPrevention
  split_ifs <;> rfl

/-- The matrix `mixTable` leaves is the one its pre-hook leaves. -/
theorem mixTable_currentMixer (env : Env) (st : State) :
    (mixTable env st).currentMixer = (preMix env st).currentMixer := by
  have h : (mixTableMotors env st).currentMixer = (preMix env st).currentMixer := by
    unfold mixTableMotors disarmMotors mixTableAirmode mixTableClassic
    split_ifs <;> rfl
  unfold mixTable
  obtain ⟨servo, cur, ci, cnt, v, hf⟩ := mixTableServos_frame env (mixTableMotors env st)
  rw [hf]
  exact h

/-- The throttle coefficient of motor 0 the pre-hook stores for MIXER_TRI. -/
theorem preMix_throttle_tri (env : Env) (st : State) (hmode : st.currentMixerMode = MIXER_TRI) :
    ((preMix env st).currentMixer 0).throttle
      = getPitchCorrectionAtTailAngle env st (futureServoAngle env st) := by
  unfold preMix
  rw [yawJumpPrevention_eq]
  unfold triPreHook
  simp only [hmode, if_true]
  rfl

/-- The limited angle difference is at most 15 degrees in absolute value. -/
theorem angleDiff_D_le (env : Env) (st : State) :
    ABSf (angleDiff_D env st) ≤ TRI_TAIL_MOTOR_CURVE_MAX_PHASE_SHIFT_DEGREES := by
  unfold angleDiff_D TRI_TAIL_MOTOR_CURVE_MAX_PHASE_SHIFT_DEGREES
  dsimp only
  generalize (getServoAngleInDeciDegrees st (env.servoConf 0) (st.servo SERVO_RUDDER) : ℚ) / 10
    - getVirtualServoAngleInDegrees st = d
  by_cases h : ABSf d > 15
  · rw [if_pos h]
    unfold ABSf at h ⊢
    by_cases hd : d > 0
    · rw [if_pos hd] at h
      rw [if_pos hd]
      have e : 15 * d / d = 15 := by field_simp
      rw [e]
      norm_num
    · rw [if_neg hd] at h
      rw [if_neg hd]
      have hne : d ≠ 0 := by
        intro h0
        rw [h0] at h
        norm_num at h
      have e : 15 * d / -d = -15 := by field_simp
      rw [e]
      norm_num
  · rw [if_neg h]
    exact not_lt.1 h

/-- C23, what the code does. For MIXER_TRI `mixTable` sets
`currentMixer[0].throttle` to `getPitchCorrectionAtTailAngle(futureServoAngle)`,
where `futureServoAngle` is `virtual + d` clamped by `constrainf` to `[900 −
tailServoMaxAngle_DD, 900 + tailServoMaxAngle_DD]` and `d`, the difference of
set-point and virtual angle, is limited to 15 degrees in absolute value.  The
clamp bounds are decidegree numbers applied to an angle in degrees: whenever
`virtual + 15` is below `900 − tailServoMaxAngle_DD` the argument is `900 −
tailServoMaxAngle_DD`, whatever the servo position is. -/
theorem C23_tri_prehook_angle (env : Env) (st : State) (hmode : st.currentMixerMode = MIXER_TRI) :
    ((mixTable env st).currentMixer 0).throttle
        = getPitchCorrectionAtTailAngle env st (futureServoAngle env st)
    ∧ futureServoAngle env st
        = constrainf (st.virtualServoAngle_D + angleDiff_D env st)
            ((TRI_TAIL_SERVO_ANGLE_MID_DD - st.tailServoMaxAngle_DD : Int) : ℚ)
            ((TRI_TAIL_SERVO_ANGLE_MID_DD + st.tailServoMaxAngle_DD : Int) : ℚ)
    ∧ ABSf (angleDiff_D env st) ≤ 15
    ∧ (st.virtualServoAngle_D + 15
          < ((TRI_TAIL_SERVO_ANGLE_MID_DD - st.tailServoMaxAngle_DD : Int) : ℚ) →
        futureServoAngle env st
          = ((TRI_TAIL_SERVO_ANGLE_MID_DD - st.tailServoMaxAngle_DD : Int) : ℚ)) := by
  have hd := angleDiff_D_le env st
  unfold TRI_TAIL_MOTOR_CURVE_MAX_PHASE_SHIFT_DEGREES at hd
  refine ⟨?_, rfl, hd, ?_⟩
  · rw [mixTable_currentMixer, preMix_throttle_tri env st hmode]
  · intro hlow
    have hlt : st.virtualServoAngle_D + angleDiff_D env st
        < ((TRI_TAIL_SERVO_ANGLE_MID_DD - st.tailServoMaxAngle_DD : Int) : ℚ) := by
      have : angleDiff_D env st ≤ 15 := by
        unfold ABSf at hd
        split_ifs at hd <;> linarith
      linarith
    unfold futureServoAngle constrainf getVirtualServoAngleInDegrees
    rw [if_pos hlt]

/-- C23 at the steady state of scenario S7: tail servo at its middle, virtual
angle 90 degrees, `tailServoMaxAngle_DD = 400`.  The angle difference is 0,
and the argument of `getPitchCorrectionAtTailAngle` is 500, not 90. -/
theorem C23_tri_prehook_angle_witness :
    (triState 0).servo SERVO_RUDDER = scenarioServoParam.middle
    ∧ (triState 0).virtualServoAngle_D = 90
    ∧ angleDiff_D (scenarioEnv true false false false false 1500 1500) (triState 0) = 0
    ∧ futureServoAngle (scenarioEnv true false false false false 1500 1500) (triState 0) = 500
    ∧ ((mixTable (scenarioEnv true false false false false 1500 1500) (triState 0)).currentMixer 0).throttle
        = getPitchCorrectionAtTailAngle (scenarioEnv true false false false false 1500 1500)
            (triState 0)
            (futureServoAngle (scenarioEnv true false false false false 1500 1500) (triState 0)) :=
  ⟨by decide, by decide!, by decide!,
   ((C23_tri_prehook_angle (scenarioEnv true false false false false 1500 1500) (triState 0)
      (by decide)).2.2.2 (by decide!)).trans (by decide!),
   (C23_tri_prehook_angle (scenarioEnv true false false false false 1500 1500) (triState 0)
      (by decide)).1⟩

/-! ## C24: initialisation with an empty custom mixer -/

/-- The fields of the state `mixerInit` hands to `mixerUsePWMIOConfiguration`
that the motor part of the initialisation reads or keeps. -/
theorem mixerInit_frame (env : Env) (mode : mixerMode_e) (cm : Nat → motorMixer_t)
    (csm : Nat → servoMixer_t) (st : State) :
    (mixerInit env mode cm csm st).currentMixerMode = mode
    ∧ (mixerInit env mode cm csm st).customMixers = cm
    ∧ (mixerInit env mode cm csm st).currentMixer = st.currentMixer
    ∧ (mixerInit env mode cm csm st).motor = st.motor :=
  ⟨rfl, rfl, rfl, rfl⟩

/-- `mixerUsePWMIOConfiguration` keeps the airframe kind and the motor array and
ends with `mixerResetDisarmedMotors`. -/
theorem mixerUsePWMIOConfiguration_frame (env : Env) (n : Nat) (st : State) :
    (mixerUsePWMIOConfiguration env n st).currentMixerMode = st.currentMixerMode
    ∧ (mixerUsePWMIOConfiguration env n st).motor = st.motor
    ∧ (∀ i, i < MAX_SUPPORTED_MOTORS →
        (mixerUsePWMIOConfiguration env n st).motor_disarmed i
          = toInt16 (if env.feature3D then env.flight3DConfig.neutral3d
                     else env.escAndServoConfig.mincommand)) := by
  unfold mixerUsePWMIOConfiguration mixerResetDisarmedMotors loadCustomServoMixer
  dsimp only
  refine ⟨?_, ?_, ?_⟩
  · split_ifs <;> rfl
  · split_ifs <;> rfl
  · intro i hi
    simp only [hi, if_true]

/-- With no motor to mix (`motorCount = 0`) `mixTable` writes no motor. -/
theorem mixTable_motor_of_motorCount_zero (env : Env) (st : State) (h0 : st.motorCount = 0) :
    (mixTable env st).motor = st.motor := by
  funext i
  rw [mixTable_motor]
  have hc := preMix_motorCount env st
  have hm : (preMix env st).motor = st.motor := by
    unfold preMix
    rw [(triPreHook_frame env _).2.2.1, (yawJumpPrevention_frame env st).2.2.1]
  unfold mixTableMotors disarmMotors mixTableAirmode mixTableClassic
  split_ifs <;> simp [hc, h0, hm]

/-- C24 as stated fails: MIXER_CUSTOM with an all-zero custom motor mixer.
`mixerInit` followed by `mixerUsePWMIOConfiguration` returns a state with
`motorCount = 0`, the airframe kind set and the disarmed motor values reset:
the initialisation has run to its last statement. -/
theorem C24_init_rejects_counterexample :
    isCustomMixer MIXER_CUSTOM = true
    ∧ (motorMixerZero).throttle = 0
    ∧ (mixerUsePWMIOConfiguration (scenarioEnv false false false false false 1000 1000) 0
        (mixerInit (scenarioEnv false false false false false 1000 1000) MIXER_CUSTOM
          (fun _ => motorMixerZero) (fun _ => servoMixerZero) (quadXState 0 0 0))).motorCount = 0
    ∧ (mixerUsePWMIOConfiguration (scenarioEnv false false false false false 1000 1000) 0
        (mixerInit (scenarioEnv false false false false false 1000 1000) MIXER_CUSTOM
          (fun _ => motorMixerZero) (fun _ => servoMixerZero) (quadXState 0 0 0))).currentMixerMode
        = MIXER_CUSTOM
    ∧ (mixerUsePWMIOConfiguration (scenarioEnv false false false false false 1000 1000) 0
        (mixerInit (scenarioEnv false false false false false 1000 1000) MIXER_CUSTOM
          (fun _ => motorMixerZero) (fun _ => servoMixerZero) (quadXState 0 0 0))).motor_disarmed 0
        = 1000 := by
  refine ⟨by decide, by decide!, by decide!, by decide!, by decide!⟩

/-- C24, amended. When the airframe is a custom kind and
`customMixers[0].throttle == 0`, `mixerInit` followed by
`mixerUsePWMIOConfiguration` (both return `void`; the functions of the
embedding are total and have no error value) completes with `motorCount == 0`:
the airframe kind is set, `currentMixer` and `motor` are left as they were,
the disarmed motor values are reset, and a later `mixTable` writes no motor. -/
theorem C24_init_rejects (env : Env) (mode : mixerMode_e) (cm : Nat → motorMixer_t)
    (csm : Nat → servoMixer_t) (n : Nat) (st : State)
    (hcustom : isCustomMixer mode = true) (h0 : (cm 0).throttle = 0) :
    (mixerUsePWMIOConfiguration env n (mixerInit env mode cm csm st)).motorCount = 0
    ∧ (mixerUsePWMIOConfiguration env n (mixerInit env mode cm csm st)).currentMixerMode = mode
    ∧ (mixerUsePWMIOConfiguration env n (mixerInit env mode cm csm st)).currentMixer = st.currentMixer
    ∧ (mixerUsePWMIOConfiguration env n (mixerInit env mode cm csm st)).motor = st.motor
    ∧ (∀ i, i < MAX_SUPPORTED_MOTORS →
        (mixerUsePWMIOConfiguration env n (mixerInit env mode cm csm st)).motor_disarmed i
          = toInt16 (if env.feature3D then env.flight3DConfig.neutral3d
                     else env.escAndServoConfig.mincommand))
    ∧ (∀ env2 : Env,
        (mixTable env2 (mixerUsePWMIOConfiguration env n (mixerInit env mode cm csm st))).motor
          = st.motor) := by
  obtain ⟨hi1, hi2, hi3, hi4⟩ := mixerInit_frame env mode cm csm st
  obtain ⟨hcount, hrows⟩ := mixerUsePWMIOConfiguration_mixer env n (mixerInit env mode cm csm st)
  obtain ⟨hf1, hf2, hf3⟩ := mixerUsePWMIOConfiguration_frame env n (mixerInit env mode cm csm st)
  have hload : loadMotorMixer (mixerInit env mode cm csm st) = (st.currentMixer, 0) := by
    unfold loadMotorMixer
    rw [hi1, if_pos hcustom, hi2, hi3]
    have h8 : MAX_SUPPORTED_MOTORS = 7 + 1 := rfl
    rw [h8, loadCustomMixer, if_pos h0]
  have hc0 : (mixerUsePWMIOConfiguration env n (mixerInit env mode cm csm st)).motorCount = 0 := by
    rw [hcount, hload]
  refine ⟨hc0, by rw [hf1, hi1], ?_, by rw [hf2, hi4], hf3, ?_⟩
  · rw [hrows, hload]
    unfold halveGain3D
    split_ifs
    · omega
    · rfl
    · rfl
  · intro env2
    rw [mixTable_motor_of_motorCount_zero env2 _ hc0, hf2, hi4]

/-- C24 (amended) at a concrete input: MIXER_CUSTOM with an all-zero custom
motor mixer ends the initialisation with `motorCount = 0`. -/
theorem C24_init_rejects_witness :
    (mixerUsePWMIOConfiguration (scenarioEnv false false false false false 1000 1000) 0
        (mixerInit (scenarioEnv false false false false false 1000 1000) MIXER_CUSTOM
          (fun _ => motorMixerZero) (fun _ => servoMixerZero) (quadXState 0 0 0))).motorCount = 0 :=
  (C24_init_rejects (scenarioEnv false false false false false 1000 1000) MIXER_CUSTOM
    (fun _ => motorMixerZero) (fun _ => servoMixerZero) 0 (quadXState 0 0 0) (by decide) rfl).1

/-! ## C25: the motor configuration defaults -/

/-- C25. The reset template of `motorConfig` is `minthrottle = 1100`,
`maxthrottle = 2000`, `mincommand = 1000`, `motor_pwm_rate = 16000` when
BRUSHED_MOTORS is defined and 400 otherwise, both reserved fields 0; the
defaults satisfy `mincommand ≤ minthrottle ≤ maxthrottle`, and so does the
command range the mixer reads from them. -/
theorem C25_motor_config_defaults (brushedMotors : Bool) :
    (motorConfigResetTemplate brushedMotors).minthrottle = 1100
    ∧ (motorConfigResetTemplate brushedMotors).maxthrottle = 2000
    ∧ (motorConfigResetTemplate brushedMotors).mincommand = 1000
    ∧ (motorConfigResetTemplate brushedMotors).motor_pwm_rate
        = (if brushedMotors then 16000 else 400)
    ∧ (motorConfigResetTemplate brushedMotors).reserved1 = 0
    ∧ (motorConfigResetTemplate brushedMotors).reserved2 = 0
    ∧ (motorConfigResetTemplate brushedMotors).mincommand
        ≤ (motorConfigResetTemplate brushedMotors).minthrottle
    ∧ (motorConfigResetTemplate brushedMotors).minthrottle
        ≤ (motorConfigResetTemplate brushedMotors).maxthrottle
    ∧ (motorConfigResetTemplate brushedMotors).commandRange.mincommand
        ≤ (motorConfigResetTemplate brushedMotors).commandRange.minthrottle
    ∧ (motorConfigResetTemplate brushedMotors).commandRange.minthrottle
        ≤ (motorConfigResetTemplate brushedMotors).commandRange.maxthrottle
    ∧ (motorConfigResetTemplate brushedMotors).commandRange = defaultEscAndServoConfig := by
  cases brushedMotors
  · exact ⟨rfl, rfl, rfl, rfl, rfl, rfl, by decide, by decide, by decide, by decide, rfl⟩
  · exact ⟨rfl, rfl, rfl, rfl, rfl, rfl, by decide, by decide, by decide, by decide, rfl⟩

/-! ## C26: the contribution of a servo rule -/

/-- With the locals `servo_width`, `min` and `max` inside their types, the
amount a rule adds is the one the specification writes. -/
theorem servoRuleContribution_eq_spec (env : Env) (r : servoMixer_t) (out : Int)
    (ht : ruleBoundsTyped env r) :
    servoRuleContribution env r out = specRuleContribution env r out := by
  obtain ⟨h1, h2, h3, h4, h5, h6⟩ := ht
  unfold servoRuleContribution specRuleContribution
  dsimp only
  rw [toUInt16_of_mem _ h1 h2, toInt16_of_mem _ h3 h4, toInt16_of_mem _ h5 h6]

/-- What a flying-wing rule with rate `rate` adds for a slew memory `out`:
`out · rate / 100` clamped to `[−500, 500]` (servo width 1000, no reversal). -/
theorem wing_contribution (t s : Nat) (rate out : Int) :
    servoRuleContribution wingEnv
        { targetChannel := t, inputSource := s, rate := rate, speed := 0, min := 0, max := 100, box := 0 }
        out
      = constrain (Int.tdiv (out * rate) 100) (-500) 500 := by
  have hd : servoDirection wingEnv t s = 1 := by
    unfold servoDirection
    rw [if_neg]
    intro h
    exact h (by
      show 0 &&& (1 <<< s) = 0
      exact Nat.zero_and _)
  unfold servoRuleContribution
  dsimp only
  rw [hd, one_mul]
  rfl

/-- The fields of the flying-wing state the rule loop reads. -/
theorem wing_state (roll pitch : Int) :
    (flyingWingState roll pitch).currentServoMixer = ruleRow servoMixerFlyingWing
    ∧ (flyingWingState roll pitch).servoRuleCount = 5
    ∧ servoInput wingEnv (flyingWingState roll pitch) INPUT_STABILIZED_ROLL = toInt16 roll
    ∧ servoInput wingEnv (flyingWingState roll pitch) INPUT_STABILIZED_PITCH = toInt16 pitch
    ∧ (flyingWingState roll pitch).currentOutput = fun _ => 0 :=
  ⟨rfl, rfl, rfl, rfl, rfl⟩

/-- The accumulators of the two flapperons of a flying wing when nothing
clamps. -/
theorem wing_sums (roll pitch : Int) (hr1 : -500 ≤ roll) (hr2 : roll ≤ 500)
    (hp1 : -500 ≤ pitch) (hp2 : pitch ≤ 500) :
    servoRuleSum wingEnv (flyingWingState roll pitch) SERVO_FLAPPERON_1 = roll + pitch
    ∧ servoRuleSum wingEnv (flyingWingState roll pitch) SERVO_FLAPPERON_2 = -roll + pitch := by
  obtain ⟨hrules, hcount, hinr, hinp, hcur⟩ := wing_state roll pitch
  have hr : List.range 5 = [0, 1, 2, 3, 4] := by decide
  have hroll : toInt16 roll = roll :=
    toInt16_of_mem _ (by unfold INT16_MIN; omega) (by unfold INT16_MAX; omega)
  have hpitch : toInt16 pitch = pitch :=
    toInt16_of_mem _ (by unfold INT16_MIN; omega) (by unfold INT16_MAX; omega)
  have hrow0 : ruleRow servoMixerFlyingWing 0
      = { targetChannel := 3, inputSource := 0, rate := 100, speed := 0, min := 0, max := 100, box := 0 } := rfl
  have hrow1 : ruleRow servoMixerFlyingWing 1
      = { targetChannel := 3, inputSource := 1, rate := 100, speed := 0, min := 0, max := 100, box := 0 } := rfl
  have hrow2 : ruleRow servoMixerFlyingWing 2
      = { targetChannel := 4, inputSource := 0, rate := -100, speed := 0, min := 0, max := 100, box := 0 } := rfl
  have hrow3 : ruleRow servoMixerFlyingWing 3
      = { targetChannel := 4, inputSource := 1, rate := 100, speed := 0, min := 0, max := 100, box := 0 } := rfl
  have hrow4 : ruleRow servoMixerFlyingWing 4
      = { targetChannel := 7, inputSource := 3, rate := 100, speed := 0, min := 0, max := 100, box := 0 } := rfl
  have hslew : ∀ x : Int, slewStep 0 0 x = x := by
    intro x
    unfold slewStep
    rw [if_pos rfl]
  have hin0 : servoInput wingEnv (flyingWingState roll pitch) 0 = roll := hinr.trans hroll
  have hin1 : servoInput wingEnv (flyingWingState roll pitch) 1 = pitch := hinp.trans hpitch
  have c1 : constrain (Int.tdiv (roll * 100) 100) (-500) 500 = roll := by
    rw [Int.mul_tdiv_cancel _ (by decide)]
    exact constrain_of_mem _ _ _ hr1 hr2
  have c2 : constrain (Int.tdiv (pitch * 100) 100) (-500) 500 = pitch := by
    rw [Int.mul_tdiv_cancel _ (by decide)]
    exact constrain_of_mem _ _ _ hp1 hp2
  have c3 : constrain (Int.tdiv (roll * -100) 100) (-500) 500 = -roll := by
    have e : roll * -100 = (-roll) * 100 := by ring
    rw [e, Int.mul_tdiv_cancel _ (by decide)]
    exact constrain_of_mem _ _ _ (by omega) (by omega)
  unfold servoRuleSum
  rw [hcount, hr]
  simp only [List.map_cons, List.map_nil, List.sum_cons, List.sum_nil]
  unfold ruleAmount ruleActive ruleOut SERVO_FLAPPERON_1 SERVO_FLAPPERON_2
  rw [hrules, hcur]
  simp only [hrow0, hrow1, hrow2, hrow3, hrow4]
  simp only [hslew, hin0, hin1, wing_contribution, c1, c2, c3]
  constructor
  · simp
  · simp


/-- C26. One iteration of the rule loop of `servoMixer`, for a rule `i` with
target `t` and source `s`.  Active rule with `speed == 0` (locals `servo_width`,
`min`, `max` inside their types): `servo[t]` becomes `servo[t] + direction ·
clamp((input[s] · rate) / 100, lo, hi)` as the specification writes it, in
`int16_t` arithmetic, no other servo changes and the slew memory holds
`input[s]`.  Inactive rule: no servo changes and the slew memory is reset to 0.
Over the whole loop the accumulator of servo `j` is the `int16_t` sum of the
contributions of the active rules targeting `j`.  On the flying wing, with
roll and pitch demands in `[−500, 500]` (nothing clamps), FLAPPERON_1
accumulates `roll + pitch` and FLAPPERON_2 `−roll + pitch`. -/
theorem C26_servo_rule_contribution (env : Env) (st : State) :
    (∀ (acc : servoAcc) (i : Nat), ruleActive env st.currentServoMixer i →
        (st.currentServoMixer i).speed = 0 → ruleBoundsTyped env (st.currentServoMixer i) →
        (servoMixerRule env st.currentServoMixer (servoInput env st) acc i).servo
            (st.currentServoMixer i).targetChannel
          = toInt16 (acc.servo (st.currentServoMixer i).targetChannel
              + specRuleContribution env (st.currentServoMixer i)
                  (servoInput env st (st.currentServoMixer i).inputSource))
        ∧ (∀ j, j ≠ (st.currentServoMixer i).targetChannel →
            (servoMixerRule env st.currentServoMixer (servoInput env st) acc i).servo j = acc.servo j)
        ∧ (servoMixerRule env st.currentServoMixer (servoInput env st) acc i).currentOutput i
            = servoInput env st (st.currentServoMixer i).inputSource)
    ∧ (∀ (acc : servoAcc) (i : Nat), ¬ ruleActive env st.currentServoMixer i →
        (servoMixerRule env st.currentServoMixer (servoInput env st) acc i).servo = acc.servo
        ∧ (servoMixerRule env st.currentServoMixer (servoInput env st) acc i).currentOutput i = 0)
    ∧ (∀ j, j < MAX_SUPPORTED_SERVOS →
        (servoMixerRules env st).servo j = toInt16 (servoRuleSum env st j))
    ∧ (∀ roll pitch : Int, -500 ≤ roll → roll ≤ 500 → -500 ≤ pitch → pitch ≤ 500 →
        (servoMixerRules wingEnv (flyingWingState roll pitch)).servo SERVO_FLAPPERON_1 = roll + pitch
        ∧ (servoMixerRules wingEnv (flyingWingState roll pitch)).servo SERVO_FLAPPERON_2
            = -roll + pitch) := by
  have hsum : ∀ (e : Env) (s : State) (j : Nat), j < MAX_SUPPORTED_SERVOS →
      (servoMixerRules e s).servo j = toInt16 (servoRuleSum e s j) := by
    intro e s j hj
    rw [servoMixerRules_eq_upTo, servoMixerRulesUpTo_servo e s _ j hj]
    rfl
  refine ⟨?_, ?_, hsum env st, ?_⟩
  · intro acc i hact hspeed hty
    rw [servoMixerRule_eq, if_pos hact]
    have hslew : slewStep (st.currentServoMixer i).speed (acc.currentOutput i)
        (servoInput env st (st.currentServoMixer i).inputSource)
        = servoInput env st (st.currentServoMixer i).inputSource := by
      unfold slewStep
      rw [if_pos hspeed]
    refine ⟨?_, ?_, ?_⟩
    · simp only [if_true]
      rw [hslew, servoRuleContribution_eq_spec env _ _ hty]
    · intro j hj
      simp only [hj, if_false]
    · simp only [if_true]
      exact hslew
  · intro acc i hact
    rw [servoMixerRule_eq, if_neg hact]
    exact ⟨rfl, by simp only [if_true]⟩
  · intro roll pitch hr1 hr2 hp1 hp2
    obtain ⟨h1, h2⟩ := wing_sums roll pitch hr1 hr2 hp1 hp2
    rw [hsum _ _ _ (by decide), hsum _ _ _ (by decide), h1, h2]
    exact ⟨toInt16_of_mem _ (by unfold INT16_MIN; omega) (by unfold INT16_MAX; omega),
      toInt16_of_mem _ (by unfold INT16_MIN; omega) (by unfold INT16_MAX; omega)⟩

/-- C26 at concrete inputs: a flying wing with roll demand 100 and pitch
demand 50 accumulates 150 on FLAPPERON_1 and −50 on FLAPPERON_2; a rule on
servo box 1 with the box off leaves `servo[0]` alone and resets its slew
memory. -/
theorem C26_servo_rule_contribution_witness :
    (servoMixerRules wingEnv (flyingWingState 100 50)).servo SERVO_FLAPPERON_1 = 150
    ∧ (servoMixerRules wingEnv (flyingWingState 100 50)).servo SERVO_FLAPPERON_2 = -50
    ∧ (servoMixerRule (slewEnv false 1700) (slewState 1).currentServoMixer
          (servoInput (slewEnv false 1700) (slewState 1))
          { servo := fun _ => 7, currentOutput := fun _ => 9 } 0).currentOutput 0 = 0 :=
  ⟨((C26_servo_rule_contribution wingEnv (flyingWingState 100 50)).2.2.2 100 50
      (by decide) (by decide) (by decide) (by decide)).1,
   ((C26_servo_rule_contribution wingEnv (flyingWingState 100 50)).2.2.2 100 50
      (by decide) (by decide) (by decide) (by decide)).2,
   ((C26_servo_rule_contribution (slewEnv false 1700) (slewState 1)).2.1
      { servo := fun _ => 7, currentOutput := fun _ => 9 } 0 (by decide)).2⟩

/-! ## C27: direction hysteresis of the 3D airmode -/

theorem preMix_throttlePrevious (env : Env) (st : State) :
    (preMix env st).throttlePrevious = st.throttlePrevious := by
  unfold preMix triPreHook
  rw [yawJumpPrevention_eq]
  split_ifs <;> rfl

/-- The throttle band only depends on the state through `throttlePrevious`. -/
theorem airmodeBand_preMix (env : Env) (st : State) :
    airmodeBand env (preMix env st) = airmodeBand env st := by
  unfold airmodeBand
  rw [preMix_throttlePrevious]

theorem mixTable_motorCount (env : Env) (st : State) :
    (mixTable env st).motorCount = st.motorCount := by
  have h : (mixTableMotors env st).motorCount = (preMix env st).motorCount := by
    unfold mixTableMotors disarmMotors mixTableAirmode mixTableClassic
    split_ifs <;> rfl
  unfold mixTable
  rw [(mixTableServos_motor env _).2.1, h, preMix_motorCount]

/-- The static `throttlePrevious` is written by the airmode branch only. -/
theorem mixTable_throttlePrevious (env : Env) (st : State) :
    (mixTable env st).throttlePrevious
      = if env.airmode then (airmodeBand env st).throttlePrevious else st.throttlePrevious := by
  have h : (mixTableMotors env st).throttlePrevious
      = if env.airmode then (airmodeBand env (preMix env st)).throttlePrevious
        else (preMix env st).throttlePrevious := by
    unfold mixTableMotors disarmMotors mixTableAirmode mixTableClassic
    split_ifs <;> rfl
  unfold mixTable
  obtain ⟨servo, cur, ci, cnt, v, hf⟩ := mixTableServos_frame env (mixTableMotors env st)
  rw [hf]
  show (mixTableMotors env st).throttlePrevious = _
  rw [h, airmodeBand_preMix, preMix_throttlePrevious]

/-- Motor `i` after an armed 3D airmode cycle without failsafe: the mix clamped
to the band `throttlePrevious` selects. -/
theorem mixTable_motor_3D (env : Env) (st : State) (i : Nat) (hi : i < st.motorCount)
    (h3d : airmode3DArmed env) :
    (mixTable env st).motor i
      = if (airmodeBand env st).throttlePrevious
            ≤ env.rxConfig.midrc - env.flight3DConfig.deadband3d_throttle then
          toInt16 (constrain (airmodeMix env (preMix env st) i)
            env.escAndServoConfig.minthrottle env.flight3DConfig.deadband3d_low)
        else
          toInt16 (constrain (airmodeMix env (preMix env st) i)
            env.flight3DConfig.deadband3d_high env.escAndServoConfig.maxthrottle) := by
  obtain ⟨hair, hf3d, harm, hfs, _⟩ := h3d
  rw [mixTable_motor, mixTableMotors_motor env st i hi]
  simp only [harm, hair, if_true]
  unfold airmodeMotor
  simp only [hfs, hf3d, if_true, airmodeBand_preMix]
  rfl

/-- The band an armed 3D cycle resolves, case by case. -/
theorem airmodeBand_3D (env : Env) (st : State) (hf3d : env.feature3D = true)
    (hdb : 0 < env.flight3DConfig.deadband3d_throttle) :
    (stickLow env →
        (airmodeBand env st).throttleMin = toInt16 env.escAndServoConfig.minthrottle
        ∧ (airmodeBand env st).throttleMax = toInt16 env.flight3DConfig.deadband3d_low
        ∧ (airmodeBand env st).throttle = toInt16 (env.rcData THROTTLE)
        ∧ (airmodeBand env st).throttlePrevious = toInt16 (env.rcData THROTTLE))
    ∧ (stickHigh env →
        (airmodeBand env st).throttleMin = toInt16 env.flight3DConfig.deadband3d_high
        ∧ (airmodeBand env st).throttleMax = toInt16 env.escAndServoConfig.maxthrottle
        ∧ (airmodeBand env st).throttle = toInt16 (env.rcData THROTTLE)
        ∧ (airmodeBand env st).throttlePrevious = toInt16 (env.rcData THROTTLE))
    ∧ (inDeadband env → env.armed = true →
        (airmodeBand env st).throttlePrevious = st.throttlePrevious
        ∧ (st.throttlePrevious ≤ env.rxConfig.midrc - env.flight3DConfig.deadband3d_throttle →
            (airmodeBand env st).throttleMin = toInt16 env.escAndServoConfig.minthrottle
            ∧ (airmodeBand env st).throttleMax = toInt16 env.flight3DConfig.deadband3d_low
            ∧ (airmodeBand env st).throttle = toInt16 env.flight3DConfig.deadband3d_low)
        ∧ (¬ st.throttlePrevious ≤ env.rxConfig.midrc - env.flight3DConfig.deadband3d_throttle →
            (airmodeBand env st).throttleMin = toInt16 env.flight3DConfig.deadband3d_high
            ∧ (airmodeBand env st).throttleMax = toInt16 env.escAndServoConfig.maxthrottle
            ∧ (airmodeBand env st).throttle = toInt16 env.flight3DConfig.deadband3d_high)) := by
  unfold stickLow stickHigh inDeadband airmodeBand
  simp only [hf3d, if_true]
  refine ⟨?_, ?_, ?_⟩
  · intro h
    rw [if_pos h]
    exact ⟨rfl, rfl, rfl, rfl⟩
  · intro h
    rw [if_neg (by omega), if_pos h]
    exact ⟨rfl, rfl, rfl, rfl⟩
  · intro h harm
    rw [if_neg (by omega), if_neg (by omega)]
    simp only [harm, Bool.not_true, Bool.false_eq_true, if_false]
    refine ⟨?_, ?_, ?_⟩
    · split_ifs <;> rfl
    · intro hp
      rw [if_pos hp]
      exact ⟨rfl, rfl, rfl⟩
    · intro hp
      rw [if_neg hp]
      exact ⟨rfl, rfl, rfl⟩


/-- Cycles in the armed 3D airmode with the stick inside the deadband leave
`throttlePrevious` as it is. -/
theorem mixTableCycles_throttlePrevious (envs : List Env) :
    ∀ s : State, (∀ e ∈ envs, airmode3DArmed e ∧ inDeadband e) →
      (mixTableCycles envs s).throttlePrevious = s.throttlePrevious := by
  induction envs with
  | nil =>
    intro s _
    rfl
  | cons e es ih =>
    intro s h
    have he := h e (List.mem_cons_self _ _)
    have hes : ∀ x ∈ es, airmode3DArmed x ∧ inDeadband x :=
      fun x hx => h x (List.mem_cons_of_mem _ hx)
    show (mixTableCycles es (mixTable e s)).throttlePrevious = s.throttlePrevious
    rw [ih (mixTable e s) hes, mixTable_throttlePrevious]
    obtain ⟨⟨hair, hf3d, harm, _, hdb⟩, hin⟩ := he
    simp only [hair, if_true]
    exact ((airmodeBand_3D e s hf3d hdb).2.2 hin harm).1

/-- C27. In the airmode branch with FEATURE_3D on, armed, no failsafe and
`deadband3d_throttle > 0` (`minthrottle ≤ deadband3d_low` and `deadband3d_high ≤
maxthrottle`, all four and the raw throttle `int16_t` values): with the stick at
or below `midrc − deadband` the band is `[minthrottle, deadband3d_low]` and
every motor ends in it; with the stick at or above `midrc + deadband` the band
is `[deadband3d_high, maxthrottle]` and every motor ends in it; in both cases
`throttlePrevious` takes the stick value.  With the stick strictly inside the deadband `throttlePrevious` is not
modified and selects the band, with the throttle pinned to `deadband3d_low`
resp. `deadband3d_high`; so after a cycle with the stick out of the deadband,
followed by any number of cycles inside it, the band is still the one of
that cycle.  If `deadband3d_low < deadband3d_high` no motor command lies
strictly between the two. -/
theorem C27_direction_hysteresis (env : Env) (st : State)
    (h3d : airmode3DArmed env) (hcfg : bands3DTyped env) (hrc : throttleChannelTyped env) :
    (stickLow env →
        (airmodeBand env st).throttleMin = env.escAndServoConfig.minthrottle
        ∧ (airmodeBand env st).throttleMax = env.flight3DConfig.deadband3d_low
        ∧ (mixTable env st).throttlePrevious = env.rcData THROTTLE
        ∧ motorsWithin (mixTable env st)
            env.escAndServoConfig.minthrottle env.flight3DConfig.deadband3d_low)
    ∧ (stickHigh env →
        (airmodeBand env st).throttleMin = env.flight3DConfig.deadband3d_high
        ∧ (airmodeBand env st).throttleMax = env.escAndServoConfig.maxthrottle
        ∧ (mixTable env st).throttlePrevious = env.rcData THROTTLE
        ∧ motorsWithin (mixTable env st)
            env.flight3DConfig.deadband3d_high env.escAndServoConfig.maxthrottle)
    ∧ (inDeadband env →
        (mixTable env st).throttlePrevious = st.throttlePrevious
        ∧ (st.throttlePrevious ≤ env.rxConfig.midrc - env.flight3DConfig.deadband3d_throttle →
            (airmodeBand env st).throttle = env.flight3DConfig.deadband3d_low
            ∧ (airmodeBand env st).throttleMin = env.escAndServoConfig.minthrottle
            ∧ (airmodeBand env st).throttleMax = env.flight3DConfig.deadband3d_low
            ∧ motorsWithin (mixTable env st)
                env.escAndServoConfig.minthrottle env.flight3DConfig.deadband3d_low)
        ∧ (¬ st.throttlePrevious ≤ env.rxConfig.midrc - env.flight3DConfig.deadband3d_throttle →
            (airmodeBand env st).throttle = env.flight3DConfig.deadband3d_high
            ∧ (airmodeBand env st).throttleMin = env.flight3DConfig.deadband3d_high
            ∧ (airmodeBand env st).throttleMax = env.escAndServoConfig.maxthrottle
            ∧ motorsWithin (mixTable env st)
                env.flight3DConfig.deadband3d_high env.escAndServoConfig.maxthrottle))
    ∧ (∀ (env0 : Env) (envs : List Env) (s0 : State),
        env0.airmode = true → env0.feature3D = true → throttleChannelTyped env0 →
        env0.rxConfig.midrc = env.rxConfig.midrc →
        env0.flight3DConfig.deadband3d_throttle = env.flight3DConfig.deadband3d_throttle →
        (∀ e ∈ envs, airmode3DArmed e ∧ inDeadband e) → inDeadband env →
        (stickLow env0 →
            (airmodeBand env (mixTableCycles (env0 :: envs) s0)).throttle
              = env.flight3DConfig.deadband3d_low
            ∧ motorsWithin (mixTable env (mixTableCycles (env0 :: envs) s0))
                env.escAndServoConfig.minthrottle env.flight3DConfig.deadband3d_low)
        ∧ (stickHigh env0 →
            (airmodeBand env (mixTableCycles (env0 :: envs) s0)).throttle
              = env.flight3DConfig.deadband3d_high
            ∧ motorsWithin (mixTable env (mixTableCycles (env0 :: envs) s0))
                env.flight3DConfig.deadband3d_high env.escAndServoConfig.maxthrottle))
    ∧ (env.flight3DConfig.deadband3d_low < env.flight3DConfig.deadband3d_high →
        ∀ i, i < st.motorCount →
          ¬ (env.flight3DConfig.deadband3d_low < (mixTable env st).motor i
              ∧ (mixTable env st).motor i < env.flight3DConfig.deadband3d_high)) := by
  have h3d2 := h3d
  obtain ⟨hair, hf3d, harm, hfs, hdb⟩ := h3d2
  obtain ⟨o1, o2, o3, o4, o5, o6⟩ := hcfg
  obtain ⟨r1, r2⟩ := hrc
  have tmin : toInt16 env.escAndServoConfig.minthrottle = env.escAndServoConfig.minthrottle :=
    toInt16_of_mem _ (by omega) (by omega)
  have tmax : toInt16 env.escAndServoConfig.maxthrottle = env.escAndServoConfig.maxthrottle :=
    toInt16_of_mem _ (by omega) (by omega)
  have tlow : toInt16 env.flight3DConfig.deadband3d_low = env.flight3DConfig.deadband3d_low :=
    toInt16_of_mem _ (by omega) (by omega)
  have thigh : toInt16 env.flight3DConfig.deadband3d_high = env.flight3DConfig.deadband3d_high :=
    toInt16_of_mem _ (by omega) (by omega)
  have trc : toInt16 (env.rcData THROTTLE) = env.rcData THROTTLE := toInt16_of_mem _ r1 r2
  have motors : ∀ S : State,
      ((airmodeBand env S).throttlePrevious
            ≤ env.rxConfig.midrc - env.flight3DConfig.deadband3d_throttle →
          motorsWithin (mixTable env S)
            env.escAndServoConfig.minthrottle env.flight3DConfig.deadband3d_low)
      ∧ (¬ (airmodeBand env S).throttlePrevious
            ≤ env.rxConfig.midrc - env.flight3DConfig.deadband3d_throttle →
          motorsWithin (mixTable env S)
            env.flight3DConfig.deadband3d_high env.escAndServoConfig.maxthrottle) := by
    intro S
    unfold motorsWithin
    rw [mixTable_motorCount]
    constructor
    · intro hp i hi
      rw [mixTable_motor_3D env S i hi h3d, if_pos hp]
      exact toInt16_constrain_mem _ _ _ _ _ (by omega) (le_refl _) (le_refl _) (by omega) (by omega)
    · intro hp i hi
      rw [mixTable_motor_3D env S i hi h3d, if_neg hp]
      exact toInt16_constrain_mem _ _ _ _ _ (by omega) (le_refl _) (le_refl _) (by omega) (by omega)
  have prev : ∀ S : State, (mixTable env S).throttlePrevious = (airmodeBand env S).throttlePrevious := by
    intro S
    rw [mixTable_throttlePrevious]
    simp only [hair, if_true]
  have single : ∀ S : State,
      (stickLow env →
          (airmodeBand env S).throttleMin = env.escAndServoConfig.minthrottle
          ∧ (airmodeBand env S).throttleMax = env.flight3DConfig.deadband3d_low
          ∧ (mixTable env S).throttlePrevious = env.rcData THROTTLE
          ∧ motorsWithin (mixTable env S)
              env.escAndServoConfig.minthrottle env.flight3DConfig.deadband3d_low)
      ∧ (stickHigh env →
          (airmodeBand env S).throttleMin = env.flight3DConfig.deadband3d_high
          ∧ (airmodeBand env S).throttleMax = env.escAndServoConfig.maxthrottle
          ∧ (mixTable env S).throttlePrevious = env.rcData THROTTLE
          ∧ motorsWithin (mixTable env S)
              env.flight3DConfig.deadband3d_high env.escAndServoConfig.maxthrottle)
      ∧ (inDeadband env →
          (mixTable env S).throttlePrevious = S.throttlePrevious
          ∧ (S.throttlePrevious ≤ env.rxConfig.midrc - env.flight3DConfig.deadband3d_throttle →
              (airmodeBand env S).throttle = env.flight3DConfig.deadband3d_low
              ∧ (airmodeBand env S).throttleMin = env.escAndServoConfig.minthrottle
              ∧ (airmodeBand env S).throttleMax = env.flight3DConfig.deadband3d_low
              ∧ motorsWithin (mixTable env S)
                  env.escAndServoConfig.minthrottle env.flight3DConfig.deadband3d_low)
          ∧ (¬ S.throttlePrevious ≤ env.rxConfig.midrc - env.flight3DConfig.deadband3d_throttle →
              (airmodeBand env S).throttle = env.flight3DConfig.deadband3d_high
              ∧ (airmodeBand env S).throttleMin = env.flight3DConfig.deadband3d_high
              ∧ (airmodeBand env S).throttleMax = env.escAndServoConfig.maxthrottle
              ∧ motorsWithin (mixTable env S)
                  env.flight3DConfig.deadband3d_high env.escAndServoConfig.maxthrottle)) := by
    intro S
    obtain ⟨bl, bh, bd⟩ := airmodeBand_3D env S hf3d hdb
    refine ⟨?_, ?_, ?_⟩
    · intro h
      obtain ⟨b1, b2, _, b4⟩ := bl h
      have hl : env.rcData THROTTLE ≤ env.rxConfig.midrc - env.flight3DConfig.deadband3d_throttle := h
      refine ⟨b1.trans tmin, b2.trans tlow, by rw [prev, b4, trc], ?_⟩
      exact (motors S).1 (by rw [b4, trc]; exact hl)
    · intro h
      obtain ⟨b1, b2, _, b4⟩ := bh h
      have hh : env.rcData THROTTLE ≥ env.rxConfig.midrc + env.flight3DConfig.deadband3d_throttle := h
      refine ⟨b1.trans thigh, b2.trans tmax, by rw [prev, b4, trc], ?_⟩
      exact (motors S).2 (by rw [b4, trc]; omega)
    · intro h
      obtain ⟨b0, bn, bp⟩ := bd h harm
      refine ⟨by rw [prev, b0], ?_, ?_⟩
      · intro hp
        obtain ⟨b1, b2, b3⟩ := bn hp
        exact ⟨b3.trans tlow, b1.trans tmin, b2.trans tlow, (motors S).1 (by rw [b0]; exact hp)⟩
      · intro hp
        obtain ⟨b1, b2, b3⟩ := bp hp
        exact ⟨b3.trans thigh, b1.trans thigh, b2.trans tmax, (motors S).2 (by rw [b0]; exact hp)⟩
  refine ⟨(single st).1, (single st).2.1, (single st).2.2, ?_, ?_⟩
  · intro env0 envs s0 hair0 hf0 hrc0 hmid hdb0 hes hin
    have hS : (mixTableCycles (env0 :: envs) s0).throttlePrevious
        = (airmodeBand env0 s0).throttlePrevious := by
      show (mixTableCycles envs (mixTable env0 s0)).throttlePrevious = _
      rw [mixTableCycles_throttlePrevious envs _ hes, mixTable_throttlePrevious]
      simp only [hair0, if_true]
    obtain ⟨bl0, bh0, _⟩ := airmodeBand_3D env0 s0 hf0 (by rw [hdb0]; exact hdb)
    have trc0 : toInt16 (env0.rcData THROTTLE) = env0.rcData THROTTLE :=
      toInt16_of_mem _ hrc0.1 hrc0.2
    obtain ⟨_, sn, sp⟩ := (single (mixTableCycles (env0 :: envs) s0)).2.2 hin
    constructor
    · intro h
      have hl : env0.rcData THROTTLE
          ≤ env0.rxConfig.midrc - env0.flight3DConfig.deadband3d_throttle := h
      obtain ⟨q1, _, _, q4⟩ := sn (by rw [hS, (bl0 h).2.2.2, trc0]; omega)
      exact ⟨q1, q4⟩
    · intro h
      have hh : env0.rcData THROTTLE
          ≥ env0.rxConfig.midrc + env0.flight3DConfig.deadband3d_throttle := h
      obtain ⟨q1, _, _, q4⟩ := sp (by rw [hS, (bh0 h).2.2.2, trc0]; omega)
      exact ⟨q1, q4⟩
  · intro hlt i hi
    have hm := motors st
    unfold motorsWithin at hm
    rw [mixTable_motorCount] at hm
    by_cases hp : (airmodeBand env st).throttlePrevious
        ≤ env.rxConfig.midrc - env.flight3DConfig.deadband3d_throttle
    · have := hm.1 hp i hi
      omega
    · have := hm.2 hp i hi
      omega


/-- C27 at a concrete input: QuadX, deadband 1450 .. 1550.  A cycle with the
stick at 1700, then one at 1520 and one at 1490 inside the deadband: the last
cycle still uses the positive band, the throttle is pinned to `deadband3d_high
= 1514` and every motor ends in `[1514, 2000]`. -/
theorem C27_direction_hysteresis_witness :
    (airmodeBand (airmode3DEnv true 1490)
        (mixTableCycles [airmode3DEnv true 1700, airmode3DEnv true 1520] (quadXState 0 0 0))).throttle
      = 1514
    ∧ motorsWithin
        (mixTable (airmode3DEnv true 1490)
          (mixTableCycles [airmode3DEnv true 1700, airmode3DEnv true 1520] (quadXState 0 0 0)))
        1514 2000 :=
  ((C27_direction_hysteresis (airmode3DEnv true 1490) (quadXState 0 0 0)
      (by decide) (by decide) (by decide)).2.2.2.1
    (airmode3DEnv true 1700) [airmode3DEnv true 1520] (quadXState 0 0 0)
    rfl rfl (by decide) rfl rfl
    (fun e he => by
      rw [List.mem_singleton] at he
      subst he
      exact ⟨by decide, by decide⟩)
    (by decide)).2 (by decide)

/-! ## C28: the roll/pitch/yaw range of the airmode branch -/

/-- C28 as stated fails: a custom single-motor matrix with roll coefficient 1
and a roll demand of 100.  The only value is `rollPitchYawMix[0] = 100`, so
minimum and maximum are 100 and their difference is 0, but the code computes
`rollPitchYawMixMin = 0` and `rollPitchYawMixRange = 100`. -/
theorem C28_airmode_rpy_range_counterexample :
    rollPitchYawMix (scenarioEnv true false true false false 1500 1500)
        (preMix (scenarioEnv true false true false false 1500 1500)
          (scenarioState MIXER_CUSTOM 1 customSingleRoll 100 0 0 1000)) 0 = 100
    ∧ isMinOver
        (rollPitchYawMix (scenarioEnv true false true false false 1500 1500)
          (preMix (scenarioEnv true false true false false 1500 1500)
            (scenarioState MIXER_CUSTOM 1 customSingleRoll 100 0 0 1000))) 1 100
    ∧ isMaxOver
        (rollPitchYawMix (scenarioEnv true false true false false 1500 1500)
          (preMix (scenarioEnv true false true false false 1500 1500)
            (scenarioState MIXER_CUSTOM 1 customSingleRoll 100 0 0 1000))) 1 100
    ∧ rollPitchYawMixMin (scenarioEnv true false true false false 1500 1500)
        (preMix (scenarioEnv true false true false false 1500 1500)
          (scenarioState MIXER_CUSTOM 1 customSingleRoll 100 0 0 1000)) = 0
    ∧ ¬ isMinOver
        (rollPitchYawMix (scenarioEnv true false true false false 1500 1500)
          (preMix (scenarioEnv true false true false false 1500 1500)
            (scenarioState MIXER_CUSTOM 1 customSingleRoll 100 0 0 1000)))
        (preMix (scenarioEnv true false true false false 1500 1500)
          (scenarioState MIXER_CUSTOM 1 customSingleRoll 100 0 0 1000)).motorCount
        (rollPitchYawMixMin (scenarioEnv true false true false false 1500 1500)
          (preMix (scenarioEnv true false true false false 1500 1500)
            (scenarioState MIXER_CUSTOM 1 customSingleRoll 100 0 0 1000)))
    ∧ rollPitchYawMixRange (scenarioEnv true false true false false 1500 1500)
        (preMix (scenarioEnv true false true false false 1500 1500)
          (scenarioState MIXER_CUSTOM 1 customSingleRoll 100 0 0 1000)) = 100
    ∧ rollPitchYawMixRange (scenarioEnv true false true false false 1500 1500)
        (preMix (scenarioEnv true false true false false 1500 1500)
          (scenarioState MIXER_CUSTOM 1 customSingleRoll 100 0 0 1000)) ≠ 100 - 100 := by
  refine ⟨by decide!, by decide!, by decide!, by decide!, by decide!, by decide!, by decide!⟩

/-- C28, amended. In the airmode branch, for every motor matrix and every
`axisPID`: `rollPitchYawMixMax` is the maximum of the values
`rollPitchYawMix[i]`, `i < motorCount`, taken together with 0, and
`rollPitchYawMixMin` the minimum taken together with 0 (both running values
start at 0); `rollPitchYawMixRange` is their difference stored in `int16_t`,
the exact difference when it is at most 32767.  When some value is `≥ 0` the
maximum is the maximum of the values themselves, and when some value is `≤ 0`
the minimum is their minimum. -/
theorem C28_airmode_rpy_range (env : Env) (st : State) :
    (0 ≤ rollPitchYawMixMax env (preMix env st)
      ∧ (∀ i, i < (preMix env st).motorCount →
          rollPitchYawMix env (preMix env st) i ≤ rollPitchYawMixMax env (preMix env st))
      ∧ (rollPitchYawMixMax env (preMix env st) = 0
          ∨ ∃ i, i < (preMix env st).motorCount
              ∧ rollPitchYawMix env (preMix env st) i = rollPitchYawMixMax env (preMix env st)))
    ∧ (rollPitchYawMixMin env (preMix env st) ≤ 0
      ∧ (∀ i, i < (preMix env st).motorCount →
          rollPitchYawMixMin env (preMix env st) ≤ rollPitchYawMix env (preMix env st) i)
      ∧ (rollPitchYawMixMin env (preMix env st) = 0
          ∨ ∃ i, i < (preMix env st).motorCount
              ∧ rollPitchYawMix env (preMix env st) i = rollPitchYawMixMin env (preMix env st)))
    ∧ rollPitchYawMixRange env (preMix env st)
        = toInt16 (rollPitchYawMixMax env (preMix env st) - rollPitchYawMixMin env (preMix env st))
    ∧ (rollPitchYawMixMax env (preMix env st) - rollPitchYawMixMin env (preMix env st) ≤ INT16_MAX →
        rollPitchYawMixRange env (preMix env st)
          = rollPitchYawMixMax env (preMix env st) - rollPitchYawMixMin env (preMix env st))
    ∧ ((∃ i, i < (preMix env st).motorCount ∧ 0 ≤ rollPitchYawMix env (preMix env st) i) →
        isMaxOver (rollPitchYawMix env (preMix env st)) (preMix env st).motorCount
          (rollPitchYawMixMax env (preMix env st)))
    ∧ ((∃ i, i < (preMix env st).motorCount ∧ rollPitchYawMix env (preMix env st) i ≤ 0) →
        isMinOver (rollPitchYawMix env (preMix env st)) (preMix env st).motorCount
          (rollPitchYawMixMin env (preMix env st))) := by
  generalize preMix env st = S
  obtain ⟨hmax0, hmaxle, hmaxat⟩ := rollPitchYawMixMax_spec env S
  obtain ⟨hmin0, hminle, hminat⟩ := rollPitchYawMixMin_spec env S
  have hmaxor : rollPitchYawMixMax env S = 0
      ∨ ∃ i, i < S.motorCount ∧ rollPitchYawMix env S i = rollPitchYawMixMax env S := by
    unfold rollPitchYawMixMax
    rcases foldl_max_attained (rollPitchYawMix env S) (List.range S.motorCount) 0 with h | ⟨i, hi, h⟩
    · exact Or.inl h
    · exact Or.inr ⟨i, List.mem_range.1 hi, h⟩
  have hminor : rollPitchYawMixMin env S = 0
      ∨ ∃ i, i < S.motorCount ∧ rollPitchYawMix env S i = rollPitchYawMixMin env S := by
    unfold rollPitchYawMixMin
    rcases foldl_min_attained (rollPitchYawMix env S) (List.range S.motorCount) 0 with h | ⟨i, hi, h⟩
    · exact Or.inl h
    · exact Or.inr ⟨i, List.mem_range.1 hi, h⟩
  refine ⟨⟨hmax0, hmaxle, hmaxor⟩, ⟨hmin0, hminle, hminor⟩, rfl, ?_, ?_, ?_⟩
  · intro h
    unfold rollPitchYawMixRange
    exact toInt16_of_mem _ (by unfold INT16_MIN; omega) h
  · intro h
    exact ⟨hmaxle, hmaxat h⟩
  · intro h
    exact ⟨hminle, hminat h⟩

/-- C28 (amended) at a concrete input: QuadX with a roll demand of 100.  The
values are −100, −100, 100, 100; the computed maximum 100 and minimum −100 are
those of the values, and the range is 200. -/
theorem C28_airmode_rpy_range_witness :
    isMaxOver
        (rollPitchYawMix (scenarioEnv true false true false false 1500 1500)
          (preMix (scenarioEnv true false true false false 1500 1500) (quadXState 100 0 0)))
        (preMix (scenarioEnv true false true false false 1500 1500) (quadXState 100 0 0)).motorCount
        (rollPitchYawMixMax (scenarioEnv true false true false false 1500 1500)
          (preMix (scenarioEnv true false true false false 1500 1500) (quadXState 100 0 0)))
    ∧ rollPitchYawMixRange (scenarioEnv true false true false false 1500 1500)
        (preMix (scenarioEnv true false true false false 1500 1500) (quadXState 100 0 0)) = 200 :=
  ⟨(C28_airmode_rpy_range (scenarioEnv true false true false false 1500 1500)
      (quadXState 100 0 0)).2.2.2.2.1 ⟨2, by decide!, by decide!⟩,
   ((C28_airmode_rpy_range (scenarioEnv true false true false false 1500 1500)
      (quadXState 100 0 0)).2.2.2.1 (by decide!)).trans (by decide!)⟩

/-! ## C29: tail linearisation only while armed -/

theorem virtualServoStep_servo (env : Env) (S : State) (c : servoParam_t) (x : Int) :
    (virtualServoStep env S c x).servo = S.servo := by
  rw [virtualServoStep_frame]

/-- Function `virtualServoStep` reads the state through `virtualServoAngle_D`
and `tailServoMaxAngle_DD` only. -/
theorem virtualServoStep_congr (env : Env) (S T : State) (c : servoParam_t) (x : Int)
    (h1 : S.virtualServoAngle_D = T.virtualServoAngle_D)
    (h2 : S.tailServoMaxAngle_DD = T.tailServoMaxAngle_DD) :
    (virtualServoStep env S c x).virtualServoAngle_D
      = (virtualServoStep env T c x).virtualServoAngle_D := by
  have hg : getServoAngleInDeciDegrees S c x = getServoAngleInDeciDegrees T c x := by
    unfold getServoAngleInDeciDegrees
    rw [h2]
  unfold virtualServoStep
  dsimp only
  rw [hg, h1]
  split_ifs <;> rfl

/-- The servo array and the virtual angle `servoMixer` leaves for MIXER_TRI. -/
theorem servoMixer_tri (env : Env) (st : State) (hmode : st.currentMixerMode = MIXER_TRI) :
    (∀ j, j < MAX_SUPPORTED_SERVOS →
      (servoMixer env st).servo j
        = if j = SERVO_RUDDER ∧ env.armed = true then
            toInt16 (getLinearServoValue st (env.servoConf 0)
              (servoPostScale env (toInt16 (servoRuleSum env st SERVO_RUDDER)) SERVO_RUDDER))
          else servoPostScale env (toInt16 (servoRuleSum env st j)) j)
    ∧ (servoMixer env st).virtualServoAngle_D
        = (virtualServoStep env st (env.servoConf 0)
            ((servoMixer env st).servo SERVO_RUDDER)).virtualServoAngle_D := by
  have hacc : ∀ j, j < MAX_SUPPORTED_SERVOS →
      (servoMixerRules env st).servo j = toInt16 (servoRuleSum env st j) := by
    intro j hj
    rw [servoMixerRules_eq_upTo, servoMixerRulesUpTo_servo env st _ j hj]
    rfl
  have hr : SERVO_RUDDER < MAX_SUPPORTED_SERVOS := by decide
  by_cases harm : env.armed = true
  · have hsm : ∃ S : State,
        servoMixer env st = virtualServoStep env S (env.servoConf 0) (S.servo SERVO_RUDDER)
        ∧ S.virtualServoAngle_D = st.virtualServoAngle_D
        ∧ S.tailServoMaxAngle_DD = st.tailServoMaxAngle_DD
        ∧ S.servo = fun j =>
            if j = SERVO_RUDDER then
              toInt16 (getLinearServoValue st (env.servoConf 0)
                (if SERVO_RUDDER < MAX_SUPPORTED_SERVOS then
                  servoPostScale env ((servoMixerRules env st).servo SERVO_RUDDER) SERVO_RUDDER
                 else (servoMixerRules env st).servo SERVO_RUDDER))
            else if j < MAX_SUPPORTED_SERVOS then
              servoPostScale env ((servoMixerRules env st).servo j) j
            else (servoMixerRules env st).servo j := by
      unfold servoMixer
      dsimp only
      rw [if_pos hmode, if_pos harm]
      exact ⟨_, rfl, rfl, rfl, rfl⟩
    obtain ⟨S, hS, hv, ht, hservo⟩ := hsm
    have hall : (servoMixer env st).servo = S.servo := by
      rw [hS, virtualServoStep_servo]
    constructor
    · intro j hj
      rw [hall, hservo]
      by_cases hjr : j = SERVO_RUDDER
      · subst hjr
        simp only [hr, if_true, harm, and_self]
        rw [hacc _ hr]
      · simp only [hjr, if_false, hj, if_true, false_and]
        rw [hacc _ hj]
    · rw [hall]
      rw [hS]
      exact virtualServoStep_congr env S st _ _ hv ht
  · have hsm : ∃ S : State,
        servoMixer env st = virtualServoStep env S (env.servoConf 0) (S.servo SERVO_RUDDER)
        ∧ S.virtualServoAngle_D = st.virtualServoAngle_D
        ∧ S.tailServoMaxAngle_DD = st.tailServoMaxAngle_DD
        ∧ S.servo = fun j =>
            if j < MAX_SUPPORTED_SERVOS then
              servoPostScale env ((servoMixerRules env st).servo j) j
            else (servoMixerRules env st).servo j := by
      unfold servoMixer
      dsimp only
      rw [if_pos hmode, if_neg harm]
      exact ⟨_, rfl, rfl, rfl, rfl⟩
    obtain ⟨S, hS, hv, ht, hservo⟩ := hsm
    have hall : (servoMixer env st).servo = S.servo := by
      rw [hS, virtualServoStep_servo]
    constructor
    · intro j hj
      rw [hall, hservo]
      have hne : ¬ (j = SERVO_RUDDER ∧ env.armed = true) := fun h => harm h.2
      rw [if_neg hne]
      simp only [hj, if_true]
      rw [hacc _ hj]
    · rw [hall]
      rw [hS]
      exact virtualServoStep_congr env S st _ _ hv ht


/-- C29. For MIXER_TRI, `servoMixer` replaces `servo[SERVO_RUDDER]` by
`getLinearServoValue(servoConf[0], servo[SERVO_RUDDER])` (stored in the
`int16_t` array) when ARMED is set and leaves it at its post-scale value when
it is not; the other servos keep their post-scale values; in both cases
`virtualServoAngle_D` is what `virtualServoStep` computes from the resulting
rudder value.  For every other airframe, MIXER_CUSTOM_TRI included, every
servo keeps its post-scale value and `virtualServoAngle_D` is not modified. -/
theorem C29_tail_linearisation (env : Env) (st : State) :
    (st.currentMixerMode = MIXER_TRI →
        (env.armed = true →
          (servoMixer env st).servo SERVO_RUDDER
            = toInt16 (getLinearServoValue st (env.servoConf 0)
                (servoPostScale env (toInt16 (servoRuleSum env st SERVO_RUDDER)) SERVO_RUDDER)))
        ∧ (env.armed = false →
          (servoMixer env st).servo SERVO_RUDDER
            = servoPostScale env (toInt16 (servoRuleSum env st SERVO_RUDDER)) SERVO_RUDDER)
        ∧ (∀ j, j < MAX_SUPPORTED_SERVOS → j ≠ SERVO_RUDDER →
          (servoMixer env st).servo j = servoPostScale env (toInt16 (servoRuleSum env st j)) j)
        ∧ (servoMixer env st).virtualServoAngle_D
            = (virtualServoStep env st (env.servoConf 0)
                ((servoMixer env st).servo SERVO_RUDDER)).virtualServoAngle_D)
    ∧ (st.currentMixerMode ≠ MIXER_TRI →
        (∀ j, j < MAX_SUPPORTED_SERVOS →
          (servoMixer env st).servo j = servoPostScale env (toInt16 (servoRuleSum env st j)) j)
        ∧ (servoMixer env st).virtualServoAngle_D = st.virtualServoAngle_D) := by
  constructor
  · intro hmode
    obtain ⟨hservo, hangle⟩ := servoMixer_tri env st hmode
    refine ⟨?_, ?_, ?_, hangle⟩
    · intro harm
      rw [hservo _ (by decide), if_pos ⟨rfl, harm⟩]
    · intro harm
      rw [hservo _ (by decide), if_neg (fun h => by rw [harm] at h; exact Bool.false_ne_true h.2)]
    · intro j hj hjr
      rw [hservo j hj, if_neg (fun h => hjr h.1)]
  · intro hmode
    refine ⟨fun j hj => servoMixer_servo env st hmode j hj, ?_⟩
    unfold servoMixer
    dsimp only
    rw [if_neg hmode]

/-- C29 at concrete inputs: a tricopter with yaw demand 40 and an all-zero
force curve.  Armed, the rudder is `getLinearServoValue` of the post-scale
value 1540, here 2125; disarmed it stays 1540.  With the same state declared
MIXER_CUSTOM_TRI and armed, the rudder stays 1540 and the virtual angle 90. -/
theorem C29_tail_linearisation_witness :
    (servoMixer (scenarioEnv true false false false false 1500 1500) (triState 40)).servo SERVO_RUDDER
      = 2125
    ∧ (servoMixer (scenarioEnv false false false false false 1500 1500) (triState 40)).servo
        SERVO_RUDDER = 1540
    ∧ (servoMixer (scenarioEnv true false false false false 1500 1500)
        { triState 40 with currentMixerMode := MIXER_CUSTOM_TRI }).servo SERVO_RUDDER = 1540
    ∧ (servoMixer (scenarioEnv true false false false false 1500 1500)
        { triState 40 with currentMixerMode := MIXER_CUSTOM_TRI }).virtualServoAngle_D = 90 :=
  ⟨(((C29_tail_linearisation (scenarioEnv true false false false false 1500 1500)
        (triState 40)).1 rfl).1 rfl).trans (by decide!),
   (((C29_tail_linearisation (scenarioEnv false false false false false 1500 1500)
        (triState 40)).1 rfl).2.1 rfl).trans (by decide!),
   (((C29_tail_linearisation (scenarioEnv true false false false false 1500 1500)
        { triState 40 with currentMixerMode := MIXER_CUSTOM_TRI }).2 (by decide)).1
        SERVO_RUDDER (by decide)).trans (by decide!),
   (((C29_tail_linearisation (scenarioEnv true false false false false 1500 1500)
        { triState 40 with currentMixerMode := MIXER_CUSTOM_TRI }).2 (by decide)).2).trans
        (by decide!)⟩

/-! ## C30: direction after arming in the 3D airmode -/

/-- C30, what the code does. In 3D airmode, a disarmed cycle writes the
disarmed values to the motors, sets `throttlePrevious` to `midrc` and then, when
the stick is at or below `midrc − deadband`, overwrites it with the stick
value.  If the next cycle is armed with the stick strictly inside the deadband
(same `midrc` and deadband, bands non-empty and storable in `int16_t`), it
selects the negative band: throttle and `throttleMax` are `deadband3d_low`,
`throttleMin` is `minthrottle`, and every motor ends in `[minthrottle,
deadband3d_low]`. -/
theorem C30_positive_after_arming (envD envA : Env) (st : State)
    (hairD : envD.airmode = true) (h3dD : envD.feature3D = true) (hdis : envD.armed = false)
    (hrcD : throttleChannelTyped envD) (hlow : stickLow envD)
    (hA : airmode3DArmed envA) (hin : inDeadband envA)
    (hmid : envD.rxConfig.midrc = envA.rxConfig.midrc)
    (hdb : envD.flight3DConfig.deadband3d_throttle = envA.flight3DConfig.deadband3d_throttle)
    (hcfg : bands3DTyped envA) :
    (∀ i, i < st.motorCount → (mixTable envD st).motor i = st.motor_disarmed i)
    ∧ (mixTable envD st).throttlePrevious = envD.rcData THROTTLE
    ∧ (airmodeBand envA (mixTable envD st)).throttle = envA.flight3DConfig.deadband3d_low
    ∧ (airmodeBand envA (mixTable envD st)).throttleMax = envA.flight3DConfig.deadband3d_low
    ∧ (airmodeBand envA (mixTable envD st)).throttleMin = envA.escAndServoConfig.minthrottle
    ∧ motorsWithin (mixTable envA (mixTable envD st))
        envA.escAndServoConfig.minthrottle envA.flight3DConfig.deadband3d_low := by
  have hA2 := hA
  obtain ⟨hair, hf3d, harm, hfs, hdbA⟩ := hA2
  obtain ⟨o1, o2, o3, o4, o5, o6⟩ := hcfg
  have hl : envD.rcData THROTTLE
      ≤ envD.rxConfig.midrc - envD.flight3DConfig.deadband3d_throttle := hlow
  have hprevD : (mixTable envD st).throttlePrevious = envD.rcData THROTTLE := by
    rw [mixTable_throttlePrevious]
    simp only [hairD, if_true]
    rw [((airmodeBand_3D envD st h3dD (by rw [hdb]; exact hdbA)).1 hlow).2.2.2]
    exact toInt16_of_mem _ hrcD.1 hrcD.2
  have hsel : (mixTable envD st).throttlePrevious
      ≤ envA.rxConfig.midrc - envA.flight3DConfig.deadband3d_throttle := by
    rw [hprevD]
    omega
  obtain ⟨b0, bn, _⟩ := (airmodeBand_3D envA (mixTable envD st) hf3d hdbA).2.2 hin harm
  obtain ⟨b1, b2, b3⟩ := bn hsel
  refine ⟨?_, hprevD, ?_, ?_, ?_, ?_⟩
  · intro i hi
    rw [mixTable_motor, mixTableMotors_motor envD st i hi]
    simp only [hdis, Bool.false_eq_true, if_false]
  · rw [b3]
    exact toInt16_of_mem _ (by omega) (by omega)
  · rw [b2]
    exact toInt16_of_mem _ (by omega) (by omega)
  · rw [b1]
    exact toInt16_of_mem _ (by omega) (by omega)
  · unfold motorsWithin
    rw [mixTable_motorCount]
    intro i hi
    rw [mixTable_motor_3D envA _ i hi hA, if_pos (by rw [b0]; exact hsel)]
    exact toInt16_constrain_mem _ _ _ _ _ (by omega) (le_refl _) (le_refl _) (by omega) (by omega)

/-- C30 at the failing input: QuadX, `midrc` 1500, deadband 50.  A disarmed
cycle with the stick at 1000, then the first armed cycle with the stick at
1500: `throttlePrevious` is 1000, the throttle is `deadband3d_low = 1406` and
the motors end in `[1100, 1406]` (motor 0 at 1406), not in the positive band
`[1514, 2000]`. -/
theorem C30_positive_after_arming_witness :
    (mixTable (airmode3DEnv false 1000) (quadXState 0 0 0)).throttlePrevious = 1000
    ∧ (airmodeBand (airmode3DEnv true 1500)
        (mixTable (airmode3DEnv false 1000) (quadXState 0 0 0))).throttle = 1406
    ∧ motorsWithin
        (mixTable (airmode3DEnv true 1500) (mixTable (airmode3DEnv false 1000) (quadXState 0 0 0)))
        1100 1406
    ∧ (mixTable (airmode3DEnv true 1500)
        (mixTable (airmode3DEnv false 1000) (quadXState 0 0 0))).motor 0 = 1406
    ∧ ¬ motorsWithin
        (mixTable (airmode3DEnv true 1500) (mixTable (airmode3DEnv false 1000) (quadXState 0 0 0)))
        1514 2000 :=
  ⟨(C30_positive_after_arming (airmode3DEnv false 1000) (airmode3DEnv true 1500) (quadXState 0 0 0)
      rfl rfl rfl (by decide) (by decide) (by decide) (by decide) rfl rfl (by decide)).2.1,
   (C30_positive_after_arming (airmode3DEnv false 1000) (airmode3DEnv true 1500) (quadXState 0 0 0)
      rfl rfl rfl (by decide) (by decide) (by decide) (by decide) rfl rfl (by decide)).2.2.1,
   (C30_positive_after_arming (airmode3DEnv false 1000) (airmode3DEnv true 1500) (quadXState 0 0 0)
      rfl rfl rfl (by decide) (by decide) (by decide) (by decide) rfl rfl (by decide)).2.2.2.2.2,
   by decide!, by decide!⟩

/-! ## C31: the built-in geometry tables -/

/-- Every entry of `mixers` is well formed. -/
theorem mixers_wellFormed : ∀ e ∈ mixers, mixerEntryWellFormed e := by
  decide!

/-- Every airframe kind indexes an entry of `mixers`. -/
theorem mixersAt_mem (m : mixerMode_e) : mixersAt m.index ∈ mixers := by
  have hlt : m.index < mixers.length := by
    cases m <;> decide
  unfold mixersAt
  rw [List.getD_eq_getElem _ _ hlt]
  exact List.getElem_mem _

/-- A row index below the length reads a row of the table. -/
theorem tableRow_mem (t : List motorMixer_t) (i : Nat) (hi : i < t.length) : tableRow t i ∈ t := by
  unfold tableRow
  rw [List.getD_eq_getElem _ _ hi]
  exact List.getElem_mem _

/-- C31. For every entry of `mixers` whose motor table is not NULL the declared
`motorCount` is the number of rows of the table and at most
`MAX_SUPPORTED_MOTORS` = 8, and every row has throttle coefficient exactly 1
(so `≥ 0` and different from the sentinel 0).  `mixers` has one entry per
airframe kind, and for every kind the rows `i < motorCount` the copy loop of
`mixerUsePWMIOConfiguration` reads are rows of the table. -/
theorem C31_tables_well_formed :
    (∀ e ∈ mixers, ∀ t, e.motor = some t →
        e.motorCount = t.length ∧ e.motorCount ≤ 8
        ∧ ∀ r ∈ t, 0 ≤ r.throttle ∧ r.throttle = 1 ∧ r.throttle ≠ 0)
    ∧ mixers.length = 26
    ∧ (∀ (m : mixerMode_e) (t : List motorMixer_t), (mixersAt m.index).motor = some t →
        ∀ i, i < (mixersAt m.index).motorCount →
          i < t.length ∧ i < MAX_SUPPORTED_MOTORS ∧ tableRow t i ∈ t
          ∧ (tableRow t i).throttle = 1) := by
  refine ⟨?_, by decide, ?_⟩
  · intro e he t ht
    obtain ⟨h1, h2, h3⟩ := mixers_wellFormed e he t ht
    refine ⟨h1, h2, ?_⟩
    intro r hr
    have := h3 r hr
    rw [this]
    exact ⟨by norm_num, rfl, by norm_num⟩
  · intro m t ht i hi
    obtain ⟨h1, h2, h3⟩ := mixers_wellFormed _ (mixersAt_mem m) t ht
    have hlen : i < t.length := by omega
    exact ⟨hlen, by omega, tableRow_mem t i hlen, h3 _ (tableRow_mem t i hlen)⟩

/-! ## C32: failsafe in the classic 3D branch -/

/-- The classic branch with FEATURE_3D never reads `failsafeIsActive()`. -/
theorem classicMotor_3D (env : Env) (st : State) (i : Nat) (h3d : env.feature3D = true) :
    classicMotor env st i
      = if env.mixerConfig.pid_at_min_throttle ≠ 0
            ∨ env.rcData THROTTLE ≤ env.rxConfig.midrc - env.flight3DConfig.deadband3d_throttle
            ∨ env.rcData THROTTLE ≥ env.rxConfig.midrc + env.flight3DConfig.deadband3d_throttle then
          if env.rcData THROTTLE > env.rxConfig.midrc then
            toInt16 (constrain (classicRebalanced env st i)
              env.flight3DConfig.deadband3d_high env.escAndServoConfig.maxthrottle)
          else
            toInt16 (constrain (classicRebalanced env st i)
              env.escAndServoConfig.mincommand env.flight3DConfig.deadband3d_low)
        else
          if env.rcData THROTTLE > env.rxConfig.midrc then
            toInt16 env.flight3DConfig.deadband3d_high
          else
            toInt16 env.flight3DConfig.deadband3d_low := by
  unfold classicMotor
  rw [if_pos h3d]

/-- With the airmode switch off and FEATURE_3D on, the state after the motor
part of `mixTable` does not depend on `failsafeIsActive()`. -/
theorem mixTableMotors_withFailsafe (env : Env) (st : State) (b : Bool)
    (hair : env.airmode = false) (h3d : env.feature3D = true) :
    mixTableMotors (withFailsafe env b) st = mixTableMotors env st := by
  have hpre : preMix (withFailsafe env b) st = preMix env st := rfl
  have hcm : ∀ i, classicMotor (withFailsafe env b) (preMix env st) i
      = classicMotor env (preMix env st) i := by
    intro i
    rw [classicMotor_3D _ _ _ (show (withFailsafe env b).feature3D = true from h3d),
      classicMotor_3D _ _ _ h3d]
    rfl
  unfold mixTableMotors
  have ha : (withFailsafe env b).airmode = false := hair
  rw [hpre]
  simp only [ha, hair, Bool.false_eq_true, if_false]
  have hcl : mixTableClassic (withFailsafe env b) (preMix env st) = mixTableClassic env (preMix env st) := by
    unfold mixTableClassic
    simp only [hcm]
  rw [hcl]
  rfl


/-- The servo part of `mixTable` does not read `failsafeIsActive()`. -/
theorem mixTableServos_withFailsafe (env : Env) (st : State) (b : Bool) :
    mixTableServos (withFailsafe env b) st = mixTableServos env st := rfl

/-- C32. In the classic branch (airmode switch off) with FEATURE_3D enabled,
two runs of `mixTable` from the same state and inputs that differ only in the
value of `failsafeIsActive()` end in the same state, in particular with the
same `motor[]` array.  Each armed motor `i < motorCount` is the rebalanced mix
constrained to `[deadband3d_high, maxthrottle]` or to `[mincommand,
deadband3d_low]`, or is set to `deadband3d_high` / `deadband3d_low`, the case
being selected by `rcData[THROTTLE]`, `midrc`, `deadband3d_throttle` and
`pid_at_min_throttle`. -/
theorem C32_failsafe_classic_3D (env : Env) (st : State) (b1 b2 : Bool)
    (hair : env.airmode = false) (h3d : env.feature3D = true) :
    mixTable (withFailsafe env b1) st = mixTable (withFailsafe env b2) st
    ∧ (mixTable (withFailsafe env b1) st).motor = (mixTable (withFailsafe env b2) st).motor
    ∧ (env.armed = true → ∀ i, i < st.motorCount →
        (mixTable (withFailsafe env b1) st).motor i
          = if env.mixerConfig.pid_at_min_throttle ≠ 0
                ∨ env.rcData THROTTLE ≤ env.rxConfig.midrc - env.flight3DConfig.deadband3d_throttle
                ∨ env.rcData THROTTLE ≥ env.rxConfig.midrc + env.flight3DConfig.deadband3d_throttle then
              if env.rcData THROTTLE > env.rxConfig.midrc then
                toInt16 (constrain (classicRebalanced env (preMix env st) i)
                  env.flight3DConfig.deadband3d_high env.escAndServoConfig.maxthrottle)
              else
                toInt16 (constrain (classicRebalanced env (preMix env st) i)
                  env.escAndServoConfig.mincommand env.flight3DConfig.deadband3d_low)
            else
              if env.rcData THROTTLE > env.rxConfig.midrc then
                toInt16 env.flight3DConfig.deadband3d_high
              else
                toInt16 env.flight3DConfig.deadband3d_low) := by
  have hall : ∀ b, mixTable (withFailsafe env b) st = mixTable env st := by
    intro b
    unfold mixTable
    rw [mixTableServos_withFailsafe, mixTableMotors_withFailsafe env st b hair h3d]
  refine ⟨by rw [hall b1, hall b2], by rw [hall b1, hall b2], ?_⟩
  intro harm i hi
  rw [hall b1, mixTable_motor, mixTableMotors_motor env st i hi]
  simp only [harm, hair, if_true, Bool.false_eq_true, if_false]
  exact classicMotor_3D env (preMix env st) i h3d

/-- C32 at a concrete input: QuadX, classic 3D, armed, stick at 1700, roll
demand 100.  With and without failsafe the motors are the same; motor 0 is
`1700 − 100 = 1600`. -/
theorem C32_failsafe_classic_3D_witness :
    (mixTable (withFailsafe (scenarioEnv true false false true false 1700 1700) true)
        (quadXState 100 0 0)).motor
      = (mixTable (withFailsafe (scenarioEnv true false false true false 1700 1700) false)
        (quadXState 100 0 0)).motor
    ∧ (mixTable (withFailsafe (scenarioEnv true false false true false 1700 1700) true)
        (quadXState 100 0 0)).motor 0 = 1600
    ∧ (mixTable (withFailsafe (scenarioEnv true false false true false 1700 1700) false)
        (quadXState 100 0 0)).motor 0 = 1600 :=
  ⟨(C32_failsafe_classic_3D (scenarioEnv true false false true false 1700 1700)
      (quadXState 100 0 0) true false rfl rfl).2.1,
   by decide!, by decide!⟩

/-! ## C33: `motorLimitReached` outside the airmode -/

theorem preMix_motorLimitReached (env : Env) (st : State) :
    (preMix env st).motorLimitReached = st.motorLimitReached := by
  unfold preMix triPreHook
  rw [yawJumpPrevention_eq]
  split_ifs <;> rfl

/-- Classic cycles leave `motorLimitReached` as it is. -/
theorem mixTableCycles_motorLimitReached (envs : List Env) :
    ∀ s : State, (∀ e ∈ envs, e.airmode = false) →
      (mixTableCycles envs s).motorLimitReached = s.motorLimitReached := by
  induction envs with
  | nil =>
    intro s _
    rfl
  | cons e es ih =>
    intro s h
    have he := h e (List.mem_cons_self _ _)
    have hes : ∀ x ∈ es, x.airmode = false := fun x hx => h x (List.mem_cons_of_mem _ hx)
    show (mixTableCycles es (mixTable e s)).motorLimitReached = s.motorLimitReached
    rw [ih (mixTable e s) hes, mixTable_motorLimitReached, preMix_motorLimitReached]
    simp only [he, Bool.false_eq_true, if_false]

/-- C33. When the airmode switch is inactive `mixTable` leaves
`motorLimitReached` unchanged, for every state and every input; so along any
number of consecutive classic cycles the flag keeps the value it had, in
particular the value `true` an earlier airmode cycle has stored. -/
theorem C33_limit_flag_frame (env : Env) (st : State) (hair : env.airmode = false) :
    (mixTable env st).motorLimitReached = st.motorLimitReached
    ∧ (∀ (envs : List Env) (s : State), (∀ e ∈ envs, e.airmode = false) →
        (mixTableCycles envs s).motorLimitReached = s.motorLimitReached)
    ∧ (∀ (env0 : Env) (envs : List Env) (s : State), env0.airmode = true →
        (mixTable env0 s).motorLimitReached = true → (∀ e ∈ envs, e.airmode = false) →
        (mixTableCycles (env0 :: envs) s).motorLimitReached = true) := by
  refine ⟨?_, fun envs s h => mixTableCycles_motorLimitReached envs s h, ?_⟩
  · rw [mixTable_motorLimitReached, preMix_motorLimitReached]
    simp only [hair, Bool.false_eq_true, if_false]
  · intro env0 envs s _ hset h
    show (mixTableCycles envs (mixTable env0 s)).motorLimitReached = true
    rw [mixTableCycles_motorLimitReached envs _ h, hset]

/-- C33 at a concrete input: QuadX.  An airmode cycle with throttle 1100 and a
roll demand of 500 sets the flag; a classic cycle with throttle 1950 and roll
demand 100, in which the overshoot rebalance acts (motor 2 ends at 2000),
leaves it true. -/
theorem C33_limit_flag_frame_witness :
    (mixTable (scenarioEnv true false true false false 1100 1100) (quadXState 500 0 0)).motorLimitReached
      = true
    ∧ (mixTable (scenarioEnv true false false false false 1950 1950)
        { mixTable (scenarioEnv true false true false false 1100 1100) (quadXState 500 0 0) with
          axisPID := fun a => if a = ROLL then 100 else 0 }).motor 2 = 2000
    ∧ (mixTable (scenarioEnv true false false false false 1950 1950)
        { mixTable (scenarioEnv true false true false false 1100 1100) (quadXState 500 0 0) with
          axisPID := fun a => if a = ROLL then 100 else 0 }).motorLimitReached = true :=
  ⟨by decide!, by decide!,
   ((C33_limit_flag_frame (scenarioEnv true false false false false 1950 1950)
      { mixTable (scenarioEnv true false true false false 1100 1100) (quadXState 500 0 0) with
        axisPID := fun a => if a = ROLL then 100 else 0 } rfl).1).trans (by decide!)⟩

/-! ## C34: preset loaded into the custom mixer -/

/-- The custom loop on an array whose first `n ≤ 8` rows have a non-zero
throttle and whose row `n`, if there is one, has throttle 0: it counts `n`
motors and copies the rows below `n`. -/
theorem loadCustomMixer_count (custom cur : Nat → motorMixer_t) (n : Nat)
    (hn : n ≤ MAX_SUPPORTED_MOTORS) (hnz : ∀ j, j < n → (custom j).throttle ≠ 0)
    (hend : n = MAX_SUPPORTED_MOTORS ∨ (custom n).throttle = 0) :
    (loadCustomMixer custom MAX_SUPPORTED_MOTORS 0 (cur, 0)).2 = n
    ∧ ∀ j, (loadCustomMixer custom MAX_SUPPORTED_MOTORS 0 (cur, 0)).1 j
        = if j < n then custom j else cur j := by
  obtain ⟨k, hk, hcount, hknz, hkend, hrows⟩ :=
    loadCustomMixer_spec custom MAX_SUPPORTED_MOTORS 0 (cur, 0)
  have hkn : k = n := by
    rcases Nat.lt_trichotomy k n with h | h | h
    · rcases hkend with h1 | h1
      · omega
      · rw [Nat.zero_add] at h1
        exact absurd h1 (hnz k h)
    · exact h
    · rcases hend with h1 | h1
      · omega
      · have := hknz n h
        rw [Nat.zero_add] at this
        exact absurd h1 this
  subst hkn
  refine ⟨by rw [hcount]; simp, ?_⟩
  intro j
  rw [hrows j]
  by_cases hj : j < k
  · rw [if_pos ⟨Nat.zero_le _, by omega⟩, if_pos hj]
  · rw [if_neg (by omega), if_neg hj]

/-- An entry of `mixers` with a motor table lies inside the table `mixers`. -/
theorem mixersAt_some_mem (k : Nat) (t : List motorMixer_t) (h : (mixersAt k).motor = some t) :
    mixersAt k ∈ mixers := by
  by_cases hlt : k < mixers.length
  · unfold mixersAt
    rw [List.getD_eq_getElem _ _ hlt]
    exact List.getElem_mem _
  · exfalso
    unfold mixersAt at h
    rw [List.getD_eq_default _ _ (by omega)] at h
    cases h

/-- The custom array `mixerLoadMix` leaves for a preset with a motor table: the
rows of the table below the declared count, throttle 0 from there to
`MAX_SUPPORTED_MOTORS`. -/
theorem mixerLoadMix_some (p : Nat) (custom : Nat → motorMixer_t) (t : List motorMixer_t)
    (h : (mixersAt (p + 1)).motor = some t) :
    (∀ j, j < (mixersAt (p + 1)).motorCount → mixerLoadMix p custom j = tableRow t j)
    ∧ (∀ j, (mixersAt (p + 1)).motorCount ≤ j → j < MAX_SUPPORTED_MOTORS →
        (mixerLoadMix p custom j).throttle = 0) := by
  unfold mixerLoadMix
  simp only [h]
  constructor
  · intro j hj
    rw [if_pos hj]
  · intro j hj1 hj2
    rw [if_neg (by omega), if_pos hj2]

/-- The custom array `mixerLoadMix` leaves for a preset without a motor table:
throttle 0 in every row. -/
theorem mixerLoadMix_none (p : Nat) (custom : Nat → motorMixer_t)
    (h : (mixersAt (p + 1)).motor = none) :
    ∀ j, j < MAX_SUPPORTED_MOTORS → (mixerLoadMix p custom j).throttle = 0 := by
  intro j hj
  unfold mixerLoadMix
  simp only [h]
  rw [if_pos hj]

/-- The airframe kinds with a motor table are not the custom kinds. -/
theorem isCustomMixer_of_some (m : mixerMode_e) (t : List motorMixer_t)
    (h : (mixersAt m.index).motor = some t) : isCustomMixer m = false := by
  cases m <;> first | rfl | (exfalso; cases h)


/-- Every index of `mixers` is the number of an airframe kind, so an entry with
a motor table belongs to a kind. -/
theorem mixerMode_of_table (k : Nat) (t : List motorMixer_t)
    (ht : (mixersAt k).motor = some t) : ∃ m : mixerMode_e, m.index = k := by
  have hk : k < 26 := by
    by_contra hge
    have hlen : mixers.length = 26 := by decide
    unfold mixersAt at ht
    rw [List.getD_eq_default _ _ (by omega)] at ht
    exact absurd ht (by simp)
  exact ⟨mixerMode_e.ofNat k, by interval_cases k <;> rfl⟩

/-- C34. With FEATURE_3D off, for every 0-based preset number `p` whose entry
`mixers[p + 1]` (the airframe kind `m`) has a motor table, and every prior
content of the custom array: `mixerLoadMix(p, custom)` followed by the
initialisation as MIXER_CUSTOM with that array gives the same `motorCount`
(the declared count of the preset) and the same rows `currentMixer[i]`, `i <
motorCount`, as the initialisation as kind `m`.  For a preset without a motor
table `mixerLoadMix` leaves throttle 0 in every row of the custom array and
the custom initialisation gives `motorCount == 0`.  Every preset number with a
motor table is the number of an airframe kind. -/
theorem C34_preset_round_trip (env : Env) (n : Nat) (st : State) (custom : Nat → motorMixer_t)
    (csm : Nat → servoMixer_t) (p : Nat) (h3d : env.feature3D = false) :
    (∀ (m : mixerMode_e) (t : List motorMixer_t), m.index = p + 1 →
        (mixersAt (p + 1)).motor = some t →
        (mixerUsePWMIOConfiguration env n
            (mixerInit env MIXER_CUSTOM (mixerLoadMix p custom) csm st)).motorCount
          = (mixerUsePWMIOConfiguration env n (mixerInit env m custom csm st)).motorCount
        ∧ (mixerUsePWMIOConfiguration env n
            (mixerInit env MIXER_CUSTOM (mixerLoadMix p custom) csm st)).motorCount
          = (mixersAt (p + 1)).motorCount
        ∧ ∀ i, i < (mixersAt (p + 1)).motorCount →
            (mixerUsePWMIOConfiguration env n
                (mixerInit env MIXER_CUSTOM (mixerLoadMix p custom) csm st)).currentMixer i
              = (mixerUsePWMIOConfiguration env n (mixerInit env m custom csm st)).currentMixer i
            ∧ (mixerUsePWMIOConfiguration env n (mixerInit env m custom csm st)).currentMixer i
              = tableRow t i)
    ∧ (p + 1 < mixers.length → (mixersAt (p + 1)).motor = none →
        (∀ j, j < MAX_SUPPORTED_MOTORS → (mixerLoadMix p custom j).throttle = 0)
        ∧ (mixerUsePWMIOConfiguration env n
            (mixerInit env MIXER_CUSTOM (mixerLoadMix p custom) csm st)).motorCount = 0)
    ∧ (∀ t : List motorMixer_t, (mixersAt (p + 1)).motor = some t →
        ∃ m : mixerMode_e, m.index = p + 1) := by
  have hnohalve : ∀ x : (Nat → motorMixer_t) × Nat, halveGain3D env x = x.1 := by
    intro x
    unfold halveGain3D
    rw [if_neg (by rw [h3d]; decide)]
  obtain ⟨hA1, hA2, hA3, _⟩ := mixerInit_frame env MIXER_CUSTOM (mixerLoadMix p custom) csm st
  obtain ⟨hAc, hAr⟩ := mixerUsePWMIOConfiguration_mixer env n
    (mixerInit env MIXER_CUSTOM (mixerLoadMix p custom) csm st)
  have hAload : loadMotorMixer (mixerInit env MIXER_CUSTOM (mixerLoadMix p custom) csm st)
      = loadCustomMixer (mixerLoadMix p custom) MAX_SUPPORTED_MOTORS 0 (st.currentMixer, 0) := by
    unfold loadMotorMixer
    rw [hA1, if_pos (by decide), hA2, hA3]
  refine ⟨?_, ?_, fun t ht => mixerMode_of_table (p + 1) t ht⟩
  · intro m t hm ht
    obtain ⟨hlen, hle, hthr⟩ := mixers_wellFormed _ (mixersAt_some_mem _ t ht) t ht
    obtain ⟨hrows, hzero⟩ := mixerLoadMix_some p custom t ht
    have hnz : ∀ j, j < (mixersAt (p + 1)).motorCount → (mixerLoadMix p custom j).throttle ≠ 0 := by
      intro j hj
      rw [hrows j hj, hthr _ (tableRow_mem t j (by omega))]
      norm_num
    have hend : (mixersAt (p + 1)).motorCount = MAX_SUPPORTED_MOTORS
        ∨ (mixerLoadMix p custom (mixersAt (p + 1)).motorCount).throttle = 0 := by
      by_cases h8 : (mixersAt (p + 1)).motorCount = MAX_SUPPORTED_MOTORS
      · exact Or.inl h8
      · exact Or.inr (hzero _ (le_refl _) (by omega))
    obtain ⟨hcnt, hcopy⟩ := loadCustomMixer_count (mixerLoadMix p custom) st.currentMixer
      (mixersAt (p + 1)).motorCount hle hnz hend
    obtain ⟨hB1, _, hB3, _⟩ := mixerInit_frame env m custom csm st
    obtain ⟨hBc, hBr⟩ := mixerUsePWMIOConfiguration_mixer env n (mixerInit env m custom csm st)
    have htm : (mixersAt m.index).motor = some t := by rw [hm]; exact ht
    have hBload : loadMotorMixer (mixerInit env m custom csm st)
        = (fun i => if i < (mixersAt (p + 1)).motorCount then tableRow t i else st.currentMixer i,
           (mixersAt (p + 1)).motorCount) := by
      unfold loadMotorMixer
      rw [hB1, if_neg (by rw [isCustomMixer_of_some m t htm]; decide), hB3, hm]
      simp only [ht]
    refine ⟨?_, ?_, ?_⟩
    · rw [hAc, hBc, hAload, hBload, hcnt]
    · rw [hAc, hAload, hcnt]
    · intro i hi
      rw [hAr, hBr, hnohalve, hnohalve, hAload, hBload, hcopy i]
      simp only [hi, if_true]
      exact ⟨hrows i hi, trivial⟩
  · intro _ hnone
    have hz := mixerLoadMix_none p custom hnone
    refine ⟨hz, ?_⟩
    rw [hAc, hAload]
    exact (loadCustomMixer_count (mixerLoadMix p custom) st.currentMixer 0 (Nat.zero_le _)
      (fun j hj => absurd hj (Nat.not_lt_zero _)) (Or.inr (hz 0 (by decide)))).1

/-- C34 at concrete inputs: preset 2 (`mixers[3]`, MIXER_QUADX) loaded over a
custom array holding stale rows gives 4 motors and row 0 of `mixerQuadX`, as
MIXER_QUADX does; preset 4 (`mixers[5]`, MIXER_GIMBAL, no motor table) gives
`motorCount = 0`. -/
theorem C34_preset_round_trip_witness :
    (mixerUsePWMIOConfiguration (scenarioEnv false false false false false 1000 1000) 0
        (mixerInit (scenarioEnv false false false false false 1000 1000) MIXER_CUSTOM
          (mixerLoadMix 2 customState.customMixers) (fun _ => servoMixerZero)
          (quadXState 0 0 0))).motorCount
      = (mixerUsePWMIOConfiguration (scenarioEnv false false false false false 1000 1000) 0
        (mixerInit (scenarioEnv false false false false false 1000 1000) MIXER_QUADX
          customState.customMixers (fun _ => servoMixerZero) (quadXState 0 0 0))).motorCount
    ∧ (mixerUsePWMIOConfiguration (scenarioEnv false false false false false 1000 1000) 0
        (mixerInit (scenarioEnv false false false false false 1000 1000) MIXER_CUSTOM
          (mixerLoadMix 2 customState.customMixers) (fun _ => servoMixerZero)
          (quadXState 0 0 0))).motorCount = 4
    ∧ (mixerUsePWMIOConfiguration (scenarioEnv false false false false false 1000 1000) 0
        (mixerInit (scenarioEnv false false false false false 1000 1000) MIXER_CUSTOM
          (mixerLoadMix 4 customState.customMixers) (fun _ => servoMixerZero)
          (quadXState 0 0 0))).motorCount = 0 :=
  ⟨((C34_preset_round_trip (scenarioEnv false false false false false 1000 1000) 0
        (quadXState 0 0 0) customState.customMixers (fun _ => servoMixerZero) 2 rfl).1
      MIXER_QUADX mixerQuadX rfl rfl).1,
   ((C34_preset_round_trip (scenarioEnv false false false false false 1000 1000) 0
        (quadXState 0 0 0) customState.customMixers (fun _ => servoMixerZero) 2 rfl).1
      MIXER_QUADX mixerQuadX rfl rfl).2.1,
   ((C34_preset_round_trip (scenarioEnv false false false false false 1000 1000) 0
        (quadXState 0 0 0) customState.customMixers (fun _ => servoMixerZero) 4 rfl).2.1
      (by decide) rfl).2⟩

/-! ## C35: the lookup on an ordered yaw force curve -/

/-- The interpolation term in floor division. -/
theorem interp_digit_ediv (x d : Int) (h0 : 0 ≤ x) (hd : x < d) :
    0 ≤ x * 1000 / d / 100 ∧ x * 1000 / d / 100 ≤ 9 := by
  have h := interp_digit x d h0 hd
  rw [Int.tdiv_eq_ediv (show 0 ≤ x * 1000 by omega) (show 0 ≤ d by omega),
    Int.tdiv_eq_ediv (Int.ediv_nonneg (show 0 ≤ x * 1000 by omega) (show 0 ≤ d by omega))
      (show (0 : Int) ≤ 100 by omega)] at h
  exact h

/-- The three cases of `getAngleFromYawCurveAtForce` for an `int16_t` force
`f`: below the table, at or above its last entry, and bracketed by two
neighbouring entries. -/
theorem getAngle_cases (st : State) (f : Int) (h1 : INT16_MIN ≤ f) (h2 : f ≤ INT16_MAX) :
    (f < st.yawForceCurve 0 → getAngleFromYawCurveAtForce st f = 400)
    ∧ (¬ f < st.yawForceCurve 0 → st.yawForceCurve 99 ≤ f →
        getAngleFromYawCurveAtForce st f = 1400)
    ∧ (¬ f < st.yawForceCurve 0 → f < st.yawForceCurve 99 →
        ∃ l : Nat, l < 99 ∧ st.yawForceCurve l ≤ f ∧ f < st.yawForceCurve (l + 1)
          ∧ getAngleFromYawCurveAtForce st f
              = 400 + 10 * (l : Int)
                + (f - st.yawForceCurve l) * 1000
                    / (st.yawForceCurve (l + 1) - st.yawForceCurve l) / 100) := by
  have hf : toInt16 f = f := toInt16_of_mem f h1 h2
  have h99 : TRI_YAW_FORCE_CURVE_SIZE - 1 = 99 := by decide
  refine ⟨?_, ?_, ?_⟩
  · intro h
    unfold getAngleFromYawCurveAtForce
    dsimp only
    rw [hf, if_pos h]
    decide
  · intro h0 h
    unfold getAngleFromYawCurveAtForce
    dsimp only
    rw [hf, if_neg h0, h99, if_pos (by omega)]
    decide
  · intro h0 h
    obtain ⟨l, hl, _, hl2, hl3, hl4⟩ :=
      yawCurveSearch_spec st.yawForceCurve f TRI_YAW_FORCE_CURVE_SIZE 0
        (TRI_YAW_FORCE_CURVE_SIZE - 1) (by decide) (by decide) (by omega) h
    have hk := interp_digit_ediv (f - st.yawForceCurve l)
      (st.yawForceCurve (l + 1) - st.yawForceCurve l) (by omega) (by omega)
    have hx0 : 0 ≤ (f - st.yawForceCurve l) * 1000 := by omega
    have hq0 : 0 ≤ (f - st.yawForceCurve l) * 1000
        / (st.yawForceCurve (l + 1) - st.yawForceCurve l) :=
      Int.ediv_nonneg hx0 (by omega)
    have e1 : Int.tdiv ((f - st.yawForceCurve l) * 1000)
        (st.yawForceCurve (l + 1) - st.yawForceCurve l)
        = (f - st.yawForceCurve l) * 1000 / (st.yawForceCurve (l + 1) - st.yawForceCurve l) :=
      Int.tdiv_eq_ediv hx0 (by omega)
    refine ⟨l, by omega, hl3, hl4, ?_⟩
    unfold getAngleFromYawCurveAtForce
    dsimp only
    rw [hf, if_neg h0, h99, if_neg (by omega), ← h99, hl]
    dsimp only
    rw [e1, Int.tdiv_eq_ediv hq0 (by omega)]
    unfold toUInt16 TRI_TAIL_SERVO_ANGLE_MID_DD TRI_TAIL_SERVO_MAX_ANGLE_DD
    omega

/-- Every result of the lookup lies in `[400, 1400]`. -/
theorem getAngle_range (st : State) (f : Int) (h1 : INT16_MIN ≤ f) (h2 : f ≤ INT16_MAX) :
    400 ≤ getAngleFromYawCurveAtForce st f ∧ getAngleFromYawCurveAtForce st f ≤ 1400 := by
  obtain ⟨c1, c2, c3⟩ := getAngle_cases st f h1 h2
  by_cases h0 : f < st.yawForceCurve 0
  · rw [c1 h0]
    omega
  · by_cases h99 : f < st.yawForceCurve 99
    · obtain ⟨l, hl, hlo, hhi, hr⟩ := c3 h0 h99
      have hk := interp_digit_ediv (f - st.yawForceCurve l)
        (st.yawForceCurve (l + 1) - st.yawForceCurve l) (by omega) (by omega)
      rw [hr]
      omega
    · rw [c2 h0 (by omega)]
      omega


/-- C35. If `yawForceCurve` is non-decreasing, `getAngleFromYawCurveAtForce` is
non-decreasing in its `int16_t` force argument.  If the table is strictly
increasing (entries `int16_t` values), the lookup of the tabulated force
`curve[k]`, `0 ≤ k < 99`, returns exactly `400 + 10·k`, the angle
`curveAngle_DD k` at which `initTailServoSymmetry` tabulates entry `k`. -/
theorem C35_lookup_ordered (st : State) :
    (curveNonDecreasing st →
        ∀ F1 F2 : Int, INT16_MIN ≤ F1 → F1 ≤ F2 → F2 ≤ INT16_MAX →
          getAngleFromYawCurveAtForce st F1 ≤ getAngleFromYawCurveAtForce st F2)
    ∧ (curveStrictlyIncreasing st → curveTyped st →
        ∀ k : Nat, k < 99 →
          getAngleFromYawCurveAtForce st (st.yawForceCurve k) = 400 + 10 * (k : Int)
          ∧ getAngleFromYawCurveAtForce st (st.yawForceCurve k) = curveAngle_DD k) := by
  have hsize : TRI_YAW_FORCE_CURVE_SIZE = 100 := rfl
  constructor
  · intro hmono F1 F2 h1 h12 h2
    unfold curveNonDecreasing at hmono
    rw [hsize] at hmono
    obtain ⟨a1, a2, a3⟩ := getAngle_cases st F1 h1 (by omega)
    obtain ⟨b1, b2, b3⟩ := getAngle_cases st F2 (by omega) h2
    have r1 := getAngle_range st F1 h1 (by omega)
    have r2 := getAngle_range st F2 (by omega) h2
    by_cases hlow : F1 < st.yawForceCurve 0
    · rw [a1 hlow]
      exact r2.1
    · by_cases hhigh2 : F2 < st.yawForceCurve 99
      · have hhigh1 : F1 < st.yawForceCurve 99 := by omega
        obtain ⟨l1, hl1, hlo1, hhi1, e1⟩ := a3 hlow hhigh1
        obtain ⟨l2, hl2, hlo2, hhi2, e2⟩ := b3 (by omega) hhigh2
        have hk1 := interp_digit_ediv (F1 - st.yawForceCurve l1)
          (st.yawForceCurve (l1 + 1) - st.yawForceCurve l1) (by omega) (by omega)
        have hk2 := interp_digit_ediv (F2 - st.yawForceCurve l2)
          (st.yawForceCurve (l2 + 1) - st.yawForceCurve l2) (by omega) (by omega)
        have hle : l1 ≤ l2 := by
          by_contra hcon
          have := hmono (l2 + 1) (by omega) l1 (by omega) (by omega)
          omega
        rw [e1, e2]
        rcases Nat.lt_or_ge l1 l2 with hlt | hge
        · omega
        · have heq : l1 = l2 := by omega
          subst heq
          have hd : 0 < st.yawForceCurve (l1 + 1) - st.yawForceCurve l1 := by omega
          have hq : (F1 - st.yawForceCurve l1) * 1000
                / (st.yawForceCurve (l1 + 1) - st.yawForceCurve l1)
              ≤ (F2 - st.yawForceCurve l1) * 1000
                / (st.yawForceCurve (l1 + 1) - st.yawForceCurve l1) :=
            Int.ediv_le_ediv hd (by omega)
          omega
      · rw [b2 (by
          have := hmono 0 (by omega) 99 (by omega) (by omega)
          by_cases hc : F1 < st.yawForceCurve 99
          · omega
          · omega) (by omega)]
        exact r1.2
  · intro hstrict htyped k hk
    unfold curveStrictlyIncreasing at hstrict
    unfold curveTyped at htyped
    rw [hsize] at hstrict htyped
    obtain ⟨t1, t2⟩ := htyped k (by omega)
    obtain ⟨_, _, c3⟩ := getAngle_cases st (st.yawForceCurve k) t1 t2
    have h0 : ¬ st.yawForceCurve k < st.yawForceCurve 0 := by
      rcases Nat.eq_zero_or_pos k with hk0 | hkpos
      · subst hk0
        omega
      · have := hstrict 0 (by omega) k (by omega) hkpos
        omega
    have h99 : st.yawForceCurve k < st.yawForceCurve 99 := hstrict k (by omega) 99 (by omega) hk
    obtain ⟨l, hl, hlo, hhi, e⟩ := c3 h0 h99
    have hlk : l = k := by
      rcases Nat.lt_trichotomy l k with h | h | h
      · exfalso
        rcases Nat.lt_or_ge (l + 1) k with h' | h'
        · have := hstrict (l + 1) (by omega) k (by omega) h'
          omega
        · have : l + 1 = k := by omega
          rw [this] at hhi
          omega
      · exact h
      · exfalso
        have := hstrict k (by omega) l (by omega) h
        omega
    subst hlk
    have hval : getAngleFromYawCurveAtForce st (st.yawForceCurve l) = 400 + 10 * (l : Int) := by
      rw [e]
      simp
    refine ⟨hval, ?_⟩
    rw [hval]
    unfold curveAngle_DD TRI_TAIL_SERVO_ANGLE_MID_DD TRI_TAIL_SERVO_MAX_ANGLE_DD
    omega

/-- C35 at concrete inputs: on the strictly increasing table of
`risingCurveState` (entry `k` holds `20·k − 1000`) the lookup of entry 37 returns
`400 + 370`; on the table with plateaus of `plateauCurveState` (entries `2·k`
and `2·k + 1` hold `20·k − 1000`) the lookups of the forces −505 and −493 are 897
and 913, in order. -/
theorem C35_lookup_ordered_witness :
    getAngleFromYawCurveAtForce risingCurveState (risingCurveState.yawForceCurve 37) = 770
    ∧ getAngleFromYawCurveAtForce plateauCurveState (-505) = 897
    ∧ getAngleFromYawCurveAtForce plateauCurveState (-493) = 913
    ∧ getAngleFromYawCurveAtForce plateauCurveState (-505)
        ≤ getAngleFromYawCurveAtForce plateauCurveState (-493) :=
  ⟨(((C35_lookup_ordered risingCurveState).2
      (by
        intro i _ j _ hij
        show 20 * (i : Int) - 1000 < 20 * (j : Int) - 1000
        omega)
      (by
        intro i hi
        have hi2 : i < 100 := hi
        show INT16_MIN ≤ 20 * (i : Int) - 1000 ∧ 20 * (i : Int) - 1000 ≤ INT16_MAX
        unfold INT16_MIN INT16_MAX
        omega)) 37 (by decide)).1,
   by decide, by decide,
   (C35_lookup_ordered plateauCurveState).1
      (by
        intro i _ j _ hij
        show 20 * ((i / 2 : Nat) : Int) - 1000 ≤ 20 * ((j / 2 : Nat) : Int) - 1000
        omega)
      (-505) (-493) (by decide) (by decide) (by decide)⟩

/-! ## C4 and C5: servo bounds after a run without division by zero -/

theorem getServoAngleInDeciDegreesChecked_some (st : State) (c : servoParam_t) (v r : Int)
    (h : getServoAngleInDeciDegreesChecked st c v = some r) :
    r = getServoAngleInDeciDegrees st c v := by
  unfold getServoAngleInDeciDegreesChecked at h
  dsimp only at h
  split_ifs at h <;> exact (Option.some.inj h).symm

theorem getServoAngleInDeciDegreesChecked_defined (st : State) (c : servoParam_t) (v : Int)
    (hmin : INT16_MIN ≤ c.min) (hmin2 : c.min ≤ INT16_MAX)
    (hmax : INT16_MIN ≤ c.max) (hmax2 : c.max ≤ INT16_MAX)
    (hmid : INT16_MIN ≤ c.middle) (hmid2 : c.middle ≤ INT16_MAX)
    (h1 : c.middle ≠ c.min) (h2 : c.middle ≠ c.max) :
    getServoAngleInDeciDegreesChecked st c v = some (getServoAngleInDeciDegrees st c v) := by
  unfold getServoAngleInDeciDegreesChecked
  dsimp only
  rw [toInt16_of_mem c.middle hmid hmid2]
  by_cases hlt : toUInt16 v < c.middle
  · rw [if_pos hlt, toInt16_of_mem c.min hmin hmin2, if_neg (by omega)]
  · rw [if_neg hlt, toInt16_of_mem c.max hmax hmax2, if_neg (by omega)]

theorem getAngleFromYawCurveAtForceChecked_eq (st : State) (F : Int) :
    getAngleFromYawCurveAtForceChecked st F = some (getAngleFromYawCurveAtForce st F) := by
  unfold getAngleFromYawCurveAtForceChecked
  dsimp only
  by_cases h0 : toInt16 F < st.yawForceCurve 0
  · rw [if_pos h0]
  · rw [if_neg h0]
    by_cases h99 : ¬ (toInt16 F < st.yawForceCurve (TRI_YAW_FORCE_CURVE_SIZE - 1))
    · rw [if_pos h99]
    · rw [if_neg h99]
      have h99b : toInt16 F < st.yawForceCurve (TRI_YAW_FORCE_CURVE_SIZE - 1) := not_not.mp h99
      obtain ⟨l, hl, _, _, hlo, hhi⟩ := yawCurveSearch_spec st.yawForceCurve (toInt16 F)
        TRI_YAW_FORCE_CURVE_SIZE 0 (TRI_YAW_FORCE_CURVE_SIZE - 1) (by decide) (by decide)
        (by omega) h99b
      rw [hl]
      dsimp only
      rw [if_neg (by omega)]

theorem getServoValueAtAngleChecked_some (st : State) (c : servoParam_t) (a r : Int)
    (h : getServoValueAtAngleChecked st c a = some r) : r = getServoValueAtAngle st c a := by
  unfold getServoValueAtAngleChecked at h
  dsimp only at h
  split_ifs at h <;> exact (Option.some.inj h).symm

theorem getServoValueAtAngleChecked_defined (st : State) (c : servoParam_t) (a : Int)
    (h0 : st.tailServoMaxAngle_DD ≠ 0) (h900 : st.tailServoMaxAngle_DD ≠ TRI_TAIL_SERVO_ANGLE_MID_DD) :
    getServoValueAtAngleChecked st c a = some (getServoValueAtAngle st c a) := by
  unfold getServoValueAtAngleChecked
  dsimp only
  have h900b : ¬ (TRI_TAIL_SERVO_ANGLE_MID_DD - st.tailServoMaxAngle_DD = 0) := by omega
  split_ifs <;> rfl

theorem getLinearServoValueChecked_some (st : State) (c : servoParam_t) (v r : Int)
    (h : getLinearServoValueChecked st c v = some r) : r = getLinearServoValue st c v := by
  unfold getLinearServoValueChecked at h
  dsimp only at h
  by_cases hr : (if toUInt16 v < toInt16 c.middle then toInt16 c.middle - c.min
      else c.max - toInt16 c.middle) = 0
  · rw [if_pos hr] at h
    exact absurd h (by simp)
  · rw [if_neg hr, getAngleFromYawCurveAtForceChecked_eq] at h
    dsimp only at h
    exact getServoValueAtAngleChecked_some _ _ _ _ h

theorem getLinearServoValueChecked_defined (st : State) (c : servoParam_t) (v : Int)
    (hmid : INT16_MIN ≤ c.middle) (hmid2 : c.middle ≤ INT16_MAX)
    (h1 : c.middle ≠ c.min) (h2 : c.middle ≠ c.max)
    (h0 : st.tailServoMaxAngle_DD ≠ 0) (h900 : st.tailServoMaxAngle_DD ≠ TRI_TAIL_SERVO_ANGLE_MID_DD) :
    getLinearServoValueChecked st c v = some (getLinearServoValue st c v) := by
  unfold getLinearServoValueChecked
  dsimp only
  rw [toInt16_of_mem c.middle hmid hmid2]
  have hr : ¬ ((if toUInt16 v < c.middle then c.middle - c.min else c.max - c.middle) = 0) := by
    split_ifs <;> omega
  rw [if_neg hr, getAngleFromYawCurveAtForceChecked_eq]
  dsimp only
  rw [getServoValueAtAngleChecked_defined st c _ h0 h900]
  unfold getLinearServoValue
  dsimp only
  rw [toInt16_of_mem c.middle hmid hmid2]

theorem virtualServoStepChecked_some (env : Env) (st : State) (c : servoParam_t) (v : Int)
    (r : State) (h : virtualServoStepChecked env st c v = some r) :
    r = virtualServoStep env st c v := by
  unfold virtualServoStepChecked at h
  cases hg : getServoAngleInDeciDegreesChecked st c v with
  | none => rw [hg] at h; exact absurd h (by simp)
  | some x => rw [hg] at h; exact (Option.some.inj h).symm

theorem triPreHookChecked_some (env : Env) (st r : State)
    (h : triPreHookChecked env st = some r) : r = triPreHook env st := by
  unfold triPreHookChecked at h
  by_cases hm : st.currentMixerMode = MIXER_TRI
  · rw [if_pos hm] at h
    cases hg : getServoAngleInDeciDegreesChecked st (env.servoConf 0) (st.servo SERVO_RUDDER) with
    | none => rw [hg] at h; exact absurd h (by simp)
    | some x => rw [hg] at h; exact (Option.some.inj h).symm
  · rw [if_neg hm] at h
    unfold triPreHook
    rw [if_neg hm]
    exact (Option.some.inj h).symm

/-- The function `servoMixer` is its rule part followed by the tricopter
block. -/
theorem servoMixer_eq (env : Env) (st : State) :
    servoMixer env st
      = if (servoMixerScaled env st).currentMixerMode = MIXER_TRI then
          if env.armed then
            virtualServoStep env
              { servoMixerScaled env st with
                servo := fun j =>
                  if j = SERVO_RUDDER then
                    toInt16 (getLinearServoValue (servoMixerScaled env st) (env.servoConf 0)
                      ((servoMixerScaled env st).servo SERVO_RUDDER))
                  else (servoMixerScaled env st).servo j }
              (env.servoConf 0)
              (toInt16 (getLinearServoValue (servoMixerScaled env st) (env.servoConf 0)
                ((servoMixerScaled env st).servo SERVO_RUDDER)))
          else
            virtualServoStep env (servoMixerScaled env st) (env.servoConf 0)
              ((servoMixerScaled env st).servo SERVO_RUDDER)
        else servoMixerScaled env st := by
  unfold servoMixer servoMixerScaled
  dsimp only
  by_cases hm : st.currentMixerMode = MIXER_TRI
  · rw [if_pos hm, if_pos hm]
    by_cases ha : env.armed = true
    · rw [if_pos ha, if_pos ha]
      simp only [if_true]
    · rw [if_neg ha, if_neg ha]
  · rw [if_neg hm, if_neg hm]

theorem servoMixerChecked_some (env : Env) (st r : State)
    (h : servoMixerChecked env st = some r) : r = servoMixer env st := by
  rw [servoMixer_eq]
  unfold servoMixerChecked at h
  dsimp only at h
  by_cases hm : (servoMixerScaled env st).currentMixerMode = MIXER_TRI
  · rw [if_pos hm] at h ⊢
    by_cases ha : env.armed = true
    · rw [if_pos ha] at h ⊢
      cases hg : getLinearServoValueChecked (servoMixerScaled env st) (env.servoConf 0)
          ((servoMixerScaled env st).servo SERVO_RUDDER) with
      | none => rw [hg] at h; exact absurd h (by simp)
      | some x =>
        rw [hg] at h
        dsimp only at h
        have hx := getLinearServoValueChecked_some _ _ _ _ hg
        subst hx
        exact virtualServoStepChecked_some _ _ _ _ _ h
    · rw [if_neg ha] at h ⊢
      exact virtualServoStepChecked_some _ _ _ _ _ h
  · rw [if_neg hm] at h ⊢
    exact (Option.some.inj h).symm

/-- A run of `mixTableChecked` that has a result ends in the state of
`mixTable`. -/
theorem mixTableChecked_some (env : Env) (st r : State)
    (h : mixTableChecked env st = some r) : r = mixTable env st := by
  unfold mixTableChecked at h
  cases h1 : triPreHookChecked env (yawJumpPrevention env st) with
  | none => rw [h1] at h; exact absurd h (by simp)
  | some s1 =>
    rw [h1] at h
    dsimp only at h
    have hs1 := triPreHookChecked_some _ _ _ h1
    have hs1b : s1 = preMix env st := hs1
    subst hs1b
    have hmot : disarmMotors env
        (if env.airmode = true then mixTableAirmode env (preMix env st)
          else mixTableClassic env (preMix env st)) = mixTableMotors env st := rfl
    rw [hmot] at h
    unfold mixTable mixTableServos
    by_cases hu : usesServoMixer (mixTableMotors env st).currentMixerMode = true
    · rw [if_pos hu] at h ⊢
      cases h3 : servoMixerChecked env (mixTableMotors env st) with
      | none => rw [h3] at h; exact absurd h (by simp)
      | some s3 =>
        rw [h3] at h
        dsimp only at h
        rw [← servoMixerChecked_some _ _ _ h3]
        exact (Option.some.inj h).symm
    · rw [if_neg hu] at h ⊢
      dsimp only at h
      exact (Option.some.inj h).symm

theorem mixTableMotors_tailServoMaxAngle (env : Env) (st : State) :
    (mixTableMotors env st).tailServoMaxAngle_DD = st.tailServoMaxAngle_DD := by
  have h1 : (yawJumpPrevention env st).tailServoMaxAngle_DD = st.tailServoMaxAngle_DD := by
    unfold yawJumpPrevention
    split_ifs <;> rfl
  have h2 : (preMix env st).tailServoMaxAngle_DD = st.tailServoMaxAngle_DD := by
    unfold preMix triPreHook
    split_ifs <;> simp [h1]
  unfold mixTableMotors disarmMotors mixTableAirmode mixTableClassic
  split_ifs <;> simp [h2]

/-- With a calibrated tail servo no division of `mixTable` is by zero: the
checked run has a result. -/
theorem mixTableChecked_defined (env : Env) (st : State)
    (hord : servoConfOrdered env) (hst : servoConfStorable env)
    (hcal : tailServoCalibrated env st) :
    mixTableChecked env st = some (mixTable env st) := by
  have hex : ∃ r, mixTableChecked env st = some r := by
    have h0 : (0 : Nat) < MAX_SUPPORTED_SERVOS := by decide
    have hmin := (hst 0 h0).1
    have hmax := (hst 0 h0).2
    have hle := hord 0 h0
    have hmodeJ := (yawJumpPrevention_frame env st).2.2.2.2
    unfold mixTableChecked
    by_cases hm : st.currentMixerMode = MIXER_TRI
    · obtain ⟨hmid, hmid2, hne1, hne2, harm⟩ := hcal hm
      have hpre : triPreHookChecked env (yawJumpPrevention env st)
          = some (preMix env st) := by
        unfold triPreHookChecked
        rw [if_pos (by rw [hmodeJ]; exact hm),
          getServoAngleInDeciDegreesChecked_defined _ _ _ hmin (by omega) (by omega) hmax
            hmid hmid2 hne1 hne2]
        rfl
      rw [hpre]
      dsimp only
      have hmot : disarmMotors env
          (if env.airmode = true then mixTableAirmode env (preMix env st)
            else mixTableClassic env (preMix env st)) = mixTableMotors env st := rfl
      rw [hmot]
      have hmode2 : (mixTableMotors env st).currentMixerMode = MIXER_TRI := by
        rw [mixTableMotors_mode]; exact hm
      rw [hmode2, if_pos (by decide)]
      have hsc : (servoMixerScaled env (mixTableMotors env st)).currentMixerMode = MIXER_TRI :=
        hmode2
      have hang : (servoMixerScaled env (mixTableMotors env st)).tailServoMaxAngle_DD
          = st.tailServoMaxAngle_DD := mixTableMotors_tailServoMaxAngle env st
      have hserv : servoMixerChecked env (mixTableMotors env st)
          = some (servoMixer env (mixTableMotors env st)) := by
        have hex2 : ∃ r, servoMixerChecked env (mixTableMotors env st) = some r := by
          unfold servoMixerChecked
          dsimp only
          rw [if_pos hsc]
          by_cases ha : env.armed = true
          · rw [if_pos ha]
            obtain ⟨ha0, ha900⟩ := harm ha
            rw [getLinearServoValueChecked_defined _ _ _ hmid hmid2 hne1 hne2
              (by rw [hang]; exact ha0) (by rw [hang]; exact ha900)]
            dsimp only
            unfold virtualServoStepChecked
            rw [getServoAngleInDeciDegreesChecked_defined _ _ _ hmin (by omega) (by omega) hmax
              hmid hmid2 hne1 hne2]
            exact ⟨_, rfl⟩
          · rw [if_neg ha]
            unfold virtualServoStepChecked
            rw [getServoAngleInDeciDegreesChecked_defined _ _ _ hmin (by omega) (by omega) hmax
              hmid hmid2 hne1 hne2]
            exact ⟨_, rfl⟩
        obtain ⟨r, hr⟩ := hex2
        rw [hr, servoMixerChecked_some _ _ _ hr]
      rw [hserv]
      exact ⟨_, rfl⟩
    · have hpre : triPreHookChecked env (yawJumpPrevention env st)
          = some (yawJumpPrevention env st) := by
        unfold triPreHookChecked
        rw [if_neg (by rw [hmodeJ]; exact hm)]
      rw [hpre]
      dsimp only
      have hs1 : yawJumpPrevention env st = preMix env st := by
        unfold preMix triPreHook
        rw [if_neg (by rw [hmodeJ]; exact hm)]
      rw [hs1]
      have hmot : disarmMotors env
          (if env.airmode = true then mixTableAirmode env (preMix env st)
            else mixTableClassic env (preMix env st)) = mixTableMotors env st := rfl
      rw [hmot]
      have hmode2 : (mixTableMotors env st).currentMixerMode ≠ MIXER_TRI := by
        rw [mixTableMotors_mode]; exact hm
      by_cases hu : usesServoMixer (mixTableMotors env st).currentMixerMode = true
      · rw [if_pos hu]
        have : servoMixerChecked env (mixTableMotors env st)
            = some (servoMixerScaled env (mixTableMotors env st)) := by
          have hsc : (servoMixerScaled env (mixTableMotors env st)).currentMixerMode ≠ MIXER_TRI :=
            hmode2
          unfold servoMixerChecked
          dsimp only
          rw [if_neg hsc]
        rw [this]
        exact ⟨_, rfl⟩
      · rw [if_neg hu]
        exact ⟨_, rfl⟩
  obtain ⟨r, hr⟩ := hex
  rw [hr, mixTableChecked_some _ _ _ hr]


/-- C4 as stated fails: calibrations with `min ≤ max` include some on which
`mixTable` divides by zero and produces no servo values.  Disarmed tricopter,
tail servo at 1500: with `middle == max == 1500` the pre-hook divides by
`endValue - midValue = 0` (source lines 838, 1194), and so it does with
`middle == min == 1600`.  Armed tricopter with the calibration 1000 .. 1500 ..
2000: with `tailServoMaxAngle_DD == 0` the linearisation divides by
`tailServoMaxAngle_DD` (line 1134), and with `tailServoMaxAngle_DD == 900` and
a curve above the demanded force by `900 - tailServoMaxAngle_DD` (line
1126). -/
theorem C4_servo_state_bounds_counterexample :
    (servoConfOrdered degenerateTailEnv ∧ servoConfStorable degenerateTailEnv
      ∧ getServoAngleInDeciDegreesChecked (triState 0) (degenerateTailEnv.servoConf 0)
          ((triState 0).servo SERVO_RUDDER) = none
      ∧ mixTableChecked degenerateTailEnv (triState 0) = none)
    ∧ (servoConfOrdered degenerateTailMinEnv ∧ servoConfStorable degenerateTailMinEnv
      ∧ mixTableChecked degenerateTailMinEnv (triState 0) = none)
    ∧ (servoConfOrdered (scenarioEnv true false false false false 1500 1500)
      ∧ servoConfStorable (scenarioEnv true false false false false 1500 1500)
      ∧ mixTableChecked (scenarioEnv true false false false false 1500 1500)
          { triState 0 with tailServoMaxAngle_DD := 0 } = none
      ∧ mixTableChecked (scenarioEnv true false false false false 1500 1500)
          { triState 0 with tailServoMaxAngle_DD := 900, yawForceCurve := fun _ => 1 } = none) := by
  refine ⟨⟨by decide, by decide, by decide, Option.isNone_iff_eq_none.mp (by decide!)⟩,
    ⟨by decide, by decide, Option.isNone_iff_eq_none.mp (by decide!)⟩,
    ⟨by decide, by decide, Option.isNone_iff_eq_none.mp (by decide!),
      Option.isNone_iff_eq_none.mp (by decide!)⟩⟩

/-- C4, amended. If `servoConf[i].min ≤ servoConf[i].max` for every servo (both
being `int16_t` values) and, on MIXER_TRI, `servoConf[0].middle` differs from
`servoConf[0].min` and from `servoConf[0].max` and (when armed)
`tailServoMaxAngle_DD` is neither 0 nor 900, then for every input, airframe,
arming state and feature set `mixTable` runs without a division by zero and
afterwards every `servo[i]` with `i < MAX_SUPPORTED_SERVOS` lies in
`[servoConf[i].min, servoConf[i].max]` (the tricopter rudder after
linearisation and the gimbal servos after the camstab overlay included).  The
bounds hold after every run that does not divide by zero. -/
theorem C4_servo_state_bounds (env : Env) (st : State)
    (hord : servoConfOrdered env) (hst : servoConfStorable env) :
    (tailServoCalibrated env st →
        mixTableChecked env st = some (mixTable env st)
        ∧ ∀ i, i < MAX_SUPPORTED_SERVOS →
            (env.servoConf i).min ≤ (mixTable env st).servo i
            ∧ (mixTable env st).servo i ≤ (env.servoConf i).max)
    ∧ (∀ st', mixTableChecked env st = some st' →
        ∀ i, i < MAX_SUPPORTED_SERVOS →
          (env.servoConf i).min ≤ st'.servo i ∧ st'.servo i ≤ (env.servoConf i).max) := by
  constructor
  · intro hcal
    exact ⟨mixTableChecked_defined env st hord hst hcal,
      fun i hi => mixTable_servo_mem env st hord hst i hi⟩
  · intro st' h i hi
    rw [mixTableChecked_some env st st' h]
    exact mixTable_servo_mem env st hord hst i hi

/-- C4 (amended) at a concrete input: an armed tricopter with the calibration
1000 .. 1500 .. 2000, `tailServoMaxAngle_DD = 400` and a yaw demand of 3000
runs without a division by zero and keeps the rudder servo inside
`[1000, 2000]`. -/
theorem C4_servo_state_bounds_witness :
    tailServoCalibrated (scenarioEnv true false false false false 1500 1500) (triState 3000)
    ∧ mixTableChecked (scenarioEnv true false false false false 1500 1500) (triState 3000)
        = some (mixTable (scenarioEnv true false false false false 1500 1500) (triState 3000))
    ∧ (1000 : Int) ≤ (mixTable (scenarioEnv true false false false false 1500 1500) (triState 3000)).servo SERVO_RUDDER
    ∧ (mixTable (scenarioEnv true false false false false 1500 1500) (triState 3000)).servo SERVO_RUDDER ≤ (2000 : Int) :=
  ⟨by decide,
    ((C4_servo_state_bounds (scenarioEnv true false false false false 1500 1500) (triState 3000)
      (by decide) (by decide)).1 (by decide)).1,
    ((C4_servo_state_bounds (scenarioEnv true false false false false 1500 1500) (triState 3000)
      (by decide) (by decide)).1 (by decide)).2 SERVO_RUDDER (by decide)⟩


/-- C5 as stated fails, in two ways.  For a disarmed tricopter with
`tri_unarmed_servo` off, `writeServos` after `mixTable` passes the literal 0
to `pwmWriteServo` on the rudder output, below the rudder's configured minimum
1000.  And with the ordered calibration 1000 .. 1500 .. 1500 of the tail
servo (`middle == max`) `mixTable` divides by zero in the tricopter pre-hook
(source lines 838, 1194), so that no servo value is produced for
`writeServos`. -/
theorem C5_emitted_servo_bounds_counterexample :
    writeServos (scenarioEnv false false false false false 1500 1500)
        (mixTable (scenarioEnv false false false false false 1500 1500) (triState 0))
      = [⟨0, servoArg.literal 0⟩]
    ∧ ¬ emittedInRange (scenarioEnv false false false false false 1500 1500)
        (mixTable (scenarioEnv false false false false false 1500 1500) (triState 0))
        ⟨0, servoArg.literal 0⟩ SERVO_RUDDER
    ∧ servoConfOrdered degenerateTailEnv
    ∧ (mixTableChecked degenerateTailEnv (triState 0)).map (writeServos degenerateTailEnv)
        = none := by
  refine ⟨?_, ?_, by decide, ?_⟩
  · unfold writeServos writeServosMixer writeMixerServos
    rw [mixTable_mode]
    decide
  · unfold emittedInRange
    decide
  · have h : mixTableChecked degenerateTailEnv (triState 0) = none :=
      Option.isNone_iff_eq_none.mp (by decide!)
    rw [h]
    rfl

/-- C5, amended. With every servo calibration ordered (`min ≤ max`, both
`int16_t`) and, on MIXER_TRI, `servoConf[0].middle` different from
`servoConf[0].min` and from `servoConf[0].max` and (when armed)
`tailServoMaxAngle_DD` neither 0 nor 900, `mixTable` runs without a division
by zero; and after every such run every call `writeServos` makes for a servo
of the mixer (airframe switch and gimbal servos) passes `servo[j]` for a
channel `j < MAX_SUPPORTED_SERVOS` and that value lies in `[servoConf[j].min,
servoConf[j].max]`; the only other call is the literal 0 written on the rudder
output of MIXER_TRI / MIXER_CUSTOM_TRI when disarmed with `tri_unarmed_servo`
off. -/
theorem C5_emitted_servo_bounds (env : Env) (st : State)
    (hord : servoConfOrdered env) (hst : servoConfStorable env) :
    (tailServoCalibrated env st → mixTableChecked env st = some (mixTable env st))
    ∧ (∀ st', mixTableChecked env st = some st' →
        ∀ w, w ∈ writeServosMixer env st' →
          (∃ j, j < MAX_SUPPORTED_SERVOS ∧ w.arg = servoArg.servoCh j
              ∧ emittedInRange env st' w j)
          ∨ (w.arg = servoArg.literal 0
              ∧ (st.currentMixerMode = MIXER_TRI ∨ st.currentMixerMode = MIXER_CUSTOM_TRI)
              ∧ env.armed = false ∧ env.mixerConfig.tri_unarmed_servo = 0)) := by
  refine ⟨fun hcal => mixTableChecked_defined env st hord hst hcal, ?_⟩
  intro st' h w hw
  have hst' := mixTableChecked_some env st st' h
  subst hst'
  exact writeServosMixer_mixTable env st hord hst w hw

/-- C5 (amended) at a concrete input: for the armed flying wing `mixTable` has
a result, and `servo[SERVO_FLAPPERON_1]` is emitted on output 0, inside
`[1000, 2000]`. -/
theorem C5_emitted_servo_bounds_witness :
    mixTableChecked (scenarioEnv true false false false false 1500 1500)
        (scenarioState MIXER_FLYING_WING 1 [] 0 0 0 1000)
      = some (mixTable (scenarioEnv true false false false false 1500 1500)
          (scenarioState MIXER_FLYING_WING 1 [] 0 0 0 1000))
    ∧ emittedInRange (scenarioEnv true false false false false 1500 1500)
      (mixTable (scenarioEnv true false false false false 1500 1500)
        (scenarioState MIXER_FLYING_WING 1 [] 0 0 0 1000))
      ⟨0, servoArg.servoCh SERVO_FLAPPERON_1⟩ SERVO_FLAPPERON_1 := by
  have hdef := (C5_emitted_servo_bounds (scenarioEnv true false false false false 1500 1500)
    (scenarioState MIXER_FLYING_WING 1 [] 0 0 0 1000) (by decide) (by decide)).1 (by decide)
  refine ⟨hdef, ?_⟩
  rcases (C5_emitted_servo_bounds (scenarioEnv true false false false false 1500 1500)
    (scenarioState MIXER_FLYING_WING 1 [] 0 0 0 1000) (by decide) (by decide)).2 _ hdef
    ⟨0, servoArg.servoCh SERVO_FLAPPERON_1⟩
    (by
      unfold writeServosMixer writeMixerServos
      rw [mixTable_mode]
      decide) with ⟨j, _, harg, h⟩ | ⟨harg, _⟩
  · cases harg
    exact h
  · cases harg

end Mixer
